import Mathlib

/-!
# BlueBus: a shallow embedding of `firmware/application/handler.c` and `ui/bmbt.c`

The handler is a set of callbacks over one `HandlerContext_t`.  Each callback is
embedded as a pure function that takes the context (with the `bt` and `ibus`
objects it points to) and the event payload, and returns the updated context
together with the list of calls it makes on the Bluetooth and bus facades, in
program order.  Logging calls are left out.

The facade functions themselves (`BC127Command*`, `IBusCommand*`, `Config*`) and
the named constants of `lib/ibus.h`, `lib/bc127.h` and `lib/config.h` are not
part of the sources at hand.  The calls are recorded as events, the constants
are taken as parameters (`Consts`), and `ConfigGetSetting` is a parameter of
every handler that reads a setting.  The handlers that read or write the
configuration store beyond the settings work on a `World`, the context with the
store (`Config_t`).  The `bt` and `ibus` objects are read as they stand when the
callback is entered.

The board-monitor controller of `ui/bmbt.c` is embedded in the same way over its
`BMBTContext_t`: the menu functions return the context they leave and the calls
that write the screen, and the functions that change a setting work on a
`BMBTWorld`, the context with the store.  Texts are strings; a text that C cuts to
the size of its buffer is cut in the same place.  Of the console (`ui/cli.c`) only
the command that stores the UI mode is embedded (`cliSetUI`).

`step` delivers one event to the callback that `HandlerInit` registers for it, and
`run` delivers a sequence of events, each in its own surroundings (`Env`): the
Bluetooth object, the bus object and the configuration store are whatever the
rest of the firmware made of them since the previous delivery.
-/

namespace BlueBus

/-! ## Constants -/

/-- Named constants used by `handler.c` whose defining headers (`lib/ibus.h`,
`lib/bc127.h`, `lib/config.h`) are absent; every handler takes them as a parameter. -/
structure Consts where
  IBUS_IGNITION_OFF : Nat
  IBUS_CDC_CMD_GET_STATUS : Nat
  IBUS_CDC_CMD_STOP_PLAYING : Nat
  IBUS_CDC_CMD_PAUSE_PLAYING : Nat
  IBUS_CDC_CMD_START_PLAYING : Nat
  IBUS_CDC_CMD_CHANGE_TRACK : Nat
  IBUS_CDC_CMD_SEEK : Nat
  IBUS_CDC_CMD_SCAN : Nat
  IBUS_CDC_CMD_RANDOM_MODE : Nat
  IBUS_CDC_STAT_STOP : Nat
  IBUS_CDC_STAT_PAUSE : Nat
  IBUS_CDC_STAT_PLAYING : Nat
  IBUS_CDC_STAT_FAST_REV : Nat
  IBUS_CDC_FUNC_NOT_PLAYING : Nat
  IBUS_CDC_FUNC_PLAYING : Nat
  IBUS_CDC_FUNC_PAUSE : Nat
  IBUS_CDC_FUNC_SCAN_MODE : Nat
  IBUS_CDC_FUNC_RANDOM_MODE : Nat
  IBUS_CDC_DISC_COUNT_1 : Nat
  IBUS_CDC_DISC_COUNT_6 : Nat
  IBus_UI_CD53 : Nat
  IBus_UI_BMBT : Nat
  IBus_UI_MID : Nat
  IBus_UI_MID_BMBT : Nat
  IBus_UI_BUSINESS_NAV : Nat
  IBUS_VEHICLE_TYPE_E38_E39_E53 : Nat
  IBUS_TEL_LED_STATUS_RED : Nat
  IBUS_TEL_LED_STATUS_GREEN : Nat
  IBUS_TEL_STATUS_ACTIVE_POWER_HANDSFREE : Nat
  IBUS_TEL_STATUS_ACTIVE_POWER_CALL_HANDSFREE : Nat
  IBUS_DSP_MODE_INPUT_RADIO : Nat
  IBUS_DSP_MODE_INPUT_SPDIF : Nat
  BC127_STATE_OFF : Nat
  BC127_STATE_ON : Nat
  BC127_CLOSE_ALL : Nat
  BC127_AVRCP_STATUS_PLAYING : Nat
  BC127_CALL_INACTIVE : Nat
  CONFIG_SETTING_OFF : Nat
  CONFIG_SETTING_ON : Nat
  CONFIG_SETTING_HFP : Nat
  CONFIG_SETTING_COMFORT_LOCKS_ADDRESS : Nat
  CONFIG_SETTING_USE_SPDIF_INPUT : Nat
  CONFIG_SETTING_ENABLED : Nat
  CONFIG_SETTING_AUTOPLAY : Nat
  CONFIG_SETTING_TCU_MODE : Nat
  CONFIG_SETTING_MIC_GAIN : Nat
  CONFIG_SETTING_COMFORT_BLINKERS : Nat
  BC127_CALL_ACTIVE : Nat
  BC127_CALL_INCOMING : Nat
  BC127_CALL_OUTGOING : Nat
  BC127_CALL_SCO_OPEN : Nat
  BC127_PROFILE_COUNT : Nat
  IBUS_PKT_SRC : Nat
  IBUS_PKT_DST : Nat
  IBUS_DEVICE_BMBT : Nat
  IBUS_DEVICE_CDC : Nat
  IBUS_DEVICE_DSP : Nat
  IBUS_DEVICE_GT : Nat
  IBUS_DEVICE_IKE : Nat
  IBUS_DEVICE_LCM : Nat
  IBUS_DEVICE_LOC : Nat
  IBUS_DEVICE_MID : Nat
  IBUS_DEVICE_RAD : Nat
  IBUS_DEVICE_TEL : Nat
  IBUS_IKE_TYPE_LOW : Nat
  IBUS_IKE_TYPE_HIGH : Nat
  IBUS_LCM_DRV_SIG_BIT : Nat
  IBUS_LCM_PSG_SIG_BIT : Nat
  IBUS_LCM_BLINKER_DRV : Nat
  IBUS_LCM_BLINKER_PSG : Nat
  IBUS_UART_MODULE : Nat
  IBusMFLButtonVoicePress : Nat
  IBusMFLButtonVoiceRelease : Nat
  IBusMFLButtonVoiceHold : Nat
  IBusMFLVolUp : Nat
  IBusMFLVolDown : Nat
  deriving Repr

/-- The eight CD-changer command codes that `HandlerIBusCDCStatus` dispatches on,
in the order of the table of the specification. -/
def Consts.cdcCommands (k : Consts) : List Nat :=
  [k.IBUS_CDC_CMD_GET_STATUS, k.IBUS_CDC_CMD_STOP_PLAYING, k.IBUS_CDC_CMD_CHANGE_TRACK,
   k.IBUS_CDC_CMD_SEEK, k.IBUS_CDC_CMD_SCAN, k.IBUS_CDC_CMD_RANDOM_MODE,
   k.IBUS_CDC_CMD_PAUSE_PLAYING, k.IBUS_CDC_CMD_START_PLAYING]

/-- One concrete assignment of byte values to the named constants, on which the
handlers are evaluated in the concrete examples below.  The general theorems hold
for every assignment. -/
def hdr : Consts where
  IBUS_IGNITION_OFF := 0x00
  IBUS_CDC_CMD_GET_STATUS := 0x00
  IBUS_CDC_CMD_STOP_PLAYING := 0x01
  IBUS_CDC_CMD_PAUSE_PLAYING := 0x02
  IBUS_CDC_CMD_START_PLAYING := 0x03
  IBUS_CDC_CMD_CHANGE_TRACK := 0x0A
  IBUS_CDC_CMD_SEEK := 0x04
  IBUS_CDC_CMD_SCAN := 0x07
  IBUS_CDC_CMD_RANDOM_MODE := 0x08
  IBUS_CDC_STAT_STOP := 0x00
  IBUS_CDC_STAT_PAUSE := 0x01
  IBUS_CDC_STAT_PLAYING := 0x02
  IBUS_CDC_STAT_FAST_REV := 0x04
  IBUS_CDC_FUNC_NOT_PLAYING := 0x02
  IBUS_CDC_FUNC_PLAYING := 0x09
  IBUS_CDC_FUNC_PAUSE := 0x0C
  IBUS_CDC_FUNC_SCAN_MODE := 0x19
  IBUS_CDC_FUNC_RANDOM_MODE := 0x29
  IBUS_CDC_DISC_COUNT_1 := 0x01
  IBUS_CDC_DISC_COUNT_6 := 0x3F
  IBus_UI_CD53 := 1
  IBus_UI_BMBT := 2
  IBus_UI_MID := 3
  IBus_UI_MID_BMBT := 4
  IBus_UI_BUSINESS_NAV := 5
  IBUS_VEHICLE_TYPE_E38_E39_E53 := 0x01
  IBUS_TEL_LED_STATUS_RED := 0x01
  IBUS_TEL_LED_STATUS_GREEN := 0x10
  IBUS_TEL_STATUS_ACTIVE_POWER_HANDSFREE := 0x10
  IBUS_TEL_STATUS_ACTIVE_POWER_CALL_HANDSFREE := 0x35
  IBUS_DSP_MODE_INPUT_RADIO := 0xA1
  IBUS_DSP_MODE_INPUT_SPDIF := 0xA0
  BC127_STATE_OFF := 0
  BC127_STATE_ON := 1
  BC127_CLOSE_ALL := 255
  BC127_AVRCP_STATUS_PLAYING := 1
  BC127_CALL_INACTIVE := 0
  CONFIG_SETTING_OFF := 0x00
  CONFIG_SETTING_ON := 0x01
  CONFIG_SETTING_HFP := 0x0B
  CONFIG_SETTING_COMFORT_LOCKS_ADDRESS := 0x15
  CONFIG_SETTING_USE_SPDIF_INPUT := 0x19
  CONFIG_SETTING_ENABLED := 0x01
  CONFIG_SETTING_AUTOPLAY := 0x0A
  CONFIG_SETTING_TCU_MODE := 0x1D
  CONFIG_SETTING_MIC_GAIN := 0x0C
  CONFIG_SETTING_COMFORT_BLINKERS := 0x14
  BC127_CALL_ACTIVE := 1
  BC127_CALL_INCOMING := 2
  BC127_CALL_OUTGOING := 3
  BC127_CALL_SCO_OPEN := 1
  BC127_PROFILE_COUNT := 4
  IBUS_PKT_SRC := 0
  IBUS_PKT_DST := 2
  IBUS_DEVICE_BMBT := 0xF0
  IBUS_DEVICE_CDC := 0x18
  IBUS_DEVICE_DSP := 0x6A
  IBUS_DEVICE_GT := 0x3B
  IBUS_DEVICE_IKE := 0x80
  IBUS_DEVICE_LCM := 0xD0
  IBUS_DEVICE_LOC := 0xFF
  IBUS_DEVICE_MID := 0xC0
  IBUS_DEVICE_RAD := 0x68
  IBUS_DEVICE_TEL := 0xC8
  IBUS_IKE_TYPE_LOW := 0x0F
  IBUS_IKE_TYPE_HIGH := 0x06
  IBUS_LCM_DRV_SIG_BIT := 5
  IBUS_LCM_PSG_SIG_BIT := 6
  IBUS_LCM_BLINKER_DRV := 0x80
  IBUS_LCM_BLINKER_PSG := 0x40
  IBUS_UART_MODULE := 1
  IBusMFLButtonVoicePress := 0x80
  IBusMFLButtonVoiceRelease := 0xA0
  IBusMFLButtonVoiceHold := 0x90
  IBusMFLVolUp := 0x11
  IBusMFLVolDown := 0x10

/-! ## Constants of `handler.h` -/

def HANDLER_BT_CONN_OFF : Nat := 0
def HANDLER_BT_CONN_ON : Nat := 1
def HANDLER_BT_CONN_CHANGE : Nat := 2
def HANDLER_BT_SELECTED_DEVICE_NONE : Int := -1
def HANDLER_CDC_SEEK_MODE_NONE : Nat := 0
def HANDLER_CDC_SEEK_MODE_FWD : Nat := 1
def HANDLER_CDC_SEEK_MODE_REV : Nat := 2
def HANDLER_DEVICE_MAX_RECONN : Nat := 10
def HANDLER_BLINKER_OFF : Nat := 0
def HANDLER_BLINKER_DRV : Nat := 1
def HANDLER_BLINKER_PSG : Nat := 2
def HANDLER_MFL_STATUS_OFF : Nat := 0
def HANDLER_POWER_ON : Nat := 1
def HANDLER_POWER_OFF : Nat := 0
def HANDLER_MFL_STATUS_SPEAK_HOLD : Nat := 1
def HANDLER_CDC_ANOUNCE_TIMEOUT : Nat := 21000
def HANDLER_CDC_STATUS_TIMEOUT : Nat := 20000
def HANDLER_POWER_TIMEOUT_MILLIS : Nat := 61000

/-- The tone string passed to `BC127CommandTone` on ignition on. -/
def HANDLER_IGNITION_TONE : String := "V 0 N C6 L 4"

/-- The profile name `PROFILES[0]`. -/
def PROFILE_A2DP : String := "A2DP"

/-- The profile name `PROFILES[3]`. -/
def PROFILE_HFP : String := "HFP"

/-- The profile name `PROFILES[1]`. -/
def PROFILE_AVRCP : String := "AVRCP"

/-- The empty profile name `PROFILES[2]`. -/
def PROFILE_NONE : String := ""

/-- The table `PROFILES` of handler.c. -/
def PROFILES : List String := [PROFILE_A2DP, PROFILE_AVRCP, PROFILE_NONE, PROFILE_HFP]

/-- The direction string of the volume-up command. -/
def VOLUME_UP : String := "UP"

/-- The direction string of the volume-down command. -/
def VOLUME_DOWN : String := "DOWN"

/-! ## Data model -/

/-- Fields of `bt->activeDevice` read by the handler.  `macId` is the character
array up to its end. -/
structure BC127Connection_t where
  deviceId : Nat
  avrcpLinkId : Nat
  a2dpLinkId : Nat
  hfpLinkId : Nat
  macId : List Nat
  deviceName : String := ""
  deriving DecidableEq, Repr

/-- Fields of an entry of `bt->pairedDevices` read by the handler and by the
board-monitor controller. -/
structure BC127PairedDevice_t where
  macId : List Nat
  deviceName : String := ""
  deriving DecidableEq, Repr

/-- Fields of `BC127_t` read by the handler and by the board-monitor controller.
`pairingErrors` is the array of per-profile error flags, `pairedDevices` the array
of paired devices and `pairedDevicesCount` the number of its entries in use;
`title`, `artist` and `album` are the metadata strings. -/
structure BC127_t where
  activeDevice : BC127Connection_t
  callStatus : Nat
  scoStatus : Nat
  playbackStatus : Nat
  discoverable : Nat
  pairedDevices : List BC127PairedDevice_t := []
  pairingErrors : List Nat := [0, 0, 0, 0]
  connectable : Nat := 1
  pairedDevicesCount : Nat := 0
  title : String := ""
  artist : String := ""
  album : String := ""
  deriving DecidableEq, Repr

/-- Fields of `IBus_t` read by the handler and by the board-monitor controller. -/
structure IBus_t where
  ignitionStatus : Nat
  cdChangerFunction : Nat
  vehicleType : Nat
  rxLastStamp : Nat
  gtVersion : Nat
  deriving DecidableEq, Repr

/-- The one-bit module discovery flags of `handler.h`. -/
structure HandlerModuleStatus_t where
  BMBT : Bool
  DSP : Bool
  GT : Bool
  IKE : Bool
  LCM : Bool
  MID : Bool
  RAD : Bool
  deriving DecidableEq, Repr

/-- The one-bit body module flags of `handler.h`. -/
structure HandlerBodyModuleStatus_t where
  lowSideDoors : Bool
  doorsLocked : Bool
  deriving DecidableEq, Repr

/-- The handler context of `handler.h`; `bt` and `ibus` hold the objects the two
pointers refer to. -/
structure HandlerContext_t where
  bt : BC127_t
  ibus : IBus_t
  btDeviceConnRetries : Nat
  btSelectedDevice : Int
  btStatus : Nat
  btStatusCount : Nat
  btStartupIsRun : Nat
  btConnectionStatus : Nat
  uiMode : Nat
  seekMode : Nat
  blinkerStatus : Nat
  blinkerCount : Nat
  mflButtonStatus : Nat
  ibusModuleStatus : HandlerModuleStatus_t
  bodyModuleStatus : HandlerBodyModuleStatus_t
  powerStatus : Nat
  scanIntervals : Nat
  cdChangerLastPoll : Nat
  cdChangerLastStatus : Nat
  deriving DecidableEq, Repr

/-- A call made by a handler on the Bluetooth facade (`BC127*`), on the bus
facade (`IBusCommand*`), on the configuration store (`ConfigSet*`), on a UI
controller, or a write to a hardware line, with its arguments other than the
object pointer. -/
inductive Call where
  | BC127CommandTone (tone : String)
  | BC127CommandBtState (connectable discoverable : Nat)
  | BC127CommandClose (id : Nat)
  | BC127CommandStatus
  | BC127CommandList
  | BC127CommandPlay
  | BC127CommandPause
  | BC127CommandForward
  | BC127CommandBackward
  | BC127CommandForwardSeekPress
  | BC127CommandBackwardSeekPress
  | BC127CommandForwardSeekRelease
  | BC127CommandBackwardSeekRelease
  | BC127CommandProfileOpen (macId : List Nat) (profile : String)
  | BC127ClearMetadata
  | BC127ClearPairedDevices
  | IBusCommandCDCStatus (status func discCount : Nat)
  | IBusCommandTELSetLED (led : Nat)
  | IBusCommandTELStatus (status : Nat)
  | IBusCommandDSPSetMode (mode : Nat)
  | IBusCommandGMDoorCenterLockButton
  | IBusCommandGMDoorUnlockAll
  | IBusCommandGMDoorUnlockHigh
  | IBusCommandLCMGetRedundantData
  | BC127ClearPairingErrors
  | BC127ClearActiveDevice
  | BC127ClearInactivePairedDevices
  | BC127CommandGetMetadata
  | BC127CommandCallEnd
  | BC127CommandCallAnswer
  | BC127CommandToggleVR
  | BC127CommandVolume (linkId : Nat) (direction : String)
  | BC127CommandSetMicGain (gain : Nat)
  | IBusCommandGetModuleStatus (source destination : Nat)
  | IBusCommandSetModuleStatus (source destination status : Nat)
  | IBusCommandIKEGetIgnitionStatus
  | IBusCommandIKEGetVehicleType
  | IBusCommandGMDoorLockHigh
  | IBusCommandLCMEnableBlinker (blinker : Nat)
  | IBusCommandDIATerminateDiag (system : Nat)
  | IBusCommandDIAGetIOStatus (system : Nat)
  | IBusCommandDIAGetIdentity (system : Nat)
  | IBusCommandDIAGetOSIdentity (system : Nat)
  | ConfigSetUIMode (uiMode : Nat)
  | ConfigSetVehicleIdentity (vin : List Nat)
  | ConfigSetNavType (navType : Nat)
  | ConfigSetVehicleType (vehicleType : Nat)
  | ConfigSetIKEType (ikeType : Nat)
  | CD53Init
  | CD53Destroy
  | BMBTInit
  | BMBTDestroy
  | MIDInit
  | MIDDestroy
  | PAM_SHDN (level : Nat)
  | TEL_MUTE (level : Nat)
  | IBUS_EN (level : Nat)
  | TimerDelayMicroseconds (delay : Nat)
  | UARTDestroy (module : Nat)
  | IBusCommandGTUpdate (updateType : Nat)
  | IBusCommandGTWriteIndex (index : Nat) (text : String)
  | IBusCommandGTWriteIndexTMC (index : Nat) (text : String)
  | IBusCommandGTWriteIndexStatic (index : Nat) (text : String)
  | IBusCommandGTWriteIndexTitle (text : String)
  | IBusCommandGTWriteTitleArea (text : String)
  | IBusCommandGTWriteTitleIndex (text : String)
  | IBusCommandGTWriteZone (zone : Nat) (text : String)
  | IBusCommandRADEnableMenu
  | IBusCommandRADDisableMenu
  | IBusCommandRADClearMenu
  | IBusCommandTELSetGTDisplayMenu
  | TimerTriggerScheduledTask (taskId : Nat)
  | TimerResetScheduledTask (taskId : Nat)
  | ConfigSetSetting (address value : Nat)
  | PCM51XXSetVolume (volume : Nat)
  | BC127CommandSetProfiles (a2dp avrcp ble hfp : Nat)
  | BC127CommandReset
  | BC127CommandSetAudioAnalog (inputGain outputGain micBias enablePreamp : String)
  | BC127CommandUnpair
  | EventTriggerCallback (event data : Nat)
  deriving Repr

/-- A call as a tuple: the position of the function in the list of `Call`, its
numeric arguments, its byte-string argument and its string arguments. -/
def Call.encode : Call → Nat × List Nat × List Nat × List String
  | .BC127CommandTone x0 => (0, [], [], [x0])
  | .BC127CommandBtState x0 x1 => (1, [x0, x1], [], [])
  | .BC127CommandClose x0 => (2, [x0], [], [])
  | .BC127CommandStatus => (3, [], [], [])
  | .BC127CommandList => (4, [], [], [])
  | .BC127CommandPlay => (5, [], [], [])
  | .BC127CommandPause => (6, [], [], [])
  | .BC127CommandForward => (7, [], [], [])
  | .BC127CommandBackward => (8, [], [], [])
  | .BC127CommandForwardSeekPress => (9, [], [], [])
  | .BC127CommandBackwardSeekPress => (10, [], [], [])
  | .BC127CommandForwardSeekRelease => (11, [], [], [])
  | .BC127CommandBackwardSeekRelease => (12, [], [], [])
  | .BC127CommandProfileOpen x0 x1 => (13, [], x0, [x1])
  | .BC127ClearMetadata => (14, [], [], [])
  | .BC127ClearPairedDevices => (15, [], [], [])
  | .IBusCommandCDCStatus x0 x1 x2 => (16, [x0, x1, x2], [], [])
  | .IBusCommandTELSetLED x0 => (17, [x0], [], [])
  | .IBusCommandTELStatus x0 => (18, [x0], [], [])
  | .IBusCommandDSPSetMode x0 => (19, [x0], [], [])
  | .IBusCommandGMDoorCenterLockButton => (20, [], [], [])
  | .IBusCommandGMDoorUnlockAll => (21, [], [], [])
  | .IBusCommandGMDoorUnlockHigh => (22, [], [], [])
  | .IBusCommandLCMGetRedundantData => (23, [], [], [])
  | .BC127ClearPairingErrors => (24, [], [], [])
  | .BC127ClearActiveDevice => (25, [], [], [])
  | .BC127ClearInactivePairedDevices => (26, [], [], [])
  | .BC127CommandGetMetadata => (27, [], [], [])
  | .BC127CommandCallEnd => (28, [], [], [])
  | .BC127CommandCallAnswer => (29, [], [], [])
  | .BC127CommandToggleVR => (30, [], [], [])
  | .BC127CommandVolume x0 x1 => (31, [x0], [], [x1])
  | .BC127CommandSetMicGain x0 => (32, [x0], [], [])
  | .IBusCommandGetModuleStatus x0 x1 => (33, [x0, x1], [], [])
  | .IBusCommandSetModuleStatus x0 x1 x2 => (34, [x0, x1, x2], [], [])
  | .IBusCommandIKEGetIgnitionStatus => (35, [], [], [])
  | .IBusCommandIKEGetVehicleType => (36, [], [], [])
  | .IBusCommandGMDoorLockHigh => (37, [], [], [])
  | .IBusCommandLCMEnableBlinker x0 => (38, [x0], [], [])
  | .IBusCommandDIATerminateDiag x0 => (39, [x0], [], [])
  | .IBusCommandDIAGetIOStatus x0 => (40, [x0], [], [])
  | .IBusCommandDIAGetIdentity x0 => (41, [x0], [], [])
  | .IBusCommandDIAGetOSIdentity x0 => (42, [x0], [], [])
  | .ConfigSetUIMode x0 => (43, [x0], [], [])
  | .ConfigSetVehicleIdentity x0 => (44, [], x0, [])
  | .ConfigSetNavType x0 => (45, [x0], [], [])
  | .ConfigSetVehicleType x0 => (46, [x0], [], [])
  | .ConfigSetIKEType x0 => (47, [x0], [], [])
  | .CD53Init => (48, [], [], [])
  | .CD53Destroy => (49, [], [], [])
  | .BMBTInit => (50, [], [], [])
  | .BMBTDestroy => (51, [], [], [])
  | .MIDInit => (52, [], [], [])
  | .MIDDestroy => (53, [], [], [])
  | .PAM_SHDN x0 => (54, [x0], [], [])
  | .TEL_MUTE x0 => (55, [x0], [], [])
  | .IBUS_EN x0 => (56, [x0], [], [])
  | .TimerDelayMicroseconds x0 => (57, [x0], [], [])
  | .UARTDestroy x0 => (58, [x0], [], [])
  | .IBusCommandGTUpdate x0 => (59, [x0], [], [])
  | .IBusCommandGTWriteIndex x0 x1 => (60, [x0], [], [x1])
  | .IBusCommandGTWriteIndexTMC x0 x1 => (61, [x0], [], [x1])
  | .IBusCommandGTWriteIndexStatic x0 x1 => (62, [x0], [], [x1])
  | .IBusCommandGTWriteIndexTitle x0 => (63, [], [], [x0])
  | .IBusCommandGTWriteTitleArea x0 => (64, [], [], [x0])
  | .IBusCommandGTWriteTitleIndex x0 => (65, [], [], [x0])
  | .IBusCommandGTWriteZone x0 x1 => (66, [x0], [], [x1])
  | .IBusCommandRADEnableMenu => (67, [], [], [])
  | .IBusCommandRADDisableMenu => (68, [], [], [])
  | .IBusCommandRADClearMenu => (69, [], [], [])
  | .IBusCommandTELSetGTDisplayMenu => (70, [], [], [])
  | .TimerTriggerScheduledTask x0 => (71, [x0], [], [])
  | .TimerResetScheduledTask x0 => (72, [x0], [], [])
  | .ConfigSetSetting x0 x1 => (73, [x0, x1], [], [])
  | .PCM51XXSetVolume x0 => (74, [x0], [], [])
  | .BC127CommandSetProfiles x0 x1 x2 x3 => (75, [x0, x1, x2, x3], [], [])
  | .BC127CommandReset => (76, [], [], [])
  | .BC127CommandSetAudioAnalog x0 x1 x2 x3 => (77, [], [], [x0, x1, x2, x3])
  | .BC127CommandUnpair => (78, [], [], [])
  | .EventTriggerCallback x0 x1 => (79, [x0, x1], [], [])

/-- The call that a tuple of `Call.encode` stands for. -/
def Call.decode (c : Nat × List Nat × List Nat × List String) : Option Call :=
  if c.1 = 0 then some (Call.BC127CommandTone (c.2.2.2.getD 0 ""))
  else if c.1 = 1 then some (Call.BC127CommandBtState (c.2.1.getD 0 0) (c.2.1.getD 1 0))
  else if c.1 = 2 then some (Call.BC127CommandClose (c.2.1.getD 0 0))
  else if c.1 = 3 then some (Call.BC127CommandStatus)
  else if c.1 = 4 then some (Call.BC127CommandList)
  else if c.1 = 5 then some (Call.BC127CommandPlay)
  else if c.1 = 6 then some (Call.BC127CommandPause)
  else if c.1 = 7 then some (Call.BC127CommandForward)
  else if c.1 = 8 then some (Call.BC127CommandBackward)
  else if c.1 = 9 then some (Call.BC127CommandForwardSeekPress)
  else if c.1 = 10 then some (Call.BC127CommandBackwardSeekPress)
  else if c.1 = 11 then some (Call.BC127CommandForwardSeekRelease)
  else if c.1 = 12 then some (Call.BC127CommandBackwardSeekRelease)
  else if c.1 = 13 then some (Call.BC127CommandProfileOpen c.2.2.1 (c.2.2.2.getD 0 ""))
  else if c.1 = 14 then some (Call.BC127ClearMetadata)
  else if c.1 = 15 then some (Call.BC127ClearPairedDevices)
  else if c.1 = 16 then some (Call.IBusCommandCDCStatus (c.2.1.getD 0 0) (c.2.1.getD 1 0) (c.2.1.getD 2 0))
  else if c.1 = 17 then some (Call.IBusCommandTELSetLED (c.2.1.getD 0 0))
  else if c.1 = 18 then some (Call.IBusCommandTELStatus (c.2.1.getD 0 0))
  else if c.1 = 19 then some (Call.IBusCommandDSPSetMode (c.2.1.getD 0 0))
  else if c.1 = 20 then some (Call.IBusCommandGMDoorCenterLockButton)
  else if c.1 = 21 then some (Call.IBusCommandGMDoorUnlockAll)
  else if c.1 = 22 then some (Call.IBusCommandGMDoorUnlockHigh)
  else if c.1 = 23 then some (Call.IBusCommandLCMGetRedundantData)
  else if c.1 = 24 then some (Call.BC127ClearPairingErrors)
  else if c.1 = 25 then some (Call.BC127ClearActiveDevice)
  else if c.1 = 26 then some (Call.BC127ClearInactivePairedDevices)
  else if c.1 = 27 then some (Call.BC127CommandGetMetadata)
  else if c.1 = 28 then some (Call.BC127CommandCallEnd)
  else if c.1 = 29 then some (Call.BC127CommandCallAnswer)
  else if c.1 = 30 then some (Call.BC127CommandToggleVR)
  else if c.1 = 31 then some (Call.BC127CommandVolume (c.2.1.getD 0 0) (c.2.2.2.getD 0 ""))
  else if c.1 = 32 then some (Call.BC127CommandSetMicGain (c.2.1.getD 0 0))
  else if c.1 = 33 then some (Call.IBusCommandGetModuleStatus (c.2.1.getD 0 0) (c.2.1.getD 1 0))
  else if c.1 = 34 then some (Call.IBusCommandSetModuleStatus (c.2.1.getD 0 0) (c.2.1.getD 1 0) (c.2.1.getD 2 0))
  else if c.1 = 35 then some (Call.IBusCommandIKEGetIgnitionStatus)
  else if c.1 = 36 then some (Call.IBusCommandIKEGetVehicleType)
  else if c.1 = 37 then some (Call.IBusCommandGMDoorLockHigh)
  else if c.1 = 38 then some (Call.IBusCommandLCMEnableBlinker (c.2.1.getD 0 0))
  else if c.1 = 39 then some (Call.IBusCommandDIATerminateDiag (c.2.1.getD 0 0))
  else if c.1 = 40 then some (Call.IBusCommandDIAGetIOStatus (c.2.1.getD 0 0))
  else if c.1 = 41 then some (Call.IBusCommandDIAGetIdentity (c.2.1.getD 0 0))
  else if c.1 = 42 then some (Call.IBusCommandDIAGetOSIdentity (c.2.1.getD 0 0))
  else if c.1 = 43 then some (Call.ConfigSetUIMode (c.2.1.getD 0 0))
  else if c.1 = 44 then some (Call.ConfigSetVehicleIdentity c.2.2.1)
  else if c.1 = 45 then some (Call.ConfigSetNavType (c.2.1.getD 0 0))
  else if c.1 = 46 then some (Call.ConfigSetVehicleType (c.2.1.getD 0 0))
  else if c.1 = 47 then some (Call.ConfigSetIKEType (c.2.1.getD 0 0))
  else if c.1 = 48 then some (Call.CD53Init)
  else if c.1 = 49 then some (Call.CD53Destroy)
  else if c.1 = 50 then some (Call.BMBTInit)
  else if c.1 = 51 then some (Call.BMBTDestroy)
  else if c.1 = 52 then some (Call.MIDInit)
  else if c.1 = 53 then some (Call.MIDDestroy)
  else if c.1 = 54 then some (Call.PAM_SHDN (c.2.1.getD 0 0))
  else if c.1 = 55 then some (Call.TEL_MUTE (c.2.1.getD 0 0))
  else if c.1 = 56 then some (Call.IBUS_EN (c.2.1.getD 0 0))
  else if c.1 = 57 then some (Call.TimerDelayMicroseconds (c.2.1.getD 0 0))
  else if c.1 = 58 then some (Call.UARTDestroy (c.2.1.getD 0 0))
  else if c.1 = 59 then some (Call.IBusCommandGTUpdate (c.2.1.getD 0 0))
  else if c.1 = 60 then some (Call.IBusCommandGTWriteIndex (c.2.1.getD 0 0) (c.2.2.2.getD 0 ""))
  else if c.1 = 61 then some (Call.IBusCommandGTWriteIndexTMC (c.2.1.getD 0 0) (c.2.2.2.getD 0 ""))
  else if c.1 = 62 then some (Call.IBusCommandGTWriteIndexStatic (c.2.1.getD 0 0) (c.2.2.2.getD 0 ""))
  else if c.1 = 63 then some (Call.IBusCommandGTWriteIndexTitle (c.2.2.2.getD 0 ""))
  else if c.1 = 64 then some (Call.IBusCommandGTWriteTitleArea (c.2.2.2.getD 0 ""))
  else if c.1 = 65 then some (Call.IBusCommandGTWriteTitleIndex (c.2.2.2.getD 0 ""))
  else if c.1 = 66 then some (Call.IBusCommandGTWriteZone (c.2.1.getD 0 0) (c.2.2.2.getD 0 ""))
  else if c.1 = 67 then some (Call.IBusCommandRADEnableMenu)
  else if c.1 = 68 then some (Call.IBusCommandRADDisableMenu)
  else if c.1 = 69 then some (Call.IBusCommandRADClearMenu)
  else if c.1 = 70 then some (Call.IBusCommandTELSetGTDisplayMenu)
  else if c.1 = 71 then some (Call.TimerTriggerScheduledTask (c.2.1.getD 0 0))
  else if c.1 = 72 then some (Call.TimerResetScheduledTask (c.2.1.getD 0 0))
  else if c.1 = 73 then some (Call.ConfigSetSetting (c.2.1.getD 0 0) (c.2.1.getD 1 0))
  else if c.1 = 74 then some (Call.PCM51XXSetVolume (c.2.1.getD 0 0))
  else if c.1 = 75 then some (Call.BC127CommandSetProfiles (c.2.1.getD 0 0) (c.2.1.getD 1 0) (c.2.1.getD 2 0) (c.2.1.getD 3 0))
  else if c.1 = 76 then some (Call.BC127CommandReset)
  else if c.1 = 77 then some (Call.BC127CommandSetAudioAnalog (c.2.2.2.getD 0 "") (c.2.2.2.getD 1 "") (c.2.2.2.getD 2 "") (c.2.2.2.getD 3 ""))
  else if c.1 = 78 then some (Call.BC127CommandUnpair)
  else if c.1 = 79 then some (Call.EventTriggerCallback (c.2.1.getD 0 0) (c.2.1.getD 1 0))
  else none

/-- Equality of two calls is decidable: it is equality of their tuples, from which
the calls can be read back. -/
def Call.decEq (a b : Call) : Decidable (a = b) :=
  decidable_of_iff (a.encode = b.encode)
    ⟨fun h => by
      have hdec : ∀ c : Call, Call.decode c.encode = some c := by
        intro c
        cases c <;> rfl
      have hsome : some a = some b := by rw [← hdec a, ← hdec b, h]
      exact Option.some.inj hsome,
     fun h => by rw [h]⟩

instance : DecidableEq Call := Call.decEq

/-- Calls on the Bluetooth module facade. -/
def Call.isBC127 : Call → Bool
  | .BC127CommandTone _ => true
  | .BC127CommandBtState _ _ => true
  | .BC127CommandClose _ => true
  | .BC127CommandStatus => true
  | .BC127CommandList => true
  | .BC127CommandPlay => true
  | .BC127CommandPause => true
  | .BC127CommandForward => true
  | .BC127CommandBackward => true
  | .BC127CommandForwardSeekPress => true
  | .BC127CommandBackwardSeekPress => true
  | .BC127CommandForwardSeekRelease => true
  | .BC127CommandBackwardSeekRelease => true
  | .BC127CommandProfileOpen _ _ => true
  | .BC127ClearMetadata => true
  | .BC127ClearPairedDevices => true
  | .BC127ClearPairingErrors => true
  | .BC127ClearActiveDevice => true
  | .BC127ClearInactivePairedDevices => true
  | .BC127CommandGetMetadata => true
  | .BC127CommandCallEnd => true
  | .BC127CommandCallAnswer => true
  | .BC127CommandToggleVR => true
  | .BC127CommandVolume _ _ => true
  | .BC127CommandSetMicGain _ => true
  | .BC127CommandSetProfiles _ _ _ _ => true
  | .BC127CommandReset => true
  | .BC127CommandSetAudioAnalog _ _ _ _ => true
  | .BC127CommandUnpair => true
  | _ => false

/-- The telephone LED command. -/
def Call.isTELSetLED : Call → Bool
  | .IBusCommandTELSetLED _ => true
  | _ => false

/-- The three door unlock commands of the ignition-off branch. -/
def Call.isDoorUnlock : Call → Bool
  | .IBusCommandGMDoorCenterLockButton => true
  | .IBusCommandGMDoorUnlockAll => true
  | .IBusCommandGMDoorUnlockHigh => true
  | _ => false

/-- The seek release commands. -/
def Call.isSeekRelease : Call → Bool
  | .BC127CommandForwardSeekRelease => true
  | .BC127CommandBackwardSeekRelease => true
  | _ => false

/-- The profile-open command. -/
def Call.isProfileOpen : Call → Bool
  | .BC127CommandProfileOpen _ _ => true
  | _ => false

/-- The (status, function, disc count) triples of the CD-changer status responses
in a list of calls. -/
def cdcReports (calls : List Call) : List (Nat × Nat × Nat) :=
  calls.filterMap fun c =>
    match c with
    | .IBusCommandCDCStatus s f d => some (s, f, d)
    | _ => none

/-- The (status, function) pairs of the CD-changer status responses in a list of
calls. -/
def cdcStatusFunction (calls : List Call) : List (Nat × Nat) :=
  (cdcReports calls).map fun r => (r.1, r.2.1)

/-- C `strlen` on a character array: the number of characters before the first NUL. -/
def strlen (s : List Nat) : Nat :=
  (s.takeWhile fun c => c != 0).length

/-! ## Handlers -/

/-- `HandlerIBusBroadcastCDCStatus` (handler.c 1255-1274); `now` is the value
returned by `TimerGetMillis()`. -/
def HandlerIBusBroadcastCDCStatus (k : Consts) (now : Nat) (context : HandlerContext_t) :
    HandlerContext_t × List Call :=
  let curStatus :=
    if context.ibus.cdChangerFunction = k.IBUS_CDC_FUNC_PAUSE then k.IBUS_CDC_FUNC_PAUSE
    else if context.ibus.cdChangerFunction = k.IBUS_CDC_FUNC_PLAYING then k.IBUS_CDC_STAT_PLAYING
    else k.IBUS_CDC_STAT_STOP
  let discCount :=
    if context.uiMode = k.IBus_UI_BMBT then k.IBUS_CDC_DISC_COUNT_1 else k.IBUS_CDC_DISC_COUNT_6
  ({ context with cdChangerLastStatus := now },
   [Call.IBusCommandCDCStatus curStatus context.ibus.cdChangerFunction discCount])

/-- `HandlerIBusBroadcastTELStatus` (handler.c 1285-1300). -/
def HandlerIBusBroadcastTELStatus (k : Consts) (ConfigGetSetting : Nat → Nat)
    (context : HandlerContext_t) : List Call :=
  if ConfigGetSetting k.CONFIG_SETTING_HFP = k.CONFIG_SETTING_ON then
    if context.bt.callStatus = k.BC127_CALL_INACTIVE then
      [Call.IBusCommandTELStatus k.IBUS_TEL_STATUS_ACTIVE_POWER_HANDSFREE]
    else
      [Call.IBusCommandTELStatus k.IBUS_TEL_STATUS_ACTIVE_POWER_CALL_HANDSFREE]
  else []

/-- The ignition-off branch of `HandlerIBusIKEIgnitionStatus` (handler.c 790-809). -/
def ignitionOffBranch (k : Consts) (ConfigGetSetting : Nat → Nat)
    (context : HandlerContext_t) : HandlerContext_t × List Call :=
  let unlock : List Call :=
    if ConfigGetSetting k.CONFIG_SETTING_COMFORT_LOCKS_ADDRESS = k.CONFIG_SETTING_ON then
      if context.ibus.vehicleType = k.IBUS_VEHICLE_TYPE_E38_E39_E53 then
        [Call.IBusCommandGMDoorCenterLockButton]
      else if context.bodyModuleStatus.lowSideDoors = true then
        [Call.IBusCommandGMDoorUnlockAll]
      else
        [Call.IBusCommandGMDoorUnlockHigh]
    else []
  ({ context with bodyModuleStatus := { context.bodyModuleStatus with lowSideDoors := false } },
   [Call.BC127CommandBtState k.BC127_STATE_OFF k.BC127_STATE_OFF,
    Call.BC127CommandClose k.BC127_CLOSE_ALL,
    Call.BC127ClearPairedDevices] ++ unlock)

/-- The ignition-on branch of `HandlerIBusIKEIgnitionStatus` (handler.c 813-841). -/
def ignitionOnBranch (k : Consts) (ConfigGetSetting : Nat → Nat) (now : Nat)
    (context : HandlerContext_t) : HandlerContext_t × List Call :=
  let b := HandlerIBusBroadcastCDCStatus k now context
  let led : List Call :=
    if ConfigGetSetting k.CONFIG_SETTING_HFP = k.CONFIG_SETTING_ON then
      if context.bt.activeDevice.avrcpLinkId = 0 ∧ context.bt.activeDevice.a2dpLinkId = 0 then
        [Call.IBusCommandTELSetLED k.IBUS_TEL_LED_STATUS_RED]
      else
        [Call.IBusCommandTELSetLED k.IBUS_TEL_LED_STATUS_GREEN]
    else []
  (b.1,
   [Call.BC127CommandTone HANDLER_IGNITION_TONE] ++ b.2 ++
   [Call.BC127ClearMetadata,
    Call.BC127CommandBtState k.BC127_STATE_ON k.BC127_STATE_OFF,
    Call.BC127CommandStatus,
    Call.BC127CommandList] ++ led ++ [Call.IBusCommandLCMGetRedundantData])

/-- The branch of `HandlerIBusIKEIgnitionStatus` taken when the ignition status
has not changed (handler.c 842-862). -/
def ignitionSameBranch (k : Consts) (ConfigGetSetting : Nat → Nat) (now : Nat)
    (context : HandlerContext_t) (ignitionStatus : Nat) : HandlerContext_t × List Call :=
  if ignitionStatus > k.IBUS_IGNITION_OFF then
    let b := HandlerIBusBroadcastCDCStatus k now context
    let tel : List Call :=
      if ConfigGetSetting k.CONFIG_SETTING_HFP = k.CONFIG_SETTING_ON then
        HandlerIBusBroadcastTELStatus k ConfigGetSetting context ++
        (if context.bt.activeDevice.avrcpLinkId ≠ 0 ∧ context.bt.activeDevice.a2dpLinkId ≠ 0 then
          [Call.IBusCommandTELSetLED k.IBUS_TEL_LED_STATUS_GREEN]
        else
          [Call.IBusCommandTELSetLED k.IBUS_TEL_LED_STATUS_RED])
      else []
    (b.1, b.2 ++ tel)
  else (context, [])

/-- `HandlerIBusIKEIgnitionStatus` (handler.c 782-867).  The payload byte `pkt[0]`
is the new ignition status; `context.ibus.ignitionStatus` is the previous one.
`now` is the value returned by `TimerGetMillis()`. -/
def HandlerIBusIKEIgnitionStatus (k : Consts) (ConfigGetSetting : Nat → Nat) (now : Nat)
    (context : HandlerContext_t) (pkt : List Nat) : HandlerContext_t × List Call :=
  let ignitionStatus := pkt.getD 0 0
  let r : HandlerContext_t × List Call :=
    if ignitionStatus ≠ context.ibus.ignitionStatus then
      if ignitionStatus = k.IBUS_IGNITION_OFF then
        ignitionOffBranch k ConfigGetSetting context
      else if context.ibus.ignitionStatus = k.IBUS_IGNITION_OFF ∧
          ignitionStatus ≠ k.IBUS_IGNITION_OFF then
        ignitionOnBranch k ConfigGetSetting now context
      else (context, [])
    else ignitionSameBranch k ConfigGetSetting now context ignitionStatus
  if r.1.ibusModuleStatus.IKE = false then
    ({ r.1 with ibusModuleStatus := { r.1.ibusModuleStatus with IKE := true } },
     r.2 ++ HandlerIBusBroadcastTELStatus k ConfigGetSetting r.1)
  else r

/-- The local variables of `HandlerIBusCDCStatus` after its command dispatch,
with the seek mode it leaves in the context and the calls made so far. -/
structure CDCDispatch where
  curStatus : Nat
  curFunction : Nat
  seekMode : Nat
  calls : List Call
  deriving DecidableEq, Repr

/-- The GET_STATUS branch of `HandlerIBusCDCStatus` (handler.c 542-548). -/
def cdcGetStatus (k : Consts) (context : HandlerContext_t) : CDCDispatch :=
  let curFunction := context.ibus.cdChangerFunction
  let curStatus :=
    if curFunction = k.IBUS_CDC_FUNC_PLAYING then k.IBUS_CDC_STAT_PLAYING
    else if curFunction = k.IBUS_CDC_FUNC_PAUSE then k.IBUS_CDC_STAT_PAUSE
    else k.IBUS_CDC_STAT_STOP
  ⟨curStatus, curFunction, context.seekMode, []⟩

/-- The STOP_PLAYING branch of `HandlerIBusCDCStatus` (handler.c 549-558). -/
def cdcStopPlaying (k : Consts) (ConfigGetSetting : Nat → Nat)
    (context : HandlerContext_t) : CDCDispatch :=
  ⟨k.IBUS_CDC_STAT_STOP, k.IBUS_CDC_FUNC_NOT_PLAYING, context.seekMode,
    (if context.bt.playbackStatus = k.BC127_AVRCP_STATUS_PLAYING then
      [Call.BC127CommandPause] else []) ++
    (if ConfigGetSetting k.CONFIG_SETTING_USE_SPDIF_INPUT = k.CONFIG_SETTING_ON then
      [Call.IBusCommandDSPSetMode k.IBUS_DSP_MODE_INPUT_RADIO] else [])⟩

/-- The CHANGE_TRACK branch of `HandlerIBusCDCStatus` (handler.c 559-570). -/
def cdcChangeTrack (k : Consts) (context : HandlerContext_t) (pkt : List Nat) : CDCDispatch :=
  ⟨k.IBUS_CDC_STAT_PLAYING, context.ibus.cdChangerFunction, context.seekMode,
    if context.uiMode ≠ k.IBus_UI_CD53 then
      (if pkt.getD 5 0 = 0x00 then [Call.BC127CommandForward]
       else [Call.BC127CommandBackward])
    else []⟩

/-- The SEEK branch of `HandlerIBusCDCStatus` (handler.c 571-579); `curFunction`
keeps its initial value `IBUS_CDC_FUNC_NOT_PLAYING`. -/
def cdcSeek (k : Consts) (pkt : List Nat) : CDCDispatch :=
  if pkt.getD 5 0 = 0x00 then
    ⟨k.IBUS_CDC_STAT_FAST_REV, k.IBUS_CDC_FUNC_NOT_PLAYING, HANDLER_CDC_SEEK_MODE_REV,
      [Call.BC127CommandBackwardSeekPress]⟩
  else
    ⟨k.IBUS_CDC_STAT_FAST_REV, k.IBUS_CDC_FUNC_NOT_PLAYING, HANDLER_CDC_SEEK_MODE_FWD,
      [Call.BC127CommandForwardSeekPress]⟩

/-- The SCAN branch of `HandlerIBusCDCStatus` (handler.c 580-588). -/
def cdcScan (k : Consts) (context : HandlerContext_t) (pkt : List Nat) : CDCDispatch :=
  if pkt.getD 5 0 = 0x01 then
    ⟨0x00, k.IBUS_CDC_FUNC_SCAN_MODE, context.seekMode, []⟩
  else
    ⟨0x00, k.IBUS_CDC_FUNC_PLAYING, context.seekMode, []⟩

/-- The RANDOM_MODE branch of `HandlerIBusCDCStatus` (handler.c 589-597). -/
def cdcRandomMode (k : Consts) (context : HandlerContext_t) (pkt : List Nat) : CDCDispatch :=
  if pkt.getD 5 0 = 0x01 then
    ⟨0x00, k.IBUS_CDC_FUNC_RANDOM_MODE, context.seekMode, []⟩
  else
    ⟨0x00, k.IBUS_CDC_FUNC_PLAYING, context.seekMode, []⟩

/-- The START_PLAYING branch of `HandlerIBusCDCStatus` (handler.c 602-615). -/
def cdcStartPlaying (k : Consts) (ConfigGetSetting : Nat → Nat)
    (context : HandlerContext_t) : CDCDispatch :=
  let spdif : List Call :=
    if ConfigGetSetting k.CONFIG_SETTING_USE_SPDIF_INPUT = k.CONFIG_SETTING_ON then
      [Call.IBusCommandDSPSetMode k.IBUS_DSP_MODE_INPUT_SPDIF] else []
  if context.seekMode = HANDLER_CDC_SEEK_MODE_FWD then
    ⟨k.IBUS_CDC_STAT_PLAYING, k.IBUS_CDC_FUNC_PLAYING, HANDLER_CDC_SEEK_MODE_NONE,
      [Call.BC127CommandForwardSeekRelease] ++ spdif⟩
  else if context.seekMode = HANDLER_CDC_SEEK_MODE_REV then
    ⟨k.IBUS_CDC_STAT_PLAYING, k.IBUS_CDC_FUNC_PLAYING, HANDLER_CDC_SEEK_MODE_NONE,
      [Call.BC127CommandBackwardSeekRelease] ++ spdif⟩
  else
    ⟨k.IBUS_CDC_STAT_PLAYING, k.IBUS_CDC_FUNC_PLAYING, context.seekMode, spdif⟩

/-- The command dispatch of `HandlerIBusCDCStatus` (handler.c 539-619).
`curStatus` starts as `IBUS_CDC_STAT_STOP` and `curFunction` as
`IBUS_CDC_FUNC_NOT_PLAYING`; a branch that does not assign one of them leaves
that initial value. -/
def cdcDispatch (k : Consts) (ConfigGetSetting : Nat → Nat)
    (context : HandlerContext_t) (pkt : List Nat) : CDCDispatch :=
  let requestedCommand := pkt.getD 4 0
  if requestedCommand = k.IBUS_CDC_CMD_GET_STATUS then
    cdcGetStatus k context
  else if requestedCommand = k.IBUS_CDC_CMD_STOP_PLAYING then
    cdcStopPlaying k ConfigGetSetting context
  else if requestedCommand = k.IBUS_CDC_CMD_CHANGE_TRACK then
    cdcChangeTrack k context pkt
  else if requestedCommand = k.IBUS_CDC_CMD_SEEK then
    cdcSeek k pkt
  else if requestedCommand = k.IBUS_CDC_CMD_SCAN then
    cdcScan k context pkt
  else if requestedCommand = k.IBUS_CDC_CMD_RANDOM_MODE then
    cdcRandomMode k context pkt
  else if requestedCommand = k.IBUS_CDC_CMD_PAUSE_PLAYING then
    ⟨k.IBUS_CDC_STAT_PAUSE, k.IBUS_CDC_FUNC_PAUSE, context.seekMode, []⟩
  else if requestedCommand = k.IBUS_CDC_CMD_START_PLAYING then
    cdcStartPlaying k ConfigGetSetting context
  else
    ⟨requestedCommand, k.IBUS_CDC_FUNC_NOT_PLAYING, context.seekMode, []⟩

/-- `HandlerIBusCDCStatus` (handler.c 536-627).  `tPoll` and `tStatus` are the
values returned by the two successive `TimerGetMillis()` calls at the end. -/
def HandlerIBusCDCStatus (k : Consts) (ConfigGetSetting : Nat → Nat) (tPoll tStatus : Nat)
    (context : HandlerContext_t) (pkt : List Nat) : HandlerContext_t × List Call :=
  let d := cdcDispatch k ConfigGetSetting context pkt
  let discCount :=
    if context.uiMode = k.IBus_UI_BMBT then k.IBUS_CDC_DISC_COUNT_1 else k.IBUS_CDC_DISC_COUNT_6
  ({ context with
      seekMode := d.seekMode
      cdChangerLastPoll := tPoll
      cdChangerLastStatus := tStatus },
   d.calls ++ [Call.IBusCommandCDCStatus d.curStatus d.curFunction discCount])

/-- `HandlerTimerDeviceConnection` (handler.c 1363-1391); the retry counter is a
`uint8_t`. -/
def HandlerTimerDeviceConnection (k : Consts) (context : HandlerContext_t) :
    HandlerContext_t × List Call :=
  if strlen context.bt.activeDevice.macId > 0 ∧ context.bt.activeDevice.a2dpLinkId = 0 then
    if context.btDeviceConnRetries ≤ HANDLER_DEVICE_MAX_RECONN then
      ({ context with btDeviceConnRetries := (context.btDeviceConnRetries + 1) % 256 },
       [Call.BC127CommandProfileOpen context.bt.activeDevice.macId PROFILE_A2DP])
    else
      ({ context with btDeviceConnRetries := 0 },
       [Call.BC127CommandBtState k.BC127_STATE_ON context.bt.discoverable,
        Call.BC127ClearPairedDevices,
        Call.BC127CommandClose k.BC127_CLOSE_ALL])
  else if context.btDeviceConnRetries > 0 then
    ({ context with btDeviceConnRetries := 0 }, [])
  else (context, [])

/-- The watchdog run over consecutive ticks: before each tick the Bluetooth object
is whatever the module reported in between (`bts`, one per tick); the result is
the final context and the calls of each tick, in order. -/
def deviceConnectionTicks (k : Consts) :
    HandlerContext_t → List BC127_t → HandlerContext_t × List (List Call)
  | context, [] => (context, [])
  | context, bt :: bts =>
    let r := HandlerTimerDeviceConnection k { context with bt := bt }
    let rest := deviceConnectionTicks k r.1 bts
    (rest.1, r.2 :: rest.2)

/-! ## Configuration store and helpers that are not part of the sources -/

/-- Modelled from the spec: the persistent configuration store behind the
accessors of `lib/config.h`, which is absent.  The specification describes it as
a key-value store with "typed get/set for UI mode, vehicle type, vehicle identity
(5 raw bytes), navigation hardware type, and a flat table of named settings":
a value that was set is the value a later get returns.  `settings` is what
`ConfigGetSetting` returns for each address. -/
structure Config_t where
  settings : Nat → Nat
  uiMode : Nat
  vehicleType : Nat
  vehicleIdentity : List Nat
  navType : Nat
  ikeType : Nat
  poweroffTimeoutDisabled : Nat

/-- Modelled from the spec: `ConfigGetVehicleIdentity` of `lib/config.h`, absent;
it fills the five bytes of the caller's buffer from the store. -/
def ConfigGetVehicleIdentity (config : Config_t) : List Nat :=
  (List.range 5).map fun i => config.vehicleIdentity.getD i 0

/-- Modelled from the spec: `ConfigSetVehicleIdentity` of `lib/config.h`, absent;
it persists the five bytes of the caller's buffer. -/
def ConfigSetVehicleIdentity (config : Config_t) (vin : List Nat) : Config_t :=
  { config with vehicleIdentity := (List.range 5).map fun i => vin.getD i 0 }

/-- Modelled from the spec: the macro `CHECK_BIT` of `lib/utils.h`, absent, by which
the handler tests "which turn-signal bit is set" and the "two specific bits" of the
lock state: the value is non-zero exactly when bit `pos` of `var` is set. -/
def CHECK_BIT (var pos : Nat) : Nat :=
  var &&& (1 <<< pos)

/-- Fields of `UtilsAbstractDisplayValue_t` (`lib/utils.h`, absent) that the
board-monitor controller reads and writes: the text of the main display area with
its length, the index of the part shown, and a count of ticks to wait. -/
structure UtilsAbstractDisplayValue_t where
  status : Nat
  text : String
  index : Nat
  length : Nat
  timeout : Int
  deriving DecidableEq, Repr

/-- Functions of `lib/ibus.c`, `lib/utils.c` and `lib/bc127.c` that the handler and
the board-monitor controller call and that are absent; they are parameters of the
functions that call them.  `UtilsStricmp` returns 0 when the two strings match;
`UtilsRemoveNonAscii` gives the text it stores in its first argument;
`BC127ClearPairedDevices` gives the Bluetooth object as it leaves it. -/
structure Ext where
  IBusGetVehicleType : List Nat → Nat
  UtilsStricmp : List Nat → List Nat → Int
  UtilsRemoveNonAscii : String → String
  UtilsDisplayValueInit : String → Nat → UtilsAbstractDisplayValue_t
  BC127ClearPairedDevices : BC127_t → BC127_t

/-- The handler context together with the configuration store, for the handlers
that read or write the store beyond `ConfigGetSetting`. -/
structure World where
  context : HandlerContext_t
  config : Config_t

/-- The cast `(int8_t)` of a byte. -/
def int8_t (b : Nat) : Int :=
  if b % 256 < 128 then (b % 256 : Nat) else ((b % 256 : Nat) : Int) - 256

/-- The difference of two `uint32_t` timer values. -/
def sub32 (a b : Nat) : Nat :=
  (a % 4294967296 + 4294967296 - b % 4294967296) % 4294967296

/-- The MAC id of `bt->pairedDevices[idx]`.  An index outside the array is not
defined in C; the model reads an empty MAC id there. -/
def pairedDeviceMacId (bt : BC127_t) (idx : Int) : List Nat :=
  if 0 ≤ idx then
    match bt.pairedDevices.get? idx.toNat with
    | some dev => dev.macId
    | none => []
  else []

/-! ## Handlers of the Bluetooth module events -/

/-- The calls that tear down the UI controller of mode `ui`
(`HandlerSwitchUI`, handler.c 221-232). -/
def uiDestroyCalls (k : Consts) (ui : Nat) : List Call :=
  if ui = k.IBus_UI_CD53 ∨ ui = k.IBus_UI_BUSINESS_NAV then [Call.CD53Destroy]
  else if ui = k.IBus_UI_BMBT then [Call.BMBTDestroy]
  else if ui = k.IBus_UI_MID then [Call.MIDDestroy]
  else if ui = k.IBus_UI_MID_BMBT then [Call.MIDDestroy, Call.BMBTDestroy]
  else []

/-- The calls that set up the UI controller of mode `ui`
(`HandlerInit`, handler.c 203-214, and `HandlerSwitchUI`, handler.c 233-242). -/
def uiInitCalls (k : Consts) (ui : Nat) : List Call :=
  if ui = k.IBus_UI_CD53 ∨ ui = k.IBus_UI_BUSINESS_NAV then [Call.CD53Init]
  else if ui = k.IBus_UI_BMBT then [Call.BMBTInit]
  else if ui = k.IBus_UI_MID then [Call.MIDInit]
  else if ui = k.IBus_UI_MID_BMBT then [Call.MIDInit, Call.BMBTInit]
  else []

/-- `HandlerInit` (handler.c 27-216): the context it sets up and the calls it makes,
the registrations of callbacks and timers apart.  `t1` and `t2` are the values of
the two `TimerGetMillis()` calls; the fields it does not assign are zero, the
context being a static object. -/
def HandlerInit (k : Consts) (config : Config_t) (t1 t2 : Nat) (bt : BC127_t) (ibus : IBus_t) :
    HandlerContext_t × List Call :=
  ({ bt := bt, ibus := ibus
     btDeviceConnRetries := 0
     btSelectedDevice := HANDLER_BT_SELECTED_DEVICE_NONE
     btStatus := 0, btStatusCount := 0
     btStartupIsRun := 0
     btConnectionStatus := HANDLER_BT_CONN_OFF
     uiMode := config.uiMode
     seekMode := HANDLER_CDC_SEEK_MODE_NONE
     blinkerStatus := HANDLER_BLINKER_OFF
     blinkerCount := 0
     mflButtonStatus := HANDLER_MFL_STATUS_OFF
     ibusModuleStatus := ⟨false, false, false, false, false, false, false⟩
     bodyModuleStatus := ⟨false, false⟩
     powerStatus := HANDLER_POWER_ON
     scanIntervals := 0
     cdChangerLastPoll := t1
     cdChangerLastStatus := t2 },
   [Call.BC127CommandStatus] ++ uiInitCalls k config.uiMode ++
   [Call.BC127CommandSetMicGain (config.settings k.CONFIG_SETTING_MIC_GAIN)])

/-- `HandlerSwitchUI` (handler.c 218-245). -/
def HandlerSwitchUI (k : Consts) (w : World) (newUi : Nat) : World × List Call :=
  ({ context := { w.context with uiMode := newUi }
     config := { w.config with uiMode := newUi } },
   uiDestroyCalls k w.context.uiMode ++ uiInitCalls k newUi ++ [Call.ConfigSetUIMode newUi])

/-- `HandlerBC127Boot` (handler.c 257-262). -/
def HandlerBC127Boot (context : HandlerContext_t) : HandlerContext_t × List Call :=
  (context, [Call.BC127ClearPairedDevices, Call.BC127CommandStatus])

/-- `HandlerBC127BootStatus` (handler.c 275-288). -/
def HandlerBC127BootStatus (k : Consts) (context : HandlerContext_t) :
    HandlerContext_t × List Call :=
  ({ context with btConnectionStatus := HANDLER_BT_CONN_OFF },
   [Call.BC127CommandList] ++
   (if context.ibus.ignitionStatus = k.IBUS_IGNITION_OFF then
      [Call.BC127CommandBtState k.BC127_STATE_OFF k.BC127_STATE_OFF,
       Call.BC127CommandClose k.BC127_CLOSE_ALL]
    else
      [Call.BC127CommandBtState k.BC127_STATE_ON context.bt.discoverable]))

/-- `HandlerBC127CallStatus` (handler.c 290-320); the writes to the lines
`PAM_SHDN` and `TEL_MUTE` and the delay are recorded as calls. -/
def HandlerBC127CallStatus (k : Consts) (ConfigGetSetting : Nat → Nat)
    (context : HandlerContext_t) : HandlerContext_t × List Call :=
  (context,
   (if context.bt.callStatus = k.BC127_CALL_INACTIVE ∧
        context.bt.playbackStatus = k.BC127_AVRCP_STATUS_PLAYING then
      [Call.BC127CommandPlay] else []) ++
   (if ConfigGetSetting k.CONFIG_SETTING_TCU_MODE = k.CONFIG_SETTING_OFF ∨
        context.ibus.cdChangerFunction = k.IBUS_CDC_FUNC_NOT_PLAYING then
      (if (context.bt.callStatus = k.BC127_CALL_INCOMING ∨
           context.bt.callStatus = k.BC127_CALL_OUTGOING) ∧
          context.bt.scoStatus = k.BC127_CALL_SCO_OPEN then
        [Call.PAM_SHDN 1, Call.TEL_MUTE 1] else []) ++
      (if context.bt.callStatus = k.BC127_CALL_INACTIVE then
        [Call.PAM_SHDN 0, Call.TimerDelayMicroseconds 250, Call.TEL_MUTE 0] else []) ++
      HandlerIBusBroadcastTELStatus k ConfigGetSetting context
    else []))

/-- `HandlerBC127DeviceLinkConnected` (handler.c 333-370). -/
def HandlerBC127DeviceLinkConnected (k : Consts) (ConfigGetSetting : Nat → Nat)
    (context : HandlerContext_t) : HandlerContext_t × List Call :=
  (context,
   if context.ibus.ignitionStatus > k.IBUS_IGNITION_OFF then
     if context.bt.activeDevice.avrcpLinkId ≠ 0 ∧ context.bt.activeDevice.a2dpLinkId ≠ 0 then
       (if ConfigGetSetting k.CONFIG_SETTING_HFP = k.CONFIG_SETTING_OFF ∨
            context.bt.activeDevice.hfpLinkId ≠ 0 then
          [Call.BC127CommandBtState k.BC127_STATE_OFF context.bt.discoverable] ++
          (if ConfigGetSetting k.CONFIG_SETTING_AUTOPLAY = k.CONFIG_SETTING_ON ∧
               context.ibus.cdChangerFunction = k.IBUS_CDC_FUNC_PLAYING then
             [Call.BC127CommandPlay] else [])
        else if ConfigGetSetting k.CONFIG_SETTING_HFP = k.CONFIG_SETTING_ON ∧
            context.bt.activeDevice.hfpLinkId = 0 then
          [Call.BC127CommandProfileOpen context.bt.activeDevice.macId PROFILE_HFP]
        else []) ++
       (if ConfigGetSetting k.CONFIG_SETTING_HFP = k.CONFIG_SETTING_ON then
          [Call.IBusCommandTELSetLED k.IBUS_TEL_LED_STATUS_GREEN] else [])
     else []
   else [Call.BC127CommandClose k.BC127_CLOSE_ALL])

/-- `HandlerBC127DeviceDisconnected` (handler.c 383-412). -/
def HandlerBC127DeviceDisconnected (k : Consts) (ConfigGetSetting : Nat → Nat)
    (context : HandlerContext_t) : HandlerContext_t × List Call :=
  if context.ibus.ignitionStatus > k.IBUS_IGNITION_OFF then
    if context.btConnectionStatus = HANDLER_BT_CONN_CHANGE then
      ({ context with
          btSelectedDevice := HANDLER_BT_SELECTED_DEVICE_NONE
          btConnectionStatus := HANDLER_BT_CONN_OFF },
       [Call.BC127ClearMetadata, Call.BC127ClearPairingErrors,
        Call.BC127CommandBtState k.BC127_STATE_ON context.bt.discoverable,
        Call.BC127CommandProfileOpen
          (pairedDeviceMacId context.bt context.btSelectedDevice) PROFILE_A2DP] ++
       (if ConfigGetSetting k.CONFIG_SETTING_HFP = k.CONFIG_SETTING_ON then
          [Call.BC127CommandProfileOpen
            (pairedDeviceMacId context.bt context.btSelectedDevice) PROFILE_HFP]
        else []))
    else
      ({ context with btConnectionStatus := HANDLER_BT_CONN_OFF },
       [Call.BC127ClearMetadata, Call.BC127ClearPairingErrors,
        Call.BC127CommandBtState k.BC127_STATE_ON context.bt.discoverable] ++
       (if ConfigGetSetting k.CONFIG_SETTING_HFP = k.CONFIG_SETTING_ON then
          [Call.IBusCommandTELSetLED k.IBUS_TEL_LED_STATUS_RED] else []) ++
       [Call.BC127CommandList])
  else
    ({ context with btConnectionStatus := HANDLER_BT_CONN_OFF },
     [Call.BC127ClearMetadata, Call.BC127ClearPairingErrors])

/-- `HandlerBC127DeviceFound` (handler.c 424-447); `data` is the MAC id of the
device found. -/
def HandlerBC127DeviceFound (k : Consts) (ConfigGetSetting : Nat → Nat)
    (context : HandlerContext_t) (data : List Nat) : HandlerContext_t × List Call :=
  if context.bt.activeDevice.deviceId = 0 ∧
      context.btConnectionStatus = HANDLER_BT_CONN_OFF ∧
      context.ibus.ignitionStatus > k.IBUS_IGNITION_OFF then
    ({ context with btConnectionStatus := HANDLER_BT_CONN_ON },
     [Call.BC127CommandProfileOpen data PROFILE_A2DP] ++
     (if ConfigGetSetting k.CONFIG_SETTING_HFP = k.CONFIG_SETTING_ON then
        [Call.BC127CommandProfileOpen data PROFILE_HFP] else []))
  else (context, [])

/-- `HandlerBC127PlaybackStatus` (handler.c 461-478). -/
def HandlerBC127PlaybackStatus (k : Consts) (context : HandlerContext_t) :
    HandlerContext_t × List Call :=
  let first : HandlerContext_t × List Call :=
    if context.btStartupIsRun = 0 then
      ({ context with btStartupIsRun := 1 },
       if context.bt.playbackStatus = k.BC127_AVRCP_STATUS_PLAYING then
         [Call.BC127CommandGetMetadata] else [])
    else (context, [])
  (first.1,
   first.2 ++
   (if context.bt.playbackStatus = k.BC127_AVRCP_STATUS_PLAYING ∧
        context.ibus.cdChangerFunction = k.IBUS_CDC_FUNC_NOT_PLAYING then
      [Call.BC127CommandPause] else []))

/-- `HandlerUICloseConnection` (handler.c 490-501). -/
def HandlerUICloseConnection (k : Consts) (context : HandlerContext_t) :
    HandlerContext_t × List Call :=
  (context,
   [Call.BC127ClearMetadata, Call.BC127ClearActiveDevice,
    Call.BC127CommandBtState k.BC127_STATE_ON context.bt.discoverable,
    Call.BC127CommandClose k.BC127_CLOSE_ALL])

/-- `HandlerUIInitiateConnection` (handler.c 513-521); `deviceId` is the payload
byte. -/
def HandlerUIInitiateConnection (k : Consts) (context : HandlerContext_t) (deviceId : Nat) :
    HandlerContext_t × List Call :=
  ({ context with
      btSelectedDevice := int8_t deviceId
      btConnectionStatus := HANDLER_BT_CONN_CHANGE },
   if context.bt.activeDevice.deviceId ≠ 0 then [Call.BC127CommandClose k.BC127_CLOSE_ALL]
   else [])

/-! ## Handlers of the bus events -/

/-- `HandlerIBusFirstMessageReceived` (handler.c 640-677). -/
def HandlerIBusFirstMessageReceived (k : Consts) (ConfigGetSetting : Nat → Nat)
    (context : HandlerContext_t) : HandlerContext_t × List Call :=
  (context,
   [Call.IBusCommandGetModuleStatus k.IBUS_DEVICE_RAD k.IBUS_DEVICE_IKE,
    Call.IBusCommandGetModuleStatus k.IBUS_DEVICE_RAD k.IBUS_DEVICE_GT,
    Call.IBusCommandGetModuleStatus k.IBUS_DEVICE_RAD k.IBUS_DEVICE_MID,
    Call.IBusCommandGetModuleStatus k.IBUS_DEVICE_CDC k.IBUS_DEVICE_RAD,
    Call.IBusCommandGetModuleStatus k.IBUS_DEVICE_IKE k.IBUS_DEVICE_LCM] ++
   (if ConfigGetSetting k.CONFIG_SETTING_HFP = k.CONFIG_SETTING_ON then
      [Call.IBusCommandSetModuleStatus k.IBUS_DEVICE_TEL k.IBUS_DEVICE_LOC 0x01] else []) ++
   [Call.IBusCommandIKEGetIgnitionStatus])

/-- `HandlerIBusGMDoorsFlapsStatusResponse` (handler.c 689-706). -/
def HandlerIBusGMDoorsFlapsStatusResponse (context : HandlerContext_t) (pkt : List Nat) :
    HandlerContext_t × List Call :=
  let lowSideDoors :=
    if context.bodyModuleStatus.lowSideDoors = false then
      (if (pkt.getD 4 0 &&& 0x0F) > 0x01 then true else context.bodyModuleStatus.lowSideDoors)
    else context.bodyModuleStatus.lowSideDoors
  let lockStatus := pkt.getD 4 0 &&& 0xF0
  let doorsLocked :=
    if CHECK_BIT lockStatus 4 ≠ 0 then false
    else if CHECK_BIT lockStatus 5 ≠ 0 then true
    else context.bodyModuleStatus.doorsLocked
  ({ context with bodyModuleStatus := ⟨lowSideDoors, doorsLocked⟩ }, [])

/-- `HandlerIBusGTDIAIdentityResponse` (handler.c 718-724); `type` is the payload
byte. -/
def HandlerIBusGTDIAIdentityResponse (w : World) (type : Nat) : World × List Call :=
  if w.config.navType ≠ type then
    ({ w with config := { w.config with navType := type } }, [Call.ConfigSetNavType type])
  else (w, [])

/-- The string "BMWC01S". -/
def NAV_OS_BMWC01S : List Nat := [0x42, 0x4D, 0x57, 0x43, 0x30, 0x31, 0x53]

/-- The string "BMWM01S". -/
def NAV_OS_BMWM01S : List Nat := [0x42, 0x4D, 0x57, 0x4D, 0x30, 0x31, 0x53]

/-- `HandlerIBusGTDIAOSIdentityResponse` (handler.c 736-766); `navigationOS` is the
seven bytes `pkt[4..10]`, terminated. -/
def HandlerIBusGTDIAOSIdentityResponse (k : Consts) (x : Ext) (w : World) (pkt : List Nat) :
    World × List Call :=
  let navigationOS := (List.range 7).map fun i => pkt.getD (i + 4) 0
  if x.UtilsStricmp navigationOS NAV_OS_BMWC01S = 0 then
    if w.context.ibusModuleStatus.MID = false then
      if w.config.uiMode ≠ k.IBus_UI_BMBT then HandlerSwitchUI k w k.IBus_UI_BMBT
      else (w, [])
    else
      if w.config.uiMode ≠ k.IBus_UI_MID_BMBT then HandlerSwitchUI k w k.IBus_UI_MID_BMBT
      else (w, [])
  else if x.UtilsStricmp navigationOS NAV_OS_BMWM01S = 0 then
    if w.config.uiMode ≠ k.IBus_UI_BUSINESS_NAV then HandlerSwitchUI k w k.IBus_UI_BUSINESS_NAV
    else (w, [])
  else (w, [])

/-- `HandlerIBusIKESpeedRPMUpdate` (handler.c 880-894). -/
def HandlerIBusIKESpeedRPMUpdate (k : Consts) (ConfigGetSetting : Nat → Nat)
    (context : HandlerContext_t) (pkt : List Nat) : HandlerContext_t × List Call :=
  (context,
   if ConfigGetSetting k.CONFIG_SETTING_COMFORT_LOCKS_ADDRESS = k.CONFIG_SETTING_ON ∧
       context.bodyModuleStatus.doorsLocked = false ∧ pkt.getD 4 0 ≥ 0x20 then
     (if context.ibus.vehicleType = k.IBUS_VEHICLE_TYPE_E38_E39_E53 then
        [Call.IBusCommandGMDoorCenterLockButton]
      else [Call.IBusCommandGMDoorLockHigh])
   else [])

/-- `HandlerIBusIKEVehicleType` (handler.c 906-934). -/
def HandlerIBusIKEVehicleType (k : Consts) (x : Ext) (w : World) (pkt : List Nat) :
    World × List Call :=
  let rawVehicleType := (pkt.getD 4 0 >>> 4) &&& 0xF
  let detectedVehicleType := x.IBusGetVehicleType pkt
  if detectedVehicleType ≠ w.config.vehicleType ∧ detectedVehicleType ≠ 0xFF then
    if rawVehicleType = 0x0A ∨ rawVehicleType = 0x0F then
      ({ w with config :=
          { w.config with vehicleType := detectedVehicleType, ikeType := k.IBUS_IKE_TYPE_LOW } },
       [Call.ConfigSetVehicleType detectedVehicleType, Call.ConfigSetIKEType k.IBUS_IKE_TYPE_LOW])
    else if rawVehicleType = 0x02 then
      ({ w with config :=
          { w.config with vehicleType := detectedVehicleType, ikeType := k.IBUS_IKE_TYPE_LOW } },
       [Call.ConfigSetVehicleType detectedVehicleType, Call.ConfigSetIKEType k.IBUS_IKE_TYPE_LOW])
    else if rawVehicleType = 0x00 then
      ({ w with config :=
          { w.config with vehicleType := detectedVehicleType, ikeType := k.IBUS_IKE_TYPE_HIGH } },
       [Call.ConfigSetVehicleType detectedVehicleType, Call.ConfigSetIKEType k.IBUS_IKE_TYPE_HIGH])
    else
      ({ w with config := { w.config with vehicleType := detectedVehicleType } },
       [Call.ConfigSetVehicleType detectedVehicleType])
  else (w, [])

/-- The step of `HandlerIBusLCMLightStatus` in blinker state OFF (handler.c 953-965). -/
def blinkerOffStep (k : Consts) (context : HandlerContext_t) (lightStatus : Nat) :
    HandlerContext_t × List Call :=
  if CHECK_BIT lightStatus k.IBUS_LCM_DRV_SIG_BIT ≠ 0 ∧
      CHECK_BIT lightStatus k.IBUS_LCM_PSG_SIG_BIT = 0 then
    ({ context with blinkerCount := 2, blinkerStatus := HANDLER_BLINKER_DRV },
     [Call.IBusCommandLCMEnableBlinker k.IBUS_LCM_BLINKER_DRV])
  else if CHECK_BIT lightStatus k.IBUS_LCM_PSG_SIG_BIT ≠ 0 ∧
      CHECK_BIT lightStatus k.IBUS_LCM_DRV_SIG_BIT = 0 then
    ({ context with blinkerCount := 2, blinkerStatus := HANDLER_BLINKER_PSG },
     [Call.IBusCommandLCMEnableBlinker k.IBUS_LCM_BLINKER_PSG])
  else ({ context with blinkerCount := 2 }, [])

/-- The step of `HandlerIBusLCMLightStatus` in blinker state DRV or PSG
(handler.c 966-978 and 979-991): `ownBit` is the signal bit of the active side
and `otherBit` that of the opposite side.  The counter is a `uint8_t`. -/
def blinkerActiveStep (k : Consts) (context : HandlerContext_t) (lightStatus blinkCount : Nat)
    (ownBit otherBit : Nat) : HandlerContext_t × List Call :=
  if CHECK_BIT lightStatus otherBit ≠ 0 ∨ context.blinkerCount = blinkCount then
    ((if CHECK_BIT lightStatus ownBit = 0 then
        { context with blinkerStatus := HANDLER_BLINKER_OFF }
      else context),
     [Call.IBusCommandDIATerminateDiag k.IBUS_DEVICE_LCM])
  else
    ({ context with blinkerCount := (context.blinkerCount + 1) % 256 }, [])

/-- `HandlerIBusLCMLightStatus` (handler.c 947-994). -/
def HandlerIBusLCMLightStatus (k : Consts) (ConfigGetSetting : Nat → Nat)
    (context : HandlerContext_t) (pkt : List Nat) : HandlerContext_t × List Call :=
  let blinkCount := ConfigGetSetting k.CONFIG_SETTING_COMFORT_BLINKERS
  if blinkCount > 0x01 ∧ blinkCount ≠ 0xFF then
    let lightStatus := pkt.getD 4 0
    if context.blinkerStatus = HANDLER_BLINKER_OFF then
      blinkerOffStep k context lightStatus
    else if context.blinkerStatus = HANDLER_BLINKER_DRV then
      blinkerActiveStep k context lightStatus blinkCount
        k.IBUS_LCM_DRV_SIG_BIT k.IBUS_LCM_PSG_SIG_BIT
    else if context.blinkerStatus = HANDLER_BLINKER_PSG then
      blinkerActiveStep k context lightStatus blinkCount
        k.IBUS_LCM_PSG_SIG_BIT k.IBUS_LCM_DRV_SIG_BIT
    else (context, [])
  else (context, [])

/-- `HandlerIBusLCMDimmerStatus` (handler.c 1007-1011). -/
def HandlerIBusLCMDimmerStatus (k : Consts) (context : HandlerContext_t) :
    HandlerContext_t × List Call :=
  (context, [Call.IBusCommandDIAGetIOStatus k.IBUS_DEVICE_LCM])

/-- The five-byte vehicle identifier that `HandlerIBusLCMRedundantData` builds from
the packet (handler.c 1028-1034). -/
def vehicleIdOf (pkt : List Nat) : List Nat :=
  [pkt.getD 4 0, pkt.getD 5 0, pkt.getD 6 0, pkt.getD 7 0, (pkt.getD 8 0 >>> 4) &&& 0xF]

/-- `HandlerIBusLCMRedundantData` (handler.c 1024-1069); `memcmp` over the five
bytes is equality of the two five-byte lists. -/
def HandlerIBusLCMRedundantData (k : Consts) (w : World) (pkt : List Nat) : World × List Call :=
  let vehicleId := vehicleIdOf pkt
  let currentVehicleId := ConfigGetVehicleIdentity w.config
  if vehicleId ≠ currentVehicleId then
    let w1 : World := { w with config := ConfigSetVehicleIdentity w.config vehicleId }
    if w.context.ibusModuleStatus.RAD ≠ false ∧ w.context.ibusModuleStatus.MID = false ∧
        w.context.ibusModuleStatus.GT = false then
      ((HandlerSwitchUI k w1 k.IBus_UI_CD53).1,
       [Call.ConfigSetVehicleIdentity vehicleId, Call.IBusCommandIKEGetVehicleType] ++
       (HandlerSwitchUI k w1 k.IBus_UI_CD53).2)
    else
      (w1, [Call.ConfigSetVehicleIdentity vehicleId, Call.IBusCommandIKEGetVehicleType])
  else (w, [])

/-- The playback toggle of `HandlerIBusMFLButton` (handler.c 1098-1104 and
1111-1117). -/
def mflTogglePlayback (k : Consts) (context : HandlerContext_t) : List Call :=
  if context.ibus.cdChangerFunction = k.IBUS_CDC_FUNC_PLAYING then
    (if context.bt.playbackStatus = k.BC127_AVRCP_STATUS_PLAYING then [Call.BC127CommandPause]
     else [Call.BC127CommandPlay])
  else []

/-- `HandlerIBusMFLButton` (handler.c 1081-1120). -/
def HandlerIBusMFLButton (k : Consts) (ConfigGetSetting : Nat → Nat)
    (context : HandlerContext_t) (pkt : List Nat) : HandlerContext_t × List Call :=
  let mflButton := pkt.getD 4 0
  if ConfigGetSetting k.CONFIG_SETTING_HFP = k.CONFIG_SETTING_ON then
    let c1 : HandlerContext_t :=
      if mflButton = k.IBusMFLButtonVoicePress then
        { context with mflButtonStatus := HANDLER_MFL_STATUS_OFF }
      else context
    if mflButton = k.IBusMFLButtonVoiceRelease ∧ c1.mflButtonStatus = HANDLER_MFL_STATUS_OFF then
      (c1,
       if context.bt.callStatus = k.BC127_CALL_ACTIVE then [Call.BC127CommandCallEnd]
       else if context.bt.callStatus = k.BC127_CALL_INCOMING then [Call.BC127CommandCallAnswer]
       else if context.bt.callStatus = k.BC127_CALL_OUTGOING then [Call.BC127CommandCallEnd]
       else mflTogglePlayback k context)
    else if mflButton = k.IBusMFLButtonVoiceHold then
      ({ c1 with mflButtonStatus := HANDLER_MFL_STATUS_SPEAK_HOLD }, [Call.BC127CommandToggleVR])
    else (c1, [])
  else
    (context,
     if mflButton = k.IBusMFLButtonVoiceRelease then mflTogglePlayback k context else [])

/-- `HandlerIBusMFLVolume` (handler.c 1132-1142). -/
def HandlerIBusMFLVolume (k : Consts) (context : HandlerContext_t) (pkt : List Nat) :
    HandlerContext_t × List Call :=
  (context,
   if context.bt.callStatus ≠ k.BC127_CALL_INACTIVE then
     (if pkt.getD 4 0 = k.IBusMFLVolUp then [Call.BC127CommandVolume 13 VOLUME_UP]
      else if pkt.getD 4 0 = k.IBusMFLVolDown then [Call.BC127CommandVolume 13 VOLUME_DOWN]
      else [])
   else [])

/-- `HandlerIBusModuleStatusRequest` (handler.c 1155-1176); `now` is the value
returned by `TimerGetMillis()`. -/
def HandlerIBusModuleStatusRequest (k : Consts) (ConfigGetSetting : Nat → Nat) (now : Nat)
    (context : HandlerContext_t) (pkt : List Nat) : HandlerContext_t × List Call :=
  if pkt.getD k.IBUS_PKT_DST 0 = k.IBUS_DEVICE_CDC then
    ({ context with cdChangerLastPoll := now },
     [Call.IBusCommandSetModuleStatus k.IBUS_DEVICE_CDC (pkt.getD k.IBUS_PKT_SRC 0) 0x00])
  else if pkt.getD k.IBUS_PKT_DST 0 = k.IBUS_DEVICE_TEL ∧
      ConfigGetSetting k.CONFIG_SETTING_HFP = k.CONFIG_SETTING_ON then
    (context,
     [Call.IBusCommandSetModuleStatus k.IBUS_DEVICE_TEL (pkt.getD k.IBUS_PKT_SRC 0) 0x01])
  else (context, [])

/-- The navigation-computer branch of `HandlerIBusModuleStatusResponse`
(handler.c 1197-1210). -/
def moduleGTDetected (k : Consts) (w : World) : World × List Call :=
  ({ w with context :=
      { w.context with ibusModuleStatus := { w.context.ibusModuleStatus with GT := true } } },
   if w.config.uiMode ≠ k.IBus_UI_BMBT ∧ w.config.uiMode ≠ k.IBus_UI_MID_BMBT ∧
       w.config.uiMode ≠ k.IBus_UI_BUSINESS_NAV then
     [Call.IBusCommandDIAGetIdentity k.IBUS_DEVICE_GT,
      Call.IBusCommandDIAGetOSIdentity k.IBUS_DEVICE_GT]
   else [])

/-- The multi-info-display branch of `HandlerIBusModuleStatusResponse`
(handler.c 1216-1232). -/
def moduleMIDDetected (k : Consts) (w : World) : World × List Call :=
  let w1 : World :=
    { w with context :=
      { w.context with ibusModuleStatus := { w.context.ibusModuleStatus with MID := true } } }
  if w.config.uiMode ≠ k.IBus_UI_MID ∧ w.config.uiMode ≠ k.IBus_UI_MID_BMBT then
    if w1.context.ibusModuleStatus.GT = true then HandlerSwitchUI k w1 k.IBus_UI_MID_BMBT
    else HandlerSwitchUI k w1 k.IBus_UI_MID
  else (w1, [])

/-- `HandlerIBusModuleStatusResponse` (handler.c 1188-1244). -/
def HandlerIBusModuleStatusResponse (k : Consts) (w : World) (pkt : List Nat) :
    World × List Call :=
  let module := pkt.getD k.IBUS_PKT_SRC 0
  let flags := w.context.ibusModuleStatus
  if module = k.IBUS_DEVICE_DSP ∧ flags.DSP = false then
    ({ w with context := { w.context with ibusModuleStatus := { flags with DSP := true } } }, [])
  else if module = k.IBUS_DEVICE_GT ∧ flags.GT = false then
    moduleGTDetected k w
  else if module = k.IBUS_DEVICE_LCM ∧ flags.LCM = false then
    ({ w with context := { w.context with ibusModuleStatus := { flags with LCM := true } } }, [])
  else if module = k.IBUS_DEVICE_MID ∧ flags.MID = false then
    moduleMIDDetected k w
  else if module = k.IBUS_DEVICE_BMBT ∧ flags.BMBT = false then
    ({ w with context := { w.context with ibusModuleStatus := { flags with BMBT := true } } }, [])
  else if module = k.IBUS_DEVICE_RAD ∧ flags.RAD = false then
    ({ w with context := { w.context with ibusModuleStatus := { flags with RAD := true } } }, [])
  else (w, [])

/-! ## Scheduled tasks -/

/-- `HandlerTimerCDCAnnounce` (handler.c 1313-1328); `now` is the value returned by
`TimerGetMillis()`. -/
def HandlerTimerCDCAnnounce (k : Consts) (now : Nat) (context : HandlerContext_t) :
    HandlerContext_t × List Call :=
  if sub32 now context.cdChangerLastPoll ≥ HANDLER_CDC_ANOUNCE_TIMEOUT ∧
      context.ibus.ignitionStatus > k.IBUS_IGNITION_OFF then
    ({ context with cdChangerLastPoll := now },
     [Call.IBusCommandSetModuleStatus k.IBUS_DEVICE_CDC k.IBUS_DEVICE_LOC 0x00])
  else (context, [])

/-- `HandlerTimerCDCSendStatus` (handler.c 1341-1352); `now` is the value of its own
`TimerGetMillis()` call and `t2` that of the call in
`HandlerIBusBroadcastCDCStatus`. -/
def HandlerTimerCDCSendStatus (k : Consts) (now t2 : Nat) (context : HandlerContext_t) :
    HandlerContext_t × List Call :=
  if sub32 now context.cdChangerLastStatus ≥ HANDLER_CDC_STATUS_TIMEOUT ∧
      context.ibus.ignitionStatus > k.IBUS_IGNITION_OFF ∧
      (context.uiMode = k.IBus_UI_BMBT ∨ context.uiMode = k.IBus_UI_MID_BMBT) then
    HandlerIBusBroadcastCDCStatus k t2 context
  else (context, [])

/-- `HandlerTimerLCMIOStatus` (handler.c 1402-1411). -/
def HandlerTimerLCMIOStatus (k : Consts) (context : HandlerContext_t) :
    HandlerContext_t × List Call :=
  (context,
   if context.ibusModuleStatus.LCM ≠ false ∧
       context.ibus.ignitionStatus ≠ k.IBUS_IGNITION_OFF then
     [Call.IBusCommandDIAGetIOStatus k.IBUS_DEVICE_LCM]
   else [])

/-- `HandlerTimerOpenProfileErrors` (handler.c 1423-1440): for each profile index
below `BC127_PROFILE_COUNT` whose error flag is 1, the profile is opened again and
the flag is cleared in `bt->pairingErrors`. -/
def HandlerTimerOpenProfileErrors (k : Consts) (context : HandlerContext_t) :
    HandlerContext_t × List Call :=
  if strlen context.bt.activeDevice.macId > 0 then
    ({ context with bt :=
        { context.bt with pairingErrors :=
            context.bt.pairingErrors.enum.map fun p =>
              if p.1 < k.BC127_PROFILE_COUNT ∧ p.2 = 1 then 0 else p.2 } },
     (List.range k.BC127_PROFILE_COUNT).filterMap fun idx =>
       if context.bt.pairingErrors.getD idx 0 = 1 then
         some (Call.BC127CommandProfileOpen context.bt.activeDevice.macId
           (PROFILES.getD idx PROFILE_NONE))
       else none)
  else (context, [])

/-- `HandlerTimerPoweroff` (handler.c 1452-1474); `now` is the value returned by
`TimerGetMillis()`, and the writes to the line `IBUS_EN` are recorded as calls. -/
def HandlerTimerPoweroff (k : Consts) (config : Config_t) (now : Nat)
    (context : HandlerContext_t) : HandlerContext_t × List Call :=
  if config.poweroffTimeoutDisabled = k.CONFIG_SETTING_ENABLED then
    if sub32 now context.ibus.rxLastStamp ≥ HANDLER_POWER_TIMEOUT_MILLIS then
      if context.powerStatus = HANDLER_POWER_ON then
        ({ context with powerStatus := HANDLER_POWER_OFF },
         [Call.UARTDestroy k.IBUS_UART_MODULE, Call.TimerDelayMicroseconds 500, Call.IBUS_EN 0])
      else
        ({ context with powerStatus := HANDLER_POWER_ON }, [Call.IBUS_EN 1])
    else (context, [])
  else (context, [])

/-- `HandlerTimerScanDevices` (handler.c 1486-1500); the interval counter is a
`uint8_t`. -/
def HandlerTimerScanDevices (k : Consts) (context : HandlerContext_t) :
    HandlerContext_t × List Call :=
  if ((context.bt.activeDevice.deviceId = 0 ∧
        context.btConnectionStatus = HANDLER_BT_CONN_OFF) ∨
      context.scanIntervals = 12) ∧
      context.ibus.ignitionStatus > k.IBUS_IGNITION_OFF then
    ({ context with scanIntervals := 0 },
     [Call.BC127ClearInactivePairedDevices, Call.BC127CommandList])
  else
    ({ context with scanIntervals := (context.scanIntervals + 1) % 256 }, [])

/-! ## The handler as a reactive system -/

/-- The events and scheduled tasks registered by `HandlerInit` (handler.c 46-200),
each with its payload. -/
inductive Event where
  | BC127Boot
  | BC127BootStatus
  | BC127CallStatus
  | BC127DeviceLinkConnected
  | BC127DeviceDisconnected
  | BC127DeviceFound (macId : List Nat)
  | BC127PlaybackStatusChange
  | UICloseConnection
  | UIInitiateConnection (deviceId : Nat)
  | IBusCDStatusRequest (pkt : List Nat)
  | IBusFirstMessageReceived
  | IBusDoorsFlapsStatusResponse (pkt : List Nat)
  | IBusGTDIAIdentityResponse (type : Nat)
  | IBusGTDIAOSIdentityResponse (pkt : List Nat)
  | IBusIKEIgnitionStatus (pkt : List Nat)
  | IBusIKESpeedRPMUpdate (pkt : List Nat)
  | IBusIKEVehicleType (pkt : List Nat)
  | IBusLCMLightStatus (pkt : List Nat)
  | IBusLCMDimmerStatus
  | IBusLCMRedundantData (pkt : List Nat)
  | IBusMFLButton (pkt : List Nat)
  | IBusMFLVolume (pkt : List Nat)
  | IBusModuleStatusRequest (pkt : List Nat)
  | IBusModuleStatusResponse (pkt : List Nat)
  | TimerCDCAnnounce
  | TimerCDCSendStatus
  | TimerDeviceConnection
  | TimerLCMIOStatus
  | TimerOpenProfileErrors
  | TimerPoweroff
  | TimerScanDevices
  deriving DecidableEq, Repr

/-- What surrounds the handler when an event is delivered: the Bluetooth and bus
objects as the transport layers left them, the configuration store, and the
values of the first and second `TimerGetMillis()` call of the callback. -/
structure Env where
  bt : BC127_t
  ibus : IBus_t
  config : Config_t
  t1 : Nat
  t2 : Nat

/-- A handler that leaves the configuration store as it is. -/
def keepConfig (config : Config_t) (r : HandlerContext_t × List Call) : World × List Call :=
  (⟨r.1, config⟩, r.2)

/-- The delivery of one event: the callback registered for it by `HandlerInit` runs
on the context, with the Bluetooth and bus objects and the configuration store as
`env` gives them. -/
def step (k : Consts) (x : Ext) (env : Env) (context : HandlerContext_t) (e : Event) :
    World × List Call :=
  let c : HandlerContext_t := { context with bt := env.bt, ibus := env.ibus }
  let s := env.config.settings
  match e with
  | .BC127Boot => keepConfig env.config (HandlerBC127Boot c)
  | .BC127BootStatus => keepConfig env.config (HandlerBC127BootStatus k c)
  | .BC127CallStatus => keepConfig env.config (HandlerBC127CallStatus k s c)
  | .BC127DeviceLinkConnected => keepConfig env.config (HandlerBC127DeviceLinkConnected k s c)
  | .BC127DeviceDisconnected => keepConfig env.config (HandlerBC127DeviceDisconnected k s c)
  | .BC127DeviceFound macId => keepConfig env.config (HandlerBC127DeviceFound k s c macId)
  | .BC127PlaybackStatusChange => keepConfig env.config (HandlerBC127PlaybackStatus k c)
  | .UICloseConnection => keepConfig env.config (HandlerUICloseConnection k c)
  | .UIInitiateConnection deviceId =>
      keepConfig env.config (HandlerUIInitiateConnection k c deviceId)
  | .IBusCDStatusRequest pkt =>
      keepConfig env.config (HandlerIBusCDCStatus k s env.t1 env.t2 c pkt)
  | .IBusFirstMessageReceived =>
      keepConfig env.config (HandlerIBusFirstMessageReceived k s c)
  | .IBusDoorsFlapsStatusResponse pkt =>
      keepConfig env.config (HandlerIBusGMDoorsFlapsStatusResponse c pkt)
  | .IBusGTDIAIdentityResponse type => HandlerIBusGTDIAIdentityResponse ⟨c, env.config⟩ type
  | .IBusGTDIAOSIdentityResponse pkt =>
      HandlerIBusGTDIAOSIdentityResponse k x ⟨c, env.config⟩ pkt
  | .IBusIKEIgnitionStatus pkt =>
      keepConfig env.config (HandlerIBusIKEIgnitionStatus k s env.t1 c pkt)
  | .IBusIKESpeedRPMUpdate pkt =>
      keepConfig env.config (HandlerIBusIKESpeedRPMUpdate k s c pkt)
  | .IBusIKEVehicleType pkt => HandlerIBusIKEVehicleType k x ⟨c, env.config⟩ pkt
  | .IBusLCMLightStatus pkt => keepConfig env.config (HandlerIBusLCMLightStatus k s c pkt)
  | .IBusLCMDimmerStatus => keepConfig env.config (HandlerIBusLCMDimmerStatus k c)
  | .IBusLCMRedundantData pkt => HandlerIBusLCMRedundantData k ⟨c, env.config⟩ pkt
  | .IBusMFLButton pkt => keepConfig env.config (HandlerIBusMFLButton k s c pkt)
  | .IBusMFLVolume pkt => keepConfig env.config (HandlerIBusMFLVolume k c pkt)
  | .IBusModuleStatusRequest pkt =>
      keepConfig env.config (HandlerIBusModuleStatusRequest k s env.t1 c pkt)
  | .IBusModuleStatusResponse pkt => HandlerIBusModuleStatusResponse k ⟨c, env.config⟩ pkt
  | .TimerCDCAnnounce => keepConfig env.config (HandlerTimerCDCAnnounce k env.t1 c)
  | .TimerCDCSendStatus => keepConfig env.config (HandlerTimerCDCSendStatus k env.t1 env.t2 c)
  | .TimerDeviceConnection => keepConfig env.config (HandlerTimerDeviceConnection k c)
  | .TimerLCMIOStatus => keepConfig env.config (HandlerTimerLCMIOStatus k c)
  | .TimerOpenProfileErrors => keepConfig env.config (HandlerTimerOpenProfileErrors k c)
  | .TimerPoweroff => keepConfig env.config (HandlerTimerPoweroff k env.config env.t1 c)
  | .TimerScanDevices => keepConfig env.config (HandlerTimerScanDevices k c)

/-- A session: the events delivered one after the other, each in its own
surroundings.  The result is the final context and the calls of each delivery,
in order. -/
def run (k : Consts) (x : Ext) :
    HandlerContext_t → List (Env × Event) → HandlerContext_t × List (List Call)
  | context, [] => (context, [])
  | context, d :: ds =>
    let r := step k x d.1 context d.2
    let rest := run k x r.1.context ds
    (rest.1, r.2 :: rest.2)

/-- Light-status messages delivered one after the other with the settings
unchanged; the result is the final context and the calls of each message. -/
def lightStatusRun (k : Consts) (ConfigGetSetting : Nat → Nat) :
    HandlerContext_t → List (List Nat) → HandlerContext_t × List (List Call)
  | context, [] => (context, [])
  | context, pkt :: pkts =>
    let r := HandlerIBusLCMLightStatus k ConfigGetSetting context pkt
    let rest := lightStatusRun k ConfigGetSetting r.1 pkts
    (rest.1, r.2 :: rest.2)

/-- The light-control enable-blinker command. -/
def Call.isEnableBlinker : Call → Bool
  | .IBusCommandLCMEnableBlinker _ => true
  | _ => false

/-- The terminate-diagnostic-session command. -/
def Call.isTerminateDiag : Call → Bool
  | .IBusCommandDIATerminateDiag _ => true
  | _ => false

/-- The persist of the vehicle identifier. -/
def Call.isSetVehicleIdentity : Call → Bool
  | .ConfigSetVehicleIdentity _ => true
  | _ => false

/-- The vehicle-type request. -/
def Call.isGetVehicleType : Call → Bool
  | .IBusCommandIKEGetVehicleType => true
  | _ => false

/-- The identity requests sent to the navigation computer on its first detection. -/
def Call.isGTIdentityRequest : Call → Bool
  | .IBusCommandDIAGetIdentity _ => true
  | .IBusCommandDIAGetOSIdentity _ => true
  | _ => false

/-- The persist of a UI mode, made by `HandlerSwitchUI` only. -/
def Call.isSwitchUI : Call → Bool
  | .ConfigSetUIMode _ => true
  | _ => false

/-- The Bluetooth-state command. -/
def Call.isBtState : Call → Bool
  | .BC127CommandBtState _ _ => true
  | _ => false

/-- The list command. -/
def Call.isList : Call → Bool
  | .BC127CommandList => true
  | _ => false

/-- The module-status-response event. -/
def Event.isModuleStatusResponse : Event → Bool
  | .IBusModuleStatusResponse _ => true
  | _ => false

/-! ## Concrete objects for evaluation -/

/-- A Bluetooth object with no device attached. -/
def btIdle : BC127_t :=
  { activeDevice := { deviceId := 0, avrcpLinkId := 0, a2dpLinkId := 0, hfpLinkId := 0, macId := [] }
    callStatus := 0, scoStatus := 0, playbackStatus := 0, discoverable := 1 }

/-- A Bluetooth object with a device whose A2DP and AVRCP links are up. -/
def btLinked : BC127_t :=
  { activeDevice :=
      { deviceId := 1, avrcpLinkId := 11, a2dpLinkId := 10, hfpLinkId := 0,
        macId := [0x32, 0x30, 0x46, 0x41, 0x42, 0x42] }
    callStatus := 0, scoStatus := 0, playbackStatus := 1, discoverable := 0 }

/-- A Bluetooth object whose active device has a MAC id but no A2DP link. -/
def btLinkDown : BC127_t :=
  { activeDevice :=
      { deviceId := 1, avrcpLinkId := 0, a2dpLinkId := 0, hfpLinkId := 0,
        macId := [0x32, 0x30, 0x46, 0x41, 0x42, 0x42] }
    callStatus := 0, scoStatus := 0, playbackStatus := 0, discoverable := 1 }

/-- The context as `HandlerInit` (handler.c 27-45) leaves it, for the given
objects, UI mode and timer value. -/
def initContext (bt : BC127_t) (ibus : IBus_t) (uiMode now : Nat) : HandlerContext_t :=
  { bt := bt, ibus := ibus
    btDeviceConnRetries := 0
    btSelectedDevice := HANDLER_BT_SELECTED_DEVICE_NONE
    btStatus := 0, btStatusCount := 0
    btStartupIsRun := 0
    btConnectionStatus := HANDLER_BT_CONN_OFF
    uiMode := uiMode
    seekMode := HANDLER_CDC_SEEK_MODE_NONE
    blinkerStatus := HANDLER_BLINKER_OFF
    blinkerCount := 0
    mflButtonStatus := HANDLER_MFL_STATUS_OFF
    ibusModuleStatus := ⟨false, false, false, false, false, false, false⟩
    bodyModuleStatus := ⟨false, false⟩
    powerStatus := HANDLER_POWER_ON
    scanIntervals := 0
    cdChangerLastPoll := now
    cdChangerLastStatus := now }

/-- Every setting reads as `CONFIG_SETTING_ON` (0x01 in `hdr`). -/
def settingsAllOn : Nat → Nat := fun _ => 0x01

/-- Every setting reads as `CONFIG_SETTING_OFF` (0x00 in `hdr`). -/
def settingsAllOff : Nat → Nat := fun _ => 0x00

/-- Settings in which the comfort-blinker count (address 0x14 in `hdr`) is `n` and
every other setting reads as `CONFIG_SETTING_ON`. -/
def settingsBlinkers (n : Nat) : Nat → Nat := fun a => if a = 0x14 then n else 0x01

/-- A configuration store with every setting on, the board-monitor UI and a stored
vehicle identifier. -/
def configSample : Config_t :=
  { settings := settingsAllOn
    uiMode := 2
    vehicleType := 0x01
    vehicleIdentity := [0x54, 0x50, 0x4E, 0x66, 0x00]
    navType := 0
    ikeType := 0x06
    poweroffTimeoutDisabled := 0 }

/-- A case-insensitive string comparison and a vehicle-type decoder for the
concrete examples: upper-case letters are compared as lower-case ones, and the
vehicle type is read from the high nibble of `pkt[4]`; the characters above 127 are
removed from a text, and clearing the paired devices empties the array. -/
def extSample : Ext :=
  { IBusGetVehicleType := fun pkt =>
      if (pkt.getD 4 0 >>> 4) &&& 0xF = 0x0A ∨ (pkt.getD 4 0 >>> 4) &&& 0xF = 0x0F then 0x02
      else if (pkt.getD 4 0 >>> 4) &&& 0xF = 0x02 ∨ (pkt.getD 4 0 >>> 4) &&& 0xF = 0x00 then 0x01
      else 0xFF
    UtilsStricmp := fun a b =>
      if a.map (fun c => if 0x41 ≤ c ∧ c ≤ 0x5A then c + 0x20 else c) =
         b.map (fun c => if 0x41 ≤ c ∧ c ≤ 0x5A then c + 0x20 else c) then 0 else 1
    UtilsRemoveNonAscii := fun text => String.mk (text.data.filter fun c => c.toNat < 128)
    UtilsDisplayValueInit := fun text status =>
      { status := status, text := text, index := 0, length := text.length, timeout := 0 }
    BC127ClearPairedDevices := fun bt => { bt with pairedDevices := [], pairedDevicesCount := 0 } }

/-- Surroundings with the ignition in position 1, a linked device and every
setting on. -/
def envIgnitionOn : Env :=
  { bt := btLinked, ibus := ⟨1, 9, 255, 0, 0⟩, config := configSample, t1 := 500, t2 := 500 }

/-- Surroundings with the ignition off and a linked device. -/
def envIgnitionOff : Env :=
  { bt := btLinked, ibus := ⟨0, 9, 255, 0, 0⟩, config := configSample, t1 := 500, t2 := 500 }

/-- A light-status message in which only the driver-side signal bit (bit 5 in
`hdr`) is set. -/
def pktDriverSignal : List Nat := [0xD0, 0x07, 0xBF, 0x5B, 0x20, 0x00, 0x00, 0x00]

/-- A light-status message in which only the passenger-side signal bit (bit 6 in
`hdr`) is set. -/
def pktPassengerSignal : List Nat := [0xD0, 0x07, 0xBF, 0x5B, 0x40, 0x00, 0x00, 0x00]

/-- A light-status message with neither signal bit set. -/
def pktNoSignal : List Nat := [0xD0, 0x07, 0xBF, 0x5B, 0x00, 0x00, 0x00, 0x00]

/-- A redundant-data message, the one quoted in the header comment of
`HandlerIBusLCMRedundantData`. -/
def pktRedundantData : List Nat :=
  [0xD0, 0x10, 0x80, 0x54, 0x50, 0x4E, 0x66, 0x05, 0x80, 0x06, 0x10, 0x42, 0x38, 0x07, 0x00,
   0x06, 0x05, 0x81]

/-- Every module discovery flag that is set in `a` is set in `b`. -/
@[reducible] def flagsLe (a b : HandlerModuleStatus_t) : Prop :=
  (a.BMBT = true → b.BMBT = true) ∧ (a.DSP = true → b.DSP = true) ∧
  (a.GT = true → b.GT = true) ∧ (a.IKE = true → b.IKE = true) ∧
  (a.LCM = true → b.LCM = true) ∧ (a.MID = true → b.MID = true) ∧
  (a.RAD = true → b.RAD = true)

/-- The number of deliveries of a session that are module status responses and
whose calls include one selected by `p`; `calls` holds the calls of each delivery,
as `run` returns them. -/
def firstDetectionCount (p : Call → Bool) (steps : List (Env × Event))
    (calls : List (List Call)) : Nat :=
  ((steps.zip calls).filter fun sc => sc.1.2.isModuleStatusResponse && sc.2.any p).length

/-- A Bluetooth object with a linked device and two paired devices. -/
def btPaired : BC127_t :=
  { btLinked with
    pairedDevices :=
      [{ macId := [0x32, 0x30, 0x46, 0x41, 0x42, 0x42] },
       { macId := [0x34, 0x43, 0x37, 0x34, 0x42, 0x46] }] }

/-- A module status response from the navigation computer (source 0x3B in `hdr`). -/
def pktStatusGT : List Nat := [0x3B, 0x04, 0xBF, 0x02, 0x30, 0x00]

/-- A module status response from the multi-info display (source 0xC0 in `hdr`). -/
def pktStatusMID : List Nat := [0xC0, 0x04, 0xBF, 0x02, 0x00, 0x00]

/-- Surroundings with the ignition in position 1 and the CD53 UI stored. -/
def envCD53 : Env :=
  { bt := btLinked, ibus := ⟨1, 9, 255, 0, 0⟩, config := { configSample with uiMode := 1 },
    t1 := 500, t2 := 500 }

/-- The writes to the amplifier-enable line `PAM_SHDN` and to the telephone-mute
line `TEL_MUTE`. -/
def Call.isLineWrite : Call → Bool
  | .PAM_SHDN _ => true
  | .TEL_MUTE _ => true
  | _ => false

/-- The writes to the two lines and the settle delay between them. -/
def Call.isLineWriteOrDelay : Call → Bool
  | .PAM_SHDN _ => true
  | .TEL_MUTE _ => true
  | .TimerDelayMicroseconds _ => true
  | _ => false

/-- The seek press commands. -/
def Call.isSeekPress : Call → Bool
  | .BC127CommandForwardSeekPress => true
  | .BC127CommandBackwardSeekPress => true
  | _ => false

/-- The set-up and tear-down calls of the UI controllers. -/
def Call.isUIInitOrDestroy : Call → Bool
  | .CD53Init => true
  | .BMBTInit => true
  | .MIDInit => true
  | .CD53Destroy => true
  | .BMBTDestroy => true
  | .MIDDestroy => true
  | _ => false

/-- A Bluetooth object with a linked device and an active call whose SCO channel
is open (call status 1 and SCO status 1 in `hdr`). -/
def btCallActive : BC127_t :=
  { btLinked with callStatus := 1, scoStatus := 1 }

/-- A configuration store in which the power-off timeout feature reads as
`CONFIG_SETTING_ENABLED` (0x01 in `hdr`). -/
def configPoweroff : Config_t :=
  { configSample with poweroffTimeoutDisabled := 0x01 }

/-- Surroundings with the ignition off, no device attached and the timer at `now`. -/
def envScanOff (now : Nat) : Env :=
  { bt := btIdle, ibus := ⟨0, 2, 255, 0, 0⟩, config := configSample, t1 := now, t2 := now }

/-- An OS identity response of the navigation computer that carries "BMWC01S" in
`pkt[4..10]`. -/
def pktOSIdentityC01S : List Nat :=
  [0x3B, 0x0B, 0x3F, 0xA0, 0x42, 0x4D, 0x57, 0x43, 0x30, 0x31, 0x53, 0x00]

/-- An OS identity response that carries "BMWX99S", which is neither signature. -/
def pktOSIdentityOther : List Nat :=
  [0x3B, 0x0B, 0x3F, 0xA0, 0x42, 0x4D, 0x57, 0x58, 0x39, 0x39, 0x53, 0x00]

/-- A steering-wheel button message with button code `b` in `pkt[4]`. -/
def pktMFLButton (b : Nat) : List Nat := [0x50, 0x04, 0xC8, 0x3B, b, 0x00]

/-- A CD-changer request with command `cmd` in `pkt[4]` and argument `arg` in
`pkt[5]`. -/
def pktCDCRequest (cmd arg : Nat) : List Nat := [0x68, 0x05, 0x18, 0x38, cmd, arg, 0x00]

/-! ## Board-monitor controller: constants and data (`ui/bmbt.h`) -/

def BMBT_DISPLAY_OFF : Nat := 0x00
def BMBT_DISPLAY_TONE_SEL : Nat := 0x01
def BMBT_DISPLAY_INFO : Nat := 0x02
def BMBT_DISPLAY_ON : Nat := 0x03
def BMBT_HEADER_BT : Nat := 1
def BMBT_HEADER_PB_STAT : Nat := 2
def BMBT_HEADER_GAIN : Nat := 5
def BMBT_HEADER_DEV_NAME : Nat := 6
def BMBT_MENU_NONE : Nat := 0
def BMBT_MENU_MAIN : Nat := 1
def BMBT_MENU_DASHBOARD : Nat := 2
def BMBT_MENU_DEVICE_SELECTION : Nat := 3
def BMBT_MENU_SETTINGS : Nat := 4
def BMBT_MENU_SETTINGS_AUDIO : Nat := 5
def BMBT_MENU_SETTINGS_COMFORT : Nat := 6
def BMBT_MENU_SETTINGS_CALLING : Nat := 7
def BMBT_MENU_SETTINGS_UI : Nat := 8
def BMBT_MENU_DASHBOARD_FRESH : Nat := 255
def BMBT_MENU_IDX_BACK : Nat := 7
def BMBT_MENU_IDX_DASHBOARD : Nat := 0
def BMBT_MENU_IDX_DEVICE_SELECTION : Nat := 1
def BMBT_MENU_IDX_SETTINGS : Nat := 2
def BMBT_MENU_IDX_SETTINGS_AUDIO : Nat := 0
def BMBT_MENU_IDX_SETTINGS_CALLING : Nat := 1
def BMBT_MENU_IDX_SETTINGS_COMFORT : Nat := 2
def BMBT_MENU_IDX_SETTINGS_UI : Nat := 3
def BMBT_MENU_IDX_SETTINGS_AUDIO_AUTOPLAY : Nat := 0
def BMBT_MENU_IDX_SETTINGS_AUDIO_DAC_GAIN : Nat := 1
def BMBT_MENU_IDX_SETTINGS_AUDIO_DSP_INPUT : Nat := 2
def BMBT_MENU_IDX_SETTINGS_CALLING_HFP : Nat := 0
def BMBT_MENU_IDX_SETTINGS_CALLING_MIC_BIAS : Nat := 1
def BMBT_MENU_IDX_SETTINGS_CALLING_MIC_GAIN : Nat := 2
def BMBT_MENU_IDX_SETTINGS_CALLING_TCU_MODE : Nat := 3
def BMBT_MENU_IDX_SETTINGS_COMFORT_LOCKS : Nat := 0
def BMBT_MENU_IDX_SETTINGS_COMFORT_BLINKERS : Nat := 1
def BMBT_MENU_IDX_SETTINGS_COMFORT_VEHICLE_TYPE : Nat := 2
def BMBT_MENU_IDX_SETTINGS_UI_DEFAULT_MENU : Nat := 0
def BMBT_MENU_IDX_SETTINGS_UI_METADATA_MODE : Nat := 1
def BMBT_MENU_IDX_PAIRING_MODE : Nat := 0
def BMBT_MENU_IDX_CLEAR_PAIRING : Nat := 1
def BMBT_MENU_IDX_FIRST_DEVICE : Nat := 2
def BMBT_MENU_TIMER_WRITE_INT : Nat := 100
def BMBT_MENU_TIMER_WRITE_TIMEOUT : Nat := 500
def BMBT_HEADER_TIMER_WRITE_INT : Nat := 50
def BMBT_HEADER_TIMER_WRITE_TIMEOUT : Nat := 100
def BMBT_MENU_HEADER_TIMER_OFF : Nat := 255
def BMBT_METADATA_MODE_OFF : Nat := 0x00
def BMBT_METADATA_MODE_PARTY : Nat := 0x01
def BMBT_METADATA_MODE_CHUNK : Nat := 0x02
def BMBT_MODE_INACTIVE : Nat := 0
def BMBT_MODE_ACTIVE : Nat := 1
def BMBT_NAV_BOOT : Nat := 0x10
def BMBT_NAV_STATE_OFF : Nat := 0
def BMBT_NAV_STATE_ON : Nat := 1

/-- The ten values of the `BMBT_MENU_*` constants that `menu` is assigned. -/
def BMBT_MENUS : List Nat :=
  [BMBT_MENU_NONE, BMBT_MENU_MAIN, BMBT_MENU_DASHBOARD, BMBT_MENU_DEVICE_SELECTION,
   BMBT_MENU_SETTINGS, BMBT_MENU_SETTINGS_AUDIO, BMBT_MENU_SETTINGS_COMFORT,
   BMBT_MENU_SETTINGS_CALLING, BMBT_MENU_SETTINGS_UI, BMBT_MENU_DASHBOARD_FRESH]

/-- Named constants used by `ui/bmbt.c` beyond those of `Consts`; their defining
headers (`lib/ibus.h`, `lib/bc127.h`, `lib/config.h`, `lib/event.h`, `lib/utils.h`)
are absent, and every function of the controller takes them as a parameter.
`BC127CVCGainTable` is the table of microphone gains of `lib/bc127.c`. -/
structure UIConsts where
  IBUS_CMD_GT_WRITE_INDEX : Nat
  IBUS_CMD_GT_WRITE_INDEX_TMC : Nat
  IBUS_CMD_GT_WRITE_ZONE : Nat
  IBUS_CMD_GT_WRITE_STATIC : Nat
  IBUS_GT_MKIII_NEW_UI : Nat
  IBUS_GT_MKIV_STATIC : Nat
  IBUS_GT_RADIO_SCREEN_OFF : Nat
  IBUS_GT_MENU_CLEAR : Nat
  IBUS_GT_TONE_MENU_OFF : Nat
  IBUS_GT_SEL_MENU_OFF : Nat
  IBUS_RADIO_TYPE_C43 : Nat
  IBUS_RADIO_TYPE_BM53 : Nat
  IBUS_VEHICLE_TYPE_E46_Z4 : Nat
  BC127_AVRCP_STATUS_PAUSED : Nat
  CONFIG_SETTING_METADATA_MODE : Nat
  CONFIG_SETTING_DAC_VOL : Nat
  CONFIG_SETTING_MIC_BIAS_ADDRESS : Nat
  CONFIG_SETTING_COMFORT_LOCKS : Nat
  CONFIG_SETTING_BMBT_DEFAULT_MENU : Nat
  UIEvent_CloseConnection : Nat
  UIEvent_InitiateConnection : Nat
  UTILS_DISPLAY_TEXT_SIZE : Nat
  BC127CVCGainTable : List Nat

/-- One concrete assignment of values to the constants of `UIConsts`, on which the
controller is evaluated in the concrete examples.  The general theorems hold for
every assignment. -/
def uhdr : UIConsts where
  IBUS_CMD_GT_WRITE_INDEX := 0x60
  IBUS_CMD_GT_WRITE_INDEX_TMC := 0x61
  IBUS_CMD_GT_WRITE_ZONE := 0x62
  IBUS_CMD_GT_WRITE_STATIC := 0x63
  IBUS_GT_MKIII_NEW_UI := 4
  IBUS_GT_MKIV_STATIC := 6
  IBUS_GT_RADIO_SCREEN_OFF := 0x02
  IBUS_GT_MENU_CLEAR := 0x0C
  IBUS_GT_TONE_MENU_OFF := 0x08
  IBUS_GT_SEL_MENU_OFF := 0x04
  IBUS_RADIO_TYPE_C43 := 1
  IBUS_RADIO_TYPE_BM53 := 2
  IBUS_VEHICLE_TYPE_E46_Z4 := 0x02
  BC127_AVRCP_STATUS_PAUSED := 0
  CONFIG_SETTING_METADATA_MODE := 0x0D
  CONFIG_SETTING_DAC_VOL := 0x0E
  CONFIG_SETTING_MIC_BIAS_ADDRESS := 0x0F
  CONFIG_SETTING_COMFORT_LOCKS := 0x15
  CONFIG_SETTING_BMBT_DEFAULT_MENU := 0x10
  UIEvent_CloseConnection := 64
  UIEvent_InitiateConnection := 65
  UTILS_DISPLAY_TEXT_SIZE := 255
  BC127CVCGainTable :=
    [0xE5, 0xE9, 0xEB, 0xEF, 0xF3, 0xF5, 0xF8, 0xFC, 0xFF, 0x02, 0x05, 0x09, 0x0C, 0x0F,
     0x12, 0x15, 0x18, 0x1B, 0x1E, 0x21, 0x24, 0x27]

/-- The bit fields and the index type of `BMBTStatus_t` (bmbt.h): `playerMode` and
`navState` are one bit wide, `displayMode` two and `radType` four. -/
structure BMBTStatus_t where
  playerMode : Nat
  displayMode : Nat
  navState : Nat
  radType : Nat
  navIndexType : Nat
  deriving DecidableEq, Repr

/-- The controller context of `bmbt.h`; `bt` and `ibus` hold the objects the two
pointers refer to. -/
structure BMBTContext_t where
  bt : BC127_t
  ibus : IBus_t
  menu : Nat
  status : BMBTStatus_t
  writtenIndices : Nat
  timerHeaderIntervals : Nat
  timerMenuIntervals : Nat
  displayUpdateTaskId : Nat
  headerWriteTaskId : Nat
  menuWriteTaskId : Nat
  mainDisplay : UtilsAbstractDisplayValue_t
  deriving DecidableEq, Repr

/-- The controller context together with the configuration store, for the
functions of the controller that write a setting. -/
structure BMBTWorld where
  context : BMBTContext_t
  config : Config_t

/-- Modelled from the spec: `ConfigGetSetting` of `lib/config.h`, absent; it returns
the byte stored in the "flat table of named settings" at the address. -/
def ConfigGetSetting (config : Config_t) (address : Nat) : Nat :=
  config.settings address

/-- Modelled from the spec: `ConfigSetSetting` of `lib/config.h`, absent; it stores
the byte at the address, and a later get of that address returns it. -/
def ConfigSetSetting (config : Config_t) (address value : Nat) : Config_t :=
  { config with settings := fun a => if a = address then value else config.settings a }

/-- C `snprintf(buffer, size, ...)` on the formatted text: at most `size - 1`
characters are stored. -/
def snprintf (size : Nat) (text : String) : String :=
  String.mk (text.data.take (size - 1))

/-- C `strncpy(buffer, text, count)` into a buffer that ends after `count`
characters: the first `count` characters of the text. -/
def strncpy (text : String) (count : Nat) : String :=
  String.mk (text.data.take count)

/-- The entry `bt->pairedDevices[idx]`.  An index outside the array is not defined
in C; the model reads an entry with an empty MAC id and name there. -/
def pairedDevice (bt : BC127_t) (idx : Nat) : BC127PairedDevice_t :=
  bt.pairedDevices.getD idx { macId := [], deviceName := "" }

/-! ## Board-monitor controller: functions of `ui/bmbt.c` -/

/-- `BMBTInit` (bmbt.c 22-121): the context it sets up; the three task ids are the
values returned by `TimerRegisterScheduledTask`. -/
def BMBTInit (u : UIConsts) (x : Ext) (bt : BC127_t) (ibus : IBus_t)
    (headerWriteTaskId menuWriteTaskId displayUpdateTaskId : Nat) : BMBTContext_t :=
  { bt := bt, ibus := ibus
    menu := BMBT_MENU_NONE
    status :=
      { playerMode := BMBT_MODE_INACTIVE
        displayMode := BMBT_DISPLAY_OFF
        navState := BMBT_NAV_STATE_ON
        radType := u.IBUS_RADIO_TYPE_BM53 % 16
        navIndexType := u.IBUS_CMD_GT_WRITE_INDEX_TMC }
    writtenIndices := 3
    timerHeaderIntervals := BMBT_MENU_HEADER_TIMER_OFF
    timerMenuIntervals := BMBT_MENU_HEADER_TIMER_OFF
    displayUpdateTaskId := displayUpdateTaskId
    headerWriteTaskId := headerWriteTaskId
    menuWriteTaskId := menuWriteTaskId
    mainDisplay := x.UtilsDisplayValueInit "Bluetooth" BMBT_DISPLAY_OFF }

/-- `BMBTMainAreaRefresh` (bmbt.c 206-212). -/
def BMBTMainAreaRefresh (context : BMBTContext_t) : BMBTContext_t × List Call :=
  ((if context.mainDisplay.length ≤ 9 then
      { context with mainDisplay := { context.mainDisplay with index := 0 } }
    else context),
   [Call.TimerTriggerScheduledTask context.displayUpdateTaskId])

/-- `BMBTMenuRefresh` (bmbt.c 224-234). -/
def BMBTMenuRefresh (u : UIConsts) (context : BMBTContext_t) : List Call :=
  if (context.menu ≠ BMBT_MENU_DASHBOARD ∧ context.menu ≠ BMBT_MENU_DASHBOARD_FRESH) ∨
      context.ibus.gtVersion ≠ u.IBUS_GT_MKIV_STATIC then
    [Call.IBusCommandGTUpdate context.status.navIndexType]
  else
    [Call.IBusCommandGTUpdate u.IBUS_CMD_GT_WRITE_STATIC]

/-- `BMBTSetMainDisplayText` (bmbt.c 236-249); the text buffer ends after
`UTILS_DISPLAY_TEXT_SIZE - 1` characters. -/
def BMBTSetMainDisplayText (u : UIConsts) (context : BMBTContext_t) (str : String)
    (timeout : Int) (autoUpdate : Nat) : BMBTContext_t × List Call :=
  ({ context with mainDisplay :=
      { context.mainDisplay with
        text := strncpy str (u.UTILS_DISPLAY_TEXT_SIZE - 1)
        length := (strncpy str (u.UTILS_DISPLAY_TEXT_SIZE - 1)).length
        index := 0
        timeout := timeout } },
   if autoUpdate = 1 then [Call.TimerTriggerScheduledTask context.displayUpdateTaskId] else [])

/-- `BMBTTriggerWriteHeader` (bmbt.c 261-267). -/
def BMBTTriggerWriteHeader (context : BMBTContext_t) : BMBTContext_t × List Call :=
  if context.timerHeaderIntervals = BMBT_MENU_HEADER_TIMER_OFF then
    ({ context with timerHeaderIntervals := 0 },
     [Call.TimerResetScheduledTask context.headerWriteTaskId])
  else (context, [])

/-- `BMBTTriggerWriteMenu` (bmbt.c 279-295). -/
def BMBTTriggerWriteMenu (u : UIConsts) (context : BMBTContext_t) :
    BMBTContext_t × List Call :=
  if context.menu = BMBT_MENU_NONE ∨ context.menu = BMBT_MENU_DASHBOARD_FRESH ∨
      context.ibus.gtVersion < u.IBUS_GT_MKIII_NEW_UI ∨
      context.status.radType = u.IBUS_RADIO_TYPE_C43 then
    if context.timerMenuIntervals = BMBT_MENU_HEADER_TIMER_OFF then
      ({ context with timerMenuIntervals := 0 },
       [Call.TimerResetScheduledTask context.menuWriteTaskId])
    else (context, [])
  else (context, BMBTMenuRefresh u context)

/-- `BMBTHeaderWriteDeviceName` (bmbt.c 308-323): on the old UI the first 20
characters of the name, padded with spaces to 20; on the new UI its first 11
characters.  The bytes of the local buffer past these are not set by the
function; the model ends the text there. -/
def BMBTHeaderWriteDeviceName (u : UIConsts) (context : BMBTContext_t) (text : String) :
    List Call :=
  if context.ibus.gtVersion < u.IBUS_GT_MKIII_NEW_UI then
    [Call.IBusCommandGTWriteZone BMBT_HEADER_DEV_NAME
      (String.mk ((strncpy text 20).data ++
        List.replicate (20 - (strncpy text 20).length) ' '))]
  else
    [Call.IBusCommandGTWriteZone BMBT_HEADER_DEV_NAME (strncpy text 11)]

/-- `BMBTGTWriteIndex` (bmbt.c 337-341): it records the index type and writes the
line with `IBusCommandGTWriteIndexTMC`. -/
def BMBTGTWriteIndex (u : UIConsts) (context : BMBTContext_t) (index : Nat) (text : String) :
    BMBTContext_t × List Call :=
  ({ context with status :=
      { context.status with navIndexType := u.IBUS_CMD_GT_WRITE_INDEX_TMC } },
   [Call.IBusCommandGTWriteIndexTMC index text])

/-- The loop `while (index < context->writtenIndices) { BMBTGTWriteIndex(context,
index, " "); index++; }` of the menu functions, started at `index`: the writes it
makes. -/
def blankIndices (index writtenIndices : Nat) : List Call :=
  (List.range' index (writtenIndices - index)).map fun i =>
    Call.IBusCommandGTWriteIndexTMC i " "

/-- `BMBTGTWriteTitle` (bmbt.c 354-362). -/
def BMBTGTWriteTitle (u : UIConsts) (context : BMBTContext_t) (text : String) : List Call :=
  if context.ibus.gtVersion < u.IBUS_GT_MKIII_NEW_UI then
    [Call.IBusCommandGTWriteTitleArea text]
  else
    [Call.IBusCommandGTWriteTitleIndex text, Call.IBusCommandGTUpdate u.IBUS_CMD_GT_WRITE_ZONE]

/-- `BMBTHeaderWrite` (bmbt.c 364-393).  The oil temperature text it formats for
the E38/E39/E53 is not written anywhere, the write being commented out. -/
def BMBTHeaderWrite (k : Consts) (u : UIConsts) (x : Ext) (config : Config_t)
    (context : BMBTContext_t) : BMBTContext_t × List Call :=
  let title : BMBTContext_t × List Call :=
    if ConfigGetSetting config u.CONFIG_SETTING_METADATA_MODE = k.CONFIG_SETTING_OFF ∨
        context.bt.playbackStatus = u.BC127_AVRCP_STATUS_PAUSED then
      (context, BMBTGTWriteTitle u context "Bluetooth")
    else BMBTMainAreaRefresh context
  (title.1,
   title.2 ++
   (if context.bt.activeDevice.deviceId ≠ 0 then
      BMBTHeaderWriteDeviceName u context
        (x.UtilsRemoveNonAscii context.bt.activeDevice.deviceName)
    else BMBTHeaderWriteDeviceName u context "No Device") ++
   (if context.bt.playbackStatus = u.BC127_AVRCP_STATUS_PAUSED then
      [Call.IBusCommandGTWriteZone BMBT_HEADER_PB_STAT "||"]
    else [Call.IBusCommandGTWriteZone BMBT_HEADER_PB_STAT "> "]) ++
   [Call.IBusCommandGTWriteZone BMBT_HEADER_BT "BT  ",
    Call.IBusCommandGTUpdate u.IBUS_CMD_GT_WRITE_ZONE])

/-- `BMBTMenuMain` (bmbt.c 395-410); every line is written through
`BMBTGTWriteIndex`, which leaves the index type TMC. -/
def BMBTMenuMain (u : UIConsts) (context : BMBTContext_t) : BMBTContext_t × List Call :=
  ({ context with
      status := { context.status with navIndexType := u.IBUS_CMD_GT_WRITE_INDEX_TMC }
      writtenIndices := 3
      menu := BMBT_MENU_MAIN },
   [Call.IBusCommandGTWriteIndexTitle "Main Menu",
    Call.IBusCommandGTWriteIndexTMC BMBT_MENU_IDX_DASHBOARD "Dashboard",
    Call.IBusCommandGTWriteIndexTMC BMBT_MENU_IDX_DEVICE_SELECTION "Select Device",
    Call.IBusCommandGTWriteIndexTMC BMBT_MENU_IDX_SETTINGS "Settings"] ++
   blankIndices 3 context.writtenIndices ++
   [Call.IBusCommandGTWriteIndexTMC BMBT_MENU_IDX_BACK " ",
    Call.IBusCommandGTUpdate u.IBUS_CMD_GT_WRITE_INDEX_TMC])

/-- `BMBTMenuDashboardUpdate` (bmbt.c 412-441).  On the static screen the three
fields go to the static lines; otherwise they go to lines 0 to 2 with the index
type `IBUS_CMD_GT_WRITE_INDEX`, which the blanking loop, if it writes a line,
replaces by TMC. -/
def BMBTMenuDashboardUpdate (u : UIConsts) (context : BMBTContext_t) (f1 f2 f3 : String) :
    BMBTContext_t × List Call :=
  let g1 := if f1.length = 0 then " " else f1
  let g2 := if f2.length = 0 then " " else f2
  let g3 := if f3.length = 0 then " " else f3
  if context.ibus.gtVersion = u.IBUS_GT_MKIV_STATIC then
    (context,
     [Call.IBusCommandGTWriteIndexStatic 1 g1,
      Call.IBusCommandGTWriteIndexStatic 2 g2,
      Call.IBusCommandGTWriteIndexStatic 3 g3,
      Call.IBusCommandGTUpdate u.IBUS_CMD_GT_WRITE_STATIC])
  else
    let navIndexType :=
      if 3 < context.writtenIndices then u.IBUS_CMD_GT_WRITE_INDEX_TMC
      else u.IBUS_CMD_GT_WRITE_INDEX
    ({ context with
        status := { context.status with navIndexType := navIndexType }
        writtenIndices := 3 },
     [Call.IBusCommandGTWriteIndex 0 g1,
      Call.IBusCommandGTWriteIndex 1 g2,
      Call.IBusCommandGTWriteIndex 2 g3] ++
     blankIndices 3 context.writtenIndices ++
     [Call.IBusCommandGTUpdate navIndexType])

/-- `BMBTMenuDashboard` (bmbt.c 443-473). -/
def BMBTMenuDashboard (u : UIConsts) (x : Ext) (context : BMBTContext_t) :
    BMBTContext_t × List Call :=
  let title := x.UtilsRemoveNonAscii context.bt.title
  let artist := x.UtilsRemoveNonAscii context.bt.artist
  let album := x.UtilsRemoveNonAscii context.bt.album
  let r : BMBTContext_t × List Call :=
    if context.bt.playbackStatus = u.BC127_AVRCP_STATUS_PAUSED then
      if title.length = 0 then
        BMBTMenuDashboardUpdate u context "- Not Playing -" " " " "
      else BMBTMenuDashboardUpdate u context title artist album
    else
      BMBTMenuDashboardUpdate u context
        (if title.length = 0 then "Unknown Title" else title)
        (if artist.length = 0 then "Unknown Artist" else artist)
        (if album.length = 0 then "Unknown Album" else album)
  ({ r.1 with menu := BMBT_MENU_DASHBOARD }, r.2)

/-- The text of a line of the device selection menu (bmbt.c 490-504): the first 11
characters of the name, and for the active device its first 9 characters at most,
followed by a space and an asterisk. -/
def deviceSelectionText (x : Ext) (bt : BC127_t) (dev : BC127PairedDevice_t) : String :=
  let cleanText := strncpy (x.UtilsRemoveNonAscii dev.deviceName) 11
  if dev.macId = bt.activeDevice.macId then
    String.mk (cleanText.data.take 9 ++ [' ', '*'])
  else cleanText

/-- `BMBTMenuDeviceSelection` (bmbt.c 475-518). -/
def BMBTMenuDeviceSelection (k : Consts) (u : UIConsts) (x : Ext) (context : BMBTContext_t) :
    BMBTContext_t × List Call :=
  let screenIdx := (2 + context.bt.pairedDevicesCount) % 256
  ({ context with
      status := { context.status with navIndexType := u.IBUS_CMD_GT_WRITE_INDEX_TMC }
      writtenIndices := screenIdx
      menu := BMBT_MENU_DEVICE_SELECTION },
   [Call.IBusCommandGTWriteIndexTitle "Device Selection",
    (if context.bt.discoverable = k.BC127_STATE_ON then
       Call.IBusCommandGTWriteIndexTMC BMBT_MENU_IDX_PAIRING_MODE "Pairing: On"
     else Call.IBusCommandGTWriteIndexTMC BMBT_MENU_IDX_PAIRING_MODE "Pairing: Off"),
    Call.IBusCommandGTWriteIndexTMC BMBT_MENU_IDX_CLEAR_PAIRING "Clear Pairings"] ++
   ((List.range context.bt.pairedDevicesCount).map fun idx =>
      Call.IBusCommandGTWriteIndexTMC ((2 + idx) % 256)
        (deviceSelectionText x context.bt (pairedDevice context.bt idx))) ++
   [Call.IBusCommandGTWriteIndexTMC BMBT_MENU_IDX_BACK "Back"] ++
   blankIndices screenIdx context.writtenIndices ++
   [Call.IBusCommandGTUpdate u.IBUS_CMD_GT_WRITE_INDEX_TMC])

/-- `BMBTMenuSettings` (bmbt.c 520-539), with the tables `menuSettings` and
`menuSettingsLabels` (bmbt.c 9-20) written out. -/
def BMBTMenuSettings (u : UIConsts) (context : BMBTContext_t) : BMBTContext_t × List Call :=
  ({ context with
      status := { context.status with navIndexType := u.IBUS_CMD_GT_WRITE_INDEX_TMC }
      writtenIndices := max 4 context.writtenIndices
      menu := BMBT_MENU_SETTINGS },
   [Call.IBusCommandGTWriteIndexTitle "Settings",
    Call.IBusCommandGTWriteIndexTMC BMBT_MENU_IDX_SETTINGS_AUDIO "Audio",
    Call.IBusCommandGTWriteIndexTMC BMBT_MENU_IDX_SETTINGS_CALLING "Calling",
    Call.IBusCommandGTWriteIndexTMC BMBT_MENU_IDX_SETTINGS_COMFORT "Comfort",
    Call.IBusCommandGTWriteIndexTMC BMBT_MENU_IDX_SETTINGS_UI "UI",
    Call.IBusCommandGTWriteIndexTMC BMBT_MENU_IDX_BACK "Back"] ++
   blankIndices 4 context.writtenIndices ++
   [Call.IBusCommandGTUpdate u.IBUS_CMD_GT_WRITE_INDEX_TMC])

/-- `BMBTMenuSettingsAudio` (bmbt.c 541-598). -/
def BMBTMenuSettingsAudio (k : Consts) (u : UIConsts) (config : Config_t)
    (context : BMBTContext_t) : BMBTContext_t × List Call :=
  let currentVolume := ConfigGetSetting config u.CONFIG_SETTING_DAC_VOL
  let volText : String :=
    if currentVolume > 0x30 then
      snprintf 14 ("Volume: -" ++ toString ((currentVolume - 0x30) / 2) ++ "dB")
    else if currentVolume = 0 then snprintf 14 "Volume: +24dB"
    else if currentVolume = 0x30 then snprintf 14 "Volume: 0dB"
    else snprintf 14 ("Volume: +" ++ toString ((0x30 - currentVolume) / 2) ++ "dB")
  ({ context with
      status := { context.status with navIndexType := u.IBUS_CMD_GT_WRITE_INDEX_TMC }
      writtenIndices := max 3 context.writtenIndices
      menu := BMBT_MENU_SETTINGS_AUDIO },
   [Call.IBusCommandGTWriteIndexTitle "Settings -> Audio",
    Call.IBusCommandGTWriteIndexTMC BMBT_MENU_IDX_SETTINGS_AUDIO_DAC_GAIN volText,
    (if ConfigGetSetting config k.CONFIG_SETTING_USE_SPDIF_INPUT = k.CONFIG_SETTING_ON then
       Call.IBusCommandGTWriteIndexTMC BMBT_MENU_IDX_SETTINGS_AUDIO_DSP_INPUT "DSP: Digital"
     else
       Call.IBusCommandGTWriteIndexTMC BMBT_MENU_IDX_SETTINGS_AUDIO_DSP_INPUT "DSP: Analog"),
    (if ConfigGetSetting config k.CONFIG_SETTING_AUTOPLAY = k.CONFIG_SETTING_OFF then
       Call.IBusCommandGTWriteIndexTMC BMBT_MENU_IDX_SETTINGS_AUDIO_AUTOPLAY "Autoplay: Off"
     else
       Call.IBusCommandGTWriteIndexTMC BMBT_MENU_IDX_SETTINGS_AUDIO_AUTOPLAY "Autoplay: On"),
    Call.IBusCommandGTWriteIndexTMC BMBT_MENU_IDX_BACK "Back"] ++
   blankIndices 3 context.writtenIndices ++
   [Call.IBusCommandGTUpdate u.IBUS_CMD_GT_WRITE_INDEX_TMC])

/-- `BMBTMenuSettingsComfort` (bmbt.c 600-656). -/
def BMBTMenuSettingsComfort (k : Consts) (u : UIConsts) (config : Config_t)
    (context : BMBTContext_t) : BMBTContext_t × List Call :=
  let vehicleType := config.vehicleType
  let blinkCount :=
    if ConfigGetSetting config k.CONFIG_SETTING_COMFORT_BLINKERS = 0 then 1
    else ConfigGetSetting config k.CONFIG_SETTING_COMFORT_BLINKERS
  ({ context with
      status := { context.status with navIndexType := u.IBUS_CMD_GT_WRITE_INDEX_TMC }
      writtenIndices := max 3 context.writtenIndices
      menu := BMBT_MENU_SETTINGS_COMFORT },
   [Call.IBusCommandGTWriteIndexTitle "Settings -> Comfort",
    (if vehicleType = k.IBUS_VEHICLE_TYPE_E38_E39_E53 then
       Call.IBusCommandGTWriteIndexTMC BMBT_MENU_IDX_SETTINGS_COMFORT_VEHICLE_TYPE
         "Car: E38/E39/E53"
     else if vehicleType = u.IBUS_VEHICLE_TYPE_E46_Z4 then
       Call.IBusCommandGTWriteIndexTMC BMBT_MENU_IDX_SETTINGS_COMFORT_VEHICLE_TYPE
         "Car: E46/Z4"
     else
       Call.IBusCommandGTWriteIndexTMC BMBT_MENU_IDX_SETTINGS_COMFORT_VEHICLE_TYPE
         "Car: Unset"),
    Call.IBusCommandGTWriteIndexTMC BMBT_MENU_IDX_SETTINGS_COMFORT_BLINKERS
      (snprintf 12 ("Blinkers: " ++ toString blinkCount)),
    (if ConfigGetSetting config u.CONFIG_SETTING_COMFORT_LOCKS = k.CONFIG_SETTING_ON then
       Call.IBusCommandGTWriteIndexTMC BMBT_MENU_IDX_SETTINGS_COMFORT_LOCKS "Auto Locks: On"
     else
       Call.IBusCommandGTWriteIndexTMC BMBT_MENU_IDX_SETTINGS_COMFORT_LOCKS "Auto Locks: Off"),
    Call.IBusCommandGTWriteIndexTMC BMBT_MENU_IDX_BACK "Back"] ++
   blankIndices 3 context.writtenIndices ++
   [Call.IBusCommandGTUpdate u.IBUS_CMD_GT_WRITE_INDEX_TMC])

/-- `BMBTMenuSettingsCalling` (bmbt.c 658-721).  Both branches of the test of the
hands-free setting (bmbt.c 661-673) write the text "Handsfree: On". -/
def BMBTMenuSettingsCalling (k : Consts) (u : UIConsts) (config : Config_t)
    (context : BMBTContext_t) : BMBTContext_t × List Call :=
  let micGain :=
    if ConfigGetSetting config k.CONFIG_SETTING_MIC_GAIN > 21 then 0
    else ConfigGetSetting config k.CONFIG_SETTING_MIC_GAIN
  ({ context with
      status := { context.status with navIndexType := u.IBUS_CMD_GT_WRITE_INDEX_TMC }
      writtenIndices := max 5 context.writtenIndices
      menu := BMBT_MENU_SETTINGS_CALLING },
   [Call.IBusCommandGTWriteIndexTitle "Settings -> Calling",
    (if ConfigGetSetting config k.CONFIG_SETTING_HFP = 0x00 then
       Call.IBusCommandGTWriteIndexTMC BMBT_MENU_IDX_SETTINGS_CALLING_HFP "Handsfree: On"
     else
       Call.IBusCommandGTWriteIndexTMC BMBT_MENU_IDX_SETTINGS_CALLING_HFP "Handsfree: On"),
    (if ConfigGetSetting config k.CONFIG_SETTING_TCU_MODE = k.CONFIG_SETTING_OFF then
       Call.IBusCommandGTWriteIndexTMC BMBT_MENU_IDX_SETTINGS_CALLING_TCU_MODE "TCU: Always"
     else
       Call.IBusCommandGTWriteIndexTMC BMBT_MENU_IDX_SETTINGS_CALLING_TCU_MODE
         "TCU: Radio/AUX"),
    Call.IBusCommandGTWriteIndexTMC BMBT_MENU_IDX_SETTINGS_CALLING_MIC_GAIN
      (snprintf 15 ("Mic Gain: " ++
        toString (int8_t (u.BC127CVCGainTable.getD micGain 0)) ++ "dB")),
    (if ConfigGetSetting config u.CONFIG_SETTING_MIC_BIAS_ADDRESS = k.CONFIG_SETTING_OFF then
       Call.IBusCommandGTWriteIndexTMC BMBT_MENU_IDX_SETTINGS_CALLING_MIC_BIAS "Mic Bias: Off"
     else
       Call.IBusCommandGTWriteIndexTMC BMBT_MENU_IDX_SETTINGS_CALLING_MIC_BIAS "Mic Bias: On"),
    Call.IBusCommandGTWriteIndexTMC BMBT_MENU_IDX_BACK "Back"] ++
   blankIndices 5 context.writtenIndices ++
   [Call.IBusCommandGTUpdate u.IBUS_CMD_GT_WRITE_INDEX_TMC])

/-- `BMBTMenuSettingsUI` (bmbt.c 723-791). -/
def BMBTMenuSettingsUI (k : Consts) (u : UIConsts) (config : Config_t)
    (context : BMBTContext_t) : BMBTContext_t × List Call :=
  let metadataMode := ConfigGetSetting config u.CONFIG_SETTING_METADATA_MODE
  ({ context with
      status := { context.status with navIndexType := u.IBUS_CMD_GT_WRITE_INDEX_TMC }
      writtenIndices := max 2 context.writtenIndices
      menu := BMBT_MENU_SETTINGS_UI },
   [Call.IBusCommandGTWriteIndexTitle "Settings -> UI",
    (if metadataMode = BMBT_METADATA_MODE_PARTY then
       Call.IBusCommandGTWriteIndexTMC BMBT_MENU_IDX_SETTINGS_UI_METADATA_MODE
         "Metadata: Party"
     else if metadataMode = BMBT_METADATA_MODE_CHUNK then
       Call.IBusCommandGTWriteIndexTMC BMBT_MENU_IDX_SETTINGS_UI_METADATA_MODE
         "Metadata: Chunk"
     else
       Call.IBusCommandGTWriteIndexTMC BMBT_MENU_IDX_SETTINGS_UI_METADATA_MODE
         "Metadata: Off"),
    (if ConfigGetSetting config u.CONFIG_SETTING_BMBT_DEFAULT_MENU = k.CONFIG_SETTING_OFF then
       Call.IBusCommandGTWriteIndexTMC BMBT_MENU_IDX_SETTINGS_UI_DEFAULT_MENU "Menu: Main"
     else
       Call.IBusCommandGTWriteIndexTMC BMBT_MENU_IDX_SETTINGS_UI_DEFAULT_MENU
         "Menu: Dashboard"),
    Call.IBusCommandGTWriteIndexTMC BMBT_MENU_IDX_BACK "Back"] ++
   blankIndices 2 context.writtenIndices ++
   [Call.IBusCommandGTUpdate u.IBUS_CMD_GT_WRITE_INDEX_TMC])

/-- The end of the four `BMBTSettingsUpdate*` functions: unless the line selected
is Back, the screen is updated with the index type of the context. -/
def settingsUpdateEnd (selectedIdx : Nat) (r : BMBTWorld × List Call) : BMBTWorld × List Call :=
  if selectedIdx ≠ BMBT_MENU_IDX_BACK then
    (r.1, r.2 ++ [Call.IBusCommandGTUpdate r.1.context.status.navIndexType])
  else r

/-- The Back line of the four `BMBTSettingsUpdate*` functions: the settings menu is
drawn. -/
def settingsUpdateBack (u : UIConsts) (w : BMBTWorld) : BMBTWorld × List Call :=
  ({ w with context := (BMBTMenuSettings u w.context).1 }, (BMBTMenuSettings u w.context).2)

/-- `BMBTSettingsUpdateAudio` (bmbt.c 793-841); the volume is an `unsigned char`. -/
def BMBTSettingsUpdateAudio (k : Consts) (u : UIConsts) (w : BMBTWorld) (selectedIdx : Nat) :
    BMBTWorld × List Call :=
  settingsUpdateEnd selectedIdx <|
    if selectedIdx = BMBT_MENU_IDX_SETTINGS_AUDIO_DAC_GAIN then
      let currentVolume :=
        if (ConfigGetSetting w.config u.CONFIG_SETTING_DAC_VOL + 2) % 256 > 96 then 0
        else (ConfigGetSetting w.config u.CONFIG_SETTING_DAC_VOL + 2) % 256
      let volText : String :=
        if currentVolume > 0x30 then
          snprintf 14 ("Volume: -" ++ toString ((currentVolume - 0x30) / 2) ++ "dB")
        else if currentVolume = 0 then snprintf 14 "Volume: +24dB"
        else if currentVolume = 0x30 then snprintf 14 "Volume: 0dB"
        else snprintf 14 ("Volume: +" ++ toString ((0x30 - currentVolume) / 2) ++ "dB")
      ({ context := (BMBTGTWriteIndex u w.context selectedIdx volText).1
         config := ConfigSetSetting w.config u.CONFIG_SETTING_DAC_VOL currentVolume },
       [Call.ConfigSetSetting u.CONFIG_SETTING_DAC_VOL currentVolume] ++
       (BMBTGTWriteIndex u w.context selectedIdx volText).2 ++
       [Call.PCM51XXSetVolume currentVolume])
    else if selectedIdx = BMBT_MENU_IDX_SETTINGS_AUDIO_DSP_INPUT then
      if ConfigGetSetting w.config k.CONFIG_SETTING_USE_SPDIF_INPUT = k.CONFIG_SETTING_ON then
        ({ context := (BMBTGTWriteIndex u w.context selectedIdx "DSP: Analog").1
           config :=
             ConfigSetSetting w.config k.CONFIG_SETTING_USE_SPDIF_INPUT k.CONFIG_SETTING_OFF },
         [Call.ConfigSetSetting k.CONFIG_SETTING_USE_SPDIF_INPUT k.CONFIG_SETTING_OFF,
          Call.IBusCommandDSPSetMode k.IBUS_DSP_MODE_INPUT_RADIO] ++
         (BMBTGTWriteIndex u w.context selectedIdx "DSP: Analog").2)
      else
        ({ context := (BMBTGTWriteIndex u w.context selectedIdx "DSP: Digital").1
           config :=
             ConfigSetSetting w.config k.CONFIG_SETTING_USE_SPDIF_INPUT k.CONFIG_SETTING_ON },
         [Call.ConfigSetSetting k.CONFIG_SETTING_USE_SPDIF_INPUT k.CONFIG_SETTING_ON,
          Call.IBusCommandDSPSetMode k.IBUS_DSP_MODE_INPUT_SPDIF] ++
         (BMBTGTWriteIndex u w.context selectedIdx "DSP: Digital").2)
    else if selectedIdx = BMBT_MENU_IDX_SETTINGS_AUDIO_AUTOPLAY then
      if ConfigGetSetting w.config k.CONFIG_SETTING_AUTOPLAY = k.CONFIG_SETTING_OFF then
        ({ context := (BMBTGTWriteIndex u w.context selectedIdx "Autoplay: On").1
           config := ConfigSetSetting w.config k.CONFIG_SETTING_AUTOPLAY k.CONFIG_SETTING_ON },
         [Call.ConfigSetSetting k.CONFIG_SETTING_AUTOPLAY k.CONFIG_SETTING_ON] ++
         (BMBTGTWriteIndex u w.context selectedIdx "Autoplay: On").2)
      else
        ({ context := (BMBTGTWriteIndex u w.context selectedIdx "Autoplay: Off").1
           config := ConfigSetSetting w.config k.CONFIG_SETTING_AUTOPLAY k.CONFIG_SETTING_OFF },
         [Call.ConfigSetSetting k.CONFIG_SETTING_AUTOPLAY k.CONFIG_SETTING_OFF] ++
         (BMBTGTWriteIndex u w.context selectedIdx "Autoplay: Off").2)
    else if selectedIdx = BMBT_MENU_IDX_BACK then settingsUpdateBack u w
    else (w, [])

/-- `BMBTSettingsUpdateComfort` (bmbt.c 843-882); the blinker count is an
`unsigned char`. -/
def BMBTSettingsUpdateComfort (k : Consts) (u : UIConsts) (w : BMBTWorld) (selectedIdx : Nat) :
    BMBTWorld × List Call :=
  settingsUpdateEnd selectedIdx <|
    if selectedIdx = BMBT_MENU_IDX_SETTINGS_COMFORT_VEHICLE_TYPE then
      if w.config.vehicleType = 0 ∨ w.config.vehicleType = 0xFF ∨
          w.config.vehicleType = u.IBUS_VEHICLE_TYPE_E46_Z4 then
        ({ context := (BMBTGTWriteIndex u w.context selectedIdx "Car: E38/E39/E53").1
           config := { w.config with vehicleType := k.IBUS_VEHICLE_TYPE_E38_E39_E53 } },
         [Call.ConfigSetVehicleType k.IBUS_VEHICLE_TYPE_E38_E39_E53] ++
         (BMBTGTWriteIndex u w.context selectedIdx "Car: E38/E39/E53").2)
      else
        ({ context := (BMBTGTWriteIndex u w.context selectedIdx "Car: E46/Z4").1
           config := { w.config with vehicleType := u.IBUS_VEHICLE_TYPE_E46_Z4 } },
         [Call.ConfigSetVehicleType u.IBUS_VEHICLE_TYPE_E46_Z4] ++
         (BMBTGTWriteIndex u w.context selectedIdx "Car: E46/Z4").2)
    else if selectedIdx = BMBT_MENU_IDX_SETTINGS_COMFORT_BLINKERS then
      let value :=
        ((if ConfigGetSetting w.config k.CONFIG_SETTING_COMFORT_BLINKERS = 0 then 1
          else if ConfigGetSetting w.config k.CONFIG_SETTING_COMFORT_BLINKERS = 8 then 0
          else ConfigGetSetting w.config k.CONFIG_SETTING_COMFORT_BLINKERS) + 1) % 256
      ({ context :=
           (BMBTGTWriteIndex u w.context selectedIdx
             (snprintf 12 ("Blinkers: " ++ toString value))).1
         config := ConfigSetSetting w.config k.CONFIG_SETTING_COMFORT_BLINKERS value },
       [Call.ConfigSetSetting k.CONFIG_SETTING_COMFORT_BLINKERS value] ++
       (BMBTGTWriteIndex u w.context selectedIdx
         (snprintf 12 ("Blinkers: " ++ toString value))).2)
    else if selectedIdx = BMBT_MENU_IDX_SETTINGS_COMFORT_LOCKS then
      if ConfigGetSetting w.config u.CONFIG_SETTING_COMFORT_LOCKS = k.CONFIG_SETTING_OFF then
        ({ context := (BMBTGTWriteIndex u w.context selectedIdx "Auto Locks: On").1
           config :=
             ConfigSetSetting w.config u.CONFIG_SETTING_COMFORT_LOCKS k.CONFIG_SETTING_ON },
         [Call.ConfigSetSetting u.CONFIG_SETTING_COMFORT_LOCKS k.CONFIG_SETTING_ON] ++
         (BMBTGTWriteIndex u w.context selectedIdx "Auto Locks: On").2)
      else
        ({ context := (BMBTGTWriteIndex u w.context selectedIdx "Auto Locks: Off").1
           config :=
             ConfigSetSetting w.config u.CONFIG_SETTING_COMFORT_LOCKS k.CONFIG_SETTING_OFF },
         [Call.ConfigSetSetting u.CONFIG_SETTING_COMFORT_LOCKS k.CONFIG_SETTING_OFF] ++
         (BMBTGTWriteIndex u w.context selectedIdx "Auto Locks: Off").2)
    else if selectedIdx = BMBT_MENU_IDX_BACK then settingsUpdateBack u w
    else (w, [])

/-- `BMBTSettingsUpdateCalling` (bmbt.c 884-938); the microphone gain is an
`unsigned char`. -/
def BMBTSettingsUpdateCalling (k : Consts) (u : UIConsts) (w : BMBTWorld) (selectedIdx : Nat) :
    BMBTWorld × List Call :=
  settingsUpdateEnd selectedIdx <|
    if selectedIdx = BMBT_MENU_IDX_SETTINGS_CALLING_HFP then
      if ConfigGetSetting w.config k.CONFIG_SETTING_HFP = 0x00 then
        ({ context := (BMBTGTWriteIndex u w.context selectedIdx "Handsfree: On").1
           config := ConfigSetSetting w.config k.CONFIG_SETTING_HFP 0x01 },
         [Call.ConfigSetSetting k.CONFIG_SETTING_HFP 0x01] ++
         (BMBTGTWriteIndex u w.context selectedIdx "Handsfree: On").2 ++
         [Call.BC127CommandSetProfiles 1 1 0 1, Call.BC127CommandReset])
      else
        ({ context := (BMBTGTWriteIndex u w.context selectedIdx "Handsfree: Off").1
           config := ConfigSetSetting w.config k.CONFIG_SETTING_HFP 0x00 },
         [Call.BC127CommandSetProfiles 1 1 0 0] ++
         (BMBTGTWriteIndex u w.context selectedIdx "Handsfree: Off").2 ++
         [Call.ConfigSetSetting k.CONFIG_SETTING_HFP 0x00, Call.BC127CommandReset])
    else if selectedIdx = BMBT_MENU_IDX_SETTINGS_CALLING_TCU_MODE then
      if ConfigGetSetting w.config k.CONFIG_SETTING_TCU_MODE = k.CONFIG_SETTING_OFF then
        ({ context := (BMBTGTWriteIndex u w.context selectedIdx "TCU: Radio/AUX").1
           config := ConfigSetSetting w.config k.CONFIG_SETTING_TCU_MODE k.CONFIG_SETTING_ON },
         [Call.ConfigSetSetting k.CONFIG_SETTING_TCU_MODE k.CONFIG_SETTING_ON] ++
         (BMBTGTWriteIndex u w.context selectedIdx "TCU: Radio/AUX").2)
      else
        ({ context := (BMBTGTWriteIndex u w.context selectedIdx "TCU: Always").1
           config := ConfigSetSetting w.config k.CONFIG_SETTING_TCU_MODE k.CONFIG_SETTING_OFF },
         [Call.ConfigSetSetting k.CONFIG_SETTING_TCU_MODE k.CONFIG_SETTING_OFF] ++
         (BMBTGTWriteIndex u w.context selectedIdx "TCU: Always").2)
    else if selectedIdx = BMBT_MENU_IDX_SETTINGS_CALLING_MIC_GAIN then
      let micGain :=
        if (ConfigGetSetting w.config k.CONFIG_SETTING_MIC_GAIN + 1) % 256 > 21 then 0
        else (ConfigGetSetting w.config k.CONFIG_SETTING_MIC_GAIN + 1) % 256
      ({ context :=
           (BMBTGTWriteIndex u w.context BMBT_MENU_IDX_SETTINGS_CALLING_MIC_GAIN
             (snprintf 15 ("Mic Gain: " ++
               toString (int8_t (u.BC127CVCGainTable.getD micGain 0)) ++ "dB"))).1
         config := ConfigSetSetting w.config k.CONFIG_SETTING_MIC_GAIN micGain },
       [Call.ConfigSetSetting k.CONFIG_SETTING_MIC_GAIN micGain,
        Call.BC127CommandSetMicGain micGain] ++
       (BMBTGTWriteIndex u w.context BMBT_MENU_IDX_SETTINGS_CALLING_MIC_GAIN
         (snprintf 15 ("Mic Gain: " ++
           toString (int8_t (u.BC127CVCGainTable.getD micGain 0)) ++ "dB"))).2)
    else if selectedIdx = BMBT_MENU_IDX_SETTINGS_CALLING_MIC_BIAS then
      if ConfigGetSetting w.config u.CONFIG_SETTING_MIC_BIAS_ADDRESS = k.CONFIG_SETTING_OFF then
        ({ context := (BMBTGTWriteIndex u w.context selectedIdx "Mic Bias: On").1
           config :=
             ConfigSetSetting w.config u.CONFIG_SETTING_MIC_BIAS_ADDRESS k.CONFIG_SETTING_ON },
         [Call.BC127CommandSetAudioAnalog "11" "15" "1" "OFF",
          Call.ConfigSetSetting u.CONFIG_SETTING_MIC_BIAS_ADDRESS k.CONFIG_SETTING_ON] ++
         (BMBTGTWriteIndex u w.context selectedIdx "Mic Bias: On").2)
      else
        ({ context := (BMBTGTWriteIndex u w.context selectedIdx "Mic Bias: Off").1
           config :=
             ConfigSetSetting w.config u.CONFIG_SETTING_MIC_BIAS_ADDRESS k.CONFIG_SETTING_OFF },
         [Call.BC127CommandSetAudioAnalog "11" "15" "0" "OFF",
          Call.ConfigSetSetting u.CONFIG_SETTING_MIC_BIAS_ADDRESS k.CONFIG_SETTING_OFF] ++
         (BMBTGTWriteIndex u w.context selectedIdx "Mic Bias: Off").2)
    else if selectedIdx = BMBT_MENU_IDX_BACK then settingsUpdateBack u w
    else (w, [])

/-- The metadata-mode line of `BMBTSettingsUpdateUI` (bmbt.c 942-976). -/
def settingsUpdateMetadataMode (k : Consts) (u : UIConsts) (x : Ext) (w : BMBTWorld)
    (selectedIdx : Nat) : BMBTWorld × List Call :=
  let old := ConfigGetSetting w.config u.CONFIG_SETTING_METADATA_MODE
  let value :=
    if old = 0x00 then BMBT_METADATA_MODE_PARTY
    else if old = 0x01 then BMBT_METADATA_MODE_CHUNK
    else BMBT_METADATA_MODE_OFF
  let line : BMBTContext_t × List Call :=
    if old = 0x00 then BMBTGTWriteIndex u w.context selectedIdx "Metadata: Party"
    else if old = 0x01 then BMBTGTWriteIndex u w.context selectedIdx "Metadata: Chunk"
    else BMBTGTWriteIndex u w.context selectedIdx "Metadata: Off"
  let config := ConfigSetSetting w.config u.CONFIG_SETTING_METADATA_MODE value
  if value ≠ BMBT_METADATA_MODE_OFF ∧ line.1.bt.title.length > 0 ∧
      line.1.bt.playbackStatus = k.BC127_AVRCP_STATUS_PLAYING then
    let text :=
      snprintf u.UTILS_DISPLAY_TEXT_SIZE
        (line.1.bt.title ++ " - " ++ line.1.bt.artist ++ " - " ++ line.1.bt.album)
    ({ context := (BMBTSetMainDisplayText u line.1 (x.UtilsRemoveNonAscii text) 0 0).1
       config := config },
     line.2 ++ [Call.ConfigSetSetting u.CONFIG_SETTING_METADATA_MODE value] ++
     (BMBTSetMainDisplayText u line.1 (x.UtilsRemoveNonAscii text) 0 0).2)
  else if value = BMBT_METADATA_MODE_OFF then
    ({ context := line.1, config := config },
     line.2 ++ [Call.ConfigSetSetting u.CONFIG_SETTING_METADATA_MODE value,
       Call.IBusCommandGTUpdate line.1.status.navIndexType] ++
     BMBTGTWriteTitle u line.1 "Bluetooth")
  else
    ({ context := line.1, config := config },
     line.2 ++ [Call.ConfigSetSetting u.CONFIG_SETTING_METADATA_MODE value])

/-- `BMBTSettingsUpdateUI` (bmbt.c 940-991). -/
def BMBTSettingsUpdateUI (k : Consts) (u : UIConsts) (x : Ext) (w : BMBTWorld)
    (selectedIdx : Nat) : BMBTWorld × List Call :=
  settingsUpdateEnd selectedIdx <|
    if selectedIdx = BMBT_MENU_IDX_SETTINGS_UI_METADATA_MODE then
      settingsUpdateMetadataMode k u x w selectedIdx
    else if selectedIdx = BMBT_MENU_IDX_SETTINGS_UI_DEFAULT_MENU then
      if ConfigGetSetting w.config u.CONFIG_SETTING_BMBT_DEFAULT_MENU = 0x00 then
        ({ context := (BMBTGTWriteIndex u w.context selectedIdx "Menu: Dashboard").1
           config := ConfigSetSetting w.config u.CONFIG_SETTING_BMBT_DEFAULT_MENU 0x01 },
         [Call.ConfigSetSetting u.CONFIG_SETTING_BMBT_DEFAULT_MENU 0x01] ++
         (BMBTGTWriteIndex u w.context selectedIdx "Menu: Dashboard").2)
      else
        ({ context := (BMBTGTWriteIndex u w.context selectedIdx "Menu: Main").1
           config := ConfigSetSetting w.config u.CONFIG_SETTING_BMBT_DEFAULT_MENU 0x00 },
         [Call.ConfigSetSetting u.CONFIG_SETTING_BMBT_DEFAULT_MENU 0x00] ++
         (BMBTGTWriteIndex u w.context selectedIdx "Menu: Main").2)
    else if selectedIdx = BMBT_MENU_IDX_BACK then settingsUpdateBack u w
    else (w, [])

/-- `BMBTIBusCDChangerStatus` (bmbt.c 1205-1234). -/
def BMBTIBusCDChangerStatus (k : Consts) (u : UIConsts) (config : Config_t)
    (context : BMBTContext_t) (pkt : List Nat) : BMBTContext_t × List Call :=
  let requestedCommand := pkt.getD 4 0
  if requestedCommand = k.IBUS_CDC_CMD_STOP_PLAYING then
    let c1 : BMBTContext_t :=
      { context with
        menu := BMBT_MENU_NONE
        status :=
          { context.status with
            playerMode := BMBT_MODE_INACTIVE, displayMode := BMBT_DISPLAY_OFF } }
    ((BMBTSetMainDisplayText u c1 "Bluetooth" 0 0).1,
     (if context.bt.playbackStatus = k.BC127_AVRCP_STATUS_PLAYING then
        [Call.BC127CommandPause] else []) ++
     (BMBTSetMainDisplayText u c1 "Bluetooth" 0 0).2 ++
     [Call.IBusCommandRADEnableMenu])
  else if requestedCommand = k.IBUS_CDC_CMD_START_PLAYING ∨
      (context.ibus.cdChangerFunction = k.IBUS_CDC_FUNC_PLAYING ∧
        context.status.playerMode = BMBT_MODE_INACTIVE) then
    let c1 := (BMBTSetMainDisplayText u context "Bluetooth" 0 0).1
    let c2 : BMBTContext_t :=
      { c1 with status := { c1.status with playerMode := BMBT_MODE_ACTIVE } }
    let c3 := (BMBTTriggerWriteHeader c2).1
    ((BMBTTriggerWriteMenu u c3).1,
     (BMBTSetMainDisplayText u context "Bluetooth" 0 0).2 ++
     (if ConfigGetSetting config k.CONFIG_SETTING_AUTOPLAY = k.CONFIG_SETTING_ON then
        [Call.BC127CommandPlay]
      else if context.bt.playbackStatus = k.BC127_AVRCP_STATUS_PLAYING then
        [Call.BC127CommandPause]
      else []) ++
     [Call.IBusCommandRADDisableMenu] ++
     (BMBTTriggerWriteHeader c2).2 ++ (BMBTTriggerWriteMenu u c3).2)
  else (context, [])

/-- The device selection branch of `BMBTIBusMenuSelect` (bmbt.c 1271-1306); the
device index is a `uint8_t`. -/
def menuSelectDevice (k : Consts) (u : UIConsts) (x : Ext) (context : BMBTContext_t)
    (selectedIdx : Nat) : BMBTContext_t × List Call :=
  if selectedIdx = BMBT_MENU_IDX_PAIRING_MODE then
    if context.bt.discoverable = k.BC127_STATE_ON then
      ((BMBTGTWriteIndex u context BMBT_MENU_IDX_PAIRING_MODE "Pairing: Off").1,
       (BMBTGTWriteIndex u context BMBT_MENU_IDX_PAIRING_MODE "Pairing: Off").2 ++
       [Call.IBusCommandGTUpdate u.IBUS_CMD_GT_WRITE_INDEX_TMC,
        Call.BC127CommandBtState context.bt.connectable k.BC127_STATE_OFF])
    else
      ((BMBTGTWriteIndex u context BMBT_MENU_IDX_PAIRING_MODE "Pairing: On").1,
       (BMBTGTWriteIndex u context BMBT_MENU_IDX_PAIRING_MODE "Pairing: On").2 ++
       (if context.bt.activeDevice.deviceId ≠ 0 then
          [Call.EventTriggerCallback u.UIEvent_CloseConnection 0x00] else []) ++
       [Call.IBusCommandGTUpdate u.IBUS_CMD_GT_WRITE_INDEX_TMC,
        Call.BC127CommandBtState context.bt.connectable k.BC127_STATE_ON])
  else if selectedIdx = BMBT_MENU_IDX_CLEAR_PAIRING then
    let c1 : BMBTContext_t := { context with bt := x.BC127ClearPairedDevices context.bt }
    ((BMBTMenuDeviceSelection k u x c1).1,
     [Call.BC127CommandUnpair, Call.BC127ClearPairedDevices] ++
     (BMBTMenuDeviceSelection k u x c1).2)
  else if selectedIdx = BMBT_MENU_IDX_BACK then BMBTMenuMain u context
  else
    let deviceId := (selectedIdx + 256 - BMBT_MENU_IDX_FIRST_DEVICE) % 256
    (context,
     if (pairedDevice context.bt deviceId).macId ≠ context.bt.activeDevice.macId then
       [Call.EventTriggerCallback u.UIEvent_InitiateConnection deviceId]
     else [])

/-- The settings branch of `BMBTIBusMenuSelect` (bmbt.c 1307-1318). -/
def menuSelectSettings (k : Consts) (u : UIConsts) (config : Config_t)
    (context : BMBTContext_t) (selectedIdx : Nat) : BMBTContext_t × List Call :=
  if selectedIdx = BMBT_MENU_IDX_SETTINGS_AUDIO then BMBTMenuSettingsAudio k u config context
  else if selectedIdx = BMBT_MENU_IDX_SETTINGS_COMFORT then
    BMBTMenuSettingsComfort k u config context
  else if selectedIdx = BMBT_MENU_IDX_SETTINGS_CALLING then
    BMBTMenuSettingsCalling k u config context
  else if selectedIdx = BMBT_MENU_IDX_SETTINGS_UI then BMBTMenuSettingsUI k u config context
  else if selectedIdx = BMBT_MENU_IDX_BACK then BMBTMenuMain u context
  else (context, [])

/-- The main-menu branch of `BMBTIBusMenuSelect` (bmbt.c 1261-1268). -/
def menuSelectMain (k : Consts) (u : UIConsts) (x : Ext) (context : BMBTContext_t)
    (selectedIdx : Nat) : BMBTContext_t × List Call :=
  if selectedIdx = BMBT_MENU_IDX_DASHBOARD then BMBTMenuDashboard u x context
  else if selectedIdx = BMBT_MENU_IDX_DEVICE_SELECTION then BMBTMenuDeviceSelection k u x context
  else if selectedIdx = BMBT_MENU_IDX_SETTINGS then BMBTMenuSettings u context
  else (context, [])

/-- A function of the controller that leaves the configuration store as it is. -/
def keepStore (w : BMBTWorld) (r : BMBTContext_t × List Call) : BMBTWorld × List Call :=
  ({ w with context := r.1 }, r.2)

/-- `BMBTIBusMenuSelect` (bmbt.c 1256-1329); `pkt[6]` is the line selected. -/
def BMBTIBusMenuSelect (k : Consts) (u : UIConsts) (x : Ext) (w : BMBTWorld) (pkt : List Nat) :
    BMBTWorld × List Call :=
  let selectedIdx := pkt.getD 6 0
  if selectedIdx < 10 ∧ w.context.status.displayMode = BMBT_DISPLAY_ON then
    if w.context.menu = BMBT_MENU_MAIN then
      keepStore w (menuSelectMain k u x w.context selectedIdx)
    else if w.context.menu = BMBT_MENU_DASHBOARD then
      keepStore w (BMBTMenuMain u w.context)
    else if w.context.menu = BMBT_MENU_DEVICE_SELECTION then
      keepStore w (menuSelectDevice k u x w.context selectedIdx)
    else if w.context.menu = BMBT_MENU_SETTINGS then
      keepStore w (menuSelectSettings k u w.config w.context selectedIdx)
    else if w.context.menu = BMBT_MENU_SETTINGS_AUDIO then
      BMBTSettingsUpdateAudio k u w selectedIdx
    else if w.context.menu = BMBT_MENU_SETTINGS_COMFORT then
      BMBTSettingsUpdateComfort k u w selectedIdx
    else if w.context.menu = BMBT_MENU_SETTINGS_CALLING then
      BMBTSettingsUpdateCalling k u w selectedIdx
    else if w.context.menu = BMBT_MENU_SETTINGS_UI then
      BMBTSettingsUpdateUI k u x w selectedIdx
    else (w, [])
  else (w, [])

/-- `BMBTScreenModeUpdate` (bmbt.c 1441-1471). -/
def BMBTScreenModeUpdate (u : UIConsts) (context : BMBTContext_t) (pkt : List Nat) :
    BMBTContext_t × List Call :=
  let c1 : BMBTContext_t :=
    if pkt.getD 4 0 = 0x01 ∨ pkt.getD 4 0 = u.IBUS_GT_RADIO_SCREEN_OFF then
      { context with
        menu :=
          if context.menu = BMBT_MENU_DASHBOARD then BMBT_MENU_DASHBOARD_FRESH
          else BMBT_MENU_NONE
        status := { context.status with displayMode := BMBT_DISPLAY_OFF } }
    else context
  let r2 : BMBTContext_t × List Call :=
    if pkt.getD 4 0 = u.IBUS_GT_MENU_CLEAR ∧ c1.status.navState = BMBT_NAV_STATE_OFF then
      ({ c1 with status := { c1.status with navState := BMBT_NAV_STATE_ON } },
       if c1.status.playerMode = BMBT_MODE_ACTIVE then [Call.IBusCommandRADDisableMenu]
       else [])
    else (c1, [])
  if pkt.getD 4 0 = u.IBUS_GT_MENU_CLEAR ∧ r2.1.status.playerMode = BMBT_MODE_ACTIVE ∧
      (r2.1.status.displayMode = BMBT_DISPLAY_ON ∨
        r2.1.status.displayMode = BMBT_DISPLAY_INFO) then
    ((BMBTTriggerWriteMenu u r2.1).1, r2.2 ++ (BMBTTriggerWriteMenu u r2.1).2)
  else if pkt.getD 4 0 = u.IBUS_GT_TONE_MENU_OFF ∨ pkt.getD 4 0 = u.IBUS_GT_SEL_MENU_OFF then
    ({ r2.1 with status := { r2.1.status with displayMode := BMBT_DISPLAY_ON } }, r2.2)
  else r2

/-- `BMBTTimerHeaderWrite` (bmbt.c 1508-1525); `time` is a `uint16_t` and the
interval counter a `uint8_t`. -/
def BMBTTimerHeaderWrite (k : Consts) (u : UIConsts) (x : Ext) (config : Config_t)
    (context : BMBTContext_t) : BMBTContext_t × List Call :=
  if context.status.playerMode = BMBT_MODE_ACTIVE ∧
      context.status.displayMode = BMBT_DISPLAY_ON then
    if context.timerHeaderIntervals ≠ BMBT_MENU_HEADER_TIMER_OFF then
      if (context.timerHeaderIntervals * BMBT_HEADER_TIMER_WRITE_INT) % 65536 ≥
          BMBT_HEADER_TIMER_WRITE_TIMEOUT then
        ({ (BMBTHeaderWrite k u x config context).1 with
            timerHeaderIntervals := BMBT_MENU_HEADER_TIMER_OFF },
         (BMBTHeaderWrite k u x config context).2)
      else
        ({ context with timerHeaderIntervals := (context.timerHeaderIntervals + 1) % 256 }, [])
    else (context, [])
  else (context, [])

/-- The `switch` of `BMBTTimerMenuWrite` (bmbt.c 1546-1579): the menu that is drawn
for each value of `menu`. -/
def menuWriteSwitch (k : Consts) (u : UIConsts) (x : Ext) (config : Config_t)
    (context : BMBTContext_t) : BMBTContext_t × List Call :=
  if context.menu = BMBT_MENU_MAIN then BMBTMenuMain u context
  else if context.menu = BMBT_MENU_DASHBOARD ∨ context.menu = BMBT_MENU_DASHBOARD_FRESH then
    BMBTMenuDashboard u x context
  else if context.menu = BMBT_MENU_DEVICE_SELECTION then BMBTMenuDeviceSelection k u x context
  else if context.menu = BMBT_MENU_SETTINGS then BMBTMenuSettings u context
  else if context.menu = BMBT_MENU_SETTINGS_AUDIO then BMBTMenuSettingsAudio k u config context
  else if context.menu = BMBT_MENU_SETTINGS_COMFORT then
    BMBTMenuSettingsComfort k u config context
  else if context.menu = BMBT_MENU_SETTINGS_CALLING then
    BMBTMenuSettingsCalling k u config context
  else if context.menu = BMBT_MENU_SETTINGS_UI then BMBTMenuSettingsUI k u config context
  else if context.menu = BMBT_MENU_NONE then
    (if ConfigGetSetting config u.CONFIG_SETTING_BMBT_DEFAULT_MENU = 0x01 then
       BMBTMenuDashboard u x context
     else BMBTMenuMain u context)
  else (context, [])

/-- `BMBTTimerMenuWrite` (bmbt.c 1537-1587); `time` is a `uint16_t` and the interval
counter a `uint8_t`. -/
def BMBTTimerMenuWrite (k : Consts) (u : UIConsts) (x : Ext) (config : Config_t)
    (context : BMBTContext_t) : BMBTContext_t × List Call :=
  if context.status.playerMode = BMBT_MODE_ACTIVE ∧
      context.status.displayMode = BMBT_DISPLAY_ON then
    if context.timerMenuIntervals ≠ BMBT_MENU_HEADER_TIMER_OFF then
      if (context.timerMenuIntervals * BMBT_MENU_TIMER_WRITE_INT) % 65536 =
          BMBT_MENU_TIMER_WRITE_TIMEOUT then
        ({ (menuWriteSwitch k u x config context).1 with
            timerMenuIntervals := BMBT_MENU_HEADER_TIMER_OFF },
         (menuWriteSwitch k u x config context).2)
      else
        ({ context with timerMenuIntervals := (context.timerMenuIntervals + 1) % 256 }, [])
    else (context, [])
  else (context, [])

/-- A request to write the header or the menu, or a tick of one of the two write
timers. -/
inductive BMBTStep where
  | TriggerWriteHeader
  | TriggerWriteMenu
  | TimerHeaderWrite
  | TimerMenuWrite
  deriving DecidableEq, Repr

/-- One request or tick on the controller context. -/
def BMBTStep.apply (k : Consts) (u : UIConsts) (x : Ext) (config : Config_t)
    (context : BMBTContext_t) : BMBTStep → BMBTContext_t × List Call
  | .TriggerWriteHeader => BMBTTriggerWriteHeader context
  | .TriggerWriteMenu => BMBTTriggerWriteMenu u context
  | .TimerHeaderWrite => BMBTTimerHeaderWrite k u x config context
  | .TimerMenuWrite => BMBTTimerMenuWrite k u x config context

/-- Requests and ticks one after the other; the result is the final context and
the calls of each of them, in order. -/
def BMBTRun (k : Consts) (u : UIConsts) (x : Ext) (config : Config_t) :
    BMBTContext_t → List BMBTStep → BMBTContext_t × List (List Call)
  | context, [] => (context, [])
  | context, s :: ss =>
    let r := BMBTStep.apply k u x config context s
    let rest := BMBTRun k u x config r.1 ss
    (rest.1, r.2 :: rest.2)

/-- The texts written to the menu line `index` by the calls, in order. -/
def indexTexts (calls : List Call) (index : Nat) : List String :=
  calls.filterMap fun c =>
    match c with
    | .IBusCommandGTWriteIndexTMC i text => if i = index then some text else none
    | _ => none

/-- A controller context for the examples: the controller active and owning the
display, no menu drawn, both write timers idle, a static-screen-free new-UI
navigation computer. -/
def bmbtActive : BMBTContext_t :=
  { bt := btLinked, ibus := ⟨1, 9, 255, 0, 5⟩
    menu := BMBT_MENU_NONE
    status :=
      { playerMode := BMBT_MODE_ACTIVE, displayMode := BMBT_DISPLAY_ON
        navState := BMBT_NAV_STATE_ON, radType := 2, navIndexType := 0x61 }
    writtenIndices := 3
    timerHeaderIntervals := BMBT_MENU_HEADER_TIMER_OFF
    timerMenuIntervals := BMBT_MENU_HEADER_TIMER_OFF
    displayUpdateTaskId := 3
    headerWriteTaskId := 1
    menuWriteTaskId := 2
    mainDisplay := { status := 0, text := "Bluetooth", index := 0, length := 9, timeout := 0 } }

/-- A configuration store in which hands-free (address 0x0B in `hdr`) reads 0x01,
the blinker count (address 0x14) reads 5 and every other setting reads 0x00. -/
def configHandsfree : Config_t :=
  { configSample with settings := fun a => if a = 0x0B then 0x01 else if a = 0x14 then 5 else 0 }

/-- A menu selection message with the line `index` in `pkt[6]`. -/
def pktMenuSelect (index : Nat) : List Nat := [0x3B, 0x06, 0x68, 0x31, 0x60, 0x00, index, 0x00]

/-- A screen mode broadcast with the mode `mode` in `pkt[4]`. -/
def pktScreenMode (mode : Nat) : List Nat := [0x3B, 0x05, 0x68, 0x46, mode, 0x00]

/-! ## Board-monitor controller: the marquee task, and further objects for evaluation -/

/-- The text copied by `strncpy(text, &context->mainDisplay.text[index], 9)` with
`text[9] = '\0'` (bmbt.c 1610-1616): the 9 characters of the marquee text from
`index` on, or those that are left. -/
def displayWindow (text : String) (index : Nat) : String :=
  strncpy (String.mk (text.data.drop index)) 9

/-- `BMBTTimerScrollDisplay` (bmbt.c 1598-1645); `index` and `idxEnd` are `uint8_t`
and `timeout` is an `int8_t`. -/
def BMBTTimerScrollDisplay (k : Consts) (u : UIConsts) (config : Config_t)
    (context : BMBTContext_t) : BMBTContext_t × List Call :=
  if context.status.playerMode = BMBT_MODE_ACTIVE ∧
      context.status.displayMode = BMBT_DISPLAY_ON ∧
      ConfigGetSetting config u.CONFIG_SETTING_METADATA_MODE ≠ k.CONFIG_SETTING_OFF then
    if context.mainDisplay.timeout > 0 then
      ({ context with
          mainDisplay :=
            { context.mainDisplay with timeout := context.mainDisplay.timeout - 1 } }, [])
    else if context.mainDisplay.length > 9 then
      let timeout : Int := if context.mainDisplay.index = 0 then 5 else context.mainDisplay.timeout
      let idxEnd := (context.mainDisplay.index + 9) % 256
      ((if idxEnd ≥ context.mainDisplay.length then
          { context with mainDisplay := { context.mainDisplay with timeout := 2, index := 0 } }
        else if ConfigGetSetting config u.CONFIG_SETTING_METADATA_MODE =
            BMBT_METADATA_MODE_CHUNK then
          { context with
            mainDisplay :=
              { context.mainDisplay with
                timeout := 2, index := (context.mainDisplay.index + 9) % 256 } }
        else
          { context with
            mainDisplay :=
              { context.mainDisplay with
                timeout := timeout, index := (context.mainDisplay.index + 1) % 256 } }),
       BMBTGTWriteTitle u context
         (displayWindow context.mainDisplay.text context.mainDisplay.index))
    else
      ({ context with mainDisplay := { context.mainDisplay with index := 1 } },
       if context.mainDisplay.index = 0 then
         BMBTGTWriteTitle u context context.mainDisplay.text
       else [])
  else (context, [])

/-- The ticks of `BMBTTimerScrollDisplay` one after the other, `n` of them, with the
settings unchanged; the result is the final context and the calls of each tick. -/
def scrollRun (k : Consts) (u : UIConsts) (config : Config_t) :
    BMBTContext_t → Nat → BMBTContext_t × List (List Call)
  | context, 0 => (context, [])
  | context, n + 1 =>
    let r := BMBTTimerScrollDisplay k u config context
    let rest := scrollRun k u config r.1 n
    (rest.1, r.2 :: rest.2)

/-- The texts written to the title field by the calls, in order. -/
def titleTexts (calls : List Call) : List String :=
  calls.filterMap fun c =>
    match c with
    | .IBusCommandGTWriteTitleArea text => some text
    | .IBusCommandGTWriteTitleIndex text => some text
    | _ => none

/-- The context with the marquee at `index` and `timeout` ticks to wait. -/
def marqueeAt (context : BMBTContext_t) (index : Nat) (timeout : Int) : BMBTContext_t :=
  { context with mainDisplay := { context.mainDisplay with index := index, timeout := timeout } }

/-- The loop `while (idx < context->writtenIndices) { BMBTGTWriteIndex(context, idx,
" "); idx++; }` run for at most `fuel` rounds: the value of `idx` it ends with and
the writes it makes.  `idx` is a `uint8_t`. -/
def blankLoop : Nat → Nat → Nat → Nat × List Call
  | 0, idx, _ => (idx, [])
  | fuel + 1, idx, writtenIndices =>
    if idx < writtenIndices then
      ((blankLoop fuel ((idx + 1) % 256) writtenIndices).1,
       Call.IBusCommandGTWriteIndexTMC idx " " ::
         (blankLoop fuel ((idx + 1) % 256) writtenIndices).2)
    else (idx, [])

/-- The index of the gain table that `BMBTMenuSettingsCalling` reads for the stored
microphone gain (bmbt.c 687-690). -/
def menuCallingMicGain (stored : Nat) : Nat :=
  if stored > 21 then 0 else stored

/-- The microphone gain that `BMBTSettingsUpdateCalling` stores, and reads the gain
table at, for the gain stored before (bmbt.c 907-911); the gain is an
`unsigned char`. -/
def updateCallingMicGain (stored : Nat) : Nat :=
  if (stored + 1) % 256 > 21 then 0 else (stored + 1) % 256

/-- The initiate-connection events among the calls, with their device index. -/
def initiateConnections (u : UIConsts) (calls : List Call) : List Nat :=
  calls.filterMap fun c =>
    match c with
    | .EventTriggerCallback e d => if e = u.UIEvent_InitiateConnection then some d else none
    | _ => none

/-- A controller context for the examples: the controller active and owning the
display, with the marquee text "Artist - Song" (13 characters) at its start. -/
def bmbtMarquee : BMBTContext_t :=
  { bmbtActive with
    mainDisplay :=
      { status := 0, text := "Artist - Song", index := 0, length := 13, timeout := 0 } }

/-- A configuration store in which the metadata mode (address 0x0D in `uhdr`) reads
Party (0x01) and every other setting reads 0x00. -/
def configParty : Config_t :=
  { configSample with settings := fun a => if a = 0x0D then 0x01 else 0 }

/-- A Bluetooth object with a linked device that is the one paired device. -/
def btOnePaired : BC127_t :=
  { btLinked with
    pairedDevices := [{ macId := [0x32, 0x30, 0x46, 0x41, 0x42, 0x42], deviceName := "Phone" }]
    pairedDevicesCount := 1 }

/-- A configuration store in which the microphone gain (address 0x0C in `hdr`) reads
`n` and every other setting reads 0x00. -/
def configMicGain (n : Nat) : Config_t :=
  { configSample with settings := fun a => if a = 0x0C then n else 0 }

/-- A Bluetooth object whose active device has its A2DP link up and no AVRCP link
yet. -/
def btA2dpOnly : BC127_t :=
  { btLinked with activeDevice := { btLinked.activeDevice with avrcpLinkId := 0 } }

/-- A context with the CD-changer function PAUSE (0x0C in `hdr`) and the
board-monitor UI. -/
def contextPaused : HandlerContext_t :=
  initContext btLinked ⟨1, 0x0C, 255, 0, 0⟩ 2 0

/-- The command `SET UI n` of the console (`CLIProcess`, cli.c 346-363): the UI mode
named is stored with `ConfigSetUIMode`; the handler context and the UI controllers
that run are not touched. -/
def cliSetUI (w : World) (mode : Nat) : World × List Call :=
  ({ w with config := { w.config with uiMode := mode } }, [Call.ConfigSetUIMode mode])

/-- The world after `HandlerInit` with the CD53 UI stored, followed by the console
command that stores the board-monitor UI. -/
def worldStoredBMBT : World :=
  (cliSetUI ⟨(HandlerInit hdr envCD53.config 0 0 btIdle ⟨1, 9, 255, 0, 0⟩).1, envCD53.config⟩
    hdr.IBus_UI_BMBT).1

/-- A Bluetooth object with a linked device whose name is "Phone". -/
def btPhone : BC127_t :=
  { btLinked with activeDevice := { btLinked.activeDevice with deviceName := "Phone" } }

/-! ## Ignition status -/

/-- The calls of `HandlerIBusIKEIgnitionStatus` on a transition from OFF to a
non-OFF value: the ignition-on branch followed by the one-shot telephone status. -/
theorem ignition_on_calls (k : Consts) (ConfigGetSetting : Nat → Nat) (now : Nat)
    (context : HandlerContext_t) (pkt : List Nat)
    (hnew : pkt.getD 0 0 ≠ k.IBUS_IGNITION_OFF)
    (hprev : context.ibus.ignitionStatus = k.IBUS_IGNITION_OFF) :
    (HandlerIBusIKEIgnitionStatus k ConfigGetSetting now context pkt).2 =
      (ignitionOnBranch k ConfigGetSetting now context).2 ++
      (if context.ibusModuleStatus.IKE = false then
        HandlerIBusBroadcastTELStatus k ConfigGetSetting context else []) := by
  have hne : pkt.getD 0 0 ≠ context.ibus.ignitionStatus := by rw [hprev]; exact hnew
  simp only [HandlerIBusIKEIgnitionStatus]
  generalize pkt.getD 0 0 = ign at hnew hne
  cases hike : context.ibusModuleStatus.IKE <;>
    simp [hne, hnew, hprev, hike, ignitionOnBranch,
      HandlerIBusBroadcastCDCStatus, HandlerIBusBroadcastTELStatus]

/-- The result of `HandlerIBusIKEIgnitionStatus` on a transition from a non-OFF
value to OFF: the ignition-off branch followed by the one-shot telephone status. -/
theorem ignition_off_result (k : Consts) (ConfigGetSetting : Nat → Nat) (now : Nat)
    (context : HandlerContext_t) (pkt : List Nat)
    (hnew : pkt.getD 0 0 = k.IBUS_IGNITION_OFF)
    (hprev : context.ibus.ignitionStatus ≠ k.IBUS_IGNITION_OFF) :
    (HandlerIBusIKEIgnitionStatus k ConfigGetSetting now context pkt).2 =
      (ignitionOffBranch k ConfigGetSetting context).2 ++
      (if context.ibusModuleStatus.IKE = false then
        HandlerIBusBroadcastTELStatus k ConfigGetSetting context else []) ∧
    (HandlerIBusIKEIgnitionStatus k ConfigGetSetting now context pkt).1.bodyModuleStatus.lowSideDoors
      = false := by
  have hne : pkt.getD 0 0 ≠ context.ibus.ignitionStatus := by rw [hnew]; exact Ne.symm hprev
  simp only [HandlerIBusIKEIgnitionStatus]
  generalize pkt.getD 0 0 = ign at hnew hne
  subst hnew
  cases hike : context.ibusModuleStatus.IKE <;>
    simp [hne, hike, ignitionOffBranch, HandlerIBusBroadcastTELStatus]

/-- No call of `HandlerIBusBroadcastTELStatus` is a Bluetooth, LED or door command. -/
theorem broadcastTEL_filters (k : Consts) (ConfigGetSetting : Nat → Nat)
    (context : HandlerContext_t) :
    (HandlerIBusBroadcastTELStatus k ConfigGetSetting context).filter Call.isTELSetLED = [] ∧
    (HandlerIBusBroadcastTELStatus k ConfigGetSetting context).filter Call.isBC127 = [] ∧
    (HandlerIBusBroadcastTELStatus k ConfigGetSetting context).filter Call.isDoorUnlock = [] := by
  unfold HandlerIBusBroadcastTELStatus
  split_ifs <;> simp [Call.isTELSetLED, Call.isBC127, Call.isDoorUnlock]

/-- C1: on a transition from OFF to a non-OFF ignition value, with hands-free
enabled and the board-monitor UI, the calls of `HandlerIBusIKEIgnitionStatus`
contain, in this order: tone play, CD-changer status broadcast, metadata clear,
Bluetooth state connectable ON / discoverable OFF, status query, paired-list
query, telephone LED set, light-control redundant-data request. -/
theorem C1_ignition_on_order (k : Consts) (ConfigGetSetting : Nat → Nat) (now : Nat)
    (context : HandlerContext_t) (pkt : List Nat)
    (hnew : pkt.getD 0 0 ≠ k.IBUS_IGNITION_OFF)
    (hprev : context.ibus.ignitionStatus = k.IBUS_IGNITION_OFF)
    (hhfp : ConfigGetSetting k.CONFIG_SETTING_HFP = k.CONFIG_SETTING_ON)
    (hui : context.uiMode = k.IBus_UI_BMBT) :
    List.Sublist
      [Call.BC127CommandTone HANDLER_IGNITION_TONE,
       Call.IBusCommandCDCStatus
         (if context.ibus.cdChangerFunction = k.IBUS_CDC_FUNC_PAUSE then k.IBUS_CDC_FUNC_PAUSE
          else if context.ibus.cdChangerFunction = k.IBUS_CDC_FUNC_PLAYING then
            k.IBUS_CDC_STAT_PLAYING
          else k.IBUS_CDC_STAT_STOP)
         context.ibus.cdChangerFunction k.IBUS_CDC_DISC_COUNT_1,
       Call.BC127ClearMetadata,
       Call.BC127CommandBtState k.BC127_STATE_ON k.BC127_STATE_OFF,
       Call.BC127CommandStatus,
       Call.BC127CommandList,
       Call.IBusCommandTELSetLED
         (if context.bt.activeDevice.a2dpLinkId ≠ 0 ∨ context.bt.activeDevice.avrcpLinkId ≠ 0 then
            k.IBUS_TEL_LED_STATUS_GREEN
          else k.IBUS_TEL_LED_STATUS_RED),
       Call.IBusCommandLCMGetRedundantData]
      (HandlerIBusIKEIgnitionStatus k ConfigGetSetting now context pkt).2 := by
  rw [ignition_on_calls k ConfigGetSetting now context pkt hnew hprev]
  refine List.Sublist.trans ?_ (List.sublist_append_left _ _)
  have hled : (if context.bt.activeDevice.a2dpLinkId ≠ 0 ∨ context.bt.activeDevice.avrcpLinkId ≠ 0
      then k.IBUS_TEL_LED_STATUS_GREEN else k.IBUS_TEL_LED_STATUS_RED) =
      (if context.bt.activeDevice.avrcpLinkId = 0 ∧ context.bt.activeDevice.a2dpLinkId = 0
      then k.IBUS_TEL_LED_STATUS_RED else k.IBUS_TEL_LED_STATUS_GREEN) := by
    split_ifs <;> first | rfl | omega
  rw [hled]
  simp only [ignitionOnBranch, HandlerIBusBroadcastCDCStatus, hhfp, hui, if_true]
  split_ifs <;> simp

/-- C1 at a concrete input: ignition goes from OFF to position 1 with no device
linked. -/
theorem C1_ignition_on_order_witness :
    List.Sublist
      [Call.BC127CommandTone HANDLER_IGNITION_TONE,
       Call.IBusCommandCDCStatus 0 2 1,
       Call.BC127ClearMetadata,
       Call.BC127CommandBtState 1 0,
       Call.BC127CommandStatus,
       Call.BC127CommandList,
       Call.IBusCommandTELSetLED 1,
       Call.IBusCommandLCMGetRedundantData]
      (HandlerIBusIKEIgnitionStatus hdr settingsAllOn 500
        (initContext btIdle ⟨0, 2, 255, 0, 0⟩ 2 0) [1]).2 :=
  C1_ignition_on_order hdr settingsAllOn 500 (initContext btIdle ⟨0, 2, 255, 0, 0⟩ 2 0) [1]
    (by decide) rfl rfl rfl

/-- C2: on a transition from OFF to a non-OFF ignition value,
`HandlerIBusIKEIgnitionStatus` issues exactly one telephone LED command when
hands-free is enabled, green if the A2DP or the AVRCP link id is non-zero and red
if both are zero, and no LED command when hands-free is not enabled. -/
theorem C2_ignition_on_led (k : Consts) (ConfigGetSetting : Nat → Nat) (now : Nat)
    (context : HandlerContext_t) (pkt : List Nat)
    (hnew : pkt.getD 0 0 ≠ k.IBUS_IGNITION_OFF)
    (hprev : context.ibus.ignitionStatus = k.IBUS_IGNITION_OFF) :
    (HandlerIBusIKEIgnitionStatus k ConfigGetSetting now context pkt).2.filter Call.isTELSetLED =
      if ConfigGetSetting k.CONFIG_SETTING_HFP = k.CONFIG_SETTING_ON then
        [Call.IBusCommandTELSetLED
          (if context.bt.activeDevice.a2dpLinkId ≠ 0 ∨ context.bt.activeDevice.avrcpLinkId ≠ 0 then
             k.IBUS_TEL_LED_STATUS_GREEN
           else k.IBUS_TEL_LED_STATUS_RED)]
      else [] := by
  rw [ignition_on_calls k ConfigGetSetting now context pkt hnew hprev, List.filter_append]
  have htel : (if context.ibusModuleStatus.IKE = false then
      HandlerIBusBroadcastTELStatus k ConfigGetSetting context else []).filter Call.isTELSetLED
      = [] := by
    split_ifs
    · exact (broadcastTEL_filters k ConfigGetSetting context).1
    · rfl
  rw [htel, List.append_nil]
  simp only [ignitionOnBranch, HandlerIBusBroadcastCDCStatus]
  split_ifs <;> simp_all [Call.isTELSetLED]

/-- C2 at a concrete input: hands-free on, A2DP and AVRCP links up, so the one LED
command is green. -/
theorem C2_ignition_on_led_witness :
    (HandlerIBusIKEIgnitionStatus hdr settingsAllOn 500
        (initContext btLinked ⟨0, 9, 255, 0, 0⟩ 2 0) [1]).2.filter Call.isTELSetLED =
      [Call.IBusCommandTELSetLED 0x10] :=
  C2_ignition_on_led hdr settingsAllOn 500 (initContext btLinked ⟨0, 9, 255, 0, 0⟩ 2 0) [1]
    (by decide) rfl

/-- C3: on a transition from a non-OFF ignition value to OFF,
`HandlerIBusIKEIgnitionStatus` issues, as its Bluetooth calls, state connectable
OFF / discoverable OFF, close-all-links and clear-paired-devices; with the
comfort-lock setting on it issues exactly one unlock command (centre lock button
for vehicle type E38/E39/E53, otherwise unlock-all if the low-side-doors latch is
set and unlock-high if not) and none otherwise; afterwards the latch is clear. -/
theorem C3_ignition_off (k : Consts) (ConfigGetSetting : Nat → Nat) (now : Nat)
    (context : HandlerContext_t) (pkt : List Nat)
    (hnew : pkt.getD 0 0 = k.IBUS_IGNITION_OFF)
    (hprev : context.ibus.ignitionStatus ≠ k.IBUS_IGNITION_OFF) :
    (HandlerIBusIKEIgnitionStatus k ConfigGetSetting now context pkt).2.filter Call.isBC127 =
      [Call.BC127CommandBtState k.BC127_STATE_OFF k.BC127_STATE_OFF,
       Call.BC127CommandClose k.BC127_CLOSE_ALL,
       Call.BC127ClearPairedDevices] ∧
    (HandlerIBusIKEIgnitionStatus k ConfigGetSetting now context pkt).2.filter Call.isDoorUnlock =
      (if ConfigGetSetting k.CONFIG_SETTING_COMFORT_LOCKS_ADDRESS = k.CONFIG_SETTING_ON then
        [if context.ibus.vehicleType = k.IBUS_VEHICLE_TYPE_E38_E39_E53 then
           Call.IBusCommandGMDoorCenterLockButton
         else if context.bodyModuleStatus.lowSideDoors = true then
           Call.IBusCommandGMDoorUnlockAll
         else Call.IBusCommandGMDoorUnlockHigh]
       else []) ∧
    (HandlerIBusIKEIgnitionStatus k ConfigGetSetting now context pkt).1.bodyModuleStatus.lowSideDoors
      = false := by
  obtain ⟨hcalls, hlatch⟩ := ignition_off_result k ConfigGetSetting now context pkt hnew hprev
  have htel : ∀ p : Call → Bool,
      (HandlerIBusBroadcastTELStatus k ConfigGetSetting context).filter p = [] →
      (if context.ibusModuleStatus.IKE = false then
        HandlerIBusBroadcastTELStatus k ConfigGetSetting context else []).filter p = [] := by
    intro p hp
    split_ifs
    · exact hp
    · rfl
  obtain ⟨-, hbt, hdoor⟩ := broadcastTEL_filters k ConfigGetSetting context
  refine ⟨?_, ?_, hlatch⟩
  · rw [hcalls, List.filter_append, htel _ hbt, List.append_nil]
    simp only [ignitionOffBranch]
    split_ifs <;> simp [Call.isBC127]
  · rw [hcalls, List.filter_append, htel _ hdoor, List.append_nil]
    simp only [ignitionOffBranch]
    split_ifs <;> simp [Call.isDoorUnlock]

/-- C3 at a concrete input: ignition goes from position 1 to OFF with comfort
locks on, an unknown vehicle type and no low door opened. -/
theorem C3_ignition_off_witness :
    (HandlerIBusIKEIgnitionStatus hdr settingsAllOn 500
        (initContext btLinked ⟨1, 9, 255, 0, 0⟩ 2 0) [0]).2.filter Call.isBC127 =
      [Call.BC127CommandBtState 0 0, Call.BC127CommandClose 255, Call.BC127ClearPairedDevices] ∧
    (HandlerIBusIKEIgnitionStatus hdr settingsAllOn 500
        (initContext btLinked ⟨1, 9, 255, 0, 0⟩ 2 0) [0]).2.filter Call.isDoorUnlock =
      [Call.IBusCommandGMDoorUnlockHigh] ∧
    (HandlerIBusIKEIgnitionStatus hdr settingsAllOn 500
        (initContext btLinked ⟨1, 9, 255, 0, 0⟩ 2 0) [0]).1.bodyModuleStatus.lowSideDoors = false :=
  C3_ignition_off hdr settingsAllOn 500 (initContext btLinked ⟨1, 9, 255, 0, 0⟩ 2 0) [0]
    rfl (by decide)

/-! ## CD-changer status request -/

/-- The command dispatch of `HandlerIBusCDCStatus` itself sends no CD-changer
status response. -/
theorem cdcDispatch_no_report (k : Consts) (ConfigGetSetting : Nat → Nat)
    (context : HandlerContext_t) (pkt : List Nat) :
    cdcReports (cdcDispatch k ConfigGetSetting context pkt).calls = [] := by
  simp only [cdcDispatch]
  split_ifs
  · rfl
  · simp only [cdcStopPlaying]; split_ifs <;> rfl
  · simp only [cdcChangeTrack]; split_ifs <;> rfl
  · simp only [cdcSeek]; split_ifs <;> rfl
  · simp only [cdcScan]; split_ifs <;> rfl
  · simp only [cdcRandomMode]; split_ifs <;> rfl
  · rfl
  · simp only [cdcStartPlaying]; split_ifs <;> rfl
  · rfl

/-- `HandlerIBusCDCStatus` sends exactly one CD-changer status response, built from
the locals left by the dispatch and the disc count of the UI mode. -/
theorem cdcReports_HandlerIBusCDCStatus (k : Consts) (ConfigGetSetting : Nat → Nat)
    (tPoll tStatus : Nat) (context : HandlerContext_t) (pkt : List Nat) :
    cdcReports (HandlerIBusCDCStatus k ConfigGetSetting tPoll tStatus context pkt).2 =
      [((cdcDispatch k ConfigGetSetting context pkt).curStatus,
        (cdcDispatch k ConfigGetSetting context pkt).curFunction,
        if context.uiMode = k.IBus_UI_BMBT then k.IBUS_CDC_DISC_COUNT_1
        else k.IBUS_CDC_DISC_COUNT_6)] := by
  have h := cdcDispatch_no_report k ConfigGetSetting context pkt
  simp only [HandlerIBusCDCStatus]
  unfold cdcReports at h ⊢
  rw [List.filterMap_append, h]
  rfl

/-- The (status, function) pair reported by `HandlerIBusCDCStatus` is the pair of
locals left by the dispatch. -/
theorem cdcStatusFunction_HandlerIBusCDCStatus (k : Consts) (ConfigGetSetting : Nat → Nat)
    (tPoll tStatus : Nat) (context : HandlerContext_t) (pkt : List Nat) :
    cdcStatusFunction (HandlerIBusCDCStatus k ConfigGetSetting tPoll tStatus context pkt).2 =
      [((cdcDispatch k ConfigGetSetting context pkt).curStatus,
        (cdcDispatch k ConfigGetSetting context pkt).curFunction)] := by
  simp [cdcStatusFunction, cdcReports_HandlerIBusCDCStatus]

/-- The Bluetooth calls of `HandlerIBusCDCStatus` are those of its dispatch. -/
theorem bc127_HandlerIBusCDCStatus (k : Consts) (ConfigGetSetting : Nat → Nat)
    (tPoll tStatus : Nat) (context : HandlerContext_t) (pkt : List Nat) :
    (HandlerIBusCDCStatus k ConfigGetSetting tPoll tStatus context pkt).2.filter Call.isBC127 =
      (cdcDispatch k ConfigGetSetting context pkt).calls.filter Call.isBC127 := by
  simp [HandlerIBusCDCStatus, List.filter_append, Call.isBC127]

/-- C4: when the command byte `pkt[4]` is GET_STATUS, `HandlerIBusCDCStatus`
reports the current `cdChangerFunction` as function, and as status PLAYING if that
function is PLAYING, PAUSE if it is PAUSE and STOP otherwise; it makes no
Bluetooth call. -/
theorem C4_get_status (k : Consts) (ConfigGetSetting : Nat → Nat) (tPoll tStatus : Nat)
    (context : HandlerContext_t) (pkt : List Nat)
    (hcmd : pkt.getD 4 0 = k.IBUS_CDC_CMD_GET_STATUS) :
    cdcStatusFunction (HandlerIBusCDCStatus k ConfigGetSetting tPoll tStatus context pkt).2 =
      [(if context.ibus.cdChangerFunction = k.IBUS_CDC_FUNC_PLAYING then k.IBUS_CDC_STAT_PLAYING
        else if context.ibus.cdChangerFunction = k.IBUS_CDC_FUNC_PAUSE then k.IBUS_CDC_STAT_PAUSE
        else k.IBUS_CDC_STAT_STOP,
        context.ibus.cdChangerFunction)] ∧
    (HandlerIBusCDCStatus k ConfigGetSetting tPoll tStatus context pkt).2.filter Call.isBC127
      = [] := by
  rw [cdcStatusFunction_HandlerIBusCDCStatus, bc127_HandlerIBusCDCStatus]
  simp only [cdcDispatch]
  generalize pkt.getD 4 0 = cmd at hcmd
  subst hcmd
  simp [cdcGetStatus]

/-- C4 at a concrete input: a status poll while the function is PLAYING. -/
theorem C4_get_status_witness :
    cdcStatusFunction (HandlerIBusCDCStatus hdr settingsAllOn 500 500
        (initContext btLinked ⟨1, 9, 255, 0, 0⟩ 2 0) [0x68, 0x03, 0x18, 0x38, 0x00, 0x00]).2 =
      [(0x02, 0x09)] ∧
    (HandlerIBusCDCStatus hdr settingsAllOn 500 500
        (initContext btLinked ⟨1, 9, 255, 0, 0⟩ 2 0) [0x68, 0x03, 0x18, 0x38, 0x00, 0x00]).2.filter
        Call.isBC127 = [] :=
  C4_get_status hdr settingsAllOn 500 500 (initContext btLinked ⟨1, 9, 255, 0, 0⟩ 2 0)
    [0x68, 0x03, 0x18, 0x38, 0x00, 0x00] rfl

/-- C5: with pairwise distinct command codes, `HandlerIBusCDCStatus` reports the
(status, function) pair (STOP, NOT_PLAYING) for STOP_PLAYING, (PAUSE, PAUSE) for
PAUSE_PLAYING, (PLAYING, PLAYING) for START_PLAYING, (0x00, SCAN_MODE) for SCAN
and (0x00, RANDOM_MODE) for RANDOM_MODE when `pkt[5]` is 0x01 and (0x00, PLAYING)
for either when it is not, and (the command byte, NOT_PLAYING) for a command byte
outside the table. -/
theorem C5_command_table (k : Consts) (ConfigGetSetting : Nat → Nat) (tPoll tStatus : Nat)
    (context : HandlerContext_t) (pkt : List Nat) (hk : k.cdcCommands.Nodup) :
    (pkt.getD 4 0 = k.IBUS_CDC_CMD_STOP_PLAYING →
      cdcStatusFunction (HandlerIBusCDCStatus k ConfigGetSetting tPoll tStatus context pkt).2 =
        [(k.IBUS_CDC_STAT_STOP, k.IBUS_CDC_FUNC_NOT_PLAYING)]) ∧
    (pkt.getD 4 0 = k.IBUS_CDC_CMD_PAUSE_PLAYING →
      cdcStatusFunction (HandlerIBusCDCStatus k ConfigGetSetting tPoll tStatus context pkt).2 =
        [(k.IBUS_CDC_STAT_PAUSE, k.IBUS_CDC_FUNC_PAUSE)]) ∧
    (pkt.getD 4 0 = k.IBUS_CDC_CMD_START_PLAYING →
      cdcStatusFunction (HandlerIBusCDCStatus k ConfigGetSetting tPoll tStatus context pkt).2 =
        [(k.IBUS_CDC_STAT_PLAYING, k.IBUS_CDC_FUNC_PLAYING)]) ∧
    (pkt.getD 4 0 = k.IBUS_CDC_CMD_SCAN →
      cdcStatusFunction (HandlerIBusCDCStatus k ConfigGetSetting tPoll tStatus context pkt).2 =
        [(0x00, if pkt.getD 5 0 = 0x01 then k.IBUS_CDC_FUNC_SCAN_MODE
                else k.IBUS_CDC_FUNC_PLAYING)]) ∧
    (pkt.getD 4 0 = k.IBUS_CDC_CMD_RANDOM_MODE →
      cdcStatusFunction (HandlerIBusCDCStatus k ConfigGetSetting tPoll tStatus context pkt).2 =
        [(0x00, if pkt.getD 5 0 = 0x01 then k.IBUS_CDC_FUNC_RANDOM_MODE
                else k.IBUS_CDC_FUNC_PLAYING)]) ∧
    (pkt.getD 4 0 ∉ k.cdcCommands →
      cdcStatusFunction (HandlerIBusCDCStatus k ConfigGetSetting tPoll tStatus context pkt).2 =
        [(pkt.getD 4 0, k.IBUS_CDC_FUNC_NOT_PLAYING)]) := by
  rw [cdcStatusFunction_HandlerIBusCDCStatus]
  simp only [cdcDispatch, cdcScan, cdcRandomMode]
  generalize pkt.getD 4 0 = cmd
  generalize pkt.getD 5 0 = dir
  simp only [Consts.cdcCommands, List.nodup_cons, List.mem_cons, List.mem_singleton,
    List.not_mem_nil, not_or, or_false, not_false_eq_true, List.nodup_nil, and_true] at hk ⊢
  obtain ⟨⟨g1, g2, g3, g4, g5, g6, g7⟩, ⟨s2, s3, s4, s5, s6, s7⟩, ⟨t3, t4, t5, t6, t7⟩,
    ⟨e4, e5, e6, e7⟩, ⟨c5, c6, c7⟩, ⟨r6, r7⟩, p7⟩ := hk
  refine ⟨?_, ?_, ?_, ?_, ?_, ?_⟩
  · rintro rfl
    simp [Ne.symm g1, cdcStopPlaying]
  · rintro rfl
    simp [Ne.symm g6, Ne.symm s6, Ne.symm t6, Ne.symm e6, Ne.symm c6, Ne.symm r6]
  · rintro rfl
    simp [Ne.symm g7, Ne.symm s7, Ne.symm t7, Ne.symm e7, Ne.symm c7, Ne.symm r7, Ne.symm p7,
      cdcStartPlaying]
    split_ifs <;> simp
  · rintro rfl
    simp [Ne.symm g4, Ne.symm s4, Ne.symm t4, Ne.symm e4]
    split_ifs <;> simp
  · rintro rfl
    simp [Ne.symm g5, Ne.symm s5, Ne.symm t5, Ne.symm e5, Ne.symm c5]
    split_ifs <;> simp
  · rintro ⟨h1, h2, h3, h4, h5, h6, h7, h8⟩
    simp [h1, h2, h3, h4, h5, h6, h7, h8]

/-- C5 at a concrete input: the PAUSE_PLAYING row. -/
theorem C5_command_table_witness :
    hdr.cdcCommands.Nodup ∧
    cdcStatusFunction (HandlerIBusCDCStatus hdr settingsAllOn 500 500
        (initContext btLinked ⟨1, 9, 255, 0, 0⟩ 2 0) [0x68, 0x03, 0x18, 0x38, 0x02, 0x00]).2 =
      [(0x01, 0x0C)] :=
  ⟨by decide,
   (C5_command_table hdr settingsAllOn 500 500 (initContext btLinked ⟨1, 9, 255, 0, 0⟩ 2 0)
      [0x68, 0x03, 0x18, 0x38, 0x02, 0x00] (by decide)).2.1 rfl⟩

/-- C6, as stated, fails: with the function PLAYING, a SEEK in the forward
direction (`pkt[5] = 0x01`, forward seek press issued) and a SEEK in the reverse
direction (`pkt[5] = 0x00`) both report status FAST_REV, and both report the
function NOT_PLAYING, which is not the current function. -/
theorem C6_seek_counterexample :
    (HandlerIBusCDCStatus hdr settingsAllOn 500 500
        (initContext btLinked ⟨1, 9, 255, 0, 0⟩ 2 0) [0x68, 0x04, 0x18, 0x38, 0x04, 0x01]).2 =
      [Call.BC127CommandForwardSeekPress,
       Call.IBusCommandCDCStatus hdr.IBUS_CDC_STAT_FAST_REV hdr.IBUS_CDC_FUNC_NOT_PLAYING 0x01] ∧
    (HandlerIBusCDCStatus hdr settingsAllOn 500 500
        (initContext btLinked ⟨1, 9, 255, 0, 0⟩ 2 0) [0x68, 0x04, 0x18, 0x38, 0x04, 0x00]).2 =
      [Call.BC127CommandBackwardSeekPress,
       Call.IBusCommandCDCStatus hdr.IBUS_CDC_STAT_FAST_REV hdr.IBUS_CDC_FUNC_NOT_PLAYING 0x01] ∧
    (initContext btLinked ⟨1, 9, 255, 0, 0⟩ 2 0).ibus.cdChangerFunction = hdr.IBUS_CDC_FUNC_PLAYING ∧
    hdr.IBUS_CDC_FUNC_PLAYING ≠ hdr.IBUS_CDC_FUNC_NOT_PLAYING := by
  refine ⟨rfl, rfl, rfl, ?_⟩
  decide

/-- C6 as amended: for a SEEK command, `HandlerIBusCDCStatus` reports status
FAST_REV for either value of the direction byte `pkt[5]` and reports as function
NOT_PLAYING, the initial value of `curFunction`, whatever the current
`cdChangerFunction`; the direction byte selects only the seek-press command and
the recorded seek mode (backward and REV when it is 0x00, forward and FWD
otherwise). -/
theorem C6_seek_amended (k : Consts) (ConfigGetSetting : Nat → Nat) (tPoll tStatus : Nat)
    (context : HandlerContext_t) (pkt : List Nat) (hk : k.cdcCommands.Nodup)
    (hcmd : pkt.getD 4 0 = k.IBUS_CDC_CMD_SEEK) :
    cdcStatusFunction (HandlerIBusCDCStatus k ConfigGetSetting tPoll tStatus context pkt).2 =
      [(k.IBUS_CDC_STAT_FAST_REV, k.IBUS_CDC_FUNC_NOT_PLAYING)] ∧
    (HandlerIBusCDCStatus k ConfigGetSetting tPoll tStatus context pkt).2.filter Call.isBC127 =
      [if pkt.getD 5 0 = 0x00 then Call.BC127CommandBackwardSeekPress
       else Call.BC127CommandForwardSeekPress] ∧
    (HandlerIBusCDCStatus k ConfigGetSetting tPoll tStatus context pkt).1.seekMode =
      (if pkt.getD 5 0 = 0x00 then HANDLER_CDC_SEEK_MODE_REV else HANDLER_CDC_SEEK_MODE_FWD) := by
  rw [cdcStatusFunction_HandlerIBusCDCStatus, bc127_HandlerIBusCDCStatus]
  simp only [HandlerIBusCDCStatus, cdcDispatch, cdcSeek]
  generalize pkt.getD 4 0 = cmd at hcmd
  generalize pkt.getD 5 0 = dir
  subst hcmd
  simp only [Consts.cdcCommands, List.nodup_cons, List.mem_cons, List.mem_singleton,
    List.not_mem_nil, not_or, or_false, not_false_eq_true, List.nodup_nil, and_true] at hk
  obtain ⟨⟨-, -, g3, -⟩, ⟨-, s3, -⟩, ⟨t3, -⟩, -⟩ := hk
  simp only [Ne.symm g3, Ne.symm s3, Ne.symm t3, if_false]
  split_ifs <;> simp [Call.isBC127]

/-- C6 as amended, at a concrete input: a forward SEEK while the function is
PLAYING. -/
theorem C6_seek_amended_witness :
    hdr.cdcCommands.Nodup ∧
    cdcStatusFunction (HandlerIBusCDCStatus hdr settingsAllOn 500 500
        (initContext btLinked ⟨1, 9, 255, 0, 0⟩ 2 0) [0x68, 0x04, 0x18, 0x38, 0x04, 0x01]).2 =
      [(0x04, 0x02)] :=
  ⟨by decide,
   (C6_seek_amended hdr settingsAllOn 500 500 (initContext btLinked ⟨1, 9, 255, 0, 0⟩ 2 0)
      [0x68, 0x04, 0x18, 0x38, 0x04, 0x01] (by decide) rfl).1⟩

/-- C7: for a CHANGE_TRACK command, `HandlerIBusCDCStatus` reports status PLAYING
with the current `cdChangerFunction`; when the UI mode is not CD53 its only
Bluetooth call is one track command (forward when `pkt[5]` is 0x00, backward
otherwise), and when the UI mode is CD53 it makes no Bluetooth call. -/
theorem C7_change_track (k : Consts) (ConfigGetSetting : Nat → Nat) (tPoll tStatus : Nat)
    (context : HandlerContext_t) (pkt : List Nat) (hk : k.cdcCommands.Nodup)
    (hcmd : pkt.getD 4 0 = k.IBUS_CDC_CMD_CHANGE_TRACK) :
    cdcStatusFunction (HandlerIBusCDCStatus k ConfigGetSetting tPoll tStatus context pkt).2 =
      [(k.IBUS_CDC_STAT_PLAYING, context.ibus.cdChangerFunction)] ∧
    (HandlerIBusCDCStatus k ConfigGetSetting tPoll tStatus context pkt).2.filter Call.isBC127 =
      (if context.uiMode = k.IBus_UI_CD53 then []
       else [if pkt.getD 5 0 = 0x00 then Call.BC127CommandForward
             else Call.BC127CommandBackward]) := by
  rw [cdcStatusFunction_HandlerIBusCDCStatus, bc127_HandlerIBusCDCStatus]
  simp only [cdcDispatch, cdcChangeTrack]
  generalize pkt.getD 4 0 = cmd at hcmd
  generalize pkt.getD 5 0 = dir
  subst hcmd
  simp only [Consts.cdcCommands, List.nodup_cons, List.mem_cons, List.mem_singleton,
    List.not_mem_nil, not_or, or_false, not_false_eq_true, List.nodup_nil, and_true] at hk
  obtain ⟨⟨-, g2, -⟩, ⟨s2, -⟩, -⟩ := hk
  simp only [Ne.symm g2, Ne.symm s2, if_false]
  split_ifs <;> simp_all [Call.isBC127]

/-- C7 at a concrete input: next track under the board-monitor UI. -/
theorem C7_change_track_witness :
    hdr.cdcCommands.Nodup ∧
    cdcStatusFunction (HandlerIBusCDCStatus hdr settingsAllOn 500 500
        (initContext btLinked ⟨1, 9, 255, 0, 0⟩ 2 0) [0x68, 0x04, 0x18, 0x38, 0x0A, 0x00]).2 =
      [(0x02, 0x09)] ∧
    (HandlerIBusCDCStatus hdr settingsAllOn 500 500
        (initContext btLinked ⟨1, 9, 255, 0, 0⟩ 2 0) [0x68, 0x04, 0x18, 0x38, 0x0A, 0x00]).2.filter
        Call.isBC127 = [Call.BC127CommandForward] :=
  ⟨by decide,
   C7_change_track hdr settingsAllOn 500 500 (initContext btLinked ⟨1, 9, 255, 0, 0⟩ 2 0)
      [0x68, 0x04, 0x18, 0x38, 0x0A, 0x00] (by decide) rfl⟩

/-- C8: for every command byte and every context, `HandlerIBusCDCStatus` sends
exactly one CD-changer status response, whose disc count is `IBUS_CDC_DISC_COUNT_1`
when the UI mode is BMBT and `IBUS_CDC_DISC_COUNT_6` for every other UI mode, and
afterwards `cdChangerLastPoll` and `cdChangerLastStatus` each hold the value that
`TimerGetMillis()` returned for it. -/
theorem C8_one_response (k : Consts) (ConfigGetSetting : Nat → Nat) (tPoll tStatus : Nat)
    (context : HandlerContext_t) (pkt : List Nat) :
    (cdcReports (HandlerIBusCDCStatus k ConfigGetSetting tPoll tStatus context pkt).2).map
        (fun r => r.2.2) =
      [if context.uiMode = k.IBus_UI_BMBT then k.IBUS_CDC_DISC_COUNT_1
       else k.IBUS_CDC_DISC_COUNT_6] ∧
    (HandlerIBusCDCStatus k ConfigGetSetting tPoll tStatus context pkt).1.cdChangerLastPoll
      = tPoll ∧
    (HandlerIBusCDCStatus k ConfigGetSetting tPoll tStatus context pkt).1.cdChangerLastStatus
      = tStatus := by
  rw [cdcReports_HandlerIBusCDCStatus]
  exact ⟨rfl, rfl, rfl⟩

/-- C9: when `HandlerIBusCDCStatus` receives START_PLAYING it issues the
forward-seek-release command if the seek mode is FWD, the backward-seek-release
command if it is REV, and no release if it is NONE; in all three cases the seek
mode is NONE afterwards, and the reported function is PLAYING. -/
theorem C9_start_playing (k : Consts) (ConfigGetSetting : Nat → Nat) (tPoll tStatus : Nat)
    (context : HandlerContext_t) (pkt : List Nat) (hk : k.cdcCommands.Nodup)
    (hcmd : pkt.getD 4 0 = k.IBUS_CDC_CMD_START_PLAYING) :
    (context.seekMode = HANDLER_CDC_SEEK_MODE_FWD →
      (HandlerIBusCDCStatus k ConfigGetSetting tPoll tStatus context pkt).2.filter
          Call.isSeekRelease = [Call.BC127CommandForwardSeekRelease] ∧
      (HandlerIBusCDCStatus k ConfigGetSetting tPoll tStatus context pkt).1.seekMode =
          HANDLER_CDC_SEEK_MODE_NONE) ∧
    (context.seekMode = HANDLER_CDC_SEEK_MODE_REV →
      (HandlerIBusCDCStatus k ConfigGetSetting tPoll tStatus context pkt).2.filter
          Call.isSeekRelease = [Call.BC127CommandBackwardSeekRelease] ∧
      (HandlerIBusCDCStatus k ConfigGetSetting tPoll tStatus context pkt).1.seekMode =
          HANDLER_CDC_SEEK_MODE_NONE) ∧
    (context.seekMode = HANDLER_CDC_SEEK_MODE_NONE →
      (HandlerIBusCDCStatus k ConfigGetSetting tPoll tStatus context pkt).2.filter
          Call.isSeekRelease = [] ∧
      (HandlerIBusCDCStatus k ConfigGetSetting tPoll tStatus context pkt).1.seekMode =
          HANDLER_CDC_SEEK_MODE_NONE) ∧
    (cdcStatusFunction (HandlerIBusCDCStatus k ConfigGetSetting tPoll tStatus context pkt).2).map
        Prod.snd = [k.IBUS_CDC_FUNC_PLAYING] := by
  rw [cdcStatusFunction_HandlerIBusCDCStatus]
  simp only [HandlerIBusCDCStatus, cdcDispatch]
  generalize pkt.getD 4 0 = cmd at hcmd
  subst hcmd
  simp only [Consts.cdcCommands, List.nodup_cons, List.mem_cons, List.mem_singleton,
    List.not_mem_nil, not_or, or_false, not_false_eq_true, List.nodup_nil, and_true] at hk
  obtain ⟨⟨-, -, -, -, -, -, g7⟩, ⟨-, -, -, -, -, s7⟩, ⟨-, -, -, -, t7⟩,
    ⟨-, -, -, e7⟩, ⟨-, -, c7⟩, ⟨-, r7⟩, p7⟩ := hk
  simp only [Ne.symm g7, Ne.symm s7, Ne.symm t7, Ne.symm e7, Ne.symm c7, Ne.symm r7,
    Ne.symm p7, if_false, if_true, cdcStartPlaying]
  refine ⟨?_, ?_, ?_, ?_⟩
  · intro h
    simp only [h, if_true]
    split_ifs <;> simp_all [Call.isSeekRelease]
  · intro h
    simp only [h, HANDLER_CDC_SEEK_MODE_REV, HANDLER_CDC_SEEK_MODE_FWD]
    split_ifs <;> simp_all [Call.isSeekRelease]
  · intro h
    simp only [h, HANDLER_CDC_SEEK_MODE_REV, HANDLER_CDC_SEEK_MODE_FWD,
      HANDLER_CDC_SEEK_MODE_NONE]
    split_ifs <;> simp_all [Call.isSeekRelease]
  · split_ifs <;> simp

/-- C9 at a concrete input: START_PLAYING while the seek mode is FWD. -/
theorem C9_start_playing_witness :
    hdr.cdcCommands.Nodup ∧
    (HandlerIBusCDCStatus hdr settingsAllOn 500 500
        { initContext btLinked ⟨1, 9, 255, 0, 0⟩ 2 0 with seekMode := HANDLER_CDC_SEEK_MODE_FWD }
        [0x68, 0x03, 0x18, 0x38, 0x03, 0x00]).2.filter Call.isSeekRelease =
      [Call.BC127CommandForwardSeekRelease] ∧
    (HandlerIBusCDCStatus hdr settingsAllOn 500 500
        { initContext btLinked ⟨1, 9, 255, 0, 0⟩ 2 0 with seekMode := HANDLER_CDC_SEEK_MODE_FWD }
        [0x68, 0x03, 0x18, 0x38, 0x03, 0x00]).1.seekMode = HANDLER_CDC_SEEK_MODE_NONE :=
  ⟨by decide,
   (C9_start_playing hdr settingsAllOn 500 500
      { initContext btLinked ⟨1, 9, 255, 0, 0⟩ 2 0 with seekMode := HANDLER_CDC_SEEK_MODE_FWD }
      [0x68, 0x03, 0x18, 0x38, 0x03, 0x00] (by decide) rfl).1 rfl⟩

/-! ## Device-link watchdog -/

/-- A watchdog tick with a MAC id set, no A2DP link and a retry count of at most
`HANDLER_DEVICE_MAX_RECONN` opens the A2DP profile and counts one more retry. -/
theorem watchdog_tick_open (k : Consts) (context : HandlerContext_t)
    (hmac : strlen context.bt.activeDevice.macId > 0)
    (hlink : context.bt.activeDevice.a2dpLinkId = 0)
    (hr : context.btDeviceConnRetries ≤ 10) :
    HandlerTimerDeviceConnection k context =
      ({ context with btDeviceConnRetries := context.btDeviceConnRetries + 1 },
       [Call.BC127CommandProfileOpen context.bt.activeDevice.macId PROFILE_A2DP]) := by
  have h256 : (context.btDeviceConnRetries + 1) % 256 = context.btDeviceConnRetries + 1 :=
    Nat.mod_eq_of_lt (by omega)
  simp [HandlerTimerDeviceConnection, hmac, hlink, HANDLER_DEVICE_MAX_RECONN, hr, h256]

/-- Consecutive watchdog ticks with a MAC id set and no A2DP link each open the
A2DP profile, as long as the retry count has not passed `HANDLER_DEVICE_MAX_RECONN`
before the tick. -/
theorem watchdog_ticks_open (k : Consts) (bts : List BC127_t) :
    ∀ context : HandlerContext_t,
      context.btDeviceConnRetries + bts.length ≤ 11 →
      (∀ bt ∈ bts, strlen bt.activeDevice.macId > 0 ∧ bt.activeDevice.a2dpLinkId = 0) →
      (deviceConnectionTicks k context bts).2 =
        bts.map (fun bt => [Call.BC127CommandProfileOpen bt.activeDevice.macId PROFILE_A2DP]) ∧
      (deviceConnectionTicks k context bts).1.btDeviceConnRetries =
        context.btDeviceConnRetries + bts.length := by
  induction bts with
  | nil => intro context _ _; simp [deviceConnectionTicks]
  | cons bt bts ih =>
    intro context hlen hdown
    have hbt := hdown bt (List.mem_cons_self _ _)
    have hstep := watchdog_tick_open k { context with bt := bt } hbt.1 hbt.2
      (by simp only [List.length_cons] at hlen; show context.btDeviceConnRetries ≤ 10; omega)
    simp only [deviceConnectionTicks, hstep, List.map_cons, List.length_cons]
    have hrest := ih { context with bt := bt, btDeviceConnRetries := context.btDeviceConnRetries + 1 }
      (by simp only [List.length_cons] at hlen; show context.btDeviceConnRetries + 1 + _ ≤ 11; omega)
      (fun b hb => hdown b (List.mem_cons_of_mem _ hb))
    refine ⟨by rw [hrest.1], ?_⟩
    rw [hrest.2]
    show context.btDeviceConnRetries + 1 + bts.length = _
    omega

/-- C10, what the code does: starting from retry count 0, over 11 consecutive
ticks at each of which the MAC id is set and the A2DP link id is 0,
`HandlerTimerDeviceConnection` opens the A2DP profile at every one of the 11
ticks, the eleventh included, and the retry count is then 11; it is a twelfth such
tick that issues the Bluetooth-state command, clears the paired devices, closes
all links and resets the retry count to 0. -/
theorem C10_watchdog_eleven_opens (k : Consts) (context : HandlerContext_t)
    (bts : List BC127_t) (bt12 : BC127_t)
    (h0 : context.btDeviceConnRetries = 0) (hlen : bts.length = 11)
    (hdown : ∀ bt ∈ bts, strlen bt.activeDevice.macId > 0 ∧ bt.activeDevice.a2dpLinkId = 0)
    (hdown12 : strlen bt12.activeDevice.macId > 0 ∧ bt12.activeDevice.a2dpLinkId = 0) :
    (deviceConnectionTicks k context bts).2 =
      bts.map (fun bt => [Call.BC127CommandProfileOpen bt.activeDevice.macId PROFILE_A2DP]) ∧
    (deviceConnectionTicks k context bts).1.btDeviceConnRetries = 11 ∧
    (HandlerTimerDeviceConnection k
        { (deviceConnectionTicks k context bts).1 with bt := bt12 }).2 =
      [Call.BC127CommandBtState k.BC127_STATE_ON bt12.discoverable,
       Call.BC127ClearPairedDevices,
       Call.BC127CommandClose k.BC127_CLOSE_ALL] ∧
    (HandlerTimerDeviceConnection k
        { (deviceConnectionTicks k context bts).1 with bt := bt12 }).1.btDeviceConnRetries = 0 := by
  obtain ⟨hcalls, hretries⟩ := watchdog_ticks_open k bts context (by omega) hdown
  rw [h0, hlen] at hretries
  refine ⟨hcalls, hretries, ?_, ?_⟩ <;>
    simp [HandlerTimerDeviceConnection, hdown12.1, hdown12.2, hretries,
      HANDLER_DEVICE_MAX_RECONN]

/-- C10 at a concrete input: eleven ticks with the same unlinked device; the
eleventh tick still opens the A2DP profile. -/
theorem C10_watchdog_eleven_opens_witness :
    (deviceConnectionTicks hdr (initContext btLinkDown ⟨1, 9, 255, 0, 0⟩ 2 0)
        (List.replicate 11 btLinkDown)).2 =
      List.replicate 11
        [Call.BC127CommandProfileOpen [0x32, 0x30, 0x46, 0x41, 0x42, 0x42] PROFILE_A2DP] ∧
    (deviceConnectionTicks hdr (initContext btLinkDown ⟨1, 9, 255, 0, 0⟩ 2 0)
        (List.replicate 11 btLinkDown)).1.btDeviceConnRetries = 11 :=
  ⟨(C10_watchdog_eleven_opens hdr (initContext btLinkDown ⟨1, 9, 255, 0, 0⟩ 2 0)
      (List.replicate 11 btLinkDown) btLinkDown rfl rfl (by decide) (by decide)).1,
   (C10_watchdog_eleven_opens hdr (initContext btLinkDown ⟨1, 9, 255, 0, 0⟩ 2 0)
      (List.replicate 11 btLinkDown) btLinkDown rfl rfl (by decide) (by decide)).2.1⟩

/-- C11: a `HandlerTimerDeviceConnection` tick at which the A2DP link is present, or
no MAC id is set, leaves the retry count at 0 whatever it was, and makes no call
at all. -/
theorem C11_watchdog_link_present (k : Consts) (context : HandlerContext_t)
    (h : context.bt.activeDevice.a2dpLinkId ≠ 0 ∨ strlen context.bt.activeDevice.macId = 0) :
    (HandlerTimerDeviceConnection k context).1.btDeviceConnRetries = 0 ∧
    (HandlerTimerDeviceConnection k context).2 = [] := by
  have hcond : ¬(strlen context.bt.activeDevice.macId > 0 ∧
      context.bt.activeDevice.a2dpLinkId = 0) := by
    rintro ⟨h1, h2⟩
    rcases h with h | h
    · exact h h2
    · omega
  simp only [HandlerTimerDeviceConnection, hcond, if_false]
  split_ifs with hr
  · exact ⟨rfl, rfl⟩
  · exact ⟨by show context.btDeviceConnRetries = 0; omega, rfl⟩

/-- C11 at a concrete input: the A2DP link is up while the retry count is 7. -/
theorem C11_watchdog_link_present_witness :
    (HandlerTimerDeviceConnection hdr
        { initContext btLinked ⟨1, 9, 255, 0, 0⟩ 2 0 with btDeviceConnRetries := 7 }).1.btDeviceConnRetries
      = 0 ∧
    (HandlerTimerDeviceConnection hdr
        { initContext btLinked ⟨1, 9, 255, 0, 0⟩ 2 0 with btDeviceConnRetries := 7 }).2 = [] :=
  C11_watchdog_link_present hdr
    { initContext btLinked ⟨1, 9, 255, 0, 0⟩ 2 0 with btDeviceConnRetries := 7 } (Or.inl (by decide))

/-! ## Comfort blinkers -/

/-- In blinker state DRV or PSG, with the feature enabled, `HandlerIBusLCMLightStatus`
is the active step for the signal bits of that side. -/
theorem lightStatus_active (k : Consts) (ConfigGetSetting : Nat → Nat)
    (context : HandlerContext_t) (pkt : List Nat) (own other : Nat)
    (hN : ConfigGetSetting k.CONFIG_SETTING_COMFORT_BLINKERS > 0x01 ∧
      ConfigGetSetting k.CONFIG_SETTING_COMFORT_BLINKERS ≠ 0xFF)
    (hside : (context.blinkerStatus = HANDLER_BLINKER_DRV ∧ own = k.IBUS_LCM_DRV_SIG_BIT ∧
        other = k.IBUS_LCM_PSG_SIG_BIT) ∨
      (context.blinkerStatus = HANDLER_BLINKER_PSG ∧ own = k.IBUS_LCM_PSG_SIG_BIT ∧
        other = k.IBUS_LCM_DRV_SIG_BIT)) :
    HandlerIBusLCMLightStatus k ConfigGetSetting context pkt =
      blinkerActiveStep k context (pkt.getD 4 0)
        (ConfigGetSetting k.CONFIG_SETTING_COMFORT_BLINKERS) own other := by
  simp only [HandlerIBusLCMLightStatus]
  rw [if_pos hN]
  rcases hside with ⟨hs, rfl, rfl⟩ | ⟨hs, rfl, rfl⟩
  · rw [if_neg (by rw [hs]; decide), if_pos hs]
  · rw [if_neg (by rw [hs]; decide), if_neg (by rw [hs]; decide), if_pos hs]

/-- The active step when the counter has reached the configured count and the own
signal bit is still set: the terminate call, and the context as it was. -/
theorem blinkerActiveStep_latched (k : Consts) (context : HandlerContext_t)
    (lightStatus blinkCount own other : Nat)
    (hc : context.blinkerCount = blinkCount) (hown : CHECK_BIT lightStatus own ≠ 0) :
    blinkerActiveStep k context lightStatus blinkCount own other =
      (context, [Call.IBusCommandDIATerminateDiag k.IBUS_DEVICE_LCM]) := by
  simp [blinkerActiveStep, hc, hown]

/-- The active step when the counter has not reached the configured count and the
opposite signal bit is clear: no call, and the counter goes up by one. -/
theorem blinkerActiveStep_counting (k : Consts) (context : HandlerContext_t)
    (lightStatus blinkCount own other : Nat)
    (hc : context.blinkerCount ≠ blinkCount) (hother : CHECK_BIT lightStatus other = 0)
    (hlt : context.blinkerCount < 255) :
    blinkerActiveStep k context lightStatus blinkCount own other =
      ({ context with blinkerCount := context.blinkerCount + 1 }, []) := by
  have hmod : (context.blinkerCount + 1) % 256 = context.blinkerCount + 1 :=
    Nat.mod_eq_of_lt (by omega)
  simp [blinkerActiveStep, hc, hother, hmod]

/-- The step in state OFF for a one-sided driver signal. -/
theorem blinkerOffStep_driver (k : Consts) (context : HandlerContext_t) (lightStatus : Nat)
    (hown : CHECK_BIT lightStatus k.IBUS_LCM_DRV_SIG_BIT ≠ 0)
    (hother : CHECK_BIT lightStatus k.IBUS_LCM_PSG_SIG_BIT = 0) :
    blinkerOffStep k context lightStatus =
      ({ context with blinkerCount := 2, blinkerStatus := HANDLER_BLINKER_DRV },
       [Call.IBusCommandLCMEnableBlinker k.IBUS_LCM_BLINKER_DRV]) := by
  simp [blinkerOffStep, hown, hother]

/-- The step in state OFF for a one-sided passenger signal. -/
theorem blinkerOffStep_passenger (k : Consts) (context : HandlerContext_t) (lightStatus : Nat)
    (hown : CHECK_BIT lightStatus k.IBUS_LCM_PSG_SIG_BIT ≠ 0)
    (hother : CHECK_BIT lightStatus k.IBUS_LCM_DRV_SIG_BIT = 0) :
    blinkerOffStep k context lightStatus =
      ({ context with blinkerCount := 2, blinkerStatus := HANDLER_BLINKER_PSG },
       [Call.IBusCommandLCMEnableBlinker k.IBUS_LCM_BLINKER_PSG]) := by
  simp [blinkerOffStep, hown, hother]

/-- A one-sided run continued from blinker state DRV or PSG: while the counter is
`d` short of the configured count the messages make no call, and from then on
every message makes the terminate call; the state stays latched. -/
theorem lightStatusRun_active (k : Consts) (ConfigGetSetting : Nat → Nat) (own other : Nat)
    (hN : ConfigGetSetting k.CONFIG_SETTING_COMFORT_BLINKERS > 0x01 ∧
      ConfigGetSetting k.CONFIG_SETTING_COMFORT_BLINKERS ≤ 8)
    (pkts : List (List Nat))
    (hbits : ∀ pkt ∈ pkts, CHECK_BIT (pkt.getD 4 0) own ≠ 0 ∧ CHECK_BIT (pkt.getD 4 0) other = 0) :
    ∀ (d : Nat) (context : HandlerContext_t),
      context.blinkerCount + d = ConfigGetSetting k.CONFIG_SETTING_COMFORT_BLINKERS →
      ((context.blinkerStatus = HANDLER_BLINKER_DRV ∧ own = k.IBUS_LCM_DRV_SIG_BIT ∧
          other = k.IBUS_LCM_PSG_SIG_BIT) ∨
        (context.blinkerStatus = HANDLER_BLINKER_PSG ∧ own = k.IBUS_LCM_PSG_SIG_BIT ∧
          other = k.IBUS_LCM_DRV_SIG_BIT)) →
      (lightStatusRun k ConfigGetSetting context pkts).2 =
        List.replicate (min d pkts.length) [] ++
        List.replicate (pkts.length - d) [Call.IBusCommandDIATerminateDiag k.IBUS_DEVICE_LCM] := by
  induction pkts with
  | nil => intro d context _ _; simp [lightStatusRun]
  | cons pkt pkts ih =>
    intro d context hd hside
    have hb := hbits pkt (List.mem_cons_self _ _)
    have hrest : ∀ p ∈ pkts, CHECK_BIT (p.getD 4 0) own ≠ 0 ∧ CHECK_BIT (p.getD 4 0) other = 0 :=
      fun p hp => hbits p (List.mem_cons_of_mem _ hp)
    have hact := lightStatus_active k ConfigGetSetting context pkt own other
      ⟨hN.1, by omega⟩ hside
    simp only [lightStatusRun, hact]
    cases d with
    | zero =>
      have hc : context.blinkerCount = ConfigGetSetting k.CONFIG_SETTING_COMFORT_BLINKERS := by
        omega
      have hstep := blinkerActiveStep_latched k context (pkt.getD 4 0)
        (ConfigGetSetting k.CONFIG_SETTING_COMFORT_BLINKERS) own other hc hb.1
      rw [hstep, ih hrest 0 context (by omega) hside]
      simp [List.replicate_succ]
    | succ d =>
      have hc : context.blinkerCount ≠ ConfigGetSetting k.CONFIG_SETTING_COMFORT_BLINKERS := by
        omega
      have hstep := blinkerActiveStep_counting k context (pkt.getD 4 0)
        (ConfigGetSetting k.CONFIG_SETTING_COMFORT_BLINKERS) own other hc hb.2 (by omega)
      rw [hstep, ih hrest d { context with blinkerCount := context.blinkerCount + 1 }
        (by show context.blinkerCount + 1 + d = _; omega) hside]
      simp [List.length_cons, Nat.succ_min_succ, List.replicate_succ]

/-- A one-sided run started in blinker state OFF: the first message makes the
enable-blinker call for that side, and the run goes on from the latched state with
the counter at 2. -/
theorem lightStatusRun_from_off (k : Consts) (ConfigGetSetting : Nat → Nat)
    (own other blinker : Nat)
    (hN : ConfigGetSetting k.CONFIG_SETTING_COMFORT_BLINKERS > 0x01 ∧
      ConfigGetSetting k.CONFIG_SETTING_COMFORT_BLINKERS ≤ 8)
    (context : HandlerContext_t) (hoff : context.blinkerStatus = HANDLER_BLINKER_OFF)
    (pkt : List Nat) (pkts : List (List Nat))
    (hbits : ∀ p ∈ pkt :: pkts,
      CHECK_BIT (p.getD 4 0) own ≠ 0 ∧ CHECK_BIT (p.getD 4 0) other = 0)
    (hside : (own = k.IBUS_LCM_DRV_SIG_BIT ∧ other = k.IBUS_LCM_PSG_SIG_BIT ∧
        blinker = k.IBUS_LCM_BLINKER_DRV) ∨
      (own = k.IBUS_LCM_PSG_SIG_BIT ∧ other = k.IBUS_LCM_DRV_SIG_BIT ∧
        blinker = k.IBUS_LCM_BLINKER_PSG)) :
    (lightStatusRun k ConfigGetSetting context (pkt :: pkts)).2 =
      [Call.IBusCommandLCMEnableBlinker blinker] ::
        (List.replicate (min (ConfigGetSetting k.CONFIG_SETTING_COMFORT_BLINKERS - 2) pkts.length) []
          ++ List.replicate (pkts.length - (ConfigGetSetting k.CONFIG_SETTING_COMFORT_BLINKERS - 2))
            [Call.IBusCommandDIATerminateDiag k.IBUS_DEVICE_LCM]) := by
  have hb := hbits pkt (List.mem_cons_self _ _)
  have hrest : ∀ p ∈ pkts, CHECK_BIT (p.getD 4 0) own ≠ 0 ∧ CHECK_BIT (p.getD 4 0) other = 0 :=
    fun p hp => hbits p (List.mem_cons_of_mem _ hp)
  have hguard : ConfigGetSetting k.CONFIG_SETTING_COMFORT_BLINKERS > 0x01 ∧
      ConfigGetSetting k.CONFIG_SETTING_COMFORT_BLINKERS ≠ 0xFF := ⟨hN.1, by omega⟩
  simp only [lightStatusRun, HandlerIBusLCMLightStatus]
  rw [if_pos hguard, if_pos hoff]
  rcases hside with ⟨rfl, rfl, rfl⟩ | ⟨rfl, rfl, rfl⟩
  · have hstep := blinkerOffStep_driver k context (pkt.getD 4 0) hb.1 hb.2
    rw [hstep, lightStatusRun_active k ConfigGetSetting _ _ hN pkts hrest
      (ConfigGetSetting k.CONFIG_SETTING_COMFORT_BLINKERS - 2)
      { context with blinkerCount := 2, blinkerStatus := HANDLER_BLINKER_DRV }
      (by show 2 + _ = _; omega) (Or.inl ⟨rfl, rfl, rfl⟩)]
  · have hstep := blinkerOffStep_passenger k context (pkt.getD 4 0) hb.1 hb.2
    rw [hstep, lightStatusRun_active k ConfigGetSetting _ _ hN pkts hrest
      (ConfigGetSetting k.CONFIG_SETTING_COMFORT_BLINKERS - 2)
      { context with blinkerCount := 2, blinkerStatus := HANDLER_BLINKER_PSG }
      (by show 2 + _ = _; omega) (Or.inr ⟨rfl, rfl, rfl⟩)]

/-- The enable-blinker calls of a one-sided run started in state OFF: one on the
first message, none on the others. -/
theorem lightStatusRun_enable (k : Consts) (ConfigGetSetting : Nat → Nat)
    (own other blinker : Nat)
    (hN : ConfigGetSetting k.CONFIG_SETTING_COMFORT_BLINKERS > 0x01 ∧
      ConfigGetSetting k.CONFIG_SETTING_COMFORT_BLINKERS ≤ 8)
    (context : HandlerContext_t) (hoff : context.blinkerStatus = HANDLER_BLINKER_OFF)
    (pkt : List Nat) (pkts : List (List Nat))
    (hbits : ∀ p ∈ pkt :: pkts,
      CHECK_BIT (p.getD 4 0) own ≠ 0 ∧ CHECK_BIT (p.getD 4 0) other = 0)
    (hside : (own = k.IBUS_LCM_DRV_SIG_BIT ∧ other = k.IBUS_LCM_PSG_SIG_BIT ∧
        blinker = k.IBUS_LCM_BLINKER_DRV) ∨
      (own = k.IBUS_LCM_PSG_SIG_BIT ∧ other = k.IBUS_LCM_DRV_SIG_BIT ∧
        blinker = k.IBUS_LCM_BLINKER_PSG)) :
    (lightStatusRun k ConfigGetSetting context (pkt :: pkts)).2.map
        (List.filter Call.isEnableBlinker) =
      [Call.IBusCommandLCMEnableBlinker blinker] :: List.replicate pkts.length [] := by
  rw [lightStatusRun_from_off k ConfigGetSetting own other blinker hN context hoff pkt pkts
    hbits hside]
  generalize ConfigGetSetting k.CONFIG_SETTING_COMFORT_BLINKERS - 2 = d
  have hlen : min d pkts.length + (pkts.length - d) = pkts.length := by omega
  simp only [List.map_cons, List.map_append, List.map_replicate, List.filter_cons,
    List.filter_nil, Call.isEnableBlinker, List.append_replicate_replicate, hlen]
  simp
  omega

/-- The terminate calls of a one-sided run of at least N messages started in state
OFF: none on the first N - 1 messages, one on each message from the N-th on. -/
theorem lightStatusRun_terminate (k : Consts) (ConfigGetSetting : Nat → Nat)
    (own other blinker : Nat)
    (hN : ConfigGetSetting k.CONFIG_SETTING_COMFORT_BLINKERS > 0x01 ∧
      ConfigGetSetting k.CONFIG_SETTING_COMFORT_BLINKERS ≤ 8)
    (context : HandlerContext_t) (hoff : context.blinkerStatus = HANDLER_BLINKER_OFF)
    (pkt : List Nat) (pkts : List (List Nat))
    (hlen : ConfigGetSetting k.CONFIG_SETTING_COMFORT_BLINKERS ≤ (pkt :: pkts).length)
    (hbits : ∀ p ∈ pkt :: pkts,
      CHECK_BIT (p.getD 4 0) own ≠ 0 ∧ CHECK_BIT (p.getD 4 0) other = 0)
    (hside : (own = k.IBUS_LCM_DRV_SIG_BIT ∧ other = k.IBUS_LCM_PSG_SIG_BIT ∧
        blinker = k.IBUS_LCM_BLINKER_DRV) ∨
      (own = k.IBUS_LCM_PSG_SIG_BIT ∧ other = k.IBUS_LCM_DRV_SIG_BIT ∧
        blinker = k.IBUS_LCM_BLINKER_PSG)) :
    (lightStatusRun k ConfigGetSetting context (pkt :: pkts)).2.map
        (List.filter Call.isTerminateDiag) =
      List.replicate (ConfigGetSetting k.CONFIG_SETTING_COMFORT_BLINKERS - 1) [] ++
      List.replicate
        ((pkt :: pkts).length - ConfigGetSetting k.CONFIG_SETTING_COMFORT_BLINKERS + 1)
        [Call.IBusCommandDIATerminateDiag k.IBUS_DEVICE_LCM] := by
  rw [lightStatusRun_from_off k ConfigGetSetting own other blinker hN context hoff pkt pkts
    hbits hside]
  obtain ⟨n, hn⟩ : ∃ n, ConfigGetSetting k.CONFIG_SETTING_COMFORT_BLINKERS = n + 2 :=
    ⟨ConfigGetSetting k.CONFIG_SETTING_COMFORT_BLINKERS - 2, by omega⟩
  rw [hn] at hlen ⊢
  simp only [List.length_cons] at hlen
  have h1 : n + 2 - 2 = n := by omega
  have h2 : min n pkts.length = n := by omega
  have h3 : n + 2 - 1 = n + 1 := by omega
  have h4 : (pkt :: pkts).length - (n + 2) + 1 = pkts.length - n := by
    simp only [List.length_cons]; omega
  rw [h1, h2, h3, h4]
  simp [List.replicate_succ, Call.isEnableBlinker, Call.isTerminateDiag]

/-- C12: with the comfort-blinker setting N in 2..8 and blinker state OFF, over a
run of light-status messages in which only the driver-side (resp. only the
passenger-side) signal bit is set throughout, `HandlerIBusLCMLightStatus` issues
the enable-blinker command for that side exactly once, on the first message; and a
message arriving in state OFF with both or neither signal bits set makes no call
and leaves the state OFF. -/
theorem C12_enable_once (k : Consts) (ConfigGetSetting : Nat → Nat)
    (context : HandlerContext_t) (pkt : List Nat) (pkts : List (List Nat))
    (hN : 2 ≤ ConfigGetSetting k.CONFIG_SETTING_COMFORT_BLINKERS ∧
      ConfigGetSetting k.CONFIG_SETTING_COMFORT_BLINKERS ≤ 8)
    (hoff : context.blinkerStatus = HANDLER_BLINKER_OFF) :
    ((∀ p ∈ pkt :: pkts, CHECK_BIT (p.getD 4 0) k.IBUS_LCM_DRV_SIG_BIT ≠ 0 ∧
        CHECK_BIT (p.getD 4 0) k.IBUS_LCM_PSG_SIG_BIT = 0) →
      (lightStatusRun k ConfigGetSetting context (pkt :: pkts)).2.map
          (List.filter Call.isEnableBlinker) =
        [Call.IBusCommandLCMEnableBlinker k.IBUS_LCM_BLINKER_DRV] ::
          List.replicate pkts.length []) ∧
    ((∀ p ∈ pkt :: pkts, CHECK_BIT (p.getD 4 0) k.IBUS_LCM_PSG_SIG_BIT ≠ 0 ∧
        CHECK_BIT (p.getD 4 0) k.IBUS_LCM_DRV_SIG_BIT = 0) →
      (lightStatusRun k ConfigGetSetting context (pkt :: pkts)).2.map
          (List.filter Call.isEnableBlinker) =
        [Call.IBusCommandLCMEnableBlinker k.IBUS_LCM_BLINKER_PSG] ::
          List.replicate pkts.length []) ∧
    (((CHECK_BIT (pkt.getD 4 0) k.IBUS_LCM_DRV_SIG_BIT ≠ 0 ∧
          CHECK_BIT (pkt.getD 4 0) k.IBUS_LCM_PSG_SIG_BIT ≠ 0) ∨
        (CHECK_BIT (pkt.getD 4 0) k.IBUS_LCM_DRV_SIG_BIT = 0 ∧
          CHECK_BIT (pkt.getD 4 0) k.IBUS_LCM_PSG_SIG_BIT = 0)) →
      (HandlerIBusLCMLightStatus k ConfigGetSetting context pkt).2 = [] ∧
      (HandlerIBusLCMLightStatus k ConfigGetSetting context pkt).1.blinkerStatus =
        HANDLER_BLINKER_OFF) := by
  have hN1 : ConfigGetSetting k.CONFIG_SETTING_COMFORT_BLINKERS > 0x01 ∧
      ConfigGetSetting k.CONFIG_SETTING_COMFORT_BLINKERS ≤ 8 := ⟨by omega, hN.2⟩
  refine ⟨fun hbits => ?_, fun hbits => ?_, fun hboth => ?_⟩
  · exact lightStatusRun_enable k ConfigGetSetting _ _ _ hN1 context hoff pkt pkts hbits
      (Or.inl ⟨rfl, rfl, rfl⟩)
  · exact lightStatusRun_enable k ConfigGetSetting _ _ _ hN1 context hoff pkt pkts hbits
      (Or.inr ⟨rfl, rfl, rfl⟩)
  · have hguard : ConfigGetSetting k.CONFIG_SETTING_COMFORT_BLINKERS > 0x01 ∧
        ConfigGetSetting k.CONFIG_SETTING_COMFORT_BLINKERS ≠ 0xFF := ⟨hN1.1, by omega⟩
    simp only [HandlerIBusLCMLightStatus]
    rw [if_pos hguard, if_pos hoff]
    generalize pkt.getD 4 0 = ls at hboth
    rcases hboth with ⟨h1, h2⟩ | ⟨h1, h2⟩ <;> simp [blinkerOffStep, h1, h2, hoff]

/-- C12 at a concrete input: N = 3 and four messages with only the driver-side bit
set; the enable-blinker command is issued on the first message only. -/
theorem C12_enable_once_witness :
    (lightStatusRun hdr (settingsBlinkers 3) (initContext btLinked ⟨1, 9, 255, 0, 0⟩ 2 0)
        (pktDriverSignal :: List.replicate 3 pktDriverSignal)).2.map
        (List.filter Call.isEnableBlinker) =
      [[Call.IBusCommandLCMEnableBlinker 0x80], [], [], []] :=
  (C12_enable_once hdr (settingsBlinkers 3) (initContext btLinked ⟨1, 9, 255, 0, 0⟩ 2 0)
    pktDriverSignal (List.replicate 3 pktDriverSignal) (by decide) rfl).1 (by decide)

/-- C13, as stated, fails: with N = 2 and blinker state OFF, a run of three
messages in which only the driver-side signal bit is set makes the terminate call
twice, on the second and on the third message. -/
theorem C13_terminate_counterexample :
    settingsBlinkers 2 hdr.CONFIG_SETTING_COMFORT_BLINKERS = 2 ∧
    (initContext btLinked ⟨1, 9, 255, 0, 0⟩ 2 0).blinkerStatus = HANDLER_BLINKER_OFF ∧
    CHECK_BIT (pktDriverSignal.getD 4 0) hdr.IBUS_LCM_DRV_SIG_BIT = 0x20 ∧
    CHECK_BIT (pktDriverSignal.getD 4 0) hdr.IBUS_LCM_PSG_SIG_BIT = 0 ∧
    (lightStatusRun hdr (settingsBlinkers 2) (initContext btLinked ⟨1, 9, 255, 0, 0⟩ 2 0)
        [pktDriverSignal, pktDriverSignal, pktDriverSignal]).2 =
      [[Call.IBusCommandLCMEnableBlinker 0x80],
       [Call.IBusCommandDIATerminateDiag 0xD0],
       [Call.IBusCommandDIATerminateDiag 0xD0]] := by
  refine ⟨rfl, rfl, ?_, ?_, ?_⟩
  · decide
  · decide
  · rfl

/-- C13 as amended: with the comfort-blinker setting N in 2..8 and blinker state
OFF, over a one-sided run of L messages, L at least N, `HandlerIBusLCMLightStatus`
issues the terminate-diagnostic-session command on the N-th message and on every
later message of the run, and on no earlier one: L - N + 1 times over the whole
run, which is once when L = N. -/
theorem C13_terminate_amended (k : Consts) (ConfigGetSetting : Nat → Nat)
    (context : HandlerContext_t) (pkt : List Nat) (pkts : List (List Nat))
    (hN : 2 ≤ ConfigGetSetting k.CONFIG_SETTING_COMFORT_BLINKERS ∧
      ConfigGetSetting k.CONFIG_SETTING_COMFORT_BLINKERS ≤ 8)
    (hoff : context.blinkerStatus = HANDLER_BLINKER_OFF)
    (hlen : ConfigGetSetting k.CONFIG_SETTING_COMFORT_BLINKERS ≤ (pkt :: pkts).length)
    (hbits :
      (∀ p ∈ pkt :: pkts, CHECK_BIT (p.getD 4 0) k.IBUS_LCM_DRV_SIG_BIT ≠ 0 ∧
        CHECK_BIT (p.getD 4 0) k.IBUS_LCM_PSG_SIG_BIT = 0) ∨
      (∀ p ∈ pkt :: pkts, CHECK_BIT (p.getD 4 0) k.IBUS_LCM_PSG_SIG_BIT ≠ 0 ∧
        CHECK_BIT (p.getD 4 0) k.IBUS_LCM_DRV_SIG_BIT = 0)) :
    (lightStatusRun k ConfigGetSetting context (pkt :: pkts)).2.map
        (List.filter Call.isTerminateDiag) =
      List.replicate (ConfigGetSetting k.CONFIG_SETTING_COMFORT_BLINKERS - 1) [] ++
      List.replicate
        ((pkt :: pkts).length - ConfigGetSetting k.CONFIG_SETTING_COMFORT_BLINKERS + 1)
        [Call.IBusCommandDIATerminateDiag k.IBUS_DEVICE_LCM] ∧
    (((lightStatusRun k ConfigGetSetting context (pkt :: pkts)).2.map
        fun calls => (calls.filter Call.isTerminateDiag).length).sum =
      (pkt :: pkts).length - ConfigGetSetting k.CONFIG_SETTING_COMFORT_BLINKERS + 1) := by
  have hN1 : ConfigGetSetting k.CONFIG_SETTING_COMFORT_BLINKERS > 0x01 ∧
      ConfigGetSetting k.CONFIG_SETTING_COMFORT_BLINKERS ≤ 8 := ⟨by omega, hN.2⟩
  have hshape : (lightStatusRun k ConfigGetSetting context (pkt :: pkts)).2.map
        (List.filter Call.isTerminateDiag) =
      List.replicate (ConfigGetSetting k.CONFIG_SETTING_COMFORT_BLINKERS - 1) [] ++
      List.replicate
        ((pkt :: pkts).length - ConfigGetSetting k.CONFIG_SETTING_COMFORT_BLINKERS + 1)
        [Call.IBusCommandDIATerminateDiag k.IBUS_DEVICE_LCM] := by
    rcases hbits with hb | hb
    · exact lightStatusRun_terminate k ConfigGetSetting _ _ _ hN1 context hoff pkt pkts hlen hb
        (Or.inl ⟨rfl, rfl, rfl⟩)
    · exact lightStatusRun_terminate k ConfigGetSetting _ _ _ hN1 context hoff pkt pkts hlen hb
        (Or.inr ⟨rfl, rfl, rfl⟩)
  refine ⟨hshape, ?_⟩
  have hmap : (lightStatusRun k ConfigGetSetting context (pkt :: pkts)).2.map
      (fun calls => (calls.filter Call.isTerminateDiag).length) =
      ((lightStatusRun k ConfigGetSetting context (pkt :: pkts)).2.map
        (List.filter Call.isTerminateDiag)).map List.length := by
    rw [List.map_map]; rfl
  rw [hmap, hshape]
  simp

/-- C13 as amended, at a concrete input: N = 3 and six messages with only the
driver-side bit set; the terminate call is made on messages 3 to 6. -/
theorem C13_terminate_amended_witness :
    ((lightStatusRun hdr (settingsBlinkers 3) (initContext btLinked ⟨1, 9, 255, 0, 0⟩ 2 0)
        (pktDriverSignal :: List.replicate 5 pktDriverSignal)).2.map
        fun calls => (calls.filter Call.isTerminateDiag).length).sum = 4 :=
  (C13_terminate_amended hdr (settingsBlinkers 3) (initContext btLinked ⟨1, 9, 255, 0, 0⟩ 2 0)
    pktDriverSignal (List.replicate 5 pktDriverSignal) (by decide) rfl (by decide)
    (Or.inl (by decide))).2

/-- C14: with the feature enabled, a step of `HandlerIBusLCMLightStatus` from
blinker state DRV (resp. PSG) ends in state OFF if and only if the terminate
condition holds (opposite-side bit set, or counter equal to the configured count)
and the own-side bit of the message is clear; when the terminate condition holds
while the own-side bit is still set, the terminate call is made and the state
stays DRV (resp. PSG). -/
theorem C14_return_to_off (k : Consts) (ConfigGetSetting : Nat → Nat)
    (context : HandlerContext_t) (pkt : List Nat) (own other : Nat)
    (hN : ConfigGetSetting k.CONFIG_SETTING_COMFORT_BLINKERS > 0x01 ∧
      ConfigGetSetting k.CONFIG_SETTING_COMFORT_BLINKERS ≠ 0xFF)
    (hside : (context.blinkerStatus = HANDLER_BLINKER_DRV ∧ own = k.IBUS_LCM_DRV_SIG_BIT ∧
        other = k.IBUS_LCM_PSG_SIG_BIT) ∨
      (context.blinkerStatus = HANDLER_BLINKER_PSG ∧ own = k.IBUS_LCM_PSG_SIG_BIT ∧
        other = k.IBUS_LCM_DRV_SIG_BIT)) :
    ((HandlerIBusLCMLightStatus k ConfigGetSetting context pkt).1.blinkerStatus =
        HANDLER_BLINKER_OFF ↔
      (CHECK_BIT (pkt.getD 4 0) other ≠ 0 ∨
        context.blinkerCount = ConfigGetSetting k.CONFIG_SETTING_COMFORT_BLINKERS) ∧
      CHECK_BIT (pkt.getD 4 0) own = 0) ∧
    ((CHECK_BIT (pkt.getD 4 0) other ≠ 0 ∨
        context.blinkerCount = ConfigGetSetting k.CONFIG_SETTING_COMFORT_BLINKERS) →
      CHECK_BIT (pkt.getD 4 0) own ≠ 0 →
      (HandlerIBusLCMLightStatus k ConfigGetSetting context pkt).2 =
        [Call.IBusCommandDIATerminateDiag k.IBUS_DEVICE_LCM] ∧
      (HandlerIBusLCMLightStatus k ConfigGetSetting context pkt).1.blinkerStatus =
        context.blinkerStatus) := by
  rw [lightStatus_active k ConfigGetSetting context pkt own other hN hside]
  have hon : context.blinkerStatus ≠ HANDLER_BLINKER_OFF := by
    rcases hside with ⟨hs, -, -⟩ | ⟨hs, -, -⟩ <;> rw [hs] <;> decide
  generalize pkt.getD 4 0 = ls
  generalize ConfigGetSetting k.CONFIG_SETTING_COMFORT_BLINKERS = n
  simp only [blinkerActiveStep]
  by_cases hterm : CHECK_BIT ls other ≠ 0 ∨ context.blinkerCount = n
  · by_cases hown : CHECK_BIT ls own = 0
    · simp [hterm, hown]
    · simp [hterm, hown, hon]
  · simp [hterm, hon]

/-- C14 at a concrete input: in state DRV with the counter at the configured count
3 and the driver-side bit still set, the terminate call is made and the state
stays DRV. -/
theorem C14_return_to_off_witness :
    (HandlerIBusLCMLightStatus hdr (settingsBlinkers 3)
        { initContext btLinked ⟨1, 9, 255, 0, 0⟩ 2 0 with
            blinkerStatus := HANDLER_BLINKER_DRV, blinkerCount := 3 }
        pktDriverSignal).2 = [Call.IBusCommandDIATerminateDiag 0xD0] ∧
    (HandlerIBusLCMLightStatus hdr (settingsBlinkers 3)
        { initContext btLinked ⟨1, 9, 255, 0, 0⟩ 2 0 with
            blinkerStatus := HANDLER_BLINKER_DRV, blinkerCount := 3 }
        pktDriverSignal).1.blinkerStatus = HANDLER_BLINKER_DRV :=
  (C14_return_to_off hdr (settingsBlinkers 3)
    { initContext btLinked ⟨1, 9, 255, 0, 0⟩ 2 0 with
        blinkerStatus := HANDLER_BLINKER_DRV, blinkerCount := 3 }
    pktDriverSignal hdr.IBUS_LCM_DRV_SIG_BIT hdr.IBUS_LCM_PSG_SIG_BIT (by decide)
    (Or.inl ⟨rfl, rfl, rfl⟩)).2 (Or.inr rfl) (by decide)

/-! ## Redundant data (VIN) check -/

/-- A vehicle identifier that was persisted is the one read back. -/
theorem vehicleIdentity_roundtrip (config : Config_t) (pkt : List Nat) :
    ConfigGetVehicleIdentity (ConfigSetVehicleIdentity config (vehicleIdOf pkt)) =
      vehicleIdOf pkt := by
  simp [ConfigGetVehicleIdentity, ConfigSetVehicleIdentity, vehicleIdOf, List.range,
    List.range.loop]

/-- `HandlerSwitchUI` leaves the persisted vehicle identifier as it is. -/
theorem HandlerSwitchUI_vehicleIdentity (k : Consts) (w : World) (newUi : Nat) :
    ConfigGetVehicleIdentity (HandlerSwitchUI k w newUi).1.config =
      ConfigGetVehicleIdentity w.config := by
  simp [HandlerSwitchUI, ConfigGetVehicleIdentity]

/-- No call of `HandlerSwitchUI` persists a vehicle identifier or requests the
vehicle type. -/
theorem HandlerSwitchUI_filters (k : Consts) (w : World) (newUi : Nat) :
    (HandlerSwitchUI k w newUi).2.filter Call.isSetVehicleIdentity = [] ∧
    (HandlerSwitchUI k w newUi).2.filter Call.isGetVehicleType = [] := by
  simp only [HandlerSwitchUI, uiDestroyCalls, uiInitCalls]
  constructor <;> split_ifs <;> rfl

/-- C15: `HandlerIBusLCMRedundantData` builds the five-byte identifier (`pkt[4]`,
`pkt[5]`, `pkt[6]`, `pkt[7]`, high nibble of `pkt[8]`); if it equals the persisted
identifier it makes no call; if it differs it issues exactly one persist of the new
identifier and exactly one vehicle-type request, and the same message delivered
again right afterwards makes no call. -/
theorem C15_vin_change (k : Consts) (w : World) (pkt : List Nat) :
    vehicleIdOf pkt =
      [pkt.getD 4 0, pkt.getD 5 0, pkt.getD 6 0, pkt.getD 7 0, pkt.getD 8 0 / 16 % 16] ∧
    (vehicleIdOf pkt = ConfigGetVehicleIdentity w.config →
      (HandlerIBusLCMRedundantData k w pkt).2 = []) ∧
    (vehicleIdOf pkt ≠ ConfigGetVehicleIdentity w.config →
      (HandlerIBusLCMRedundantData k w pkt).2.filter Call.isSetVehicleIdentity =
        [Call.ConfigSetVehicleIdentity (vehicleIdOf pkt)] ∧
      (HandlerIBusLCMRedundantData k w pkt).2.filter Call.isGetVehicleType =
        [Call.IBusCommandIKEGetVehicleType] ∧
      (HandlerIBusLCMRedundantData k (HandlerIBusLCMRedundantData k w pkt).1 pkt).2 = []) := by
  refine ⟨?_, fun heq => ?_, fun hne => ?_⟩
  · have h : (pkt.getD 8 0 >>> 4) &&& 0xF = pkt.getD 8 0 / 16 % 16 := by
      rw [Nat.shiftRight_eq_div_pow]
      exact Nat.and_pow_two_sub_one_eq_mod _ 4
    simp only [vehicleIdOf, h]
  · simp only [HandlerIBusLCMRedundantData]
    rw [if_neg (not_not.mpr heq)]
  · have hstored : ConfigGetVehicleIdentity (HandlerIBusLCMRedundantData k w pkt).1.config =
        vehicleIdOf pkt := by
      simp only [HandlerIBusLCMRedundantData]
      rw [if_pos hne]
      split_ifs
      · rw [HandlerSwitchUI_vehicleIdentity]
        exact vehicleIdentity_roundtrip w.config pkt
      · exact vehicleIdentity_roundtrip w.config pkt
    refine ⟨?_, ?_, ?_⟩
    · simp only [HandlerIBusLCMRedundantData]
      rw [if_pos hne]
      split_ifs
      · rw [List.filter_append, (HandlerSwitchUI_filters k _ _).1]; rfl
      · rfl
    · simp only [HandlerIBusLCMRedundantData]
      rw [if_pos hne]
      split_ifs
      · rw [List.filter_append, (HandlerSwitchUI_filters k _ _).2]; rfl
      · rfl
    · generalize HandlerIBusLCMRedundantData k w pkt = r at hstored
      simp only [HandlerIBusLCMRedundantData]
      rw [if_neg (not_not.mpr hstored.symm)]

/-- C15 at a concrete input: the message quoted in the source, delivered to a store
that holds another identifier, and then delivered again. -/
theorem C15_vin_change_witness :
    (HandlerIBusLCMRedundantData hdr
        ⟨initContext btLinked ⟨1, 9, 255, 0, 0⟩ 2 0, configSample⟩ pktRedundantData).2 =
      [Call.ConfigSetVehicleIdentity [0x50, 0x4E, 0x66, 0x05, 0x08],
       Call.IBusCommandIKEGetVehicleType] ∧
    (HandlerIBusLCMRedundantData hdr
        (HandlerIBusLCMRedundantData hdr
          ⟨initContext btLinked ⟨1, 9, 255, 0, 0⟩ 2 0, configSample⟩ pktRedundantData).1
        pktRedundantData).2 = [] :=
  ⟨rfl,
   ((C15_vin_change hdr ⟨initContext btLinked ⟨1, 9, 255, 0, 0⟩ 2 0, configSample⟩
      pktRedundantData).2.2 (by decide)).2.2⟩

/-! ## Link connected and disconnected -/

/-- The profile-open calls of `HandlerBC127DeviceLinkConnected`: either none, or
the one HFP profile-open, and then hands-free is configured on and the HFP link is
down. -/
theorem linkConnected_profileOpen (k : Consts) (ConfigGetSetting : Nat → Nat)
    (context : HandlerContext_t) :
    (HandlerBC127DeviceLinkConnected k ConfigGetSetting context).2.filter Call.isProfileOpen
      = [] ∨
    (ConfigGetSetting k.CONFIG_SETTING_HFP = k.CONFIG_SETTING_ON ∧
      context.bt.activeDevice.hfpLinkId = 0 ∧
      (HandlerBC127DeviceLinkConnected k ConfigGetSetting context).2.filter Call.isProfileOpen
        = [Call.BC127CommandProfileOpen context.bt.activeDevice.macId PROFILE_HFP]) := by
  simp only [HandlerBC127DeviceLinkConnected]
  by_cases hign : context.ibus.ignitionStatus > k.IBUS_IGNITION_OFF
  · by_cases hlinks : context.bt.activeDevice.avrcpLinkId ≠ 0 ∧
        context.bt.activeDevice.a2dpLinkId ≠ 0
    · by_cases h1 : ConfigGetSetting k.CONFIG_SETTING_HFP = k.CONFIG_SETTING_OFF ∨
          context.bt.activeDevice.hfpLinkId ≠ 0
      · left
        simp only [if_pos hign, if_pos hlinks, if_pos h1, List.filter_append]
        split_ifs <;> rfl
      · by_cases h2 : ConfigGetSetting k.CONFIG_SETTING_HFP = k.CONFIG_SETTING_ON ∧
            context.bt.activeDevice.hfpLinkId = 0
        · right
          refine ⟨h2.1, h2.2, ?_⟩
          simp only [if_pos hign, if_pos hlinks, if_neg h1, if_pos h2, if_pos h2.1,
            List.filter_append]
          rfl
        · left
          simp only [if_pos hign, if_pos hlinks, if_neg h1, if_neg h2, List.filter_append]
          split_ifs <;> rfl
    · left
      simp only [if_pos hign, if_neg hlinks]
      rfl
  · left
    simp only [if_neg hign]
    rfl

/-- C16: with the ignition on and the A2DP, the AVRCP and (when hands-free is
configured on) the HFP link ids all non-zero, `HandlerBC127DeviceLinkConnected`
issues no profile-open command and leaves the context as it was, so that any
number of deliveries in those surroundings issues none; and whenever it does issue
a profile-open, it is the one HFP profile-open, hands-free is configured on and
the HFP link id is 0. -/
theorem C16_link_connected_idempotent (k : Consts) (x : Ext) (ConfigGetSetting : Nat → Nat)
    (context : HandlerContext_t) (env : Env) (n : Nat) :
    (context.ibus.ignitionStatus > k.IBUS_IGNITION_OFF →
      context.bt.activeDevice.a2dpLinkId ≠ 0 → context.bt.activeDevice.avrcpLinkId ≠ 0 →
      (ConfigGetSetting k.CONFIG_SETTING_HFP = k.CONFIG_SETTING_ON →
        context.bt.activeDevice.hfpLinkId ≠ 0) →
      (HandlerBC127DeviceLinkConnected k ConfigGetSetting context).2.filter Call.isProfileOpen
        = [] ∧
      (HandlerBC127DeviceLinkConnected k ConfigGetSetting context).1 = context) ∧
    (env.ibus.ignitionStatus > k.IBUS_IGNITION_OFF →
      env.bt.activeDevice.a2dpLinkId ≠ 0 → env.bt.activeDevice.avrcpLinkId ≠ 0 →
      (env.config.settings k.CONFIG_SETTING_HFP = k.CONFIG_SETTING_ON →
        env.bt.activeDevice.hfpLinkId ≠ 0) →
      ∀ calls ∈ (run k x context
          (List.replicate n (env, Event.BC127DeviceLinkConnected))).2,
        calls.filter Call.isProfileOpen = []) ∧
    ((HandlerBC127DeviceLinkConnected k ConfigGetSetting context).2.filter Call.isProfileOpen
        ≠ [] →
      ConfigGetSetting k.CONFIG_SETTING_HFP = k.CONFIG_SETTING_ON ∧
      context.bt.activeDevice.hfpLinkId = 0 ∧
      (HandlerBC127DeviceLinkConnected k ConfigGetSetting context).2.filter Call.isProfileOpen
        = [Call.BC127CommandProfileOpen context.bt.activeDevice.macId PROFILE_HFP]) := by
  refine ⟨fun _ _ _ hhfp => ⟨?_, rfl⟩, fun _ _ _ hhfp => ?_, fun hopen => ?_⟩
  · rcases linkConnected_profileOpen k ConfigGetSetting context with h | ⟨h1, h2, -⟩
    · exact h
    · exact absurd h2 (hhfp h1)
  · induction n generalizing context with
    | zero => intro calls hc; simp [run] at hc
    | succ n ih =>
      intro calls hc
      simp only [List.replicate_succ, run, List.mem_cons] at hc
      rcases hc with rfl | hc
      · simp only [step, keepConfig]
        rcases linkConnected_profileOpen k env.config.settings
          { context with bt := env.bt, ibus := env.ibus } with h | ⟨h1, h2, -⟩
        · exact h
        · exact absurd h2 (hhfp h1)
      · exact ih _ calls hc
  · rcases linkConnected_profileOpen k ConfigGetSetting context with h | h
    · exact absurd h hopen
    · exact h

/-- C16 at a concrete input: the event delivered three times with the ignition on,
all three links up and hands-free on; no delivery opens a profile. -/
theorem C16_link_connected_idempotent_witness :
    ∀ calls ∈ (run hdr extSample (initContext btIdle ⟨0, 2, 255, 0, 0⟩ 2 0)
        (List.replicate 3
          ({ envIgnitionOn with bt :=
              { btLinked with activeDevice := { btLinked.activeDevice with hfpLinkId := 12 } } },
           Event.BC127DeviceLinkConnected))).2,
      calls.filter Call.isProfileOpen = [] :=
  (C16_link_connected_idempotent hdr extSample settingsAllOn
    (initContext btIdle ⟨0, 2, 255, 0, 0⟩ 2 0)
    { envIgnitionOn with bt :=
        { btLinked with activeDevice := { btLinked.activeDevice with hfpLinkId := 12 } } }
    3).2.1 (by decide) (by decide) (by decide) (fun _ => by decide)

/-- C17, as stated, fails: with the ignition on, both links up, hands-free
configured off and the module discoverable, the Bluetooth-state command that
`HandlerBC127DeviceLinkConnected` issues turns connectability off and carries the
discoverable flag ON; it makes no other call. -/
theorem C17_link_connected_counterexample :
    (initContext { btLinked with discoverable := 1 } ⟨1, 9, 255, 0, 0⟩ 2 0).bt.discoverable =
      hdr.BC127_STATE_ON ∧
    settingsAllOff hdr.CONFIG_SETTING_HFP = hdr.CONFIG_SETTING_OFF ∧
    (HandlerBC127DeviceLinkConnected hdr settingsAllOff
        (initContext { btLinked with discoverable := 1 } ⟨1, 9, 255, 0, 0⟩ 2 0)).2 =
      [Call.BC127CommandBtState hdr.BC127_STATE_OFF hdr.BC127_STATE_ON] :=
  ⟨rfl, rfl, rfl⟩

/-- C17 as amended: with the ignition on, once both the A2DP and AVRCP link ids are
non-zero and hands-free is either configured off or its link is up,
`HandlerBC127DeviceLinkConnected` issues one Bluetooth-state command, which turns
connectability off and passes on the module's current discoverable flag; with the
ignition off it issues only close-all-links. -/
theorem C17_link_connected_amended (k : Consts) (ConfigGetSetting : Nat → Nat)
    (context : HandlerContext_t) :
    (context.ibus.ignitionStatus > k.IBUS_IGNITION_OFF →
      context.bt.activeDevice.a2dpLinkId ≠ 0 → context.bt.activeDevice.avrcpLinkId ≠ 0 →
      (ConfigGetSetting k.CONFIG_SETTING_HFP = k.CONFIG_SETTING_OFF ∨
        context.bt.activeDevice.hfpLinkId ≠ 0) →
      (HandlerBC127DeviceLinkConnected k ConfigGetSetting context).2.filter Call.isBtState =
        [Call.BC127CommandBtState k.BC127_STATE_OFF context.bt.discoverable]) ∧
    (¬ context.ibus.ignitionStatus > k.IBUS_IGNITION_OFF →
      (HandlerBC127DeviceLinkConnected k ConfigGetSetting context).2 =
        [Call.BC127CommandClose k.BC127_CLOSE_ALL]) := by
  refine ⟨fun hign ha2dp havrcp hhfp => ?_, fun hign => ?_⟩
  · simp only [HandlerBC127DeviceLinkConnected, if_pos hign,
      if_pos (show context.bt.activeDevice.avrcpLinkId ≠ 0 ∧
        context.bt.activeDevice.a2dpLinkId ≠ 0 from ⟨havrcp, ha2dp⟩), if_pos hhfp,
      List.filter_append]
    split_ifs <;> simp [Call.isBtState]
  · simp only [HandlerBC127DeviceLinkConnected, if_neg hign]

/-- C17 as amended, at a concrete input: the module is discoverable, and the
command keeps it so while turning connectability off. -/
theorem C17_link_connected_amended_witness :
    (HandlerBC127DeviceLinkConnected hdr settingsAllOff
        (initContext { btLinked with discoverable := 1 } ⟨1, 9, 255, 0, 0⟩ 2 0)).2.filter
        Call.isBtState = [Call.BC127CommandBtState 0 1] :=
  (C17_link_connected_amended hdr settingsAllOff
    (initContext { btLinked with discoverable := 1 } ⟨1, 9, 255, 0, 0⟩ 2 0)).1
    (by decide) (by decide) (by decide) (Or.inl rfl)

/-- C18: `HandlerBC127DeviceDisconnected` always ends with the connection status
OFF; with the ignition on and the connection status CHANGE it opens the A2DP
profile, and the HFP profile if hands-free is configured on, to
`pairedDevices[btSelectedDevice]`, sets the selected device to NONE and issues no
LED and no list command; with the ignition off it opens no profile. -/
theorem C18_device_disconnected (k : Consts) (ConfigGetSetting : Nat → Nat)
    (context : HandlerContext_t) :
    (HandlerBC127DeviceDisconnected k ConfigGetSetting context).1.btConnectionStatus =
      HANDLER_BT_CONN_OFF ∧
    (context.ibus.ignitionStatus > k.IBUS_IGNITION_OFF →
      context.btConnectionStatus = HANDLER_BT_CONN_CHANGE →
      (HandlerBC127DeviceDisconnected k ConfigGetSetting context).2.filter Call.isProfileOpen =
        [Call.BC127CommandProfileOpen
          (pairedDeviceMacId context.bt context.btSelectedDevice) PROFILE_A2DP] ++
        (if ConfigGetSetting k.CONFIG_SETTING_HFP = k.CONFIG_SETTING_ON then
          [Call.BC127CommandProfileOpen
            (pairedDeviceMacId context.bt context.btSelectedDevice) PROFILE_HFP]
         else []) ∧
      (∀ dev, 0 ≤ context.btSelectedDevice →
        context.bt.pairedDevices.get? context.btSelectedDevice.toNat = some dev →
        pairedDeviceMacId context.bt context.btSelectedDevice = dev.macId) ∧
      (HandlerBC127DeviceDisconnected k ConfigGetSetting context).1.btSelectedDevice =
        HANDLER_BT_SELECTED_DEVICE_NONE ∧
      (HandlerBC127DeviceDisconnected k ConfigGetSetting context).2.filter Call.isTELSetLED
        = [] ∧
      (HandlerBC127DeviceDisconnected k ConfigGetSetting context).2.filter Call.isList = []) ∧
    (¬ context.ibus.ignitionStatus > k.IBUS_IGNITION_OFF →
      (HandlerBC127DeviceDisconnected k ConfigGetSetting context).2.filter Call.isProfileOpen
        = []) := by
  refine ⟨?_, fun hign hchange => ⟨?_, ?_, ?_, ?_, ?_⟩, fun hign => ?_⟩
  · simp only [HandlerBC127DeviceDisconnected]
    split_ifs <;> rfl
  · simp only [HandlerBC127DeviceDisconnected, if_pos hign, if_pos hchange, List.filter_append]
    split_ifs <;> simp [Call.isProfileOpen]
  · intro dev hnonneg hdev
    unfold pairedDeviceMacId
    rw [if_pos hnonneg, hdev]
  · simp only [HandlerBC127DeviceDisconnected, if_pos hign, if_pos hchange]
  · simp only [HandlerBC127DeviceDisconnected, if_pos hign, if_pos hchange, List.filter_append]
    split_ifs <;> simp [Call.isTELSetLED]
  · simp only [HandlerBC127DeviceDisconnected, if_pos hign, if_pos hchange, List.filter_append]
    split_ifs <;> simp [Call.isList]
  · simp only [HandlerBC127DeviceDisconnected, if_neg hign]
    rfl

/-- C18 at a concrete input: a disconnect during a device switch to the second
paired device, with hands-free on. -/
theorem C18_device_disconnected_witness :
    (HandlerBC127DeviceDisconnected hdr settingsAllOn
        { initContext btPaired ⟨1, 9, 255, 0, 0⟩ 2 0 with
            btSelectedDevice := 1, btConnectionStatus := HANDLER_BT_CONN_CHANGE }).2.filter
        Call.isProfileOpen =
      [Call.BC127CommandProfileOpen [0x34, 0x43, 0x37, 0x34, 0x42, 0x46] PROFILE_A2DP,
       Call.BC127CommandProfileOpen [0x34, 0x43, 0x37, 0x34, 0x42, 0x46] PROFILE_HFP] :=
  ((C18_device_disconnected hdr settingsAllOn
      { initContext btPaired ⟨1, 9, 255, 0, 0⟩ 2 0 with
          btSelectedDevice := 1, btConnectionStatus := HANDLER_BT_CONN_CHANGE }).2.1
    (by decide) rfl).1

/-! ## Invariants of the session state -/

/-- The events other than the ignition status, the module status response, the
disconnect and the initiate-connection leave the selected device and the module
discovery flags as they were. -/
theorem step_untouched (k : Consts) (x : Ext) (env : Env) (context : HandlerContext_t)
    (e : Event)
    (h1 : ∀ pkt, e ≠ Event.IBusIKEIgnitionStatus pkt)
    (h2 : ∀ pkt, e ≠ Event.IBusModuleStatusResponse pkt)
    (h3 : e ≠ Event.BC127DeviceDisconnected)
    (h4 : ∀ d, e ≠ Event.UIInitiateConnection d) :
    (step k x env context e).1.context.btSelectedDevice = context.btSelectedDevice ∧
    (step k x env context e).1.context.ibusModuleStatus = context.ibusModuleStatus := by
  cases e
  case IBusIKEIgnitionStatus pkt => exact absurd rfl (h1 pkt)
  case IBusModuleStatusResponse pkt => exact absurd rfl (h2 pkt)
  case BC127DeviceDisconnected => exact absurd rfl h3
  case UIInitiateConnection d => exact absurd rfl (h4 d)
  all_goals
    simp only [step, keepConfig, HandlerBC127Boot, HandlerBC127BootStatus, HandlerBC127CallStatus,
      HandlerBC127DeviceLinkConnected, HandlerBC127DeviceFound, HandlerBC127PlaybackStatus,
      HandlerUICloseConnection, HandlerIBusCDCStatus, HandlerIBusFirstMessageReceived,
      HandlerIBusGMDoorsFlapsStatusResponse, HandlerIBusGTDIAIdentityResponse,
      HandlerIBusGTDIAOSIdentityResponse, HandlerSwitchUI, HandlerIBusIKESpeedRPMUpdate,
      HandlerIBusIKEVehicleType, HandlerIBusLCMLightStatus, blinkerOffStep, blinkerActiveStep,
      HandlerIBusLCMDimmerStatus, HandlerIBusLCMRedundantData, HandlerIBusMFLButton,
      HandlerIBusMFLVolume, HandlerIBusModuleStatusRequest, HandlerTimerCDCAnnounce,
      HandlerTimerCDCSendStatus, HandlerIBusBroadcastCDCStatus, HandlerTimerDeviceConnection,
      HandlerTimerLCMIOStatus, HandlerTimerOpenProfileErrors, HandlerTimerPoweroff,
      HandlerTimerScanDevices]
    try split_ifs
    all_goals first | exact ⟨rfl, rfl⟩ | exact ⟨trivial, trivial⟩

/-- `HandlerIBusIKEIgnitionStatus` leaves the selected device as it was, and the
module discovery flags too, the instrument-cluster flag apart, which is set
afterwards. -/
theorem ignitionStatus_frame (k : Consts) (ConfigGetSetting : Nat → Nat) (now : Nat)
    (context : HandlerContext_t) (pkt : List Nat) :
    (HandlerIBusIKEIgnitionStatus k ConfigGetSetting now context pkt).1.btSelectedDevice =
      context.btSelectedDevice ∧
    (HandlerIBusIKEIgnitionStatus k ConfigGetSetting now context pkt).1.ibusModuleStatus =
      { context.ibusModuleStatus with IKE := true } := by
  have hr : ∀ r : HandlerContext_t × List Call,
      r.1.btSelectedDevice = context.btSelectedDevice →
      r.1.ibusModuleStatus = context.ibusModuleStatus →
      (if r.1.ibusModuleStatus.IKE = false then
        (({ r.1 with ibusModuleStatus := { r.1.ibusModuleStatus with IKE := true } } :
            HandlerContext_t),
         r.2 ++ HandlerIBusBroadcastTELStatus k ConfigGetSetting r.1)
       else r).1.btSelectedDevice = context.btSelectedDevice ∧
      (if r.1.ibusModuleStatus.IKE = false then
        (({ r.1 with ibusModuleStatus := { r.1.ibusModuleStatus with IKE := true } } :
            HandlerContext_t),
         r.2 ++ HandlerIBusBroadcastTELStatus k ConfigGetSetting r.1)
       else r).1.ibusModuleStatus = { context.ibusModuleStatus with IKE := true } := by
    intro r hsel hflags
    split_ifs with hike
    · exact ⟨hsel, by simp only [hflags]⟩
    · refine ⟨hsel, ?_⟩
      rw [hflags] at hike ⊢
      cases hf : context.ibusModuleStatus
      rw [hf] at hike
      simp_all
  simp only [HandlerIBusIKEIgnitionStatus]
  apply hr
  · simp only [ignitionOffBranch, ignitionOnBranch, ignitionSameBranch,
      HandlerIBusBroadcastCDCStatus]
    split_ifs <;> rfl
  · simp only [ignitionOffBranch, ignitionOnBranch, ignitionSameBranch,
      HandlerIBusBroadcastCDCStatus]
    split_ifs <;> rfl

/-- The order on the module discovery flags is reflexive. -/
theorem flagsLe_refl (a : HandlerModuleStatus_t) : flagsLe a a :=
  ⟨id, id, id, id, id, id, id⟩

/-- The order on the module discovery flags is transitive. -/
theorem flagsLe_trans {a b c : HandlerModuleStatus_t} (hab : flagsLe a b) (hbc : flagsLe b c) :
    flagsLe a c :=
  ⟨fun h => hbc.1 (hab.1 h), fun h => hbc.2.1 (hab.2.1 h), fun h => hbc.2.2.1 (hab.2.2.1 h),
   fun h => hbc.2.2.2.1 (hab.2.2.2.1 h), fun h => hbc.2.2.2.2.1 (hab.2.2.2.2.1 h),
   fun h => hbc.2.2.2.2.2.1 (hab.2.2.2.2.2.1 h), fun h => hbc.2.2.2.2.2.2 (hab.2.2.2.2.2.2 h)⟩

/-- No call of `HandlerSwitchUI` is an identity request, and its calls include the
persist of the UI mode. -/
theorem HandlerSwitchUI_calls (k : Consts) (w : World) (newUi : Nat) :
    (HandlerSwitchUI k w newUi).2.any Call.isGTIdentityRequest = false ∧
    (HandlerSwitchUI k w newUi).2.any Call.isSwitchUI = true := by
  simp only [HandlerSwitchUI, uiDestroyCalls, uiInitCalls]
  constructor <;> split_ifs <;> rfl

/-- `HandlerIBusModuleStatusResponse` leaves the selected device as it was and
clears no module discovery flag; it sends the identity requests only when the
navigation-computer flag goes from 0 to 1, and it switches the UI only when the
multi-info-display flag goes from 0 to 1. -/
theorem moduleStatusResponse_frame (k : Consts) (w : World) (pkt : List Nat) :
    (HandlerIBusModuleStatusResponse k w pkt).1.context.btSelectedDevice =
      w.context.btSelectedDevice ∧
    flagsLe w.context.ibusModuleStatus
      (HandlerIBusModuleStatusResponse k w pkt).1.context.ibusModuleStatus ∧
    ((HandlerIBusModuleStatusResponse k w pkt).2.any Call.isGTIdentityRequest = true →
      w.context.ibusModuleStatus.GT = false ∧
      (HandlerIBusModuleStatusResponse k w pkt).1.context.ibusModuleStatus.GT = true) ∧
    ((HandlerIBusModuleStatusResponse k w pkt).2.any Call.isSwitchUI = true →
      w.context.ibusModuleStatus.MID = false ∧
      (HandlerIBusModuleStatusResponse k w pkt).1.context.ibusModuleStatus.MID = true) := by
  simp only [HandlerIBusModuleStatusResponse]
  generalize pkt.getD k.IBUS_PKT_SRC 0 = module
  split_ifs with h1 h2 h3 h4 h5 h6
  · exact ⟨rfl, ⟨id, fun _ => rfl, id, id, id, id, id⟩, (fun h => by simp at h),
      (fun h => by simp at h)⟩
  · refine ⟨rfl, ⟨id, id, fun _ => rfl, id, id, id, id⟩, fun _ => ⟨h2.2, rfl⟩, fun h => ?_⟩
    simp only [moduleGTDetected] at h
    split_ifs at h <;> simp [Call.isSwitchUI] at h
  · exact ⟨rfl, ⟨id, id, id, id, fun _ => rfl, id, id⟩, (fun h => by simp at h),
      (fun h => by simp at h)⟩
  · simp only [moduleMIDDetected]
    split_ifs
    · exact ⟨rfl, ⟨id, id, id, id, id, fun _ => rfl, id⟩,
        (fun h => by rw [(HandlerSwitchUI_calls k _ _).1] at h; cases h), (fun _ => ⟨h4.2, rfl⟩)⟩
    · exact ⟨rfl, ⟨id, id, id, id, id, fun _ => rfl, id⟩,
        (fun h => by rw [(HandlerSwitchUI_calls k _ _).1] at h; cases h), (fun _ => ⟨h4.2, rfl⟩)⟩
    · exact ⟨rfl, ⟨id, id, id, id, id, fun _ => rfl, id⟩, (fun h => by simp at h),
        (fun _ => ⟨h4.2, rfl⟩)⟩
  · exact ⟨rfl, ⟨fun _ => rfl, id, id, id, id, id, id⟩, (fun h => by simp at h),
      (fun h => by simp at h)⟩
  · exact ⟨rfl, ⟨id, id, id, id, id, id, fun _ => rfl⟩, (fun h => by simp at h),
      (fun h => by simp at h)⟩
  · exact ⟨rfl, flagsLe_refl _, (fun h => by simp at h), (fun h => by simp at h)⟩

/-- Every delivery leaves the selected device as it was, or sets it to NONE, or
ends with the connection status CHANGE. -/
theorem step_selected (k : Consts) (x : Ext) (env : Env) (context : HandlerContext_t)
    (e : Event) :
    (step k x env context e).1.context.btSelectedDevice = context.btSelectedDevice ∨
    (step k x env context e).1.context.btSelectedDevice = HANDLER_BT_SELECTED_DEVICE_NONE ∨
    (step k x env context e).1.context.btConnectionStatus = HANDLER_BT_CONN_CHANGE := by
  by_cases h1 : ∃ pkt, e = Event.IBusIKEIgnitionStatus pkt
  · obtain ⟨pkt, rfl⟩ := h1
    exact Or.inl (ignitionStatus_frame k _ _ _ pkt).1
  by_cases h2 : ∃ pkt, e = Event.IBusModuleStatusResponse pkt
  · obtain ⟨pkt, rfl⟩ := h2
    exact Or.inl (moduleStatusResponse_frame k _ pkt).1
  by_cases h3 : e = Event.BC127DeviceDisconnected
  · subst h3
    simp only [step, keepConfig, HandlerBC127DeviceDisconnected]
    split_ifs <;> first | exact Or.inl rfl | exact Or.inr (Or.inl rfl)
  by_cases h4 : ∃ d, e = Event.UIInitiateConnection d
  · obtain ⟨d, rfl⟩ := h4
    exact Or.inr (Or.inr rfl)
  exact Or.inl (step_untouched k x env context e (fun pkt h => h1 ⟨pkt, h⟩)
    (fun pkt h => h2 ⟨pkt, h⟩) h3 (fun d h => h4 ⟨d, h⟩)).1

/-- No delivery clears a module discovery flag. -/
theorem step_flags (k : Consts) (x : Ext) (env : Env) (context : HandlerContext_t)
    (e : Event) :
    flagsLe context.ibusModuleStatus (step k x env context e).1.context.ibusModuleStatus := by
  by_cases h1 : ∃ pkt, e = Event.IBusIKEIgnitionStatus pkt
  · obtain ⟨pkt, rfl⟩ := h1
    have h := (ignitionStatus_frame k env.config.settings env.t1
      { context with bt := env.bt, ibus := env.ibus } pkt).2
    simp only [step, keepConfig]
    rw [h]
    exact ⟨id, id, id, fun _ => rfl, id, id, id⟩
  by_cases h2 : ∃ pkt, e = Event.IBusModuleStatusResponse pkt
  · obtain ⟨pkt, rfl⟩ := h2
    exact (moduleStatusResponse_frame k ⟨{ context with bt := env.bt, ibus := env.ibus },
      env.config⟩ pkt).2.1
  by_cases h3 : e = Event.BC127DeviceDisconnected
  · subst h3
    simp only [step, keepConfig, HandlerBC127DeviceDisconnected]
    split_ifs <;> exact flagsLe_refl _
  by_cases h4 : ∃ d, e = Event.UIInitiateConnection d
  · obtain ⟨d, rfl⟩ := h4
    exact flagsLe_refl _
  rw [(step_untouched k x env context e (fun pkt h => h1 ⟨pkt, h⟩)
    (fun pkt h => h2 ⟨pkt, h⟩) h3 (fun d h => h4 ⟨d, h⟩)).2]
  exact flagsLe_refl _

/-- An event selected by `isModuleStatusResponse` is a module status response. -/
theorem isModuleStatusResponse_eq (e : Event) (h : e.isModuleStatusResponse = true) :
    ∃ pkt, e = Event.IBusModuleStatusResponse pkt := by
  cases e <;> first | exact ⟨_, rfl⟩ | simp [Event.isModuleStatusResponse] at h

/-- No session clears a module discovery flag. -/
theorem run_flags (k : Consts) (x : Ext) (steps : List (Env × Event)) :
    ∀ context : HandlerContext_t,
      flagsLe context.ibusModuleStatus (run k x context steps).1.ibusModuleStatus := by
  induction steps with
  | nil => intro context; exact flagsLe_refl _
  | cons d ds ih =>
    intro context
    simp only [run]
    exact flagsLe_trans (step_flags k x d.1 context d.2) (ih _)

/-- A first-detection action that is tied to a flag going from 0 to 1 happens at
most once in a session, and not at all once the flag is set. -/
theorem run_firstDetection_le (k : Consts) (x : Ext) (p : Call → Bool)
    (f : HandlerModuleStatus_t → Bool)
    (hmono : ∀ a b, flagsLe a b → f a = true → f b = true)
    (hfirst : ∀ (env : Env) (c : HandlerContext_t) (pkt : List Nat),
      (step k x env c (Event.IBusModuleStatusResponse pkt)).2.any p = true →
      f c.ibusModuleStatus = false ∧
      f (step k x env c (Event.IBusModuleStatusResponse pkt)).1.context.ibusModuleStatus = true)
    (steps : List (Env × Event)) :
    ∀ context : HandlerContext_t,
      firstDetectionCount p steps (run k x context steps).2 ≤
        (if f context.ibusModuleStatus = true then 0 else 1) := by
  induction steps with
  | nil => intro context; simp [firstDetectionCount, run]
  | cons d ds ih =>
    intro context
    have hrest := ih (step k x d.1 context d.2).1.context
    have hflags := step_flags k x d.1 context d.2
    simp only [firstDetectionCount, run, List.zip_cons_cons, List.filter_cons] at hrest ⊢
    by_cases hcond : (d.2.isModuleStatusResponse && (step k x d.1 context d.2).2.any p) = true
    · rw [if_pos hcond]
      simp only [Bool.and_eq_true] at hcond
      obtain ⟨hev, hany⟩ := hcond
      obtain ⟨env, e⟩ := d
      obtain ⟨pkt, rfl⟩ := isModuleStatusResponse_eq e hev
      obtain ⟨hbefore, hafter⟩ := hfirst env context pkt hany
      simp only [hafter, if_true] at hrest
      simp only [hbefore, List.length_cons, Bool.false_eq_true, if_false]
      exact Nat.succ_le_succ hrest
    · rw [if_neg hcond]
      refine le_trans hrest ?_
      by_cases hc : f context.ibusModuleStatus = true
      · rw [if_pos (hmono _ _ hflags hc), if_pos hc]
      · rw [if_neg hc]
        split_ifs <;> omega

/-- C19, as stated, fails: after `HandlerInit`, an initiate-connection for device 0
followed by a boot status, or followed by a disconnect that arrives with the
ignition off, leaves the selected device 0, which is not NONE, while the
connection status is OFF, which is not CHANGE. -/
theorem C19_selected_device_counterexample :
    (run hdr extSample (HandlerInit hdr configSample 0 0 btIdle ⟨0, 2, 255, 0, 0⟩).1
        [(envIgnitionOn, Event.UIInitiateConnection 0),
         (envIgnitionOn, Event.BC127BootStatus)]).1.btSelectedDevice = 0 ∧
    (run hdr extSample (HandlerInit hdr configSample 0 0 btIdle ⟨0, 2, 255, 0, 0⟩).1
        [(envIgnitionOn, Event.UIInitiateConnection 0),
         (envIgnitionOn, Event.BC127BootStatus)]).1.btConnectionStatus = HANDLER_BT_CONN_OFF ∧
    (run hdr extSample (HandlerInit hdr configSample 0 0 btIdle ⟨0, 2, 255, 0, 0⟩).1
        [(envIgnitionOn, Event.UIInitiateConnection 0),
         (envIgnitionOff, Event.BC127DeviceDisconnected)]).1.btSelectedDevice = 0 ∧
    (run hdr extSample (HandlerInit hdr configSample 0 0 btIdle ⟨0, 2, 255, 0, 0⟩).1
        [(envIgnitionOn, Event.UIInitiateConnection 0),
         (envIgnitionOff, Event.BC127DeviceDisconnected)]).1.btConnectionStatus =
      HANDLER_BT_CONN_OFF ∧
    (0 : Int) ≠ HANDLER_BT_SELECTED_DEVICE_NONE ∧
    HANDLER_BT_CONN_OFF ≠ HANDLER_BT_CONN_CHANGE := by
  refine ⟨rfl, rfl, rfl, rfl, ?_, ?_⟩ <;> decide

/-- C19 as amended: in every delivery of a handler event or timer tick, from every
state, the selected device is left as it was, or set to NONE, or the delivery ends
with the connection status CHANGE; so the selected device is given a value other
than NONE only together with the connection status CHANGE.  The boot status, and a
disconnect that arrives with the ignition off, reset the connection status to OFF
and leave the selected device as it was. -/
theorem C19_selected_device_amended (k : Consts) (x : Ext) (env : Env)
    (context : HandlerContext_t) (e : Event) :
    ((step k x env context e).1.context.btSelectedDevice = context.btSelectedDevice ∨
      (step k x env context e).1.context.btSelectedDevice = HANDLER_BT_SELECTED_DEVICE_NONE ∨
      (step k x env context e).1.context.btConnectionStatus = HANDLER_BT_CONN_CHANGE) ∧
    ((step k x env context Event.BC127BootStatus).1.context.btSelectedDevice =
        context.btSelectedDevice ∧
      (step k x env context Event.BC127BootStatus).1.context.btConnectionStatus =
        HANDLER_BT_CONN_OFF) ∧
    (¬ env.ibus.ignitionStatus > k.IBUS_IGNITION_OFF →
      (step k x env context Event.BC127DeviceDisconnected).1.context.btSelectedDevice =
        context.btSelectedDevice ∧
      (step k x env context Event.BC127DeviceDisconnected).1.context.btConnectionStatus =
        HANDLER_BT_CONN_OFF) := by
  refine ⟨step_selected k x env context e, ⟨rfl, rfl⟩, fun hign => ?_⟩
  simp only [step, keepConfig, HandlerBC127DeviceDisconnected]
  rw [if_neg hign]
  exact ⟨rfl, rfl⟩

/-- C20: from any state of a session, and so from the one `HandlerInit` sets up, in
which every flag is 0, no sequence of handler events and timer ticks changes a
module discovery flag from 1 to 0; and over the whole session at most one module
status response sends the navigation-computer identity requests, and at most one
switches the UI. -/
theorem C20_discovery_flags (k : Consts) (x : Ext) (context : HandlerContext_t)
    (steps : List (Env × Event)) (config : Config_t) (t1 t2 : Nat) (bt : BC127_t)
    (ibus : IBus_t) :
    (HandlerInit k config t1 t2 bt ibus).1.ibusModuleStatus =
      ⟨false, false, false, false, false, false, false⟩ ∧
    flagsLe context.ibusModuleStatus (run k x context steps).1.ibusModuleStatus ∧
    firstDetectionCount Call.isGTIdentityRequest steps (run k x context steps).2 ≤ 1 ∧
    firstDetectionCount Call.isSwitchUI steps (run k x context steps).2 ≤ 1 := by
  refine ⟨rfl, run_flags k x steps context, ?_, ?_⟩
  · refine le_trans (run_firstDetection_le k x Call.isGTIdentityRequest (fun s => s.GT)
      (fun a b hab => hab.2.2.1) ?_ steps context) (by split_ifs <;> omega)
    intro env c pkt hany
    exact (moduleStatusResponse_frame k ⟨{ c with bt := env.bt, ibus := env.ibus },
      env.config⟩ pkt).2.2.1 hany
  · refine le_trans (run_firstDetection_le k x Call.isSwitchUI (fun s => s.MID)
      (fun a b hab => hab.2.2.2.2.2.1) ?_ steps context) (by split_ifs <;> omega)
    intro env c pkt hany
    exact (moduleStatusResponse_frame k ⟨{ c with bt := env.bt, ibus := env.ibus },
      env.config⟩ pkt).2.2.2 hany

/-- C20 at a concrete input: after `HandlerInit` the status responses of the
navigation computer and of the multi-info display are each delivered twice; the
identity requests are sent once and the UI is switched once. -/
theorem C20_discovery_flags_witness :
    firstDetectionCount Call.isGTIdentityRequest
        [(envCD53, Event.IBusModuleStatusResponse pktStatusGT),
         (envCD53, Event.IBusModuleStatusResponse pktStatusGT),
         (envCD53, Event.IBusModuleStatusResponse pktStatusMID),
         (envCD53, Event.IBusModuleStatusResponse pktStatusMID)]
        (run hdr extSample (HandlerInit hdr envCD53.config 0 0 btIdle ⟨0, 2, 255, 0, 0⟩).1
          [(envCD53, Event.IBusModuleStatusResponse pktStatusGT),
           (envCD53, Event.IBusModuleStatusResponse pktStatusGT),
           (envCD53, Event.IBusModuleStatusResponse pktStatusMID),
           (envCD53, Event.IBusModuleStatusResponse pktStatusMID)]).2 = 1 ∧
    firstDetectionCount Call.isSwitchUI
        [(envCD53, Event.IBusModuleStatusResponse pktStatusGT),
         (envCD53, Event.IBusModuleStatusResponse pktStatusGT),
         (envCD53, Event.IBusModuleStatusResponse pktStatusMID),
         (envCD53, Event.IBusModuleStatusResponse pktStatusMID)]
        (run hdr extSample (HandlerInit hdr envCD53.config 0 0 btIdle ⟨0, 2, 255, 0, 0⟩).1
          [(envCD53, Event.IBusModuleStatusResponse pktStatusGT),
           (envCD53, Event.IBusModuleStatusResponse pktStatusGT),
           (envCD53, Event.IBusModuleStatusResponse pktStatusMID),
           (envCD53, Event.IBusModuleStatusResponse pktStatusMID)]).2 ≤ 1 :=
  ⟨rfl,
   (C20_discovery_flags hdr extSample
      (HandlerInit hdr envCD53.config 0 0 btIdle ⟨0, 2, 255, 0, 0⟩).1
      [(envCD53, Event.IBusModuleStatusResponse pktStatusGT),
       (envCD53, Event.IBusModuleStatusResponse pktStatusGT),
       (envCD53, Event.IBusModuleStatusResponse pktStatusMID),
       (envCD53, Event.IBusModuleStatusResponse pktStatusMID)]
      envCD53.config 0 0 btIdle ⟨0, 2, 255, 0, 0⟩).2.2.2⟩

/-! ## Call status -/

/-- C21, as stated, fails: with the TCU mode off, so that the gating condition
holds, and a call that is active with its SCO channel open,
`HandlerBC127CallStatus` writes neither line; it makes no call at all. -/
theorem C21_call_status_counterexample :
    settingsAllOff hdr.CONFIG_SETTING_TCU_MODE = hdr.CONFIG_SETTING_OFF ∧
    btCallActive.callStatus = hdr.BC127_CALL_ACTIVE ∧
    btCallActive.scoStatus = hdr.BC127_CALL_SCO_OPEN ∧
    (HandlerBC127CallStatus hdr settingsAllOff
        (initContext btCallActive ⟨1, 9, 255, 0, 0⟩ 2 0)).2.filter Call.isLineWrite = [] ∧
    (HandlerBC127CallStatus hdr settingsAllOff
        (initContext btCallActive ⟨1, 9, 255, 0, 0⟩ 2 0)).2 = [] := by
  decide

/-- C21 as amended: when the gating condition holds, `HandlerBC127CallStatus` sets
the two lines to 1 when the call is incoming or outgoing and the SCO channel is
open, sets the amplifier line to 0, waits 250 microseconds and sets the mute line
to 0 when the call is inactive, and writes neither line when the call is active,
or when the call is not inactive and the SCO channel is not open. -/
theorem C21_call_status_amended (k : Consts) (ConfigGetSetting : Nat → Nat)
    (context : HandlerContext_t)
    (hgate : ConfigGetSetting k.CONFIG_SETTING_TCU_MODE = k.CONFIG_SETTING_OFF ∨
      context.ibus.cdChangerFunction = k.IBUS_CDC_FUNC_NOT_PLAYING)
    (hin : k.BC127_CALL_INCOMING ≠ k.BC127_CALL_INACTIVE)
    (hout : k.BC127_CALL_OUTGOING ≠ k.BC127_CALL_INACTIVE)
    (hact : k.BC127_CALL_ACTIVE ≠ k.BC127_CALL_INACTIVE ∧
      k.BC127_CALL_ACTIVE ≠ k.BC127_CALL_INCOMING ∧
      k.BC127_CALL_ACTIVE ≠ k.BC127_CALL_OUTGOING) :
    ((context.bt.callStatus = k.BC127_CALL_INCOMING ∨
        context.bt.callStatus = k.BC127_CALL_OUTGOING) →
      context.bt.scoStatus = k.BC127_CALL_SCO_OPEN →
      (HandlerBC127CallStatus k ConfigGetSetting context).2.filter Call.isLineWriteOrDelay =
        [Call.PAM_SHDN 1, Call.TEL_MUTE 1]) ∧
    (context.bt.callStatus = k.BC127_CALL_INACTIVE →
      (HandlerBC127CallStatus k ConfigGetSetting context).2.filter Call.isLineWriteOrDelay =
        [Call.PAM_SHDN 0, Call.TimerDelayMicroseconds 250, Call.TEL_MUTE 0]) ∧
    (context.bt.callStatus = k.BC127_CALL_ACTIVE →
      (HandlerBC127CallStatus k ConfigGetSetting context).2.filter Call.isLineWrite = []) ∧
    (context.bt.callStatus ≠ k.BC127_CALL_INACTIVE →
      context.bt.scoStatus ≠ k.BC127_CALL_SCO_OPEN →
      (HandlerBC127CallStatus k ConfigGetSetting context).2.filter Call.isLineWrite = []) := by
  obtain ⟨ha1, ha2, ha3⟩ := hact
  simp only [HandlerBC127CallStatus, HandlerIBusBroadcastTELStatus, if_pos hgate]
  refine ⟨?_, ?_, ?_, ?_⟩
  · intro hcall hsco
    have hne : context.bt.callStatus ≠ k.BC127_CALL_INACTIVE := by
      rcases hcall with h | h <;> rw [h] <;> assumption
    simp only [hcall, hsco, hne, and_self, false_and, if_true, if_false]
    split_ifs <;> simp [Call.isLineWriteOrDelay]
  · intro hcall
    have h1 : ¬ (k.BC127_CALL_INACTIVE = k.BC127_CALL_INCOMING ∨
        k.BC127_CALL_INACTIVE = k.BC127_CALL_OUTGOING) := by
      rintro (h | h)
      · exact hin h.symm
      · exact hout h.symm
    simp only [hcall, h1, false_and, if_true, if_false]
    split_ifs <;> simp [Call.isLineWriteOrDelay]
  · intro hcall
    have h1 : ¬ (k.BC127_CALL_ACTIVE = k.BC127_CALL_INCOMING ∨
        k.BC127_CALL_ACTIVE = k.BC127_CALL_OUTGOING) := by
      rintro (h | h)
      · exact ha2 h
      · exact ha3 h
    simp only [hcall, h1, ha1, false_and, if_false]
    split_ifs <;> simp [Call.isLineWrite]
  · intro hcall hsco
    simp only [hcall, hsco, and_false, false_and, if_false]
    split_ifs <;> simp [Call.isLineWrite]

/-- C21 as amended at a concrete input: an incoming call with the SCO channel
open, the TCU mode off. -/
theorem C21_call_status_amended_witness :
    (HandlerBC127CallStatus hdr settingsAllOff
        (initContext { btLinked with callStatus := 2, scoStatus := 1 }
          ⟨1, 9, 255, 0, 0⟩ 2 0)).2.filter Call.isLineWriteOrDelay =
      [Call.PAM_SHDN 1, Call.TEL_MUTE 1] :=
  (C21_call_status_amended hdr settingsAllOff
    (initContext { btLinked with callStatus := 2, scoStatus := 1 } ⟨1, 9, 255, 0, 0⟩ 2 0)
    (Or.inl rfl) (by decide) (by decide) (by decide)).1 (Or.inl rfl) rfl

/-! ## Power-off timeout -/

/-- C22, as stated, fails: with the feature enabled, the tick at 61000 ms without
traffic powers the transceiver down; at the next tick a byte was received 500 ms
before, which is below 61000 ms, and the tick leaves `powerStatus` OFF and writes
no line. -/
theorem C22_poweroff_counterexample :
    configPoweroff.poweroffTimeoutDisabled = hdr.CONFIG_SETTING_ENABLED ∧
    HandlerTimerPoweroff hdr configPoweroff 61000 (initContext btIdle ⟨1, 9, 255, 0, 0⟩ 2 0) =
      ({ initContext btIdle ⟨1, 9, 255, 0, 0⟩ 2 0 with powerStatus := HANDLER_POWER_OFF },
       [Call.UARTDestroy 1, Call.TimerDelayMicroseconds 500, Call.IBUS_EN 0]) ∧
    sub32 62000 61500 < HANDLER_POWER_TIMEOUT_MILLIS ∧
    HandlerTimerPoweroff hdr configPoweroff 62000
        { initContext btIdle ⟨1, 9, 255, 61500, 0⟩ 2 0 with powerStatus := HANDLER_POWER_OFF } =
      ({ initContext btIdle ⟨1, 9, 255, 61500, 0⟩ 2 0 with powerStatus := HANDLER_POWER_OFF },
       []) := by
  decide

/-- C22 as amended: with the feature enabled and `powerStatus` OFF, a tick at which
the bus is still silent, the time since the last received byte being at least
61000 ms, sets the line `IBUS_EN` to 1 and `powerStatus` to ON, and the next silent
tick powers the transceiver down again; a tick at which the time since the last
received byte is below 61000 ms changes nothing and writes no line. -/
theorem C22_poweroff_amended (k : Consts) (config : Config_t) (now : Nat)
    (context : HandlerContext_t)
    (hen : config.poweroffTimeoutDisabled = k.CONFIG_SETTING_ENABLED)
    (hoff : context.powerStatus = HANDLER_POWER_OFF) :
    (sub32 now context.ibus.rxLastStamp ≥ HANDLER_POWER_TIMEOUT_MILLIS →
      HandlerTimerPoweroff k config now context =
        ({ context with powerStatus := HANDLER_POWER_ON }, [Call.IBUS_EN 1])) ∧
    (∀ next : Nat, sub32 next context.ibus.rxLastStamp ≥ HANDLER_POWER_TIMEOUT_MILLIS →
      HandlerTimerPoweroff k config next { context with powerStatus := HANDLER_POWER_ON } =
        ({ context with powerStatus := HANDLER_POWER_OFF },
         [Call.UARTDestroy k.IBUS_UART_MODULE, Call.TimerDelayMicroseconds 500,
          Call.IBUS_EN 0])) ∧
    (sub32 now context.ibus.rxLastStamp < HANDLER_POWER_TIMEOUT_MILLIS →
      HandlerTimerPoweroff k config now context = (context, [])) := by
  have hne : context.powerStatus ≠ HANDLER_POWER_ON := by
    rw [hoff]; decide
  refine ⟨fun h => ?_, fun next h => ?_, fun h => ?_⟩
  · simp only [HandlerTimerPoweroff, if_pos hen, if_pos h, if_neg hne]
  · simp only [HandlerTimerPoweroff, if_pos hen, if_pos h, if_true]
  · simp only [HandlerTimerPoweroff, if_pos hen, if_neg (not_le.mpr h)]

/-- C22 as amended at a concrete input: the transceiver is down and the bus has
been silent for 62000 ms. -/
theorem C22_poweroff_amended_witness :
    HandlerTimerPoweroff hdr configPoweroff 62000
        { initContext btIdle ⟨1, 9, 255, 0, 0⟩ 2 0 with powerStatus := HANDLER_POWER_OFF } =
      ({ initContext btIdle ⟨1, 9, 255, 0, 0⟩ 2 0 with powerStatus := HANDLER_POWER_ON },
       [Call.IBUS_EN 1]) :=
  (C22_poweroff_amended hdr configPoweroff 62000
    { initContext btIdle ⟨1, 9, 255, 0, 0⟩ 2 0 with powerStatus := HANDLER_POWER_OFF }
    rfl rfl).1 (by decide)

/-! ## Device scan -/

/-- A scan tick delivered with the ignition off issues no command and counts the
interval counter up, modulo 256. -/
theorem step_scan_ignition_off (k : Consts) (x : Ext) (env : Env) (context : HandlerContext_t)
    (hign : ¬ env.ibus.ignitionStatus > k.IBUS_IGNITION_OFF) :
    (step k x env context Event.TimerScanDevices).1.context.scanIntervals =
        (context.scanIntervals + 1) % 256 ∧
      (step k x env context Event.TimerScanDevices).2 = [] := by
  simp only [step, keepConfig, HandlerTimerScanDevices]
  rw [if_neg (fun h => hign h.2)]
  exact ⟨rfl, rfl⟩

/-- Scan ticks delivered with the ignition off issue no command and count the
interval counter up, modulo 256. -/
theorem run_scan_ignition_off (k : Consts) (x : Ext) (steps : List (Env × Event))
    (hsteps : ∀ d ∈ steps, d.2 = Event.TimerScanDevices ∧
      ¬ d.1.ibus.ignitionStatus > k.IBUS_IGNITION_OFF) :
    ∀ context : HandlerContext_t, context.scanIntervals < 256 →
      (run k x context steps).1.scanIntervals =
        (context.scanIntervals + steps.length) % 256 ∧
      ∀ calls ∈ (run k x context steps).2, calls = [] := by
  induction steps with
  | nil =>
    intro context hc
    simp only [run, List.length_nil, List.not_mem_nil, false_implies, implies_true, and_true]
    omega
  | cons d ds ih =>
    intro context hc
    obtain ⟨env, e⟩ := d
    obtain ⟨he, hign⟩ := hsteps (env, e) (List.mem_cons_self _ _)
    simp only at he hign
    subst he
    obtain ⟨h1, h2⟩ := step_scan_ignition_off k x env context hign
    obtain ⟨ih1, ih2⟩ := ih (fun d hd => hsteps d (List.mem_cons_of_mem _ hd))
      (step k x env context Event.TimerScanDevices).1.context (by rw [h1]; omega)
    simp only [run, List.length_cons, List.mem_cons]
    refine ⟨?_, ?_⟩
    · rw [ih1, h1]; omega
    · rintro calls (h | h)
      · rw [h, h2]
      · exact ih2 calls h

/-- C23: the bound of the claim does not hold.  After `HandlerInit`, scan ticks
delivered with the ignition off issue no command and each count the interval
counter up: after `n < 256` of them it is `n`, so that thirteen ticks leave 13.
The parts of the claim about one tick hold: with the ignition on, a tick prunes the
inactive paired devices, requests the list and resets the counter to 0 exactly when
there is no active device and the connection status is OFF, or the counter equals
12, and otherwise only counts up; with the ignition off it only counts up.  A
counter that has passed 12 with a device connected therefore triggers no rescan
until it has wrapped around. -/
theorem C23_scan_intervals_overrun (k : Consts) (x : Ext) (config : Config_t) (t1 t2 : Nat)
    (bt : BC127_t) (ibus : IBus_t) (steps : List (Env × Event))
    (hsteps : ∀ d ∈ steps, d.2 = Event.TimerScanDevices ∧
      ¬ d.1.ibus.ignitionStatus > k.IBUS_IGNITION_OFF)
    (hlen : steps.length < 256) :
    (run k x (HandlerInit k config t1 t2 bt ibus).1 steps).1.scanIntervals = steps.length ∧
    (∀ calls ∈ (run k x (HandlerInit k config t1 t2 bt ibus).1 steps).2, calls = []) ∧
    (∀ context : HandlerContext_t, context.ibus.ignitionStatus > k.IBUS_IGNITION_OFF →
      ((context.bt.activeDevice.deviceId = 0 ∧
          context.btConnectionStatus = HANDLER_BT_CONN_OFF) ∨ context.scanIntervals = 12 →
        HandlerTimerScanDevices k context =
          ({ context with scanIntervals := 0 },
           [Call.BC127ClearInactivePairedDevices, Call.BC127CommandList])) ∧
      (¬ ((context.bt.activeDevice.deviceId = 0 ∧
          context.btConnectionStatus = HANDLER_BT_CONN_OFF) ∨ context.scanIntervals = 12) →
        HandlerTimerScanDevices k context =
          ({ context with scanIntervals := (context.scanIntervals + 1) % 256 }, []))) ∧
    (∀ context : HandlerContext_t, ¬ context.ibus.ignitionStatus > k.IBUS_IGNITION_OFF →
      HandlerTimerScanDevices k context =
        ({ context with scanIntervals := (context.scanIntervals + 1) % 256 }, [])) := by
  obtain ⟨h1, h2⟩ := run_scan_ignition_off k x steps hsteps
    (HandlerInit k config t1 t2 bt ibus).1 (by simp [HandlerInit])
  refine ⟨?_, h2, fun context hign => ⟨fun h => ?_, fun h => ?_⟩, fun context hign => ?_⟩
  · rw [h1]
    simp only [HandlerInit, Nat.zero_add]
    omega
  · simp only [HandlerTimerScanDevices, if_pos (And.intro h hign)]
  · have hc : ¬ (((context.bt.activeDevice.deviceId = 0 ∧
        context.btConnectionStatus = HANDLER_BT_CONN_OFF) ∨ context.scanIntervals = 12) ∧
        context.ibus.ignitionStatus > k.IBUS_IGNITION_OFF) := fun hc => h hc.1
    simp only [HandlerTimerScanDevices, if_neg hc]
  · have hc : ¬ (((context.bt.activeDevice.deviceId = 0 ∧
        context.btConnectionStatus = HANDLER_BT_CONN_OFF) ∨ context.scanIntervals = 12) ∧
        context.ibus.ignitionStatus > k.IBUS_IGNITION_OFF) := fun hc => hign hc.2
    simp only [HandlerTimerScanDevices, if_neg hc]

/-- C23 at a concrete input: `HandlerInit` followed by thirteen scan ticks with the
ignition off leaves the interval counter at 13. -/
theorem C23_scan_intervals_overrun_witness :
    (run hdr extSample (HandlerInit hdr configSample 0 0 btIdle ⟨0, 2, 255, 0, 0⟩).1
        (List.replicate 13 (envScanOff 0, Event.TimerScanDevices))).1.scanIntervals = 13 ∧
    12 < (run hdr extSample (HandlerInit hdr configSample 0 0 btIdle ⟨0, 2, 255, 0, 0⟩).1
        (List.replicate 13 (envScanOff 0, Event.TimerScanDevices))).1.scanIntervals :=
  ⟨(C23_scan_intervals_overrun hdr extSample configSample 0 0 btIdle ⟨0, 2, 255, 0, 0⟩
      (List.replicate 13 (envScanOff 0, Event.TimerScanDevices))
      (by
        intro d hd
        rw [List.eq_of_mem_replicate hd]
        exact ⟨rfl, by decide⟩)
      (by decide)).1,
   by decide⟩

/-! ## OS identity of the navigation computer -/

/-- C24, as stated, fails: after `HandlerInit` with the CD53 UI stored and the
console command that stores the board-monitor UI, the identifier "BMWC01S" with no
multi-info display discovered leaves `uiMode` CD53 and makes no call: the stored
mode already is board-monitor, and the switch is made only when it is not. -/
theorem C24_os_identity_counterexample :
    extSample.UtilsStricmp ((List.range 7).map fun i => pktOSIdentityC01S.getD (i + 4) 0)
      NAV_OS_BMWC01S = 0 ∧
    worldStoredBMBT.context.ibusModuleStatus.MID = false ∧
    worldStoredBMBT.config.uiMode = hdr.IBus_UI_BMBT ∧
    (HandlerIBusGTDIAOSIdentityResponse hdr extSample worldStoredBMBT
      pktOSIdentityC01S).1.context.uiMode = hdr.IBus_UI_CD53 ∧
    hdr.IBus_UI_CD53 ≠ hdr.IBus_UI_BMBT ∧
    (HandlerIBusGTDIAOSIdentityResponse hdr extSample worldStoredBMBT pktOSIdentityC01S).2 = []
    := by
  refine ⟨?_, ?_, ?_, ?_, ?_, ?_⟩ <;> decide

/-- The result of `HandlerIBusGTDIAOSIdentityResponse` when the identifier selects
the UI mode `target`: the switch to it if the stored mode is another one, and
nothing if not. -/
theorem switchIfStored (k : Consts) (w : World) (target : Nat) :
    ((if w.config.uiMode ≠ target then HandlerSwitchUI k w target else (w, [])).1.config.uiMode
        = target) ∧
    ((if w.config.uiMode ≠ target then HandlerSwitchUI k w target
        else (w, [])).1.context.uiMode =
      (if w.config.uiMode ≠ target then target else w.context.uiMode)) ∧
    ((if w.config.uiMode ≠ target then HandlerSwitchUI k w target else (w, [])).2 =
      (if w.config.uiMode ≠ target then
        uiDestroyCalls k w.context.uiMode ++ uiInitCalls k target ++
          [Call.ConfigSetUIMode target]
       else [])) := by
  by_cases h : w.config.uiMode = target
  · simp only [h, ne_eq, not_true_eq_false, if_false, and_self]
  · simp only [h, ne_eq, not_false_eq_true, if_true, HandlerSwitchUI, and_self]

/-- C24 as amended: `HandlerIBusGTDIAOSIdentityResponse` depends on the packet
through the seven bytes `pkt[4..10]` only.  When they match "BMWC01S" the target
mode is board-monitor if the multi-info-display flag is 0 and the combined mode if
it is 1; when they match "BMWM01S" it is business-navigation.  The persisted UI
mode is the target afterwards.  The `uiMode` of the context and the UI controllers
are switched to the target exactly when the persisted mode was another one before;
when the persisted mode already is the target, `uiMode` is left as it was and no
call is made.  For every other identifier the context and the store are unchanged
and no call is made. -/
theorem C24_os_identity_amended (k : Consts) (x : Ext) (w : World) (pkt : List Nat) :
    (∀ pkt' : List Nat, (∀ i, i < 7 → pkt'.getD (i + 4) 0 = pkt.getD (i + 4) 0) →
      HandlerIBusGTDIAOSIdentityResponse k x w pkt' =
        HandlerIBusGTDIAOSIdentityResponse k x w pkt) ∧
    (∀ target,
      (x.UtilsStricmp ((List.range 7).map fun i => pkt.getD (i + 4) 0) NAV_OS_BMWC01S = 0 ∧
          w.context.ibusModuleStatus.MID = false ∧ target = k.IBus_UI_BMBT) ∨
      (x.UtilsStricmp ((List.range 7).map fun i => pkt.getD (i + 4) 0) NAV_OS_BMWC01S = 0 ∧
          w.context.ibusModuleStatus.MID = true ∧ target = k.IBus_UI_MID_BMBT) ∨
      (x.UtilsStricmp ((List.range 7).map fun i => pkt.getD (i + 4) 0) NAV_OS_BMWC01S ≠ 0 ∧
          x.UtilsStricmp ((List.range 7).map fun i => pkt.getD (i + 4) 0) NAV_OS_BMWM01S = 0 ∧
          target = k.IBus_UI_BUSINESS_NAV) →
      (HandlerIBusGTDIAOSIdentityResponse k x w pkt).1.config.uiMode = target ∧
      (HandlerIBusGTDIAOSIdentityResponse k x w pkt).1.context.uiMode =
        (if w.config.uiMode ≠ target then target else w.context.uiMode) ∧
      (HandlerIBusGTDIAOSIdentityResponse k x w pkt).2 =
        (if w.config.uiMode ≠ target then
          uiDestroyCalls k w.context.uiMode ++ uiInitCalls k target ++
            [Call.ConfigSetUIMode target]
         else [])) ∧
    (x.UtilsStricmp ((List.range 7).map fun i => pkt.getD (i + 4) 0) NAV_OS_BMWC01S ≠ 0 →
      x.UtilsStricmp ((List.range 7).map fun i => pkt.getD (i + 4) 0) NAV_OS_BMWM01S ≠ 0 →
      HandlerIBusGTDIAOSIdentityResponse k x w pkt = (w, [])) := by
  refine ⟨fun pkt' h => ?_, fun target ht => ?_, fun hc hm => ?_⟩
  · have hnav : ((List.range 7).map fun i => pkt'.getD (i + 4) 0) =
        ((List.range 7).map fun i => pkt.getD (i + 4) 0) :=
      List.map_congr_left fun i hi => h i (List.mem_range.mp hi)
    unfold HandlerIBusGTDIAOSIdentityResponse
    simp only [hnav]
  · have hres : HandlerIBusGTDIAOSIdentityResponse k x w pkt =
        (if w.config.uiMode ≠ target then HandlerSwitchUI k w target else (w, [])) := by
      unfold HandlerIBusGTDIAOSIdentityResponse
      rcases ht with ⟨hc, hmid, rfl⟩ | ⟨hc, hmid, rfl⟩ | ⟨hc, hm, rfl⟩
      · simp only [hc, hmid, if_true]
      · simp only [hc, hmid, if_true, Bool.true_eq_false, if_false]
      · simp only [hc, hm, if_true, if_false]
    rw [hres]
    exact switchIfStored k w target
  · unfold HandlerIBusGTDIAOSIdentityResponse
    simp only [hc, hm, if_false]

/-- C24 as amended, at a concrete input: with the CD53 UI stored and running and no
multi-info display, the identifier "BMWC01S" switches to the board-monitor UI, and
the identifier "BMWX99S" changes nothing. -/
theorem C24_os_identity_amended_witness :
    (HandlerIBusGTDIAOSIdentityResponse hdr extSample
        ⟨initContext btIdle ⟨1, 9, 255, 0, 0⟩ 1 0, envCD53.config⟩
        pktOSIdentityC01S).1.config.uiMode = hdr.IBus_UI_BMBT ∧
    (HandlerIBusGTDIAOSIdentityResponse hdr extSample
        ⟨initContext btIdle ⟨1, 9, 255, 0, 0⟩ 1 0, envCD53.config⟩
        pktOSIdentityC01S).1.context.uiMode = hdr.IBus_UI_BMBT ∧
    (HandlerIBusGTDIAOSIdentityResponse hdr extSample
        ⟨initContext btIdle ⟨1, 9, 255, 0, 0⟩ 1 0, envCD53.config⟩
        pktOSIdentityC01S).2 =
      [Call.CD53Destroy, Call.BMBTInit, Call.ConfigSetUIMode hdr.IBus_UI_BMBT] ∧
    HandlerIBusGTDIAOSIdentityResponse hdr extSample
        ⟨initContext btIdle ⟨1, 9, 255, 0, 0⟩ 1 0, envCD53.config⟩ pktOSIdentityOther =
      (⟨initContext btIdle ⟨1, 9, 255, 0, 0⟩ 1 0, envCD53.config⟩, []) :=
  ⟨((C24_os_identity_amended hdr extSample
      ⟨initContext btIdle ⟨1, 9, 255, 0, 0⟩ 1 0, envCD53.config⟩ pktOSIdentityC01S).2.1
      hdr.IBus_UI_BMBT (Or.inl ⟨by decide, rfl, rfl⟩)).1,
   ((C24_os_identity_amended hdr extSample
      ⟨initContext btIdle ⟨1, 9, 255, 0, 0⟩ 1 0, envCD53.config⟩ pktOSIdentityC01S).2.1
      hdr.IBus_UI_BMBT (Or.inl ⟨by decide, rfl, rfl⟩)).2.1,
   ((C24_os_identity_amended hdr extSample
      ⟨initContext btIdle ⟨1, 9, 255, 0, 0⟩ 1 0, envCD53.config⟩ pktOSIdentityC01S).2.1
      hdr.IBus_UI_BMBT (Or.inl ⟨by decide, rfl, rfl⟩)).2.2,
   (C24_os_identity_amended hdr extSample
      ⟨initContext btIdle ⟨1, 9, 255, 0, 0⟩ 1 0, envCD53.config⟩ pktOSIdentityOther).2.2
      (by decide) (by decide)⟩

/-! ## Voice button of the steering wheel -/

/-- The voice-press button with hands-free enabled clears the hold latch and makes
no call. -/
theorem mflButton_press (k : Consts) (ConfigGetSetting : Nat → Nat)
    (context : HandlerContext_t) (pkt : List Nat)
    (hfp : ConfigGetSetting k.CONFIG_SETTING_HFP = k.CONFIG_SETTING_ON)
    (hpress : pkt.getD 4 0 = k.IBusMFLButtonVoicePress)
    (hpr : k.IBusMFLButtonVoicePress ≠ k.IBusMFLButtonVoiceRelease)
    (hph : k.IBusMFLButtonVoicePress ≠ k.IBusMFLButtonVoiceHold) :
    HandlerIBusMFLButton k ConfigGetSetting context pkt =
      ({ context with mflButtonStatus := HANDLER_MFL_STATUS_OFF }, []) := by
  unfold HandlerIBusMFLButton
  generalize pkt.getD 4 0 = b at hpress
  subst hpress
  simp only [hfp, if_true, hpr, hph, false_and, if_false]

/-- The voice-hold button with hands-free enabled sets the hold latch and toggles
voice recognition. -/
theorem mflButton_hold (k : Consts) (ConfigGetSetting : Nat → Nat) (pkt : List Nat)
    (hfp : ConfigGetSetting k.CONFIG_SETTING_HFP = k.CONFIG_SETTING_ON)
    (hhold : pkt.getD 4 0 = k.IBusMFLButtonVoiceHold)
    (hph : k.IBusMFLButtonVoicePress ≠ k.IBusMFLButtonVoiceHold)
    (hhr : k.IBusMFLButtonVoiceHold ≠ k.IBusMFLButtonVoiceRelease) :
    ∀ context : HandlerContext_t,
      HandlerIBusMFLButton k ConfigGetSetting context pkt =
        ({ context with mflButtonStatus := HANDLER_MFL_STATUS_SPEAK_HOLD },
         [Call.BC127CommandToggleVR]) := by
  intro context
  unfold HandlerIBusMFLButton
  generalize pkt.getD 4 0 = b at hhold
  subst hhold
  simp only [hfp, if_true, Ne.symm hph, hhr, false_and, if_false]

/-- The voice-release button with hands-free enabled: with the hold latch clear it
acts on the call or toggles playback, with the latch set it makes no call. -/
theorem mflButton_release (k : Consts) (ConfigGetSetting : Nat → Nat) (pkt : List Nat)
    (hfp : ConfigGetSetting k.CONFIG_SETTING_HFP = k.CONFIG_SETTING_ON)
    (hrelease : pkt.getD 4 0 = k.IBusMFLButtonVoiceRelease)
    (hpr : k.IBusMFLButtonVoicePress ≠ k.IBusMFLButtonVoiceRelease)
    (hhr : k.IBusMFLButtonVoiceHold ≠ k.IBusMFLButtonVoiceRelease)
    (hio : k.BC127_CALL_INCOMING ≠ k.BC127_CALL_OUTGOING) :
    ∀ context : HandlerContext_t,
      (context.mflButtonStatus = HANDLER_MFL_STATUS_OFF →
        (HandlerIBusMFLButton k ConfigGetSetting context pkt).2 =
          if context.bt.callStatus = k.BC127_CALL_ACTIVE ∨
              context.bt.callStatus = k.BC127_CALL_OUTGOING then [Call.BC127CommandCallEnd]
          else if context.bt.callStatus = k.BC127_CALL_INCOMING then
            [Call.BC127CommandCallAnswer]
          else if context.ibus.cdChangerFunction = k.IBUS_CDC_FUNC_PLAYING then
            (if context.bt.playbackStatus = k.BC127_AVRCP_STATUS_PLAYING then
              [Call.BC127CommandPause]
             else [Call.BC127CommandPlay])
          else []) ∧
      (context.mflButtonStatus ≠ HANDLER_MFL_STATUS_OFF →
        (HandlerIBusMFLButton k ConfigGetSetting context pkt).2 = []) := by
  intro context
  unfold HandlerIBusMFLButton
  generalize pkt.getD 4 0 = b at hrelease
  subst hrelease
  simp only [hfp, if_true, Ne.symm hpr, Ne.symm hhr, if_false, true_and, mflTogglePlayback]
  refine ⟨fun hs => ?_, fun hs => ?_⟩
  · rw [if_pos hs]
    by_cases ha : context.bt.callStatus = k.BC127_CALL_ACTIVE
    · simp [ha]
    · by_cases hi : context.bt.callStatus = k.BC127_CALL_INCOMING
      · have ho : ¬ context.bt.callStatus = k.BC127_CALL_OUTGOING := by
          rw [hi]; exact hio
        simp [ha, hi, ho, hio]
      · by_cases ho : context.bt.callStatus = k.BC127_CALL_OUTGOING
        · rw [if_neg ha, if_neg hi, if_pos ho, if_pos (Or.inr ho)]
        · have hao : ¬ (context.bt.callStatus = k.BC127_CALL_ACTIVE ∨
              context.bt.callStatus = k.BC127_CALL_OUTGOING) := by
            rintro (h | h)
            · exact ha h
            · exact ho h
          rw [if_neg ha, if_neg hi, if_neg ho, if_neg hao, if_neg hi]
  · rw [if_neg hs]

/-- C25: with hands-free enabled and the three button codes distinct, the sequence
voice-press, voice-hold, voice-release makes one call in all, the voice recognition
toggle on the hold.  Voice-press followed directly by voice-release ends the call
when it is active or outgoing, answers it when it is incoming, and otherwise
toggles playback when the CD-changer function is PLAYING and makes no call when it
is not. -/
theorem C25_voice_button (k : Consts) (x : Ext) (context : HandlerContext_t)
    (env1 env2 env3 : Env) (p1 p2 p3 : List Nat)
    (hfp1 : env1.config.settings k.CONFIG_SETTING_HFP = k.CONFIG_SETTING_ON)
    (hfp2 : env2.config.settings k.CONFIG_SETTING_HFP = k.CONFIG_SETTING_ON)
    (hfp3 : env3.config.settings k.CONFIG_SETTING_HFP = k.CONFIG_SETTING_ON)
    (hpress : p1.getD 4 0 = k.IBusMFLButtonVoicePress)
    (hhold : p2.getD 4 0 = k.IBusMFLButtonVoiceHold)
    (hrelease : p3.getD 4 0 = k.IBusMFLButtonVoiceRelease)
    (hpr : k.IBusMFLButtonVoicePress ≠ k.IBusMFLButtonVoiceRelease)
    (hph : k.IBusMFLButtonVoicePress ≠ k.IBusMFLButtonVoiceHold)
    (hhr : k.IBusMFLButtonVoiceHold ≠ k.IBusMFLButtonVoiceRelease)
    (hio : k.BC127_CALL_INCOMING ≠ k.BC127_CALL_OUTGOING) :
    (run k x context [(env1, Event.IBusMFLButton p1), (env2, Event.IBusMFLButton p2),
        (env3, Event.IBusMFLButton p3)]).2 = [[], [Call.BC127CommandToggleVR], []] ∧
    (run k x context [(env1, Event.IBusMFLButton p1), (env3, Event.IBusMFLButton p3)]).2 =
      [[],
       if env3.bt.callStatus = k.BC127_CALL_ACTIVE ∨
           env3.bt.callStatus = k.BC127_CALL_OUTGOING then [Call.BC127CommandCallEnd]
       else if env3.bt.callStatus = k.BC127_CALL_INCOMING then [Call.BC127CommandCallAnswer]
       else if env3.ibus.cdChangerFunction = k.IBUS_CDC_FUNC_PLAYING then
         (if env3.bt.playbackStatus = k.BC127_AVRCP_STATUS_PLAYING then [Call.BC127CommandPause]
          else [Call.BC127CommandPlay])
       else []] := by
  have e1 := mflButton_press k env1.config.settings
    { context with bt := env1.bt, ibus := env1.ibus } p1 hfp1 hpress hpr hph
  have e2 := mflButton_hold k env2.config.settings p2 hfp2 hhold hph hhr
  have e3 := mflButton_release k env3.config.settings p3 hfp3 hrelease hpr hhr hio
  refine ⟨?_, ?_⟩
  · simp only [run, step, keepConfig, e1, e2]
    rw [(e3 _).2]
    simp [HANDLER_MFL_STATUS_SPEAK_HOLD, HANDLER_MFL_STATUS_OFF]
  · simp only [run, step, keepConfig, e1]
    rw [(e3 _).1 rfl]

/-- C25 at a concrete input: press, hold and release of the voice button with a
linked device and every setting on. -/
theorem C25_voice_button_witness :
    (run hdr extSample (initContext btLinked ⟨1, 9, 255, 0, 0⟩ 2 0)
        [(envIgnitionOn, Event.IBusMFLButton (pktMFLButton 0x80)),
         (envIgnitionOn, Event.IBusMFLButton (pktMFLButton 0x90)),
         (envIgnitionOn, Event.IBusMFLButton (pktMFLButton 0xA0))]).2 =
      [[], [Call.BC127CommandToggleVR], []] :=
  (C25_voice_button hdr extSample (initContext btLinked ⟨1, 9, 255, 0, 0⟩ 2 0)
    envIgnitionOn envIgnitionOn envIgnitionOn
    (pktMFLButton 0x80) (pktMFLButton 0x90) (pktMFLButton 0xA0)
    rfl rfl rfl rfl rfl rfl (by decide) (by decide) (by decide) (by decide)).1

/-! ## Board-monitor controller: the header and menu write timers -/

/-- While the header counter is armed below 2, requests for the header and ticks of
the header timer write nothing, and the counter is 2 after the ticks that are
missing to two. -/
theorem header_armed_run (k : Consts) (u : UIConsts) (x : Ext) (config : Config_t)
    (context : BMBTContext_t)
    (hplayer : context.status.playerMode = BMBT_MODE_ACTIVE)
    (hdisplay : context.status.displayMode = BMBT_DISPLAY_ON) :
    ∀ (pre : List BMBTStep) (j : Nat),
      (∀ s ∈ pre, s = BMBTStep.TriggerWriteHeader ∨ s = BMBTStep.TimerHeaderWrite) →
      pre.count BMBTStep.TimerHeaderWrite + j = 2 →
      BMBTRun k u x config { context with timerHeaderIntervals := j } pre =
        ({ context with timerHeaderIntervals := 2 }, List.replicate pre.length []) := by
  intro pre
  induction pre with
  | nil =>
    intro j _ hj
    simp only [List.count_nil, Nat.zero_add] at hj
    subst hj
    rfl
  | cons s ss ih =>
    intro j hs hj
    have hss : ∀ s ∈ ss, s = BMBTStep.TriggerWriteHeader ∨ s = BMBTStep.TimerHeaderWrite :=
      fun s h => hs s (List.mem_cons_of_mem _ h)
    rcases hs s (List.mem_cons_self _ _) with h | h
    · subst h
      have hc : ss.count BMBTStep.TimerHeaderWrite + j = 2 := by
        rw [List.count_cons_of_ne (by decide)] at hj
        exact hj
      have hjle : j ≠ BMBT_MENU_HEADER_TIMER_OFF := by
        rw [BMBT_MENU_HEADER_TIMER_OFF]; omega
      simp only [BMBTRun, BMBTStep.apply, BMBTTriggerWriteHeader, if_neg hjle]
      rw [ih j hss hc]
      rfl
    · subst h
      have hc : ss.count BMBTStep.TimerHeaderWrite + (j + 1) = 2 := by
        rw [List.count_cons_self] at hj
        omega
      have hjle : j ≠ BMBT_MENU_HEADER_TIMER_OFF := by
        rw [BMBT_MENU_HEADER_TIMER_OFF]; omega
      have hj1 : j = 0 ∨ j = 1 := by omega
      have htime : ¬ (j * BMBT_HEADER_TIMER_WRITE_INT) % 65536 ≥
          BMBT_HEADER_TIMER_WRITE_TIMEOUT := by
        rcases hj1 with h | h <;> rw [h] <;> decide
      have hnext : (j + 1) % 256 = j + 1 := by omega
      simp only [BMBTRun, BMBTStep.apply, BMBTTimerHeaderWrite, hplayer, hdisplay, and_self,
        if_true, ne_eq, hjle, not_false_eq_true, htime, if_false, hnext]
      rw [ih (j + 1) hss hc]
      rfl

/-- With the header counter idle, ticks of the header timer write nothing and
change nothing. -/
theorem header_idle_run (k : Consts) (u : UIConsts) (x : Ext) (config : Config_t)
    (context : BMBTContext_t)
    (hidle : context.timerHeaderIntervals = BMBT_MENU_HEADER_TIMER_OFF) (n : Nat) :
    BMBTRun k u x config context (List.replicate n BMBTStep.TimerHeaderWrite) =
      (context, List.replicate n []) := by
  induction n with
  | zero => rfl
  | succ n ih =>
    simp only [List.replicate_succ, BMBTRun, BMBTStep.apply, BMBTTimerHeaderWrite, hidle,
      ne_eq, not_true_eq_false, if_false, ite_self]
    rw [ih]

/-- While the menu counter is armed below 5 and the menu is one that is written by
the timer, requests for the menu and ticks of the menu timer write nothing, and
the counter is 5 after the ticks that are missing to five. -/
theorem menu_armed_run (k : Consts) (u : UIConsts) (x : Ext) (config : Config_t)
    (context : BMBTContext_t)
    (hplayer : context.status.playerMode = BMBT_MODE_ACTIVE)
    (hdisplay : context.status.displayMode = BMBT_DISPLAY_ON)
    (hdefer : context.menu = BMBT_MENU_NONE ∨ context.menu = BMBT_MENU_DASHBOARD_FRESH ∨
      context.ibus.gtVersion < u.IBUS_GT_MKIII_NEW_UI ∨
      context.status.radType = u.IBUS_RADIO_TYPE_C43) :
    ∀ (pre : List BMBTStep) (j : Nat),
      (∀ s ∈ pre, s = BMBTStep.TriggerWriteMenu ∨ s = BMBTStep.TimerMenuWrite) →
      pre.count BMBTStep.TimerMenuWrite + j = 5 →
      BMBTRun k u x config { context with timerMenuIntervals := j } pre =
        ({ context with timerMenuIntervals := 5 }, List.replicate pre.length []) := by
  intro pre
  induction pre with
  | nil =>
    intro j _ hj
    simp only [List.count_nil, Nat.zero_add] at hj
    subst hj
    rfl
  | cons s ss ih =>
    intro j hs hj
    have hss : ∀ s ∈ ss, s = BMBTStep.TriggerWriteMenu ∨ s = BMBTStep.TimerMenuWrite :=
      fun s h => hs s (List.mem_cons_of_mem _ h)
    rcases hs s (List.mem_cons_self _ _) with h | h
    · subst h
      have hc : ss.count BMBTStep.TimerMenuWrite + j = 5 := by
        rw [List.count_cons_of_ne (by decide)] at hj
        exact hj
      have hjle : j ≠ BMBT_MENU_HEADER_TIMER_OFF := by
        rw [BMBT_MENU_HEADER_TIMER_OFF]; omega
      simp only [BMBTRun, BMBTStep.apply, BMBTTriggerWriteMenu, if_pos hdefer, if_neg hjle]
      rw [ih j hss hc]
      rfl
    · subst h
      have hc : ss.count BMBTStep.TimerMenuWrite + (j + 1) = 5 := by
        rw [List.count_cons_self] at hj
        omega
      have hjle : j ≠ BMBT_MENU_HEADER_TIMER_OFF := by
        rw [BMBT_MENU_HEADER_TIMER_OFF]; omega
      have hj1 : j = 0 ∨ j = 1 ∨ j = 2 ∨ j = 3 ∨ j = 4 := by omega
      have htime : ¬ (j * BMBT_MENU_TIMER_WRITE_INT) % 65536 =
          BMBT_MENU_TIMER_WRITE_TIMEOUT := by
        rcases hj1 with h | h | h | h | h <;> rw [h] <;> decide
      have hnext : (j + 1) % 256 = j + 1 := by omega
      simp only [BMBTRun, BMBTStep.apply, BMBTTimerMenuWrite, hplayer, hdisplay, and_self,
        if_true, ne_eq, hjle, not_false_eq_true, htime, if_false, hnext]
      rw [ih (j + 1) hss hc]
      rfl

/-- With the menu counter idle, ticks of the menu timer write nothing and change
nothing. -/
theorem menu_idle_run (k : Consts) (u : UIConsts) (x : Ext) (config : Config_t)
    (context : BMBTContext_t)
    (hidle : context.timerMenuIntervals = BMBT_MENU_HEADER_TIMER_OFF) (n : Nat) :
    BMBTRun k u x config context (List.replicate n BMBTStep.TimerMenuWrite) =
      (context, List.replicate n []) := by
  induction n with
  | zero => rfl
  | succ n ih =>
    simp only [List.replicate_succ, BMBTRun, BMBTStep.apply, BMBTTimerMenuWrite, hidle,
      ne_eq, not_true_eq_false, if_false, ite_self]
    rw [ih]

/-- A run over two lists of requests and ticks is the run over the first followed
by the run over the second. -/
theorem BMBTRun_append (k : Consts) (u : UIConsts) (x : Ext) (config : Config_t)
    (ss ts : List BMBTStep) :
    ∀ context : BMBTContext_t,
      BMBTRun k u x config context (ss ++ ts) =
        ((BMBTRun k u x config (BMBTRun k u x config context ss).1 ts).1,
         (BMBTRun k u x config context ss).2 ++
           (BMBTRun k u x config (BMBTRun k u x config context ss).1 ts).2) := by
  induction ss with
  | nil => intro context; rfl
  | cons s ss ih =>
    intro context
    show BMBTRun k u x config context (s :: (ss ++ ts)) = _
    simp only [BMBTRun]
    rw [ih]
    rfl

/-- The third tick of the header timer after the arming writes the header and
disarms the counter. -/
theorem header_write_tick (k : Consts) (u : UIConsts) (x : Ext) (config : Config_t)
    (context : BMBTContext_t)
    (hplayer : context.status.playerMode = BMBT_MODE_ACTIVE)
    (hdisplay : context.status.displayMode = BMBT_DISPLAY_ON) :
    (BMBTTimerHeaderWrite k u x config { context with timerHeaderIntervals := 2 }).2 =
      (BMBTHeaderWrite k u x config context).2 ∧
    (BMBTTimerHeaderWrite k u x config
        { context with timerHeaderIntervals := 2 }).1.timerHeaderIntervals =
      BMBT_MENU_HEADER_TIMER_OFF := by
  have htime : (2 * BMBT_HEADER_TIMER_WRITE_INT) % 65536 ≥ BMBT_HEADER_TIMER_WRITE_TIMEOUT := by
    decide
  have hne : (2 : Nat) ≠ BMBT_MENU_HEADER_TIMER_OFF := by decide
  simp only [BMBTTimerHeaderWrite, hplayer, hdisplay, and_self, if_true, ne_eq, hne,
    not_false_eq_true, htime, and_true]
  simp only [BMBTHeaderWrite, BMBTMainAreaRefresh, apply_ite Prod.snd]
  rfl

/-- The sixth tick of the menu timer after the arming writes the menu and disarms
the counter. -/
theorem menu_write_tick (k : Consts) (u : UIConsts) (x : Ext) (config : Config_t)
    (context : BMBTContext_t)
    (hplayer : context.status.playerMode = BMBT_MODE_ACTIVE)
    (hdisplay : context.status.displayMode = BMBT_DISPLAY_ON) :
    (BMBTTimerMenuWrite k u x config { context with timerMenuIntervals := 5 }).2 =
      (menuWriteSwitch k u x config context).2 ∧
    (BMBTTimerMenuWrite k u x config
        { context with timerMenuIntervals := 5 }).1.timerMenuIntervals =
      BMBT_MENU_HEADER_TIMER_OFF := by
  have htime : (5 * BMBT_MENU_TIMER_WRITE_INT) % 65536 = BMBT_MENU_TIMER_WRITE_TIMEOUT := by
    decide
  have hne : (5 : Nat) ≠ BMBT_MENU_HEADER_TIMER_OFF := by decide
  simp only [BMBTTimerMenuWrite, hplayer, hdisplay, and_self, if_true, ne_eq, hne,
    not_false_eq_true, htime, and_true]
  have hdash : (BMBTMenuDashboard u x { context with timerMenuIntervals := 5 }).2 =
      (BMBTMenuDashboard u x context).2 := by
    simp only [BMBTMenuDashboard, BMBTMenuDashboardUpdate, apply_ite Prod.snd]
  simp only [menuWriteSwitch, apply_ite Prod.snd, hdash]
  rfl

/-- The menu that the menu write draws for each value of `menu`. -/
theorem menuWriteSwitch_cases (k : Consts) (u : UIConsts) (x : Ext) (config : Config_t)
    (context : BMBTContext_t) :
    (context.menu = BMBT_MENU_MAIN →
      menuWriteSwitch k u x config context = BMBTMenuMain u context) ∧
    (context.menu = BMBT_MENU_DASHBOARD ∨ context.menu = BMBT_MENU_DASHBOARD_FRESH →
      menuWriteSwitch k u x config context = BMBTMenuDashboard u x context) ∧
    (context.menu = BMBT_MENU_DEVICE_SELECTION →
      menuWriteSwitch k u x config context = BMBTMenuDeviceSelection k u x context) ∧
    (context.menu = BMBT_MENU_SETTINGS →
      menuWriteSwitch k u x config context = BMBTMenuSettings u context) ∧
    (context.menu = BMBT_MENU_SETTINGS_AUDIO →
      menuWriteSwitch k u x config context = BMBTMenuSettingsAudio k u config context) ∧
    (context.menu = BMBT_MENU_SETTINGS_COMFORT →
      menuWriteSwitch k u x config context = BMBTMenuSettingsComfort k u config context) ∧
    (context.menu = BMBT_MENU_SETTINGS_CALLING →
      menuWriteSwitch k u x config context = BMBTMenuSettingsCalling k u config context) ∧
    (context.menu = BMBT_MENU_SETTINGS_UI →
      menuWriteSwitch k u x config context = BMBTMenuSettingsUI k u config context) ∧
    (context.menu = BMBT_MENU_NONE →
      menuWriteSwitch k u x config context =
        (if ConfigGetSetting config u.CONFIG_SETTING_BMBT_DEFAULT_MENU = 0x01 then
          BMBTMenuDashboard u x context
         else BMBTMenuMain u context)) ∧
    (context.menu ∉ BMBT_MENUS → menuWriteSwitch k u x config context = (context, [])) := by
  unfold menuWriteSwitch
  refine ⟨fun h => ?_, fun h => ?_, fun h => ?_, fun h => ?_, fun h => ?_, fun h => ?_,
    fun h => ?_, fun h => ?_, fun h => ?_, fun h => ?_⟩
  · rw [if_pos h]
  · have h1 : ¬ context.menu = BMBT_MENU_MAIN := by
      rcases h with h | h <;> rw [h] <;> decide
    rw [if_neg h1, if_pos h]
  · rw [if_neg (by rw [h]; decide), if_neg (by rw [h]; decide), if_pos h]
  · rw [if_neg (by rw [h]; decide), if_neg (by rw [h]; decide), if_neg (by rw [h]; decide),
      if_pos h]
  · rw [if_neg (by rw [h]; decide), if_neg (by rw [h]; decide), if_neg (by rw [h]; decide),
      if_neg (by rw [h]; decide), if_pos h]
  · rw [if_neg (by rw [h]; decide), if_neg (by rw [h]; decide), if_neg (by rw [h]; decide),
      if_neg (by rw [h]; decide), if_neg (by rw [h]; decide), if_pos h]
  · rw [if_neg (by rw [h]; decide), if_neg (by rw [h]; decide), if_neg (by rw [h]; decide),
      if_neg (by rw [h]; decide), if_neg (by rw [h]; decide), if_neg (by rw [h]; decide),
      if_pos h]
  · rw [if_neg (by rw [h]; decide), if_neg (by rw [h]; decide), if_neg (by rw [h]; decide),
      if_neg (by rw [h]; decide), if_neg (by rw [h]; decide), if_neg (by rw [h]; decide),
      if_neg (by rw [h]; decide), if_pos h]
  · rw [if_neg (by rw [h]; decide), if_neg (by rw [h]; decide), if_neg (by rw [h]; decide),
      if_neg (by rw [h]; decide), if_neg (by rw [h]; decide), if_neg (by rw [h]; decide),
      if_neg (by rw [h]; decide), if_neg (by rw [h]; decide), if_pos h]
  · simp only [BMBT_MENUS, List.mem_cons, List.mem_singleton, List.not_mem_nil, or_false,
      not_or] at h
    obtain ⟨h0, h1, h2, h3, h4, h5, h6, h7, h8, h9⟩ := h
    rw [if_neg h1, if_neg (not_or.2 ⟨h2, h9⟩), if_neg h3, if_neg h4, if_neg h5, if_neg h6,
      if_neg h7, if_neg h8, if_neg h0]

/-- C26: while the controller is active and owns the display, a request that arms
the idle header counter is followed by the header write on the third tick of
`BMBTTimerHeaderWrite`, and a request that arms the idle menu counter by the menu
write on the sixth tick of `BMBTTimerMenuWrite`, however many further requests
arrive between the ticks: the requests and the ticks before write nothing, the
write disarms the counter, and the ticks after it write nothing.  The header write
is the title (or the refresh of the marquee), the device name, the playback sign
and the "BT" field, followed by the update of the zone; the menu write is the draw
of the menu of the context, every line of which is given.  A request made while a
counter is armed leaves the context as it is. -/
theorem C26_write_debounce (k : Consts) (u : UIConsts) (x : Ext) (config : Config_t)
    (context : BMBTContext_t) (preHeader preMenu : List BMBTStep) (n : Nat)
    (hplayer : context.status.playerMode = BMBT_MODE_ACTIVE)
    (hdisplay : context.status.displayMode = BMBT_DISPLAY_ON) :
    (context.timerHeaderIntervals = BMBT_MENU_HEADER_TIMER_OFF →
      (∀ s ∈ preHeader, s = BMBTStep.TriggerWriteHeader ∨ s = BMBTStep.TimerHeaderWrite) →
      preHeader.count BMBTStep.TimerHeaderWrite = 2 →
      (BMBTRun k u x config context
        (BMBTStep.TriggerWriteHeader ::
          (preHeader ++ BMBTStep.TimerHeaderWrite ::
            List.replicate n BMBTStep.TimerHeaderWrite))).2 =
        [Call.TimerResetScheduledTask context.headerWriteTaskId] ::
          (List.replicate preHeader.length [] ++
            ((if ConfigGetSetting config u.CONFIG_SETTING_METADATA_MODE = k.CONFIG_SETTING_OFF ∨
                context.bt.playbackStatus = u.BC127_AVRCP_STATUS_PAUSED then
              (if context.ibus.gtVersion < u.IBUS_GT_MKIII_NEW_UI then
                [Call.IBusCommandGTWriteTitleArea "Bluetooth"]
               else
                [Call.IBusCommandGTWriteTitleIndex "Bluetooth",
                 Call.IBusCommandGTUpdate u.IBUS_CMD_GT_WRITE_ZONE])
             else [Call.TimerTriggerScheduledTask context.displayUpdateTaskId]) ++
            [Call.IBusCommandGTWriteZone BMBT_HEADER_DEV_NAME
              (if context.ibus.gtVersion < u.IBUS_GT_MKIII_NEW_UI then
                String.mk
                  ((strncpy (if context.bt.activeDevice.deviceId ≠ 0 then
                      x.UtilsRemoveNonAscii context.bt.activeDevice.deviceName
                    else "No Device") 20).data ++
                   List.replicate
                    (20 - (strncpy (if context.bt.activeDevice.deviceId ≠ 0 then
                      x.UtilsRemoveNonAscii context.bt.activeDevice.deviceName
                    else "No Device") 20).length) ' ')
               else
                strncpy (if context.bt.activeDevice.deviceId ≠ 0 then
                    x.UtilsRemoveNonAscii context.bt.activeDevice.deviceName
                  else "No Device") 11),
             Call.IBusCommandGTWriteZone BMBT_HEADER_PB_STAT
              (if context.bt.playbackStatus = u.BC127_AVRCP_STATUS_PAUSED then "||" else "> "),
             Call.IBusCommandGTWriteZone BMBT_HEADER_BT "BT  ",
             Call.IBusCommandGTUpdate u.IBUS_CMD_GT_WRITE_ZONE]) ::
            List.replicate n []) ∧
      (BMBTRun k u x config context
        (BMBTStep.TriggerWriteHeader ::
          (preHeader ++ BMBTStep.TimerHeaderWrite ::
            List.replicate n BMBTStep.TimerHeaderWrite))).1.timerHeaderIntervals =
        BMBT_MENU_HEADER_TIMER_OFF) ∧
    (context.timerMenuIntervals = BMBT_MENU_HEADER_TIMER_OFF →
      (BMBTTriggerWriteMenu u context).1.timerMenuIntervals ≠ BMBT_MENU_HEADER_TIMER_OFF →
      (∀ s ∈ preMenu, s = BMBTStep.TriggerWriteMenu ∨ s = BMBTStep.TimerMenuWrite) →
      preMenu.count BMBTStep.TimerMenuWrite = 5 →
      (BMBTRun k u x config context
        (BMBTStep.TriggerWriteMenu ::
          (preMenu ++ BMBTStep.TimerMenuWrite ::
            List.replicate n BMBTStep.TimerMenuWrite))).2 =
        [Call.TimerResetScheduledTask context.menuWriteTaskId] ::
          (List.replicate preMenu.length [] ++
            (menuWriteSwitch k u x config context).2 :: List.replicate n []) ∧
      (BMBTRun k u x config context
        (BMBTStep.TriggerWriteMenu ::
          (preMenu ++ BMBTStep.TimerMenuWrite ::
            List.replicate n BMBTStep.TimerMenuWrite))).1.timerMenuIntervals =
        BMBT_MENU_HEADER_TIMER_OFF) ∧
    (context.timerMenuIntervals = BMBT_MENU_HEADER_TIMER_OFF →
      ((BMBTTriggerWriteMenu u context).1.timerMenuIntervals ≠ BMBT_MENU_HEADER_TIMER_OFF ↔
        (context.menu = BMBT_MENU_NONE ∨ context.menu = BMBT_MENU_DASHBOARD_FRESH ∨
          context.ibus.gtVersion < u.IBUS_GT_MKIII_NEW_UI ∨
          context.status.radType = u.IBUS_RADIO_TYPE_C43))) ∧
    ((context.menu = BMBT_MENU_MAIN ∨
        (context.menu = BMBT_MENU_NONE ∧
          ConfigGetSetting config u.CONFIG_SETTING_BMBT_DEFAULT_MENU ≠ 0x01) →
      (menuWriteSwitch k u x config context).2 =
        [Call.IBusCommandGTWriteIndexTitle "Main Menu",
         Call.IBusCommandGTWriteIndexTMC BMBT_MENU_IDX_DASHBOARD "Dashboard",
         Call.IBusCommandGTWriteIndexTMC BMBT_MENU_IDX_DEVICE_SELECTION "Select Device",
         Call.IBusCommandGTWriteIndexTMC BMBT_MENU_IDX_SETTINGS "Settings"] ++
        blankIndices 3 context.writtenIndices ++
        [Call.IBusCommandGTWriteIndexTMC BMBT_MENU_IDX_BACK " ",
         Call.IBusCommandGTUpdate u.IBUS_CMD_GT_WRITE_INDEX_TMC]) ∧
     (context.menu = BMBT_MENU_DASHBOARD ∨ context.menu = BMBT_MENU_DASHBOARD_FRESH ∨
        (context.menu = BMBT_MENU_NONE ∧
          ConfigGetSetting config u.CONFIG_SETTING_BMBT_DEFAULT_MENU = 0x01) →
      (menuWriteSwitch k u x config context).2 =
        (BMBTMenuDashboardUpdate u context
          (if context.bt.playbackStatus = u.BC127_AVRCP_STATUS_PAUSED then
            (if (x.UtilsRemoveNonAscii context.bt.title).length = 0 then "- Not Playing -"
             else x.UtilsRemoveNonAscii context.bt.title)
           else if (x.UtilsRemoveNonAscii context.bt.title).length = 0 then "Unknown Title"
           else x.UtilsRemoveNonAscii context.bt.title)
          (if context.bt.playbackStatus = u.BC127_AVRCP_STATUS_PAUSED then
            (if (x.UtilsRemoveNonAscii context.bt.title).length = 0 then " "
             else x.UtilsRemoveNonAscii context.bt.artist)
           else if (x.UtilsRemoveNonAscii context.bt.artist).length = 0 then "Unknown Artist"
           else x.UtilsRemoveNonAscii context.bt.artist)
          (if context.bt.playbackStatus = u.BC127_AVRCP_STATUS_PAUSED then
            (if (x.UtilsRemoveNonAscii context.bt.title).length = 0 then " "
             else x.UtilsRemoveNonAscii context.bt.album)
           else if (x.UtilsRemoveNonAscii context.bt.album).length = 0 then "Unknown Album"
           else x.UtilsRemoveNonAscii context.bt.album)).2) ∧
     (∀ f1 f2 f3 : String,
      (BMBTMenuDashboardUpdate u context f1 f2 f3).2 =
        (if context.ibus.gtVersion = u.IBUS_GT_MKIV_STATIC then
          [Call.IBusCommandGTWriteIndexStatic 1 (if f1.length = 0 then " " else f1),
           Call.IBusCommandGTWriteIndexStatic 2 (if f2.length = 0 then " " else f2),
           Call.IBusCommandGTWriteIndexStatic 3 (if f3.length = 0 then " " else f3),
           Call.IBusCommandGTUpdate u.IBUS_CMD_GT_WRITE_STATIC]
         else
          [Call.IBusCommandGTWriteIndex 0 (if f1.length = 0 then " " else f1),
           Call.IBusCommandGTWriteIndex 1 (if f2.length = 0 then " " else f2),
           Call.IBusCommandGTWriteIndex 2 (if f3.length = 0 then " " else f3)] ++
          blankIndices 3 context.writtenIndices ++
          [Call.IBusCommandGTUpdate
            (if 3 < context.writtenIndices then u.IBUS_CMD_GT_WRITE_INDEX_TMC
             else u.IBUS_CMD_GT_WRITE_INDEX)])) ∧
     (context.menu = BMBT_MENU_DEVICE_SELECTION →
      (menuWriteSwitch k u x config context).2 =
        [Call.IBusCommandGTWriteIndexTitle "Device Selection",
         Call.IBusCommandGTWriteIndexTMC BMBT_MENU_IDX_PAIRING_MODE
          (if context.bt.discoverable = k.BC127_STATE_ON then "Pairing: On" else "Pairing: Off"),
         Call.IBusCommandGTWriteIndexTMC BMBT_MENU_IDX_CLEAR_PAIRING "Clear Pairings"] ++
        ((List.range context.bt.pairedDevicesCount).map fun idx =>
          Call.IBusCommandGTWriteIndexTMC ((2 + idx) % 256)
            (if (pairedDevice context.bt idx).macId = context.bt.activeDevice.macId then
              String.mk
                ((strncpy (x.UtilsRemoveNonAscii (pairedDevice context.bt idx).deviceName)
                  11).data.take 9 ++ [' ', '*'])
             else
              strncpy (x.UtilsRemoveNonAscii (pairedDevice context.bt idx).deviceName) 11)) ++
        [Call.IBusCommandGTWriteIndexTMC BMBT_MENU_IDX_BACK "Back"] ++
        blankIndices ((2 + context.bt.pairedDevicesCount) % 256) context.writtenIndices ++
        [Call.IBusCommandGTUpdate u.IBUS_CMD_GT_WRITE_INDEX_TMC]) ∧
     (context.menu = BMBT_MENU_SETTINGS →
      (menuWriteSwitch k u x config context).2 =
        [Call.IBusCommandGTWriteIndexTitle "Settings",
         Call.IBusCommandGTWriteIndexTMC BMBT_MENU_IDX_SETTINGS_AUDIO "Audio",
         Call.IBusCommandGTWriteIndexTMC BMBT_MENU_IDX_SETTINGS_CALLING "Calling",
         Call.IBusCommandGTWriteIndexTMC BMBT_MENU_IDX_SETTINGS_COMFORT "Comfort",
         Call.IBusCommandGTWriteIndexTMC BMBT_MENU_IDX_SETTINGS_UI "UI",
         Call.IBusCommandGTWriteIndexTMC BMBT_MENU_IDX_BACK "Back"] ++
        blankIndices 4 context.writtenIndices ++
        [Call.IBusCommandGTUpdate u.IBUS_CMD_GT_WRITE_INDEX_TMC]) ∧
     (context.menu = BMBT_MENU_SETTINGS_AUDIO →
      (menuWriteSwitch k u x config context).2 =
        [Call.IBusCommandGTWriteIndexTitle "Settings -> Audio",
         Call.IBusCommandGTWriteIndexTMC BMBT_MENU_IDX_SETTINGS_AUDIO_DAC_GAIN
          (if ConfigGetSetting config u.CONFIG_SETTING_DAC_VOL > 0x30 then
            snprintf 14 ("Volume: -" ++
              toString ((ConfigGetSetting config u.CONFIG_SETTING_DAC_VOL - 0x30) / 2) ++ "dB")
           else if ConfigGetSetting config u.CONFIG_SETTING_DAC_VOL = 0 then
            snprintf 14 "Volume: +24dB"
           else if ConfigGetSetting config u.CONFIG_SETTING_DAC_VOL = 0x30 then
            snprintf 14 "Volume: 0dB"
           else
            snprintf 14 ("Volume: +" ++
              toString ((0x30 - ConfigGetSetting config u.CONFIG_SETTING_DAC_VOL) / 2) ++ "dB")),
         Call.IBusCommandGTWriteIndexTMC BMBT_MENU_IDX_SETTINGS_AUDIO_DSP_INPUT
          (if ConfigGetSetting config k.CONFIG_SETTING_USE_SPDIF_INPUT = k.CONFIG_SETTING_ON then
            "DSP: Digital" else "DSP: Analog"),
         Call.IBusCommandGTWriteIndexTMC BMBT_MENU_IDX_SETTINGS_AUDIO_AUTOPLAY
          (if ConfigGetSetting config k.CONFIG_SETTING_AUTOPLAY = k.CONFIG_SETTING_OFF then
            "Autoplay: Off" else "Autoplay: On"),
         Call.IBusCommandGTWriteIndexTMC BMBT_MENU_IDX_BACK "Back"] ++
        blankIndices 3 context.writtenIndices ++
        [Call.IBusCommandGTUpdate u.IBUS_CMD_GT_WRITE_INDEX_TMC]) ∧
     (context.menu = BMBT_MENU_SETTINGS_COMFORT →
      (menuWriteSwitch k u x config context).2 =
        [Call.IBusCommandGTWriteIndexTitle "Settings -> Comfort",
         Call.IBusCommandGTWriteIndexTMC BMBT_MENU_IDX_SETTINGS_COMFORT_VEHICLE_TYPE
          (if config.vehicleType = k.IBUS_VEHICLE_TYPE_E38_E39_E53 then "Car: E38/E39/E53"
           else if config.vehicleType = u.IBUS_VEHICLE_TYPE_E46_Z4 then "Car: E46/Z4"
           else "Car: Unset"),
         Call.IBusCommandGTWriteIndexTMC BMBT_MENU_IDX_SETTINGS_COMFORT_BLINKERS
          (snprintf 12 ("Blinkers: " ++
            toString (if ConfigGetSetting config k.CONFIG_SETTING_COMFORT_BLINKERS = 0 then 1
              else ConfigGetSetting config k.CONFIG_SETTING_COMFORT_BLINKERS))),
         Call.IBusCommandGTWriteIndexTMC BMBT_MENU_IDX_SETTINGS_COMFORT_LOCKS
          (if ConfigGetSetting config u.CONFIG_SETTING_COMFORT_LOCKS = k.CONFIG_SETTING_ON then
            "Auto Locks: On" else "Auto Locks: Off"),
         Call.IBusCommandGTWriteIndexTMC BMBT_MENU_IDX_BACK "Back"] ++
        blankIndices 3 context.writtenIndices ++
        [Call.IBusCommandGTUpdate u.IBUS_CMD_GT_WRITE_INDEX_TMC]) ∧
     (context.menu = BMBT_MENU_SETTINGS_CALLING →
      (menuWriteSwitch k u x config context).2 =
        [Call.IBusCommandGTWriteIndexTitle "Settings -> Calling",
         Call.IBusCommandGTWriteIndexTMC BMBT_MENU_IDX_SETTINGS_CALLING_HFP "Handsfree: On",
         Call.IBusCommandGTWriteIndexTMC BMBT_MENU_IDX_SETTINGS_CALLING_TCU_MODE
          (if ConfigGetSetting config k.CONFIG_SETTING_TCU_MODE = k.CONFIG_SETTING_OFF then
            "TCU: Always" else "TCU: Radio/AUX"),
         Call.IBusCommandGTWriteIndexTMC BMBT_MENU_IDX_SETTINGS_CALLING_MIC_GAIN
          (snprintf 15 ("Mic Gain: " ++
            toString (int8_t (u.BC127CVCGainTable.getD
              (if ConfigGetSetting config k.CONFIG_SETTING_MIC_GAIN > 21 then 0
               else ConfigGetSetting config k.CONFIG_SETTING_MIC_GAIN) 0)) ++ "dB")),
         Call.IBusCommandGTWriteIndexTMC BMBT_MENU_IDX_SETTINGS_CALLING_MIC_BIAS
          (if ConfigGetSetting config u.CONFIG_SETTING_MIC_BIAS_ADDRESS = k.CONFIG_SETTING_OFF
           then "Mic Bias: Off" else "Mic Bias: On"),
         Call.IBusCommandGTWriteIndexTMC BMBT_MENU_IDX_BACK "Back"] ++
        blankIndices 5 context.writtenIndices ++
        [Call.IBusCommandGTUpdate u.IBUS_CMD_GT_WRITE_INDEX_TMC]) ∧
     (context.menu = BMBT_MENU_SETTINGS_UI →
      (menuWriteSwitch k u x config context).2 =
        [Call.IBusCommandGTWriteIndexTitle "Settings -> UI",
         Call.IBusCommandGTWriteIndexTMC BMBT_MENU_IDX_SETTINGS_UI_METADATA_MODE
          (if ConfigGetSetting config u.CONFIG_SETTING_METADATA_MODE = BMBT_METADATA_MODE_PARTY
           then "Metadata: Party"
           else if ConfigGetSetting config u.CONFIG_SETTING_METADATA_MODE =
              BMBT_METADATA_MODE_CHUNK then "Metadata: Chunk"
           else "Metadata: Off"),
         Call.IBusCommandGTWriteIndexTMC BMBT_MENU_IDX_SETTINGS_UI_DEFAULT_MENU
          (if ConfigGetSetting config u.CONFIG_SETTING_BMBT_DEFAULT_MENU = k.CONFIG_SETTING_OFF
           then "Menu: Main" else "Menu: Dashboard"),
         Call.IBusCommandGTWriteIndexTMC BMBT_MENU_IDX_BACK "Back"] ++
        blankIndices 2 context.writtenIndices ++
        [Call.IBusCommandGTUpdate u.IBUS_CMD_GT_WRITE_INDEX_TMC])) ∧
    (∀ c : BMBTContext_t, c.timerHeaderIntervals ≠ BMBT_MENU_HEADER_TIMER_OFF →
      BMBTTriggerWriteHeader c = (c, [])) ∧
    (∀ c : BMBTContext_t, c.timerMenuIntervals ≠ BMBT_MENU_HEADER_TIMER_OFF →
      (BMBTTriggerWriteMenu u c).1 = c) := by
  have harmed : context.timerMenuIntervals = BMBT_MENU_HEADER_TIMER_OFF →
      ((BMBTTriggerWriteMenu u context).1.timerMenuIntervals ≠ BMBT_MENU_HEADER_TIMER_OFF ↔
        (context.menu = BMBT_MENU_NONE ∨ context.menu = BMBT_MENU_DASHBOARD_FRESH ∨
          context.ibus.gtVersion < u.IBUS_GT_MKIII_NEW_UI ∨
          context.status.radType = u.IBUS_RADIO_TYPE_C43)) := by
    intro hidle
    unfold BMBTTriggerWriteMenu
    by_cases hd : context.menu = BMBT_MENU_NONE ∨ context.menu = BMBT_MENU_DASHBOARD_FRESH ∨
        context.ibus.gtVersion < u.IBUS_GT_MKIII_NEW_UI ∨
        context.status.radType = u.IBUS_RADIO_TYPE_C43
    · rw [if_pos hd, if_pos hidle]
      simp only [hd, iff_true]
      decide
    · rw [if_neg hd]
      simp only [hd, iff_false, not_not]
      exact hidle
  obtain ⟨hmain, hdash, hdev, hset, haud, hcom, hcal, hui, hnone, -⟩ :=
    menuWriteSwitch_cases k u x config context
  refine ⟨fun hheader hpreHeader hcountHeader => ?_,
    fun hmenu harm hpreMenu hcountMenu => ?_, harmed, ⟨?_, ?_, ?_, ?_, ?_, ?_, ?_, ?_, ?_⟩,
    fun c hc => ?_, fun c hc => ?_⟩
  · have harm : BMBTTriggerWriteHeader context =
        ({ context with timerHeaderIntervals := 0 },
         [Call.TimerResetScheduledTask context.headerWriteTaskId]) := by
      simp only [BMBTTriggerWriteHeader, if_pos hheader]
    have hpre := header_armed_run k u x config context hplayer hdisplay preHeader 0
      hpreHeader (by omega)
    obtain ⟨ht1, ht2⟩ := header_write_tick k u x config context hplayer hdisplay
    have hidle := header_idle_run k u x config _ ht2 n
    refine ⟨?_, ?_⟩
    · simp only [BMBTRun, BMBTStep.apply, harm, BMBTRun_append, hpre, hidle, ht1]
      simp only [BMBTHeaderWrite, BMBTMainAreaRefresh, BMBTGTWriteTitle,
        BMBTHeaderWriteDeviceName]
      split_ifs <;> rfl
    · simp only [BMBTRun, BMBTStep.apply, harm, BMBTRun_append, hpre, hidle, ht2]
  · have hdefer := (harmed hmenu).1 harm
    have harm' : BMBTTriggerWriteMenu u context =
        ({ context with timerMenuIntervals := 0 },
         [Call.TimerResetScheduledTask context.menuWriteTaskId]) := by
      simp only [BMBTTriggerWriteMenu, if_pos hdefer, if_pos hmenu]
    have hpre := menu_armed_run k u x config context hplayer hdisplay hdefer preMenu 0
      hpreMenu (by omega)
    obtain ⟨ht1, ht2⟩ := menu_write_tick k u x config context hplayer hdisplay
    have hidle := menu_idle_run k u x config _ ht2 n
    refine ⟨?_, ?_⟩
    · simp only [BMBTRun, BMBTStep.apply, harm', BMBTRun_append, hpre, hidle, ht1]
    · simp only [BMBTRun, BMBTStep.apply, harm', BMBTRun_append, hpre, hidle, ht2]
  · rintro (h | ⟨h, hd⟩)
    · rw [hmain h]; rfl
    · rw [hnone h, if_neg hd]; rfl
  · rintro (h | h | ⟨h, hd⟩)
    · rw [hdash (Or.inl h)]
      simp only [BMBTMenuDashboard]
      split_ifs <;> rfl
    · rw [hdash (Or.inr h)]
      simp only [BMBTMenuDashboard]
      split_ifs <;> rfl
    · rw [hnone h, if_pos hd]
      simp only [BMBTMenuDashboard]
      split_ifs <;> rfl
  · intro f1 f2 f3
    simp only [BMBTMenuDashboardUpdate]
    split_ifs <;> rfl
  · intro h
    rw [hdev h]
    simp only [BMBTMenuDeviceSelection, deviceSelectionText]
    split_ifs <;> rfl
  · intro h; rw [hset h]; rfl
  · intro h
    rw [haud h]
    simp only [BMBTMenuSettingsAudio]
    split_ifs <;> rfl
  · intro h
    rw [hcom h]
    simp only [BMBTMenuSettingsComfort]
    split_ifs <;> rfl
  · intro h
    rw [hcal h]
    simp only [BMBTMenuSettingsCalling]
    split_ifs <;> rfl
  · intro h
    rw [hui h]
    simp only [BMBTMenuSettingsUI]
    split_ifs <;> rfl
  · simp only [BMBTTriggerWriteHeader, if_neg hc]
  · unfold BMBTTriggerWriteMenu
    split_ifs <;> rfl


/-- C26 at a concrete input: the controller is active with no menu drawn and the
device "Phone" connected; the header request is repeated between the ticks, and so
is the menu request.  The third header tick writes the header and the sixth menu
tick writes the main menu. -/
theorem C26_write_debounce_witness :
    (BMBTRun hdr uhdr extSample configHandsfree { bmbtActive with bt := btPhone }
        [BMBTStep.TriggerWriteHeader, BMBTStep.TimerHeaderWrite, BMBTStep.TriggerWriteHeader,
         BMBTStep.TimerHeaderWrite, BMBTStep.TimerHeaderWrite,
         BMBTStep.TimerHeaderWrite]).2 =
      [[Call.TimerResetScheduledTask 1], [], [], [],
       [Call.IBusCommandGTWriteTitleIndex "Bluetooth", Call.IBusCommandGTUpdate 0x62,
        Call.IBusCommandGTWriteZone 6 "Phone", Call.IBusCommandGTWriteZone 2 "> ",
        Call.IBusCommandGTWriteZone 1 "BT  ", Call.IBusCommandGTUpdate 0x62],
       []] ∧
    (BMBTRun hdr uhdr extSample configHandsfree { bmbtActive with bt := btPhone }
        [BMBTStep.TriggerWriteMenu, BMBTStep.TimerMenuWrite, BMBTStep.TimerMenuWrite,
         BMBTStep.TriggerWriteMenu, BMBTStep.TimerMenuWrite, BMBTStep.TimerMenuWrite,
         BMBTStep.TimerMenuWrite, BMBTStep.TimerMenuWrite, BMBTStep.TimerMenuWrite]).2 =
      [[Call.TimerResetScheduledTask 2], [], [], [], [], [], [],
       [Call.IBusCommandGTWriteIndexTitle "Main Menu",
        Call.IBusCommandGTWriteIndexTMC 0 "Dashboard",
        Call.IBusCommandGTWriteIndexTMC 1 "Select Device",
        Call.IBusCommandGTWriteIndexTMC 2 "Settings",
        Call.IBusCommandGTWriteIndexTMC 7 " ",
        Call.IBusCommandGTUpdate 0x61],
       []] :=
  ⟨((C26_write_debounce hdr uhdr extSample configHandsfree { bmbtActive with bt := btPhone }
      [BMBTStep.TimerHeaderWrite, BMBTStep.TriggerWriteHeader, BMBTStep.TimerHeaderWrite]
      [BMBTStep.TimerMenuWrite, BMBTStep.TimerMenuWrite, BMBTStep.TriggerWriteMenu,
       BMBTStep.TimerMenuWrite, BMBTStep.TimerMenuWrite, BMBTStep.TimerMenuWrite] 1
      rfl rfl).1 rfl (by decide) (by decide)).1,
   ((C26_write_debounce hdr uhdr extSample configHandsfree { bmbtActive with bt := btPhone }
      [BMBTStep.TimerHeaderWrite, BMBTStep.TriggerWriteHeader, BMBTStep.TimerHeaderWrite]
      [BMBTStep.TimerMenuWrite, BMBTStep.TimerMenuWrite, BMBTStep.TriggerWriteMenu,
       BMBTStep.TimerMenuWrite, BMBTStep.TimerMenuWrite, BMBTStep.TimerMenuWrite] 1
      rfl rfl).2.1 rfl (by decide) (by decide) (by decide)).1⟩

/-! ## Board-monitor controller: texts of the settings lines -/

/-- The blanking loop started at `start` writes no line below `start`. -/
theorem indexTexts_blankIndices (start writtenIndices index : Nat) (h : index < start) :
    indexTexts (blankIndices start writtenIndices) index = [] := by
  unfold indexTexts blankIndices
  rw [List.filterMap_eq_nil_iff]
  intro c hc
  obtain ⟨i, hi, rfl⟩ := List.mem_map.mp hc
  have hle : start ≤ i := (List.mem_range'_1.mp hi).1
  have hne : ¬ i = index := by omega
  simp only [if_neg hne]

/-- The texts written to a line by two lists of calls, one after the other. -/
theorem indexTexts_append (a b : List Call) (index : Nat) :
    indexTexts (a ++ b) index = indexTexts a index ++ indexTexts b index := by
  unfold indexTexts
  exact List.filterMap_append _ _ _

/-- The texts written to a line by a write to a line followed by further calls. -/
theorem indexTexts_write (i : Nat) (text : String) (calls : List Call) (index : Nat) :
    indexTexts (Call.IBusCommandGTWriteIndexTMC i text :: calls) index =
      if i = index then text :: indexTexts calls index else indexTexts calls index := by
  unfold indexTexts
  by_cases h : i = index
  · simp [List.filterMap_cons, h]
  · simp [List.filterMap_cons, h]

/-- The texts written to a line when the first call is chosen between two. -/
theorem indexTexts_ite (c : Prop) [Decidable c] (a b : Call) (calls : List Call)
    (index : Nat) :
    indexTexts ((if c then a else b) :: calls) index =
      if c then indexTexts (a :: calls) index else indexTexts (b :: calls) index := by
  by_cases hc : c
  · simp only [if_pos hc]
  · simp only [if_neg hc]

/-- A call that is not a write to a line contributes no text. -/
theorem indexTexts_skip (c : Call) (calls : List Call) (index : Nat)
    (h : ∀ i text, c ≠ Call.IBusCommandGTWriteIndexTMC i text) :
    indexTexts (c :: calls) index = indexTexts calls index := by
  unfold indexTexts
  cases c <;> first | rfl | exact absurd rfl (h _ _)

/-- No call, no text. -/
theorem indexTexts_nil (index : Nat) : indexTexts [] index = [] := rfl

/-- The lines of the audio settings: the text written by the update is the text
the draw writes under the new configuration. -/
theorem settingsAudio_texts (k : Consts) (u : UIConsts) (w : BMBTWorld)
    (hne : k.CONFIG_SETTING_ON ≠ k.CONFIG_SETTING_OFF) (line : Nat)
    (hline : line = BMBT_MENU_IDX_SETTINGS_AUDIO_DAC_GAIN ∨
      line = BMBT_MENU_IDX_SETTINGS_AUDIO_DSP_INPUT ∨
      line = BMBT_MENU_IDX_SETTINGS_AUDIO_AUTOPLAY) :
    indexTexts (BMBTSettingsUpdateAudio k u w line).2 line =
      indexTexts (BMBTMenuSettingsAudio k u (BMBTSettingsUpdateAudio k u w line).1.config
        (BMBTSettingsUpdateAudio k u w line).1.context).2 line := by
  rcases hline with h | h | h <;> subst h
  · simp [BMBTSettingsUpdateAudio, BMBTMenuSettingsAudio,
      BMBT_MENU_IDX_SETTINGS_AUDIO_DAC_GAIN, BMBT_MENU_IDX_SETTINGS_AUDIO_DSP_INPUT,
      BMBT_MENU_IDX_SETTINGS_AUDIO_AUTOPLAY, BMBT_MENU_IDX_BACK, settingsUpdateEnd, BMBTGTWriteIndex, ConfigGetSetting, ConfigSetSetting,
      indexTexts_append, indexTexts_write, indexTexts_ite, indexTexts_skip,
      indexTexts_blankIndices, indexTexts_nil]
  · by_cases hc : w.config.settings k.CONFIG_SETTING_USE_SPDIF_INPUT = k.CONFIG_SETTING_ON
    · simp [BMBTSettingsUpdateAudio, BMBTMenuSettingsAudio,
        BMBT_MENU_IDX_SETTINGS_AUDIO_DAC_GAIN, BMBT_MENU_IDX_SETTINGS_AUDIO_DSP_INPUT,
        BMBT_MENU_IDX_SETTINGS_AUDIO_AUTOPLAY, BMBT_MENU_IDX_BACK, settingsUpdateEnd, BMBTGTWriteIndex, ConfigGetSetting, ConfigSetSetting,
      indexTexts_append, indexTexts_write, indexTexts_ite, indexTexts_skip,
      indexTexts_blankIndices, indexTexts_nil, hc, hne,
        Ne.symm hne]
    · simp [BMBTSettingsUpdateAudio, BMBTMenuSettingsAudio,
        BMBT_MENU_IDX_SETTINGS_AUDIO_DAC_GAIN, BMBT_MENU_IDX_SETTINGS_AUDIO_DSP_INPUT,
        BMBT_MENU_IDX_SETTINGS_AUDIO_AUTOPLAY, BMBT_MENU_IDX_BACK, settingsUpdateEnd, BMBTGTWriteIndex, ConfigGetSetting, ConfigSetSetting,
      indexTexts_append, indexTexts_write, indexTexts_ite, indexTexts_skip,
      indexTexts_blankIndices, indexTexts_nil, hc, hne,
        Ne.symm hne]
  · by_cases hc : w.config.settings k.CONFIG_SETTING_AUTOPLAY = k.CONFIG_SETTING_OFF
    · simp [BMBTSettingsUpdateAudio, BMBTMenuSettingsAudio,
        BMBT_MENU_IDX_SETTINGS_AUDIO_DAC_GAIN, BMBT_MENU_IDX_SETTINGS_AUDIO_DSP_INPUT,
        BMBT_MENU_IDX_SETTINGS_AUDIO_AUTOPLAY, BMBT_MENU_IDX_BACK, settingsUpdateEnd, BMBTGTWriteIndex, ConfigGetSetting, ConfigSetSetting,
      indexTexts_append, indexTexts_write, indexTexts_ite, indexTexts_skip,
      indexTexts_blankIndices, indexTexts_nil, hc, hne,
        Ne.symm hne]
    · simp [BMBTSettingsUpdateAudio, BMBTMenuSettingsAudio,
        BMBT_MENU_IDX_SETTINGS_AUDIO_DAC_GAIN, BMBT_MENU_IDX_SETTINGS_AUDIO_DSP_INPUT,
        BMBT_MENU_IDX_SETTINGS_AUDIO_AUTOPLAY, BMBT_MENU_IDX_BACK, settingsUpdateEnd, BMBTGTWriteIndex, ConfigGetSetting, ConfigSetSetting,
      indexTexts_append, indexTexts_write, indexTexts_ite, indexTexts_skip,
      indexTexts_blankIndices, indexTexts_nil, hc, hne,
        Ne.symm hne]

/-- The lines of the comfort settings: the text written by the update is the text
the draw writes under the new configuration, for the blinker line provided that
the stored count is not 255. -/
theorem settingsComfort_texts (k : Consts) (u : UIConsts) (w : BMBTWorld)
    (hne : k.CONFIG_SETTING_ON ≠ k.CONFIG_SETTING_OFF)
    (hveh : k.IBUS_VEHICLE_TYPE_E38_E39_E53 ≠ u.IBUS_VEHICLE_TYPE_E46_Z4) (line : Nat)
    (hline : line = BMBT_MENU_IDX_SETTINGS_COMFORT_VEHICLE_TYPE ∨
      line = BMBT_MENU_IDX_SETTINGS_COMFORT_LOCKS ∨
      (line = BMBT_MENU_IDX_SETTINGS_COMFORT_BLINKERS ∧
        ConfigGetSetting w.config k.CONFIG_SETTING_COMFORT_BLINKERS % 256 ≠ 255)) :
    indexTexts (BMBTSettingsUpdateComfort k u w line).2 line =
      indexTexts (BMBTMenuSettingsComfort k u (BMBTSettingsUpdateComfort k u w line).1.config
        (BMBTSettingsUpdateComfort k u w line).1.context).2 line := by
  rcases hline with h | h | ⟨h, hb⟩ <;> subst h
  · by_cases hc : w.config.vehicleType = 0 ∨ w.config.vehicleType = 0xFF ∨
        w.config.vehicleType = u.IBUS_VEHICLE_TYPE_E46_Z4
    · simp [BMBTSettingsUpdateComfort, BMBTMenuSettingsComfort,
        BMBT_MENU_IDX_SETTINGS_COMFORT_VEHICLE_TYPE, BMBT_MENU_IDX_SETTINGS_COMFORT_BLINKERS,
        BMBT_MENU_IDX_SETTINGS_COMFORT_LOCKS, BMBT_MENU_IDX_BACK, settingsUpdateEnd, BMBTGTWriteIndex, ConfigGetSetting, ConfigSetSetting,
      indexTexts_append, indexTexts_write, indexTexts_ite, indexTexts_skip,
      indexTexts_blankIndices, indexTexts_nil, hc]
    · simp [BMBTSettingsUpdateComfort, BMBTMenuSettingsComfort,
        BMBT_MENU_IDX_SETTINGS_COMFORT_VEHICLE_TYPE, BMBT_MENU_IDX_SETTINGS_COMFORT_BLINKERS,
        BMBT_MENU_IDX_SETTINGS_COMFORT_LOCKS, BMBT_MENU_IDX_BACK, settingsUpdateEnd, BMBTGTWriteIndex, ConfigGetSetting, ConfigSetSetting,
      indexTexts_append, indexTexts_write, indexTexts_ite, indexTexts_skip,
      indexTexts_blankIndices, indexTexts_nil, hc, Ne.symm hveh]
  · by_cases hc : w.config.settings u.CONFIG_SETTING_COMFORT_LOCKS = k.CONFIG_SETTING_OFF
    · simp [BMBTSettingsUpdateComfort, BMBTMenuSettingsComfort,
        BMBT_MENU_IDX_SETTINGS_COMFORT_VEHICLE_TYPE, BMBT_MENU_IDX_SETTINGS_COMFORT_BLINKERS,
        BMBT_MENU_IDX_SETTINGS_COMFORT_LOCKS, BMBT_MENU_IDX_BACK, settingsUpdateEnd, BMBTGTWriteIndex, ConfigGetSetting, ConfigSetSetting,
      indexTexts_append, indexTexts_write, indexTexts_ite, indexTexts_skip,
      indexTexts_blankIndices, indexTexts_nil, hc, hne,
        Ne.symm hne]
    · simp [BMBTSettingsUpdateComfort, BMBTMenuSettingsComfort,
        BMBT_MENU_IDX_SETTINGS_COMFORT_VEHICLE_TYPE, BMBT_MENU_IDX_SETTINGS_COMFORT_BLINKERS,
        BMBT_MENU_IDX_SETTINGS_COMFORT_LOCKS, BMBT_MENU_IDX_BACK, settingsUpdateEnd, BMBTGTWriteIndex, ConfigGetSetting, ConfigSetSetting,
      indexTexts_append, indexTexts_write, indexTexts_ite, indexTexts_skip,
      indexTexts_blankIndices, indexTexts_nil, hc, hne,
        Ne.symm hne]
  · have hval : ((if w.config.settings k.CONFIG_SETTING_COMFORT_BLINKERS = 0 then 1
          else if w.config.settings k.CONFIG_SETTING_COMFORT_BLINKERS = 8 then 0
          else w.config.settings k.CONFIG_SETTING_COMFORT_BLINKERS) + 1) % 256 ≠ 0 := by
      simp only [ConfigGetSetting] at hb
      split_ifs <;> omega
    simp [BMBTSettingsUpdateComfort, BMBTMenuSettingsComfort,
      BMBT_MENU_IDX_SETTINGS_COMFORT_VEHICLE_TYPE, BMBT_MENU_IDX_SETTINGS_COMFORT_BLINKERS,
      BMBT_MENU_IDX_SETTINGS_COMFORT_LOCKS, BMBT_MENU_IDX_BACK, settingsUpdateEnd, BMBTGTWriteIndex, ConfigGetSetting, ConfigSetSetting,
      indexTexts_append, indexTexts_write, indexTexts_ite, indexTexts_skip,
      indexTexts_blankIndices, indexTexts_nil, hval]

/-- The lines of the calling settings other than hands-free: the text written by
the update is the text the draw writes under the new configuration. -/
theorem settingsCalling_texts (k : Consts) (u : UIConsts) (w : BMBTWorld)
    (hne : k.CONFIG_SETTING_ON ≠ k.CONFIG_SETTING_OFF) (line : Nat)
    (hline : line = BMBT_MENU_IDX_SETTINGS_CALLING_TCU_MODE ∨
      line = BMBT_MENU_IDX_SETTINGS_CALLING_MIC_GAIN ∨
      line = BMBT_MENU_IDX_SETTINGS_CALLING_MIC_BIAS) :
    indexTexts (BMBTSettingsUpdateCalling k u w line).2 line =
      indexTexts (BMBTMenuSettingsCalling k u (BMBTSettingsUpdateCalling k u w line).1.config
        (BMBTSettingsUpdateCalling k u w line).1.context).2 line := by
  rcases hline with h | h | h <;> subst h
  · by_cases hc : w.config.settings k.CONFIG_SETTING_TCU_MODE = k.CONFIG_SETTING_OFF
    · simp [BMBTSettingsUpdateCalling, BMBTMenuSettingsCalling,
        BMBT_MENU_IDX_SETTINGS_CALLING_HFP, BMBT_MENU_IDX_SETTINGS_CALLING_TCU_MODE,
        BMBT_MENU_IDX_SETTINGS_CALLING_MIC_GAIN, BMBT_MENU_IDX_SETTINGS_CALLING_MIC_BIAS,
        BMBT_MENU_IDX_BACK, settingsUpdateEnd, BMBTGTWriteIndex, ConfigGetSetting, ConfigSetSetting,
      indexTexts_append, indexTexts_write, indexTexts_ite, indexTexts_skip,
      indexTexts_blankIndices, indexTexts_nil, hc, hne, Ne.symm hne]
    · simp [BMBTSettingsUpdateCalling, BMBTMenuSettingsCalling,
        BMBT_MENU_IDX_SETTINGS_CALLING_HFP, BMBT_MENU_IDX_SETTINGS_CALLING_TCU_MODE,
        BMBT_MENU_IDX_SETTINGS_CALLING_MIC_GAIN, BMBT_MENU_IDX_SETTINGS_CALLING_MIC_BIAS,
        BMBT_MENU_IDX_BACK, settingsUpdateEnd, BMBTGTWriteIndex, ConfigGetSetting, ConfigSetSetting,
      indexTexts_append, indexTexts_write, indexTexts_ite, indexTexts_skip,
      indexTexts_blankIndices, indexTexts_nil, hc, hne, Ne.symm hne]
  · have hgain : ¬ (if (w.config.settings k.CONFIG_SETTING_MIC_GAIN + 1) % 256 > 21 then 0
          else (w.config.settings k.CONFIG_SETTING_MIC_GAIN + 1) % 256) > 21 := by
      split_ifs <;> omega
    simp [BMBTSettingsUpdateCalling, BMBTMenuSettingsCalling,
      BMBT_MENU_IDX_SETTINGS_CALLING_HFP, BMBT_MENU_IDX_SETTINGS_CALLING_TCU_MODE,
      BMBT_MENU_IDX_SETTINGS_CALLING_MIC_GAIN, BMBT_MENU_IDX_SETTINGS_CALLING_MIC_BIAS,
      BMBT_MENU_IDX_BACK, settingsUpdateEnd, BMBTGTWriteIndex, ConfigGetSetting, ConfigSetSetting,
      indexTexts_append, indexTexts_write, indexTexts_ite, indexTexts_skip,
      indexTexts_blankIndices, indexTexts_nil, hgain]
  · by_cases hc : w.config.settings u.CONFIG_SETTING_MIC_BIAS_ADDRESS = k.CONFIG_SETTING_OFF
    · simp [BMBTSettingsUpdateCalling, BMBTMenuSettingsCalling,
        BMBT_MENU_IDX_SETTINGS_CALLING_HFP, BMBT_MENU_IDX_SETTINGS_CALLING_TCU_MODE,
        BMBT_MENU_IDX_SETTINGS_CALLING_MIC_GAIN, BMBT_MENU_IDX_SETTINGS_CALLING_MIC_BIAS,
        BMBT_MENU_IDX_BACK, settingsUpdateEnd, BMBTGTWriteIndex, ConfigGetSetting, ConfigSetSetting,
      indexTexts_append, indexTexts_write, indexTexts_ite, indexTexts_skip,
      indexTexts_blankIndices, indexTexts_nil, hc, hne, Ne.symm hne]
    · simp [BMBTSettingsUpdateCalling, BMBTMenuSettingsCalling,
        BMBT_MENU_IDX_SETTINGS_CALLING_HFP, BMBT_MENU_IDX_SETTINGS_CALLING_TCU_MODE,
        BMBT_MENU_IDX_SETTINGS_CALLING_MIC_GAIN, BMBT_MENU_IDX_SETTINGS_CALLING_MIC_BIAS,
        BMBT_MENU_IDX_BACK, settingsUpdateEnd, BMBTGTWriteIndex, ConfigGetSetting, ConfigSetSetting,
      indexTexts_append, indexTexts_write, indexTexts_ite, indexTexts_skip,
      indexTexts_blankIndices, indexTexts_nil, hc, hne, Ne.symm hne]

/-- The write of the title writes no menu line. -/
theorem indexTexts_BMBTGTWriteTitle (u : UIConsts) (context : BMBTContext_t) (text : String)
    (index : Nat) : indexTexts (BMBTGTWriteTitle u context text) index = [] := by
  unfold BMBTGTWriteTitle
  split_ifs <;> rfl

/-- The text written to the metadata line by the update of the metadata mode. -/
theorem settingsUpdateMetadataMode_texts (k : Consts) (u : UIConsts) (x : Ext)
    (w : BMBTWorld) :
    indexTexts (settingsUpdateMetadataMode k u x w BMBT_MENU_IDX_SETTINGS_UI_METADATA_MODE).2
        BMBT_MENU_IDX_SETTINGS_UI_METADATA_MODE =
      [if w.config.settings u.CONFIG_SETTING_METADATA_MODE = 0x00 then "Metadata: Party"
       else if w.config.settings u.CONFIG_SETTING_METADATA_MODE = 0x01 then "Metadata: Chunk"
       else "Metadata: Off"] ∧
    (settingsUpdateMetadataMode k u x w
        BMBT_MENU_IDX_SETTINGS_UI_METADATA_MODE).1.config.settings
        u.CONFIG_SETTING_METADATA_MODE =
      (if w.config.settings u.CONFIG_SETTING_METADATA_MODE = 0x00 then BMBT_METADATA_MODE_PARTY
       else if w.config.settings u.CONFIG_SETTING_METADATA_MODE = 0x01 then
         BMBT_METADATA_MODE_CHUNK
       else BMBT_METADATA_MODE_OFF) := by
  unfold settingsUpdateMetadataMode
  by_cases h0 : w.config.settings u.CONFIG_SETTING_METADATA_MODE = 0x00
  · simp only [ConfigGetSetting, h0, if_true]
    split_ifs <;>
      simp_all [BMBTGTWriteIndex, BMBTSetMainDisplayText, indexTexts_BMBTGTWriteTitle,
        ConfigSetSetting, indexTexts_append, indexTexts_write, indexTexts_skip,
        indexTexts_nil, BMBT_METADATA_MODE_OFF, BMBT_METADATA_MODE_PARTY]
  · by_cases h1 : w.config.settings u.CONFIG_SETTING_METADATA_MODE = 0x01
    · simp only [ConfigGetSetting, h1, if_true]
      split_ifs <;>
        simp_all [BMBTGTWriteIndex, BMBTSetMainDisplayText, indexTexts_BMBTGTWriteTitle,
          ConfigSetSetting, indexTexts_append, indexTexts_write, indexTexts_skip,
          indexTexts_nil, BMBT_METADATA_MODE_OFF, BMBT_METADATA_MODE_CHUNK]
    · simp only [ConfigGetSetting, h0, h1, if_false]
      split_ifs <;>
        simp_all [BMBTGTWriteIndex, BMBTSetMainDisplayText, indexTexts_BMBTGTWriteTitle,
          ConfigSetSetting, indexTexts_append, indexTexts_write, indexTexts_skip,
          indexTexts_nil, BMBT_METADATA_MODE_OFF]

/-- The lines of the UI settings: the text written by the update is the text the
draw writes under the new configuration. -/
theorem settingsUI_texts (k : Consts) (u : UIConsts) (x : Ext) (w : BMBTWorld)
    (hoff : k.CONFIG_SETTING_OFF = 0x00) (line : Nat)
    (hline : line = BMBT_MENU_IDX_SETTINGS_UI_METADATA_MODE ∨
      line = BMBT_MENU_IDX_SETTINGS_UI_DEFAULT_MENU) :
    indexTexts (BMBTSettingsUpdateUI k u x w line).2 line =
      indexTexts (BMBTMenuSettingsUI k u (BMBTSettingsUpdateUI k u x w line).1.config
        (BMBTSettingsUpdateUI k u x w line).1.context).2 line := by
  rcases hline with h | h <;> subst h
  · obtain ⟨ht, hs⟩ := settingsUpdateMetadataMode_texts k u x w
    have hu : BMBTSettingsUpdateUI k u x w BMBT_MENU_IDX_SETTINGS_UI_METADATA_MODE =
        ((settingsUpdateMetadataMode k u x w BMBT_MENU_IDX_SETTINGS_UI_METADATA_MODE).1,
         (settingsUpdateMetadataMode k u x w BMBT_MENU_IDX_SETTINGS_UI_METADATA_MODE).2 ++
           [Call.IBusCommandGTUpdate (settingsUpdateMetadataMode k u x w
             BMBT_MENU_IDX_SETTINGS_UI_METADATA_MODE).1.context.status.navIndexType]) := rfl
    rw [hu]
    simp only [indexTexts_append, ht]
    simp only [BMBTMenuSettingsUI, ConfigGetSetting, hs, indexTexts_append, indexTexts_ite,
      indexTexts_write, indexTexts_skip, indexTexts_blankIndices, indexTexts_nil]
    by_cases h0 : w.config.settings u.CONFIG_SETTING_METADATA_MODE = 0x00
    · simp [h0, BMBT_METADATA_MODE_PARTY, BMBT_MENU_IDX_SETTINGS_UI_METADATA_MODE,
        BMBT_MENU_IDX_SETTINGS_UI_DEFAULT_MENU, BMBT_MENU_IDX_BACK, indexTexts_write,
        indexTexts_ite, indexTexts_skip, indexTexts_blankIndices, indexTexts_nil]
    · by_cases h1 : w.config.settings u.CONFIG_SETTING_METADATA_MODE = 0x01
      · simp [h1, BMBT_METADATA_MODE_PARTY, BMBT_METADATA_MODE_CHUNK,
          BMBT_MENU_IDX_SETTINGS_UI_METADATA_MODE,
          BMBT_MENU_IDX_SETTINGS_UI_DEFAULT_MENU, BMBT_MENU_IDX_BACK, indexTexts_write,
          indexTexts_ite, indexTexts_skip, indexTexts_blankIndices, indexTexts_nil]
      · simp [h0, h1, BMBT_METADATA_MODE_PARTY, BMBT_METADATA_MODE_CHUNK,
          BMBT_METADATA_MODE_OFF, BMBT_MENU_IDX_SETTINGS_UI_METADATA_MODE,
          BMBT_MENU_IDX_SETTINGS_UI_DEFAULT_MENU, BMBT_MENU_IDX_BACK, indexTexts_write,
          indexTexts_ite, indexTexts_skip, indexTexts_blankIndices, indexTexts_nil]
  · by_cases hc : w.config.settings u.CONFIG_SETTING_BMBT_DEFAULT_MENU = 0x00
    · simp [BMBTSettingsUpdateUI, BMBTMenuSettingsUI,
        BMBT_MENU_IDX_SETTINGS_UI_METADATA_MODE, BMBT_MENU_IDX_SETTINGS_UI_DEFAULT_MENU,
        BMBT_MENU_IDX_BACK, settingsUpdateEnd, BMBTGTWriteIndex, ConfigGetSetting, ConfigSetSetting,
      indexTexts_append, indexTexts_write, indexTexts_ite, indexTexts_skip,
      indexTexts_blankIndices, indexTexts_nil, hc, hoff]
    · simp [BMBTSettingsUpdateUI, BMBTMenuSettingsUI,
        BMBT_MENU_IDX_SETTINGS_UI_METADATA_MODE, BMBT_MENU_IDX_SETTINGS_UI_DEFAULT_MENU,
        BMBT_MENU_IDX_BACK, settingsUpdateEnd, BMBTGTWriteIndex, ConfigGetSetting, ConfigSetSetting,
      indexTexts_append, indexTexts_write, indexTexts_ite, indexTexts_skip,
      indexTexts_blankIndices, indexTexts_nil, hc, hoff]

/-- C27: the full draw of the calling settings writes "Handsfree: On" whatever the
hands-free setting is, both branches of its test being the same, while the update
of the hands-free line writes "Handsfree: Off" when it disables hands-free: for
that line the text of the update is not the text of the draw.  The blinker line
differs as well when the stored count is 255: the update stores 0 and writes it,
and the draw shows 1 for a stored 0.  For every other line of the four settings
sub-menus, and for the blinker line with any other stored count, the text written
by the update is the text the draw writes under the new configuration; the two
setting values OFF and ON are taken to be 0x00 and a different value, and the two
vehicle types to be different. -/
theorem C27_settings_text (k : Consts) (u : UIConsts) (x : Ext) (w : BMBTWorld)
    (hoff : k.CONFIG_SETTING_OFF = 0x00)
    (hne : k.CONFIG_SETTING_ON ≠ k.CONFIG_SETTING_OFF)
    (hveh : k.IBUS_VEHICLE_TYPE_E38_E39_E53 ≠ u.IBUS_VEHICLE_TYPE_E46_Z4) :
    (∀ line, line = BMBT_MENU_IDX_SETTINGS_AUDIO_DAC_GAIN ∨
        line = BMBT_MENU_IDX_SETTINGS_AUDIO_DSP_INPUT ∨
        line = BMBT_MENU_IDX_SETTINGS_AUDIO_AUTOPLAY →
      indexTexts (BMBTSettingsUpdateAudio k u w line).2 line =
        indexTexts (BMBTMenuSettingsAudio k u (BMBTSettingsUpdateAudio k u w line).1.config
          (BMBTSettingsUpdateAudio k u w line).1.context).2 line) ∧
    (∀ line, line = BMBT_MENU_IDX_SETTINGS_COMFORT_VEHICLE_TYPE ∨
        line = BMBT_MENU_IDX_SETTINGS_COMFORT_LOCKS ∨
        (line = BMBT_MENU_IDX_SETTINGS_COMFORT_BLINKERS ∧
          ConfigGetSetting w.config k.CONFIG_SETTING_COMFORT_BLINKERS % 256 ≠ 255) →
      indexTexts (BMBTSettingsUpdateComfort k u w line).2 line =
        indexTexts (BMBTMenuSettingsComfort k u
          (BMBTSettingsUpdateComfort k u w line).1.config
          (BMBTSettingsUpdateComfort k u w line).1.context).2 line) ∧
    (∀ line, line = BMBT_MENU_IDX_SETTINGS_CALLING_TCU_MODE ∨
        line = BMBT_MENU_IDX_SETTINGS_CALLING_MIC_GAIN ∨
        line = BMBT_MENU_IDX_SETTINGS_CALLING_MIC_BIAS →
      indexTexts (BMBTSettingsUpdateCalling k u w line).2 line =
        indexTexts (BMBTMenuSettingsCalling k u
          (BMBTSettingsUpdateCalling k u w line).1.config
          (BMBTSettingsUpdateCalling k u w line).1.context).2 line) ∧
    (∀ line, line = BMBT_MENU_IDX_SETTINGS_UI_METADATA_MODE ∨
        line = BMBT_MENU_IDX_SETTINGS_UI_DEFAULT_MENU →
      indexTexts (BMBTSettingsUpdateUI k u x w line).2 line =
        indexTexts (BMBTMenuSettingsUI k u (BMBTSettingsUpdateUI k u x w line).1.config
          (BMBTSettingsUpdateUI k u x w line).1.context).2 line) ∧
    (∀ (config : Config_t) (context : BMBTContext_t),
      indexTexts (BMBTMenuSettingsCalling k u config context).2
        BMBT_MENU_IDX_SETTINGS_CALLING_HFP = ["Handsfree: On"]) ∧
    (ConfigGetSetting w.config k.CONFIG_SETTING_HFP ≠ 0x00 →
      indexTexts (BMBTSettingsUpdateCalling k u w BMBT_MENU_IDX_SETTINGS_CALLING_HFP).2
        BMBT_MENU_IDX_SETTINGS_CALLING_HFP = ["Handsfree: Off"] ∧
      ConfigGetSetting (BMBTSettingsUpdateCalling k u w
        BMBT_MENU_IDX_SETTINGS_CALLING_HFP).1.config k.CONFIG_SETTING_HFP = 0x00) ∧
    (ConfigGetSetting w.config k.CONFIG_SETTING_HFP = 0x00 →
      indexTexts (BMBTSettingsUpdateCalling k u w BMBT_MENU_IDX_SETTINGS_CALLING_HFP).2
        BMBT_MENU_IDX_SETTINGS_CALLING_HFP = ["Handsfree: On"] ∧
      ConfigGetSetting (BMBTSettingsUpdateCalling k u w
        BMBT_MENU_IDX_SETTINGS_CALLING_HFP).1.config k.CONFIG_SETTING_HFP = 0x01) ∧
    (ConfigGetSetting w.config k.CONFIG_SETTING_COMFORT_BLINKERS = 255 →
      indexTexts (BMBTSettingsUpdateComfort k u w BMBT_MENU_IDX_SETTINGS_COMFORT_BLINKERS).2
        BMBT_MENU_IDX_SETTINGS_COMFORT_BLINKERS = ["Blinkers: 0"] ∧
      indexTexts (BMBTMenuSettingsComfort k u
          (BMBTSettingsUpdateComfort k u w BMBT_MENU_IDX_SETTINGS_COMFORT_BLINKERS).1.config
          (BMBTSettingsUpdateComfort k u w BMBT_MENU_IDX_SETTINGS_COMFORT_BLINKERS).1.context).2
        BMBT_MENU_IDX_SETTINGS_COMFORT_BLINKERS = ["Blinkers: 1"]) := by
  refine ⟨fun line h => settingsAudio_texts k u w hne line h,
    fun line h => settingsComfort_texts k u w hne hveh line h,
    fun line h => settingsCalling_texts k u w hne line h,
    fun line h => settingsUI_texts k u x w hoff line h,
    fun config context => ?_, fun h => ?_, fun h => ?_, fun h => ?_⟩
  · simp [BMBTMenuSettingsCalling, BMBT_MENU_IDX_SETTINGS_CALLING_HFP,
      BMBT_MENU_IDX_SETTINGS_CALLING_TCU_MODE, BMBT_MENU_IDX_SETTINGS_CALLING_MIC_GAIN,
      BMBT_MENU_IDX_SETTINGS_CALLING_MIC_BIAS, BMBT_MENU_IDX_BACK, indexTexts_append,
      indexTexts_write, indexTexts_ite, indexTexts_skip, indexTexts_blankIndices,
      indexTexts_nil]
  · simp only [ConfigGetSetting] at h
    simp [BMBTSettingsUpdateCalling, BMBT_MENU_IDX_SETTINGS_CALLING_HFP,
      BMBT_MENU_IDX_BACK, settingsUpdateEnd, BMBTGTWriteIndex, ConfigGetSetting, ConfigSetSetting,
      indexTexts_append, indexTexts_write, indexTexts_ite, indexTexts_skip,
      indexTexts_blankIndices, indexTexts_nil, h]
  · simp only [ConfigGetSetting] at h
    simp [BMBTSettingsUpdateCalling, BMBT_MENU_IDX_SETTINGS_CALLING_HFP,
      BMBT_MENU_IDX_BACK, settingsUpdateEnd, BMBTGTWriteIndex, ConfigGetSetting, ConfigSetSetting,
      indexTexts_append, indexTexts_write, indexTexts_ite, indexTexts_skip,
      indexTexts_blankIndices, indexTexts_nil, h]
  · simp only [ConfigGetSetting] at h
    have h1 : snprintf 12 ("Blinkers: " ++ toString 0) = "Blinkers: 0" := by decide
    have h2 : snprintf 12 ("Blinkers: " ++ toString 1) = "Blinkers: 1" := by decide
    simp [BMBTSettingsUpdateComfort, BMBTMenuSettingsComfort,
      BMBT_MENU_IDX_SETTINGS_COMFORT_VEHICLE_TYPE, BMBT_MENU_IDX_SETTINGS_COMFORT_BLINKERS,
      BMBT_MENU_IDX_SETTINGS_COMFORT_LOCKS, BMBT_MENU_IDX_BACK, settingsUpdateEnd, BMBTGTWriteIndex, ConfigGetSetting, ConfigSetSetting,
      indexTexts_append, indexTexts_write, indexTexts_ite, indexTexts_skip,
      indexTexts_blankIndices, indexTexts_nil, h, h1, h2]

/-- C27 at a concrete input: hands-free is stored as 0x01 and the hands-free line
of the calling settings is selected.  The update writes "Handsfree: Off" and
stores 0x00; the draw of the calling settings under the new configuration writes
"Handsfree: On" to the same line. -/
theorem C27_settings_text_witness :
    ConfigGetSetting configHandsfree hdr.CONFIG_SETTING_HFP = 0x01 ∧
    indexTexts (BMBTSettingsUpdateCalling hdr uhdr
        ⟨{ bmbtActive with menu := BMBT_MENU_SETTINGS_CALLING }, configHandsfree⟩
        BMBT_MENU_IDX_SETTINGS_CALLING_HFP).2
      BMBT_MENU_IDX_SETTINGS_CALLING_HFP = ["Handsfree: Off"] ∧
    ConfigGetSetting (BMBTSettingsUpdateCalling hdr uhdr
        ⟨{ bmbtActive with menu := BMBT_MENU_SETTINGS_CALLING }, configHandsfree⟩
        BMBT_MENU_IDX_SETTINGS_CALLING_HFP).1.config hdr.CONFIG_SETTING_HFP = 0x00 ∧
    indexTexts (BMBTMenuSettingsCalling hdr uhdr
        (BMBTSettingsUpdateCalling hdr uhdr
          ⟨{ bmbtActive with menu := BMBT_MENU_SETTINGS_CALLING }, configHandsfree⟩
          BMBT_MENU_IDX_SETTINGS_CALLING_HFP).1.config
        (BMBTSettingsUpdateCalling hdr uhdr
          ⟨{ bmbtActive with menu := BMBT_MENU_SETTINGS_CALLING }, configHandsfree⟩
          BMBT_MENU_IDX_SETTINGS_CALLING_HFP).1.context).2
      BMBT_MENU_IDX_SETTINGS_CALLING_HFP = ["Handsfree: On"] :=
  ⟨rfl,
   ((C27_settings_text hdr uhdr extSample
      ⟨{ bmbtActive with menu := BMBT_MENU_SETTINGS_CALLING }, configHandsfree⟩
      rfl (by decide) (by decide)).2.2.2.2.2.1 (by decide)).1,
   ((C27_settings_text hdr uhdr extSample
      ⟨{ bmbtActive with menu := BMBT_MENU_SETTINGS_CALLING }, configHandsfree⟩
      rfl (by decide) (by decide)).2.2.2.2.2.1 (by decide)).2,
   (C27_settings_text hdr uhdr extSample
      ⟨{ bmbtActive with menu := BMBT_MENU_SETTINGS_CALLING }, configHandsfree⟩
      rfl (by decide) (by decide)).2.2.2.2.1 _ _⟩

/-! ## Board-monitor controller: screen mode -/

/-- C28: on a screen mode broadcast whose `pkt[4]` is 0x01 or the radio-screen-off
code, and is not at the same time the code of "tone menu off" or "select menu off",
`BMBTScreenModeUpdate` leaves `displayMode` OFF, and `menu` DASHBOARD_FRESH if it
was DASHBOARD and NONE for every other value. -/
theorem C28_screen_off (u : UIConsts) (context : BMBTContext_t) (pkt : List Nat)
    (hmode : pkt.getD 4 0 = 0x01 ∨ pkt.getD 4 0 = u.IBUS_GT_RADIO_SCREEN_OFF)
    (htone : pkt.getD 4 0 ≠ u.IBUS_GT_TONE_MENU_OFF)
    (hsel : pkt.getD 4 0 ≠ u.IBUS_GT_SEL_MENU_OFF) :
    (BMBTScreenModeUpdate u context pkt).1.status.displayMode = BMBT_DISPLAY_OFF ∧
    (context.menu = BMBT_MENU_DASHBOARD →
      (BMBTScreenModeUpdate u context pkt).1.menu = BMBT_MENU_DASHBOARD_FRESH) ∧
    (context.menu ≠ BMBT_MENU_DASHBOARD →
      (BMBTScreenModeUpdate u context pkt).1.menu = BMBT_MENU_NONE) := by
  unfold BMBTScreenModeUpdate
  generalize pkt.getD 4 0 = b at hmode htone hsel
  have hts : ¬ (b = u.IBUS_GT_TONE_MENU_OFF ∨ b = u.IBUS_GT_SEL_MENU_OFF) := by
    rintro (h | h)
    · exact htone h
    · exact hsel h
  simp only [if_pos hmode, if_neg hts]
  have hdisp : ¬ (BMBT_DISPLAY_OFF = BMBT_DISPLAY_ON ∨ BMBT_DISPLAY_OFF = BMBT_DISPLAY_INFO) := by
    decide
  refine ⟨?_, ?_, ?_⟩
  · split_ifs <;> simp_all
  · intro hm
    split_ifs <;> simp_all
  · intro hm
    split_ifs <;> simp_all

/-- C28 at a concrete input: the broadcast 0x01 while the dashboard is shown. -/
theorem C28_screen_off_witness :
    (BMBTScreenModeUpdate uhdr { bmbtActive with menu := BMBT_MENU_DASHBOARD }
        (pktScreenMode 0x01)).1.status.displayMode = BMBT_DISPLAY_OFF ∧
    (BMBTScreenModeUpdate uhdr { bmbtActive with menu := BMBT_MENU_DASHBOARD }
        (pktScreenMode 0x01)).1.menu = BMBT_MENU_DASHBOARD_FRESH :=
  ⟨(C28_screen_off uhdr { bmbtActive with menu := BMBT_MENU_DASHBOARD } (pktScreenMode 0x01)
      (Or.inl rfl) (by decide) (by decide)).1,
   (C28_screen_off uhdr { bmbtActive with menu := BMBT_MENU_DASHBOARD } (pktScreenMode 0x01)
      (Or.inl rfl) (by decide) (by decide)).2.1 rfl⟩

/-! ## Board-monitor controller: menu selection -/

/-- The menu after `BMBTSettingsUpdateAudio`: the settings menu for Back, the menu
as it was for every other line. -/
theorem BMBTSettingsUpdateAudio_menu (k : Consts) (u : UIConsts) (w : BMBTWorld)
    (selectedIdx : Nat) :
    (BMBTSettingsUpdateAudio k u w selectedIdx).1.context.menu =
      if selectedIdx = BMBT_MENU_IDX_BACK then BMBT_MENU_SETTINGS else w.context.menu := by
  unfold BMBTSettingsUpdateAudio settingsUpdateEnd settingsUpdateBack
  simp only [BMBTGTWriteIndex, BMBTMenuSettings]
  split_ifs <;> simp_all [BMBT_MENU_IDX_BACK, BMBT_MENU_IDX_SETTINGS_AUDIO_DAC_GAIN,
    BMBT_MENU_IDX_SETTINGS_AUDIO_DSP_INPUT, BMBT_MENU_IDX_SETTINGS_AUDIO_AUTOPLAY]

/-- The menu after `BMBTSettingsUpdateComfort`: the settings menu for Back, the
menu as it was for every other line. -/
theorem BMBTSettingsUpdateComfort_menu (k : Consts) (u : UIConsts) (w : BMBTWorld)
    (selectedIdx : Nat) :
    (BMBTSettingsUpdateComfort k u w selectedIdx).1.context.menu =
      if selectedIdx = BMBT_MENU_IDX_BACK then BMBT_MENU_SETTINGS else w.context.menu := by
  unfold BMBTSettingsUpdateComfort settingsUpdateEnd settingsUpdateBack
  simp only [BMBTGTWriteIndex, BMBTMenuSettings]
  split_ifs <;> simp_all [BMBT_MENU_IDX_BACK, BMBT_MENU_IDX_SETTINGS_COMFORT_VEHICLE_TYPE,
    BMBT_MENU_IDX_SETTINGS_COMFORT_BLINKERS, BMBT_MENU_IDX_SETTINGS_COMFORT_LOCKS]

/-- The menu after `BMBTSettingsUpdateCalling`: the settings menu for Back, the
menu as it was for every other line. -/
theorem BMBTSettingsUpdateCalling_menu (k : Consts) (u : UIConsts) (w : BMBTWorld)
    (selectedIdx : Nat) :
    (BMBTSettingsUpdateCalling k u w selectedIdx).1.context.menu =
      if selectedIdx = BMBT_MENU_IDX_BACK then BMBT_MENU_SETTINGS else w.context.menu := by
  unfold BMBTSettingsUpdateCalling settingsUpdateEnd settingsUpdateBack
  simp only [BMBTGTWriteIndex, BMBTMenuSettings]
  split_ifs <;> simp_all [BMBT_MENU_IDX_BACK, BMBT_MENU_IDX_SETTINGS_CALLING_HFP,
    BMBT_MENU_IDX_SETTINGS_CALLING_TCU_MODE, BMBT_MENU_IDX_SETTINGS_CALLING_MIC_GAIN,
    BMBT_MENU_IDX_SETTINGS_CALLING_MIC_BIAS]

/-- The menu after `BMBTSettingsUpdateUI`: the settings menu for Back, the menu as
it was for every other line. -/
theorem BMBTSettingsUpdateUI_menu (k : Consts) (u : UIConsts) (x : Ext) (w : BMBTWorld)
    (selectedIdx : Nat) :
    (BMBTSettingsUpdateUI k u x w selectedIdx).1.context.menu =
      if selectedIdx = BMBT_MENU_IDX_BACK then BMBT_MENU_SETTINGS else w.context.menu := by
  unfold BMBTSettingsUpdateUI settingsUpdateEnd settingsUpdateBack settingsUpdateMetadataMode
  simp only [BMBTGTWriteIndex, BMBTMenuSettings, BMBTSetMainDisplayText]
  split_ifs <;> simp_all [BMBT_MENU_IDX_BACK, BMBT_MENU_IDX_SETTINGS_UI_METADATA_MODE,
    BMBT_MENU_IDX_SETTINGS_UI_DEFAULT_MENU]

/-- The menu after a selection in the main menu. -/
theorem menuSelectMain_menu (k : Consts) (u : UIConsts) (x : Ext) (context : BMBTContext_t) :
    (menuSelectMain k u x context 0).1.menu = BMBT_MENU_DASHBOARD ∧
    (menuSelectMain k u x context 1).1.menu = BMBT_MENU_DEVICE_SELECTION ∧
    (menuSelectMain k u x context 2).1.menu = BMBT_MENU_SETTINGS :=
  ⟨rfl, rfl, rfl⟩

/-- The menu after a selection in the settings menu. -/
theorem menuSelectSettings_menu (k : Consts) (u : UIConsts) (config : Config_t)
    (context : BMBTContext_t) :
    (menuSelectSettings k u config context 0).1.menu = BMBT_MENU_SETTINGS_AUDIO ∧
    (menuSelectSettings k u config context 1).1.menu = BMBT_MENU_SETTINGS_CALLING ∧
    (menuSelectSettings k u config context 2).1.menu = BMBT_MENU_SETTINGS_COMFORT ∧
    (menuSelectSettings k u config context 3).1.menu = BMBT_MENU_SETTINGS_UI ∧
    (menuSelectSettings k u config context 7).1.menu = BMBT_MENU_MAIN :=
  ⟨rfl, rfl, rfl, rfl, rfl⟩

/-- `BMBTIBusMenuSelect` when it acts: the branch taken for each menu. -/
theorem BMBTIBusMenuSelect_acts (k : Consts) (u : UIConsts) (x : Ext) (w : BMBTWorld)
    (pkt : List Nat) (hidx : pkt.getD 6 0 < 10)
    (hdisp : w.context.status.displayMode = BMBT_DISPLAY_ON) :
    (w.context.menu = BMBT_MENU_MAIN →
      BMBTIBusMenuSelect k u x w pkt =
        keepStore w (menuSelectMain k u x w.context (pkt.getD 6 0))) ∧
    (w.context.menu = BMBT_MENU_DASHBOARD →
      BMBTIBusMenuSelect k u x w pkt = keepStore w (BMBTMenuMain u w.context)) ∧
    (w.context.menu = BMBT_MENU_DEVICE_SELECTION →
      BMBTIBusMenuSelect k u x w pkt =
        keepStore w (menuSelectDevice k u x w.context (pkt.getD 6 0))) ∧
    (w.context.menu = BMBT_MENU_SETTINGS →
      BMBTIBusMenuSelect k u x w pkt =
        keepStore w (menuSelectSettings k u w.config w.context (pkt.getD 6 0))) ∧
    (w.context.menu = BMBT_MENU_SETTINGS_AUDIO →
      BMBTIBusMenuSelect k u x w pkt = BMBTSettingsUpdateAudio k u w (pkt.getD 6 0)) ∧
    (w.context.menu = BMBT_MENU_SETTINGS_COMFORT →
      BMBTIBusMenuSelect k u x w pkt = BMBTSettingsUpdateComfort k u w (pkt.getD 6 0)) ∧
    (w.context.menu = BMBT_MENU_SETTINGS_CALLING →
      BMBTIBusMenuSelect k u x w pkt = BMBTSettingsUpdateCalling k u w (pkt.getD 6 0)) ∧
    (w.context.menu = BMBT_MENU_SETTINGS_UI →
      BMBTIBusMenuSelect k u x w pkt = BMBTSettingsUpdateUI k u x w (pkt.getD 6 0)) := by
  unfold BMBTIBusMenuSelect
  rw [if_pos (And.intro hidx hdisp)]
  refine ⟨?_, ?_, ?_, ?_, ?_, ?_, ?_, ?_⟩ <;> intro hm <;> rw [hm] <;> rfl

/-- C29: `BMBTIBusMenuSelect` changes nothing and makes no call unless the line
`pkt[6]` is below 10 and `displayMode` is ON.  When it acts, the main menu goes to
the dashboard, the device selection and the settings for the lines 0, 1 and 2; the
dashboard goes to the main menu for every line; the settings menu goes to the
audio, calling, comfort and UI settings for the lines 0, 1, 2 and 3 and to the
main menu for Back, the line 7; each of the four settings sub-menus goes to the
settings menu for Back and stays for every other line. -/
theorem C29_menu_select (k : Consts) (u : UIConsts) (x : Ext) (w : BMBTWorld)
    (pkt : List Nat) :
    (¬ (pkt.getD 6 0 < 10 ∧ w.context.status.displayMode = BMBT_DISPLAY_ON) →
      BMBTIBusMenuSelect k u x w pkt = (w, [])) ∧
    (pkt.getD 6 0 < 10 → w.context.status.displayMode = BMBT_DISPLAY_ON →
      (w.context.menu = BMBT_MENU_MAIN →
        (pkt.getD 6 0 = 0 →
          (BMBTIBusMenuSelect k u x w pkt).1.context.menu = BMBT_MENU_DASHBOARD) ∧
        (pkt.getD 6 0 = 1 →
          (BMBTIBusMenuSelect k u x w pkt).1.context.menu = BMBT_MENU_DEVICE_SELECTION) ∧
        (pkt.getD 6 0 = 2 →
          (BMBTIBusMenuSelect k u x w pkt).1.context.menu = BMBT_MENU_SETTINGS)) ∧
      (w.context.menu = BMBT_MENU_DASHBOARD →
        (BMBTIBusMenuSelect k u x w pkt).1.context.menu = BMBT_MENU_MAIN) ∧
      (w.context.menu = BMBT_MENU_SETTINGS →
        (pkt.getD 6 0 = 0 →
          (BMBTIBusMenuSelect k u x w pkt).1.context.menu = BMBT_MENU_SETTINGS_AUDIO) ∧
        (pkt.getD 6 0 = 1 →
          (BMBTIBusMenuSelect k u x w pkt).1.context.menu = BMBT_MENU_SETTINGS_CALLING) ∧
        (pkt.getD 6 0 = 2 →
          (BMBTIBusMenuSelect k u x w pkt).1.context.menu = BMBT_MENU_SETTINGS_COMFORT) ∧
        (pkt.getD 6 0 = 3 →
          (BMBTIBusMenuSelect k u x w pkt).1.context.menu = BMBT_MENU_SETTINGS_UI) ∧
        (pkt.getD 6 0 = 7 →
          (BMBTIBusMenuSelect k u x w pkt).1.context.menu = BMBT_MENU_MAIN)) ∧
      (w.context.menu = BMBT_MENU_SETTINGS_AUDIO ∨ w.context.menu = BMBT_MENU_SETTINGS_COMFORT ∨
          w.context.menu = BMBT_MENU_SETTINGS_CALLING ∨
          w.context.menu = BMBT_MENU_SETTINGS_UI →
        (pkt.getD 6 0 = 7 →
          (BMBTIBusMenuSelect k u x w pkt).1.context.menu = BMBT_MENU_SETTINGS) ∧
        (pkt.getD 6 0 ≠ 7 →
          (BMBTIBusMenuSelect k u x w pkt).1.context.menu = w.context.menu))) := by
  refine ⟨fun h => ?_, fun hidx hdisp => ⟨fun hm => ?_, fun hm => ?_, fun hm => ?_, fun hm => ?_⟩⟩
  · unfold BMBTIBusMenuSelect
    rw [if_neg h]
  · rw [(BMBTIBusMenuSelect_acts k u x w pkt hidx hdisp).1 hm]
    refine ⟨fun h => ?_, fun h => ?_, fun h => ?_⟩ <;> rw [h]
    · exact (menuSelectMain_menu k u x w.context).1
    · exact (menuSelectMain_menu k u x w.context).2.1
    · exact (menuSelectMain_menu k u x w.context).2.2
  · rw [(BMBTIBusMenuSelect_acts k u x w pkt hidx hdisp).2.1 hm]
    rfl
  · rw [(BMBTIBusMenuSelect_acts k u x w pkt hidx hdisp).2.2.2.1 hm]
    refine ⟨fun h => ?_, fun h => ?_, fun h => ?_, fun h => ?_, fun h => ?_⟩ <;> rw [h]
    · exact (menuSelectSettings_menu k u w.config w.context).1
    · exact (menuSelectSettings_menu k u w.config w.context).2.1
    · exact (menuSelectSettings_menu k u w.config w.context).2.2.1
    · exact (menuSelectSettings_menu k u w.config w.context).2.2.2.1
    · exact (menuSelectSettings_menu k u w.config w.context).2.2.2.2
  · have hsub : (BMBTIBusMenuSelect k u x w pkt).1.context.menu =
        if pkt.getD 6 0 = BMBT_MENU_IDX_BACK then BMBT_MENU_SETTINGS else w.context.menu := by
      rcases hm with hm | hm | hm | hm
      · rw [(BMBTIBusMenuSelect_acts k u x w pkt hidx hdisp).2.2.2.2.1 hm]
        exact BMBTSettingsUpdateAudio_menu k u w _
      · rw [(BMBTIBusMenuSelect_acts k u x w pkt hidx hdisp).2.2.2.2.2.1 hm]
        exact BMBTSettingsUpdateComfort_menu k u w _
      · rw [(BMBTIBusMenuSelect_acts k u x w pkt hidx hdisp).2.2.2.2.2.2.1 hm]
        exact BMBTSettingsUpdateCalling_menu k u w _
      · rw [(BMBTIBusMenuSelect_acts k u x w pkt hidx hdisp).2.2.2.2.2.2.2 hm]
        exact BMBTSettingsUpdateUI_menu k u x w _
    rw [hsub]
    refine ⟨fun h => ?_, fun h => ?_⟩
    · rw [if_pos (by rw [h]; rfl)]
    · rw [if_neg (by rw [BMBT_MENU_IDX_BACK]; exact h)]

/-- C29 at a concrete input: the line 2 of the main menu leads to the settings
menu, and a selection while the display is not ON changes nothing. -/
theorem C29_menu_select_witness :
    (BMBTIBusMenuSelect hdr uhdr extSample
        ⟨{ bmbtActive with menu := BMBT_MENU_MAIN }, configHandsfree⟩
        (pktMenuSelect 2)).1.context.menu = BMBT_MENU_SETTINGS ∧
    (BMBTIBusMenuSelect hdr uhdr extSample
        ⟨{ bmbtActive with
            menu := BMBT_MENU_MAIN
            status := { bmbtActive.status with displayMode := BMBT_DISPLAY_OFF } },
          configHandsfree⟩
        (pktMenuSelect 2)).2 = [] :=
  ⟨(((C29_menu_select hdr uhdr extSample
        ⟨{ bmbtActive with menu := BMBT_MENU_MAIN }, configHandsfree⟩
        (pktMenuSelect 2)).2 (by decide) rfl).1 rfl).2.2 rfl,
   congrArg Prod.snd ((C29_menu_select hdr uhdr extSample
        ⟨{ bmbtActive with
            menu := BMBT_MENU_MAIN
            status := { bmbtActive.status with displayMode := BMBT_DISPLAY_OFF } },
          configHandsfree⟩
        (pktMenuSelect 2)).1 (by decide))⟩

/-! ## Seek followed by start playing -/

/-- With the eight command codes distinct, a SEEK request runs the seek branch. -/
theorem cdcDispatch_seek (k : Consts) (ConfigGetSetting : Nat → Nat)
    (context : HandlerContext_t) (pkt : List Nat) (hk : k.cdcCommands.Nodup)
    (hcmd : pkt.getD 4 0 = k.IBUS_CDC_CMD_SEEK) :
    cdcDispatch k ConfigGetSetting context pkt = cdcSeek k pkt := by
  simp only [cdcDispatch]
  generalize pkt.getD 4 0 = cmd at hcmd
  subst hcmd
  simp only [Consts.cdcCommands, List.nodup_cons, List.mem_cons, List.mem_singleton,
    List.not_mem_nil, not_or, or_false, not_false_eq_true, List.nodup_nil, and_true] at hk
  obtain ⟨⟨-, -, g3, -, -, -, -⟩, ⟨-, s3, -, -, -, -⟩, ⟨t3, -, -, -, -⟩, -⟩ := hk
  simp only [Ne.symm g3, Ne.symm s3, Ne.symm t3, if_false, if_true]

/-- With the eight command codes distinct, a START_PLAYING request runs the
start-playing branch. -/
theorem cdcDispatch_startPlaying (k : Consts) (ConfigGetSetting : Nat → Nat)
    (context : HandlerContext_t) (pkt : List Nat) (hk : k.cdcCommands.Nodup)
    (hcmd : pkt.getD 4 0 = k.IBUS_CDC_CMD_START_PLAYING) :
    cdcDispatch k ConfigGetSetting context pkt = cdcStartPlaying k ConfigGetSetting context := by
  simp only [cdcDispatch]
  generalize pkt.getD 4 0 = cmd at hcmd
  subst hcmd
  simp only [Consts.cdcCommands, List.nodup_cons, List.mem_cons, List.mem_singleton,
    List.not_mem_nil, not_or, or_false, not_false_eq_true, List.nodup_nil, and_true] at hk
  obtain ⟨⟨-, -, -, -, -, -, g7⟩, ⟨-, -, -, -, -, s7⟩, ⟨-, -, -, -, t7⟩,
    ⟨-, -, -, e7⟩, ⟨-, -, c7⟩, ⟨-, r7⟩, p7⟩ := hk
  simp only [Ne.symm g7, Ne.symm s7, Ne.symm t7, Ne.symm e7, Ne.symm c7, Ne.symm r7,
    Ne.symm p7, if_false, if_true]

/-- C30: with the eight command codes distinct, for every direction byte `pkt[5]`
of a SEEK request, the SEEK request followed by a START_PLAYING request makes two
Bluetooth calls, the seek press and then the seek release of the same direction,
backward when the byte is 0x00 and forward otherwise, and leaves the seek mode
NONE; the Bluetooth and bus objects and the settings may change in between. -/
theorem C30_seek_then_start (k : Consts) (x : Ext) (context : HandlerContext_t)
    (env1 env2 : Env) (p1 p2 : List Nat) (hk : k.cdcCommands.Nodup)
    (hseek : p1.getD 4 0 = k.IBUS_CDC_CMD_SEEK)
    (hstart : p2.getD 4 0 = k.IBUS_CDC_CMD_START_PLAYING) :
    (run k x context [(env1, Event.IBusCDStatusRequest p1),
        (env2, Event.IBusCDStatusRequest p2)]).2.map (List.filter Call.isBC127) =
      (if p1.getD 5 0 = 0x00 then
        [[Call.BC127CommandBackwardSeekPress], [Call.BC127CommandBackwardSeekRelease]]
       else
        [[Call.BC127CommandForwardSeekPress], [Call.BC127CommandForwardSeekRelease]]) ∧
    (run k x context [(env1, Event.IBusCDStatusRequest p1),
        (env2, Event.IBusCDStatusRequest p2)]).1.seekMode = HANDLER_CDC_SEEK_MODE_NONE := by
  simp only [run, step, keepConfig, List.map_cons, List.map_nil,
    bc127_HandlerIBusCDCStatus]
  rw [cdcDispatch_seek k _ _ p1 hk hseek, cdcDispatch_startPlaying k _ _ p2 hk hstart]
  simp only [HandlerIBusCDCStatus]
  rw [cdcDispatch_seek k _ _ p1 hk hseek, cdcDispatch_startPlaying k _ _ p2 hk hstart]
  simp only [cdcSeek, cdcStartPlaying]
  by_cases hd : p1.getD 5 0 = 0x00
  · simp only [hd, if_true, HANDLER_CDC_SEEK_MODE_REV, HANDLER_CDC_SEEK_MODE_FWD,
      HANDLER_CDC_SEEK_MODE_NONE]
    split_ifs <;> simp_all [Call.isBC127]
  · simp only [hd, if_false, HANDLER_CDC_SEEK_MODE_REV, HANDLER_CDC_SEEK_MODE_FWD,
      HANDLER_CDC_SEEK_MODE_NONE]
    split_ifs <;> simp_all [Call.isBC127]

/-- C30 at a concrete input: a backward seek followed by start playing. -/
theorem C30_seek_then_start_witness :
    (run hdr extSample (initContext btLinked ⟨1, 9, 255, 0, 0⟩ 2 0)
        [(envIgnitionOn, Event.IBusCDStatusRequest (pktCDCRequest 0x04 0x00)),
         (envIgnitionOn, Event.IBusCDStatusRequest (pktCDCRequest 0x03 0x00))]).2.map
          (List.filter Call.isBC127) =
      [[Call.BC127CommandBackwardSeekPress], [Call.BC127CommandBackwardSeekRelease]] ∧
    (run hdr extSample (initContext btLinked ⟨1, 9, 255, 0, 0⟩ 2 0)
        [(envIgnitionOn, Event.IBusCDStatusRequest (pktCDCRequest 0x04 0x00)),
         (envIgnitionOn, Event.IBusCDStatusRequest (pktCDCRequest 0x03 0x00))]).1.seekMode =
      HANDLER_CDC_SEEK_MODE_NONE :=
  C30_seek_then_start hdr extSample (initContext btLinked ⟨1, 9, 255, 0, 0⟩ 2 0)
    envIgnitionOn envIgnitionOn (pktCDCRequest 0x04 0x00) (pktCDCRequest 0x03 0x00)
    (by decide) rfl rfl

/-! ## Board-monitor controller: the marquee -/

/-- The title text of `BMBTGTWriteTitle` is the text it is given. -/
theorem titleTexts_BMBTGTWriteTitle (u : UIConsts) (context : BMBTContext_t) (text : String) :
    titleTexts (BMBTGTWriteTitle u context text) = [text] := by
  unfold BMBTGTWriteTitle
  split_ifs <;> rfl

/-- Lists of one element each, put together, are the list of the elements. -/
theorem flatten_map_singleton {α β : Type} (f : α → β) (l : List α) :
    (l.map fun a => [f a]).flatten = l.map f := by
  induction l with
  | nil => rfl
  | cons a l ih => simp [List.flatten_cons, ih]

/-- Ticks of the marquee task after ticks. -/
theorem scrollRun_add (k : Consts) (u : UIConsts) (config : Config_t) (m n : Nat) :
    ∀ context : BMBTContext_t,
      scrollRun k u config context (m + n) =
        ((scrollRun k u config (scrollRun k u config context m).1 n).1,
         (scrollRun k u config context m).2 ++
           (scrollRun k u config (scrollRun k u config context m).1 n).2) := by
  induction m with
  | zero => intro context; simp [scrollRun]
  | succ m ih =>
    intro context
    rw [Nat.add_right_comm]
    simp only [scrollRun, ih, List.cons_append]

/-- While the marquee waits, a tick writes nothing and counts the wait down. -/
theorem scrollRun_wait (k : Consts) (u : UIConsts) (config : Config_t)
    (context : BMBTContext_t) (index : Nat)
    (hplayer : context.status.playerMode = BMBT_MODE_ACTIVE)
    (hdisplay : context.status.displayMode = BMBT_DISPLAY_ON)
    (hmode : ConfigGetSetting config u.CONFIG_SETTING_METADATA_MODE ≠ k.CONFIG_SETTING_OFF)
    (t : Nat) :
    scrollRun k u config (marqueeAt context index t) t =
      (marqueeAt context index 0, List.replicate t []) := by
  induction t with
  | zero => rfl
  | succ t ih =>
    have hstep : BMBTTimerScrollDisplay k u config (marqueeAt context index ((t + 1 : Nat) : Int)) =
        (marqueeAt context index (t : Int), []) := by
      have hpos : ((t + 1 : Nat) : Int) > 0 := by omega
      simp only [BMBTTimerScrollDisplay, marqueeAt, hplayer, hdisplay, hmode, ne_eq,
        not_false_eq_true, and_self, if_true, hpos]
      simp
    simp only [scrollRun, hstep, ih, List.replicate_succ]


/-- The first tick of the marquee in Party mode on a text longer than 9: the window
at 0 is written, the wait is set to 5 and the index goes to 1. -/
theorem scroll_first (k : Consts) (u : UIConsts) (config : Config_t) (context : BMBTContext_t)
    (hplayer : context.status.playerMode = BMBT_MODE_ACTIVE)
    (hdisplay : context.status.displayMode = BMBT_DISPLAY_ON)
    (hparty : ConfigGetSetting config u.CONFIG_SETTING_METADATA_MODE = BMBT_METADATA_MODE_PARTY)
    (hoff : k.CONFIG_SETTING_OFF ≠ BMBT_METADATA_MODE_PARTY)
    (hlen : 9 < context.mainDisplay.length) :
    BMBTTimerScrollDisplay k u config (marqueeAt context 0 0) =
      (marqueeAt context 1 5, BMBTGTWriteTitle u context (displayWindow context.mainDisplay.text 0))
    := by
  have hmode : ConfigGetSetting config u.CONFIG_SETTING_METADATA_MODE ≠ k.CONFIG_SETTING_OFF := by
    rw [hparty]; exact Ne.symm hoff
  have hchunk : ¬ ConfigGetSetting config u.CONFIG_SETTING_METADATA_MODE =
      BMBT_METADATA_MODE_CHUNK := by
    rw [hparty]; decide
  have hend : ¬ ((0 + 9) % 256 ≥ context.mainDisplay.length) := by omega
  have hto : ¬ ((0 : Int) > 0) := by decide
  simp only [BMBTTimerScrollDisplay, marqueeAt, hplayer, hdisplay, hmode, ne_eq,
    not_false_eq_true, and_self, if_true, hto, if_false, hlen, gt_iff_lt, hend, hchunk]
  rfl

/-- A tick of the marquee in Party mode at an index past 0 whose window ends before
the end of the text: the window is written and the index goes up by one. -/
theorem scroll_next (k : Consts) (u : UIConsts) (config : Config_t) (context : BMBTContext_t)
    (hplayer : context.status.playerMode = BMBT_MODE_ACTIVE)
    (hdisplay : context.status.displayMode = BMBT_DISPLAY_ON)
    (hparty : ConfigGetSetting config u.CONFIG_SETTING_METADATA_MODE = BMBT_METADATA_MODE_PARTY)
    (hoff : k.CONFIG_SETTING_OFF ≠ BMBT_METADATA_MODE_PARTY)
    (index : Nat) (hpos : 0 < index)
    (hin : index + 9 < context.mainDisplay.length) (hmax : context.mainDisplay.length ≤ 255) :
    BMBTTimerScrollDisplay k u config (marqueeAt context index 0) =
      (marqueeAt context (index + 1) 0,
       BMBTGTWriteTitle u context (displayWindow context.mainDisplay.text index)) := by
  have hmode : ConfigGetSetting config u.CONFIG_SETTING_METADATA_MODE ≠ k.CONFIG_SETTING_OFF := by
    rw [hparty]; exact Ne.symm hoff
  have hchunk : ¬ ConfigGetSetting config u.CONFIG_SETTING_METADATA_MODE =
      BMBT_METADATA_MODE_CHUNK := by
    rw [hparty]; decide
  have hend : ¬ ((index + 9) % 256 ≥ context.mainDisplay.length) := by omega
  have hlen : 9 < context.mainDisplay.length := by omega
  have hto : ¬ ((0 : Int) > 0) := by decide
  have hidx : ¬ index = 0 := by omega
  have hmod : (index + 1) % 256 = index + 1 := by omega
  simp only [BMBTTimerScrollDisplay, marqueeAt, hplayer, hdisplay, hmode, ne_eq,
    not_false_eq_true, and_self, if_true, hto, if_false, hlen, gt_iff_lt, hend, hchunk, hidx,
    hmod]
  rfl

/-- A tick of the marquee at an index whose window ends at the end of the text: the
window is written, the wait is set to 2 and the index goes back to 0. -/
theorem scroll_last (k : Consts) (u : UIConsts) (config : Config_t) (context : BMBTContext_t)
    (hplayer : context.status.playerMode = BMBT_MODE_ACTIVE)
    (hdisplay : context.status.displayMode = BMBT_DISPLAY_ON)
    (hparty : ConfigGetSetting config u.CONFIG_SETTING_METADATA_MODE = BMBT_METADATA_MODE_PARTY)
    (hoff : k.CONFIG_SETTING_OFF ≠ BMBT_METADATA_MODE_PARTY)
    (index : Nat) (hlen : 9 < context.mainDisplay.length)
    (hin : index + 9 = context.mainDisplay.length) (hmax : context.mainDisplay.length ≤ 255) :
    BMBTTimerScrollDisplay k u config (marqueeAt context index 0) =
      (marqueeAt context 0 2,
       BMBTGTWriteTitle u context (displayWindow context.mainDisplay.text index)) := by
  have hmode : ConfigGetSetting config u.CONFIG_SETTING_METADATA_MODE ≠ k.CONFIG_SETTING_OFF := by
    rw [hparty]; exact Ne.symm hoff
  have hend : (index + 9) % 256 ≥ context.mainDisplay.length := by omega
  have hto : ¬ ((0 : Int) > 0) := by decide
  simp only [BMBTTimerScrollDisplay, marqueeAt, hplayer, hdisplay, hmode, ne_eq,
    not_false_eq_true, and_self, if_true, hto, if_false, hlen, gt_iff_lt, hend]
  rfl

/-- The ticks of the marquee from an index past 0 to the end of the text: the
windows from that index to the last one are written, one on each tick. -/
theorem scrollRun_windows (k : Consts) (u : UIConsts) (config : Config_t)
    (context : BMBTContext_t)
    (hplayer : context.status.playerMode = BMBT_MODE_ACTIVE)
    (hdisplay : context.status.displayMode = BMBT_DISPLAY_ON)
    (hparty : ConfigGetSetting config u.CONFIG_SETTING_METADATA_MODE = BMBT_METADATA_MODE_PARTY)
    (hoff : k.CONFIG_SETTING_OFF ≠ BMBT_METADATA_MODE_PARTY)
    (hmax : context.mainDisplay.length ≤ 255) (n : Nat) :
    ∀ index, 0 < index → index + n + 9 = context.mainDisplay.length →
      scrollRun k u config (marqueeAt context index 0) (n + 1) =
        (marqueeAt context 0 2,
         (List.range' index (n + 1)).map fun i =>
           BMBTGTWriteTitle u context (displayWindow context.mainDisplay.text i)) := by
  induction n with
  | zero =>
    intro index hpos hin
    have h := scroll_last k u config context hplayer hdisplay hparty hoff index (by omega)
      (by omega) hmax
    simp only [scrollRun, h]
    rfl
  | succ n ih =>
    intro index hpos hin
    have h := scroll_next k u config context hplayer hdisplay hparty hoff index hpos
      (by omega) hmax
    have hrest := ih (index + 1) (by omega) (by omega)
    rw [scrollRun, h]
    simp only [hrest]
    rfl

/-- One round of the marquee in Party mode on a text of length L with 9 < L ≤ 255,
from the index 0 with no wait: the window at 0, five ticks of wait, the windows at
1 to L - 9, and two ticks of wait; the context is then as at the start. -/
theorem scrollRun_round (k : Consts) (u : UIConsts) (config : Config_t)
    (context : BMBTContext_t)
    (hplayer : context.status.playerMode = BMBT_MODE_ACTIVE)
    (hdisplay : context.status.displayMode = BMBT_DISPLAY_ON)
    (hparty : ConfigGetSetting config u.CONFIG_SETTING_METADATA_MODE = BMBT_METADATA_MODE_PARTY)
    (hoff : k.CONFIG_SETTING_OFF ≠ BMBT_METADATA_MODE_PARTY)
    (hlen : 9 < context.mainDisplay.length) (hmax : context.mainDisplay.length ≤ 255) :
    scrollRun k u config (marqueeAt context 0 0)
        (1 + (5 + ((context.mainDisplay.length - 9) + 2))) =
      (marqueeAt context 0 0,
       [BMBTGTWriteTitle u context (displayWindow context.mainDisplay.text 0)] ++
       (List.replicate 5 [] ++
       (((List.range' 1 (context.mainDisplay.length - 9)).map fun i =>
           BMBTGTWriteTitle u context (displayWindow context.mainDisplay.text i)) ++
       List.replicate 2 []))) := by
  have hmode : ConfigGetSetting config u.CONFIG_SETTING_METADATA_MODE ≠ k.CONFIG_SETTING_OFF := by
    rw [hparty]; exact Ne.symm hoff
  obtain ⟨n, hn⟩ : ∃ n, context.mainDisplay.length - 9 = n + 1 :=
    ⟨context.mainDisplay.length - 10, by omega⟩
  have h1 : scrollRun k u config (marqueeAt context 0 0) 1 =
      (marqueeAt context 1 5,
       [BMBTGTWriteTitle u context (displayWindow context.mainDisplay.text 0)]) := by
    simp only [scrollRun, scroll_first k u config context hplayer hdisplay hparty hoff hlen]
  have h2 : scrollRun k u config (marqueeAt context 1 5) 5 =
      (marqueeAt context 1 0, List.replicate 5 []) :=
    scrollRun_wait k u config context 1 hplayer hdisplay hmode 5
  have h3 := scrollRun_windows k u config context hplayer hdisplay hparty hoff hmax n 1
    (by omega) (by omega)
  have h4 : scrollRun k u config (marqueeAt context 0 2) 2 =
      (marqueeAt context 0 0, List.replicate 2 []) :=
    scrollRun_wait k u config context 0 hplayer hdisplay hmode 2
  rw [scrollRun_add, h1]
  simp only []
  rw [scrollRun_add, h2]
  simp only []
  rw [hn, scrollRun_add, h3]
  simp only []
  rw [h4]


/-- C31: with the controller active, the display owned and the metadata mode Party,
for a marquee text of length L with 9 < L ≤ 255, from the index 0 with no wait, the
first L - 1 ticks of `BMBTTimerScrollDisplay` write to the title field: the window
at 0, nothing for five ticks, the windows at 1, 2, ..., L - 9, one on each tick,
and nothing for two ticks, after which the context is as at the start, the index 0
again.  Each of these windows is the 9 characters of the text from its index on.
A tick writes nothing and leaves the context as it is when the controller is not
active, when the display is not owned, or when the metadata mode is Off. -/
theorem C31_marquee (k : Consts) (u : UIConsts) (config : Config_t) (context : BMBTContext_t)
    (hplayer : context.status.playerMode = BMBT_MODE_ACTIVE)
    (hdisplay : context.status.displayMode = BMBT_DISPLAY_ON)
    (hparty : ConfigGetSetting config u.CONFIG_SETTING_METADATA_MODE = BMBT_METADATA_MODE_PARTY)
    (hoff : k.CONFIG_SETTING_OFF ≠ BMBT_METADATA_MODE_PARTY)
    (htext : context.mainDisplay.length = context.mainDisplay.text.length)
    (hlen : 9 < context.mainDisplay.length) (hmax : context.mainDisplay.length ≤ 255)
    (hindex : context.mainDisplay.index = 0) (htimeout : context.mainDisplay.timeout = 0) :
    (scrollRun k u config context (context.mainDisplay.length - 1)).2.map titleTexts =
      [[displayWindow context.mainDisplay.text 0]] ++
      (List.replicate 5 [] ++
      (((List.range' 1 (context.mainDisplay.length - 9)).map fun i =>
          [displayWindow context.mainDisplay.text i]) ++
      List.replicate 2 [])) ∧
    ((scrollRun k u config context (context.mainDisplay.length - 1)).2.map titleTexts).flatten =
      (List.range' 0 (context.mainDisplay.length - 8)).map
        (displayWindow context.mainDisplay.text) ∧
    (scrollRun k u config context (context.mainDisplay.length - 1)).1 = context ∧
    (∀ i, i ≤ context.mainDisplay.length - 9 →
      (displayWindow context.mainDisplay.text i).data =
        (context.mainDisplay.text.data.drop i).take 9 ∧
      (displayWindow context.mainDisplay.text i).length = 9) ∧
    (∀ (c : BMBTContext_t) (store : Config_t),
      c.status.playerMode ≠ BMBT_MODE_ACTIVE ∨ c.status.displayMode ≠ BMBT_DISPLAY_ON ∨
        ConfigGetSetting store u.CONFIG_SETTING_METADATA_MODE = k.CONFIG_SETTING_OFF →
      BMBTTimerScrollDisplay k u store c = (c, [])) := by
  have hctx : context = marqueeAt context 0 0 := by
    cases context with
    | mk bt ibus menu status writtenIndices timerHeaderIntervals timerMenuIntervals
        displayUpdateTaskId headerWriteTaskId menuWriteTaskId mainDisplay =>
      cases mainDisplay
      simp only at hindex htimeout
      simp only [marqueeAt, hindex, htimeout]
  have hticks : context.mainDisplay.length - 1 =
      1 + (5 + ((context.mainDisplay.length - 9) + 2)) := by omega
  have hround := scrollRun_round k u config context hplayer hdisplay hparty hoff hlen hmax
  rw [← hctx] at hround
  have hcalls : (scrollRun k u config context (context.mainDisplay.length - 1)).2.map
      titleTexts =
      [[displayWindow context.mainDisplay.text 0]] ++
      (List.replicate 5 [] ++
      (((List.range' 1 (context.mainDisplay.length - 9)).map fun i =>
          [displayWindow context.mainDisplay.text i]) ++
      List.replicate 2 [])) := by
    rw [hticks, hround]
    have hnil : titleTexts [] = [] := rfl
    simp only [List.map_append, List.map_cons, List.map_nil, List.map_replicate,
      List.map_map, titleTexts_BMBTGTWriteTitle, Function.comp_def, hnil]
  refine ⟨hcalls, ?_, ?_, fun i hi => ⟨rfl, ?_⟩, fun c store hc => ?_⟩
  · rw [hcalls]
    obtain ⟨n, hn⟩ : ∃ n, context.mainDisplay.length - 9 = n + 1 :=
      ⟨context.mainDisplay.length - 10, by omega⟩
    have h8 : context.mainDisplay.length - 8 = (n + 1) + 1 := by omega
    rw [hn, h8, List.range'_succ 0 (n + 1)]
    simp only [List.flatten_append, List.flatten_replicate_nil, flatten_map_singleton,
      List.append_nil, List.nil_append, List.map_cons, List.flatten_cons, List.flatten_nil,
      List.cons_append, zero_add]
  · rw [hticks, hround]
  · show ((context.mainDisplay.text.data.drop i).take (9 - 0)).length = 9
    have hL : context.mainDisplay.text.data.length = context.mainDisplay.length := by
      rw [htext]; rfl
    rw [List.length_take, List.length_drop, hL]
    omega
  · simp only [BMBTTimerScrollDisplay]
    rw [if_neg]
    rintro ⟨h1, h2, h3⟩
    rcases hc with h | h | h
    · exact h h1
    · exact h h2
    · exact h3 h

/-- C31 at a concrete input: the text "Artist - Song" of 13 characters.  The twelve
ticks of a round write its five windows, with five idle ticks after the first and
two after the last. -/
theorem C31_marquee_witness :
    (scrollRun hdr uhdr configParty bmbtMarquee 12).2.map titleTexts =
      [["Artist - "], [], [], [], [], [], ["rtist - S"], ["tist - So"], ["ist - Son"],
       ["st - Song"], [], []] ∧
    (scrollRun hdr uhdr configParty bmbtMarquee 12).1 = bmbtMarquee :=
  ⟨(C31_marquee hdr uhdr configParty bmbtMarquee rfl rfl rfl (by decide) rfl (by decide)
      (by decide) rfl rfl).1,
   (C31_marquee hdr uhdr configParty bmbtMarquee rfl rfl rfl (by decide) rfl (by decide)
      (by decide) rfl rfl).2.2.1⟩

/-! ## Board-monitor controller: the count of written lines -/

/-- The blanking loop, given rounds enough, ends with `idx` at the larger of its
start and `writtenIndices`, and makes the writes of `blankIndices`. -/
theorem blankLoop_eq (writtenIndices : Nat) (hw : writtenIndices < 256) :
    ∀ fuel idx, writtenIndices - idx ≤ fuel →
      blankLoop fuel idx writtenIndices =
        (max idx writtenIndices, blankIndices idx writtenIndices) := by
  intro fuel
  induction fuel with
  | zero =>
    intro idx h
    have h0 : writtenIndices - idx = 0 := by omega
    simp only [blankLoop, blankIndices, h0, List.range'_zero, List.map_nil]
    congr 1
    omega
  | succ fuel ih =>
    intro idx h
    by_cases hlt : idx < writtenIndices
    · have hmod : (idx + 1) % 256 = idx + 1 := by omega
      obtain ⟨n, hn⟩ : ∃ n, writtenIndices - idx = n + 1 := ⟨writtenIndices - idx - 1, by omega⟩
      have hn1 : writtenIndices - (idx + 1) = n := by omega
      simp only [blankLoop, if_pos hlt, hmod, ih (idx + 1) (by omega), blankIndices, hn, hn1,
        List.range'_succ, List.map_cons]
      congr 1
      omega
    · have h0 : writtenIndices - idx = 0 := by omega
      simp only [blankLoop, if_neg hlt, blankIndices, h0, List.range'_zero, List.map_nil]
      congr 1
      omega

/-- C32: `BMBTMenuMain` leaves `writtenIndices` 3 and `BMBTMenuDeviceSelection`
leaves it 2 + pairedDevicesCount, whatever it was before.  `BMBTMenuSettings` and
the four draws of the settings sub-menus store the loop variable of their blanking
loop: `BMBTMenuSettings` leaves the larger of 4 and the value before, the audio and
the comfort draw the larger of 3 and the value before, the calling draw the larger
of 5 and the value before, and the UI draw the larger of 2 and the value before:
the value the loop variable has when the loop ends.  So after the calling draw,
which fills four lines, the value is at least 5, and a draw of the settings menu
with 5 written before leaves 5, not 4. -/
theorem C32_written_indices (k : Consts) (u : UIConsts) (x : Ext) (config : Config_t)
    (context : BMBTContext_t) (hcount : context.bt.pairedDevicesCount < 254)
    (hwritten : context.writtenIndices < 256) :
    (∀ idx, blankLoop context.writtenIndices idx context.writtenIndices =
      (max idx context.writtenIndices, blankIndices idx context.writtenIndices)) ∧
    (BMBTMenuMain u context).1.writtenIndices = 3 ∧
    (BMBTMenuDeviceSelection k u x context).1.writtenIndices =
      2 + context.bt.pairedDevicesCount ∧
    (BMBTMenuSettings u context).1.writtenIndices = max 4 context.writtenIndices ∧
    (BMBTMenuSettingsAudio k u config context).1.writtenIndices =
      max 3 context.writtenIndices ∧
    (BMBTMenuSettingsComfort k u config context).1.writtenIndices =
      max 3 context.writtenIndices ∧
    (BMBTMenuSettingsCalling k u config context).1.writtenIndices =
      max 5 context.writtenIndices ∧
    (BMBTMenuSettingsUI k u config context).1.writtenIndices = max 2 context.writtenIndices ∧
    (BMBTMenuSettings u (BMBTMenuSettingsCalling k u config context).1).1.writtenIndices ≠ 4
    := by
  have hmod : (2 + context.bt.pairedDevicesCount) % 256 = 2 + context.bt.pairedDevicesCount := by
    omega
  refine ⟨fun idx => blankLoop_eq _ hwritten _ idx (Nat.sub_le _ _),
    rfl, ?_, rfl, rfl, rfl, rfl, rfl, ?_⟩
  · show (2 + context.bt.pairedDevicesCount) % 256 = _
    exact hmod
  · show max 4 (max 5 context.writtenIndices) ≠ 4
    omega

/-- C32 at a concrete input: from the main menu with 3 lines written, the lines
Settings, Calling and Back are selected one after the other.  The calling draw
leaves `writtenIndices` 5, and the draw of the settings menu that follows leaves 5. -/
theorem C32_written_indices_witness :
    (BMBTMenuSettingsCalling hdr uhdr configHandsfree
      { bmbtActive with menu := BMBT_MENU_SETTINGS, writtenIndices := 4 }).1.writtenIndices = 5 ∧
    (BMBTMenuSettings uhdr
      { bmbtActive with menu := BMBT_MENU_SETTINGS_CALLING, writtenIndices := 5 }).1.writtenIndices
      = 5 ∧
    ((BMBTIBusMenuSelect hdr uhdr extSample
      (BMBTIBusMenuSelect hdr uhdr extSample
        (BMBTIBusMenuSelect hdr uhdr extSample
          ⟨{ bmbtActive with menu := BMBT_MENU_MAIN }, configHandsfree⟩
          (pktMenuSelect 2)).1
        (pktMenuSelect 1)).1
      (pktMenuSelect 7)).1.context.menu,
     (BMBTIBusMenuSelect hdr uhdr extSample
      (BMBTIBusMenuSelect hdr uhdr extSample
        (BMBTIBusMenuSelect hdr uhdr extSample
          ⟨{ bmbtActive with menu := BMBT_MENU_MAIN }, configHandsfree⟩
          (pktMenuSelect 2)).1
        (pktMenuSelect 1)).1
      (pktMenuSelect 7)).1.context.writtenIndices) = (BMBT_MENU_SETTINGS, 5) :=
  ⟨(C32_written_indices hdr uhdr extSample configHandsfree
      { bmbtActive with menu := BMBT_MENU_SETTINGS, writtenIndices := 4 } (by decide)
      (by decide)).2.2.2.2.2.2.1,
   (C32_written_indices hdr uhdr extSample configHandsfree
      { bmbtActive with menu := BMBT_MENU_SETTINGS_CALLING, writtenIndices := 5 }
      (by decide) (by decide)).2.2.2.1,
   by decide⟩

/-! ## Comfort blinkers: the first terminate call -/

/-- A one-sided run continued from blinker state DRV or PSG, with the configured
count up to 254: the counter goes up by one on each message until it has reached
the configured count and then stays; the messages before make no call and the
others make the terminate call; the state stays latched. -/
theorem lightStatusRun_latched (k : Consts) (ConfigGetSetting : Nat → Nat) (own other : Nat)
    (hN : ConfigGetSetting k.CONFIG_SETTING_COMFORT_BLINKERS > 0x01 ∧
      ConfigGetSetting k.CONFIG_SETTING_COMFORT_BLINKERS ≤ 254)
    (pkts : List (List Nat))
    (hbits : ∀ pkt ∈ pkts, CHECK_BIT (pkt.getD 4 0) own ≠ 0 ∧ CHECK_BIT (pkt.getD 4 0) other = 0) :
    ∀ (d : Nat) (context : HandlerContext_t),
      context.blinkerCount + d = ConfigGetSetting k.CONFIG_SETTING_COMFORT_BLINKERS →
      ((context.blinkerStatus = HANDLER_BLINKER_DRV ∧ own = k.IBUS_LCM_DRV_SIG_BIT ∧
          other = k.IBUS_LCM_PSG_SIG_BIT) ∨
        (context.blinkerStatus = HANDLER_BLINKER_PSG ∧ own = k.IBUS_LCM_PSG_SIG_BIT ∧
          other = k.IBUS_LCM_DRV_SIG_BIT)) →
      lightStatusRun k ConfigGetSetting context pkts =
        ({ context with blinkerCount := context.blinkerCount + min d pkts.length },
         List.replicate (min d pkts.length) [] ++
         List.replicate (pkts.length - d) [Call.IBusCommandDIATerminateDiag k.IBUS_DEVICE_LCM]) := by
  induction pkts with
  | nil => intro d context _ _; simp [lightStatusRun]
  | cons pkt pkts ih =>
    intro d context hd hside
    have hb := hbits pkt (List.mem_cons_self _ _)
    have hrest : ∀ p ∈ pkts, CHECK_BIT (p.getD 4 0) own ≠ 0 ∧ CHECK_BIT (p.getD 4 0) other = 0 :=
      fun p hp => hbits p (List.mem_cons_of_mem _ hp)
    have hact := lightStatus_active k ConfigGetSetting context pkt own other
      ⟨hN.1, by omega⟩ hside
    simp only [lightStatusRun, hact]
    cases d with
    | zero =>
      have hc : context.blinkerCount = ConfigGetSetting k.CONFIG_SETTING_COMFORT_BLINKERS := by
        omega
      have hstep := blinkerActiveStep_latched k context (pkt.getD 4 0)
        (ConfigGetSetting k.CONFIG_SETTING_COMFORT_BLINKERS) own other hc hb.1
      rw [hstep, ih hrest 0 context (by omega) hside]
      simp [List.replicate_succ]
    | succ d =>
      have hc : context.blinkerCount ≠ ConfigGetSetting k.CONFIG_SETTING_COMFORT_BLINKERS := by
        omega
      have hstep := blinkerActiveStep_counting k context (pkt.getD 4 0)
        (ConfigGetSetting k.CONFIG_SETTING_COMFORT_BLINKERS) own other hc hb.2 (by omega)
      rw [hstep, ih hrest d { context with blinkerCount := context.blinkerCount + 1 }
        (by show context.blinkerCount + 1 + d = _; omega) hside]
      simp [List.length_cons, Nat.succ_min_succ, List.replicate_succ]
      omega


/-- A one-sided run started in blinker state OFF, with the configured count up to
254: the first message makes the enable-blinker call and latches the state with
the counter at 2, and the run goes on as a latched run. -/
theorem lightStatusRun_off_latched (k : Consts) (ConfigGetSetting : Nat → Nat)
    (own other side blinker : Nat)
    (hN : ConfigGetSetting k.CONFIG_SETTING_COMFORT_BLINKERS > 0x01 ∧
      ConfigGetSetting k.CONFIG_SETTING_COMFORT_BLINKERS ≤ 254)
    (context : HandlerContext_t) (hoff : context.blinkerStatus = HANDLER_BLINKER_OFF)
    (pkt : List Nat) (pkts : List (List Nat))
    (hbits : ∀ p ∈ pkt :: pkts,
      CHECK_BIT (p.getD 4 0) own ≠ 0 ∧ CHECK_BIT (p.getD 4 0) other = 0)
    (hside : (own = k.IBUS_LCM_DRV_SIG_BIT ∧ other = k.IBUS_LCM_PSG_SIG_BIT ∧
        side = HANDLER_BLINKER_DRV ∧ blinker = k.IBUS_LCM_BLINKER_DRV) ∨
      (own = k.IBUS_LCM_PSG_SIG_BIT ∧ other = k.IBUS_LCM_DRV_SIG_BIT ∧
        side = HANDLER_BLINKER_PSG ∧ blinker = k.IBUS_LCM_BLINKER_PSG)) :
    lightStatusRun k ConfigGetSetting context (pkt :: pkts) =
      ({ context with
          blinkerCount :=
            2 + min (ConfigGetSetting k.CONFIG_SETTING_COMFORT_BLINKERS - 2) pkts.length
          blinkerStatus := side },
       [Call.IBusCommandLCMEnableBlinker blinker] ::
        (List.replicate (min (ConfigGetSetting k.CONFIG_SETTING_COMFORT_BLINKERS - 2) pkts.length) []
          ++ List.replicate (pkts.length - (ConfigGetSetting k.CONFIG_SETTING_COMFORT_BLINKERS - 2))
            [Call.IBusCommandDIATerminateDiag k.IBUS_DEVICE_LCM])) := by
  have hb := hbits pkt (List.mem_cons_self _ _)
  have hrest : ∀ p ∈ pkts, CHECK_BIT (p.getD 4 0) own ≠ 0 ∧ CHECK_BIT (p.getD 4 0) other = 0 :=
    fun p hp => hbits p (List.mem_cons_of_mem _ hp)
  have hguard : ConfigGetSetting k.CONFIG_SETTING_COMFORT_BLINKERS > 0x01 ∧
      ConfigGetSetting k.CONFIG_SETTING_COMFORT_BLINKERS ≠ 0xFF := ⟨hN.1, by omega⟩
  simp only [lightStatusRun, HandlerIBusLCMLightStatus]
  rw [if_pos hguard, if_pos hoff]
  rcases hside with ⟨rfl, rfl, rfl, rfl⟩ | ⟨rfl, rfl, rfl, rfl⟩
  · have hstep := blinkerOffStep_driver k context (pkt.getD 4 0) hb.1 hb.2
    rw [hstep, lightStatusRun_latched k ConfigGetSetting _ _ hN pkts hrest
      (ConfigGetSetting k.CONFIG_SETTING_COMFORT_BLINKERS - 2)
      { context with blinkerCount := 2, blinkerStatus := HANDLER_BLINKER_DRV }
      (by show 2 + _ = _; omega) (Or.inl ⟨rfl, rfl, rfl⟩)]
  · have hstep := blinkerOffStep_passenger k context (pkt.getD 4 0) hb.1 hb.2
    rw [hstep, lightStatusRun_latched k ConfigGetSetting _ _ hN pkts hrest
      (ConfigGetSetting k.CONFIG_SETTING_COMFORT_BLINKERS - 2)
      { context with blinkerCount := 2, blinkerStatus := HANDLER_BLINKER_PSG }
      (by show 2 + _ = _; omega) (Or.inr ⟨rfl, rfl, rfl⟩)]

/-- The terminate calls at position `j` of a list of `a` empty call lists followed
by `b` terminate calls. -/
theorem terminate_at (dev a b j : Nat) (hj : j < a + b) :
    (((List.replicate a ([] : List Call) ++
        List.replicate b [Call.IBusCommandDIATerminateDiag dev]).getD j []).filter
      Call.isTerminateDiag ≠ []) ↔ a ≤ j := by
  rw [List.getD_eq_getElem?_getD]
  by_cases h : j < a
  · rw [List.getElem?_append_left (by simpa using h)]
    simp [h]
  · rw [List.getElem?_append_right (by simpa using h)]
    have hlt : j - (List.replicate a ([] : List Call)).length < b := by
      simp only [List.length_replicate]; omega
    rw [List.getElem?_replicate, if_pos hlt]
    simp [Call.isTerminateDiag]
    omega


/-- The facts of C33 for a run that is one-sided for the signal bit `own`. -/
theorem lightStatusRun_first_terminate (k : Consts) (ConfigGetSetting : Nat → Nat)
    (own other side blinker : Nat)
    (hN : ConfigGetSetting k.CONFIG_SETTING_COMFORT_BLINKERS > 0x01 ∧
      ConfigGetSetting k.CONFIG_SETTING_COMFORT_BLINKERS ≤ 254)
    (context : HandlerContext_t) (hoff : context.blinkerStatus = HANDLER_BLINKER_OFF)
    (pkt : List Nat) (pkts : List (List Nat))
    (hbits : ∀ p ∈ pkt :: pkts,
      CHECK_BIT (p.getD 4 0) own ≠ 0 ∧ CHECK_BIT (p.getD 4 0) other = 0)
    (hside : (own = k.IBUS_LCM_DRV_SIG_BIT ∧ other = k.IBUS_LCM_PSG_SIG_BIT ∧
        side = HANDLER_BLINKER_DRV ∧ blinker = k.IBUS_LCM_BLINKER_DRV) ∨
      (own = k.IBUS_LCM_PSG_SIG_BIT ∧ other = k.IBUS_LCM_DRV_SIG_BIT ∧
        side = HANDLER_BLINKER_PSG ∧ blinker = k.IBUS_LCM_BLINKER_PSG)) :
    (∀ i, i < (pkt :: pkts).length →
      ((((lightStatusRun k ConfigGetSetting context (pkt :: pkts)).2.getD i []).filter
          Call.isTerminateDiag ≠ []) ↔
        ConfigGetSetting k.CONFIG_SETTING_COMFORT_BLINKERS ≤ i + 1)) ∧
    (∀ m, 1 ≤ m → m ≤ (pkt :: pkts).length →
      (lightStatusRun k ConfigGetSetting context ((pkt :: pkts).take m)).1.blinkerStatus = side ∧
      (lightStatusRun k ConfigGetSetting context ((pkt :: pkts).take m)).1.blinkerCount =
        min (m + 1) (ConfigGetSetting k.CONFIG_SETTING_COMFORT_BLINKERS)) := by
  refine ⟨fun i hi => ?_, fun m hm1 hm => ?_⟩
  · rw [lightStatusRun_off_latched k ConfigGetSetting own other side blinker hN context hoff
      pkt pkts hbits hside]
    cases i with
    | zero =>
      simp [Call.isTerminateDiag]
      omega
    | succ j =>
      simp only [List.length_cons] at hi
      rw [List.getD_cons_succ,
        terminate_at k.IBUS_DEVICE_LCM _ _ j (by omega)]
      omega
  · obtain ⟨n, rfl⟩ : ∃ n, m = n + 1 := ⟨m - 1, by omega⟩
    simp only [List.length_cons] at hm
    have hsub : ∀ p ∈ pkt :: pkts.take n,
        CHECK_BIT (p.getD 4 0) own ≠ 0 ∧ CHECK_BIT (p.getD 4 0) other = 0 := by
      intro p hp
      rcases List.mem_cons.1 hp with h | h
      · exact hbits p (h ▸ List.mem_cons_self _ _)
      · exact hbits p (List.mem_cons_of_mem _ (List.mem_of_mem_take h))
    rw [List.take_succ_cons,
      lightStatusRun_off_latched k ConfigGetSetting own other side blinker hN context hoff
        pkt (pkts.take n) hsub hside]
    refine ⟨rfl, ?_⟩
    show 2 + min _ (pkts.take n).length = _
    rw [List.length_take]
    omega

/-- C33: with the comfort-blinker setting N in 2..254 and blinker state OFF, over a
run of light-status messages in which only the driver-side (or only the
passenger-side) signal bit is set, a message of the run makes the
terminate-diagnostic call exactly when it is the N-th or a later one, so the first
such call is made on the N-th message; and after every message of the run the
blinker state is not OFF and the counter is min (m + 1) N for the m-th message,
which lies between 2 and N. -/
theorem C33_first_terminate (k : Consts) (ConfigGetSetting : Nat → Nat)
    (context : HandlerContext_t) (pkt : List Nat) (pkts : List (List Nat))
    (hN : 2 ≤ ConfigGetSetting k.CONFIG_SETTING_COMFORT_BLINKERS ∧
      ConfigGetSetting k.CONFIG_SETTING_COMFORT_BLINKERS ≤ 254)
    (hoff : context.blinkerStatus = HANDLER_BLINKER_OFF)
    (hbits :
      (∀ p ∈ pkt :: pkts, CHECK_BIT (p.getD 4 0) k.IBUS_LCM_DRV_SIG_BIT ≠ 0 ∧
        CHECK_BIT (p.getD 4 0) k.IBUS_LCM_PSG_SIG_BIT = 0) ∨
      (∀ p ∈ pkt :: pkts, CHECK_BIT (p.getD 4 0) k.IBUS_LCM_PSG_SIG_BIT ≠ 0 ∧
        CHECK_BIT (p.getD 4 0) k.IBUS_LCM_DRV_SIG_BIT = 0)) :
    (∀ i, i < (pkt :: pkts).length →
      ((((lightStatusRun k ConfigGetSetting context (pkt :: pkts)).2.getD i []).filter
          Call.isTerminateDiag ≠ []) ↔
        ConfigGetSetting k.CONFIG_SETTING_COMFORT_BLINKERS ≤ i + 1)) ∧
    (∀ m, m ≤ (pkt :: pkts).length →
      (lightStatusRun k ConfigGetSetting context ((pkt :: pkts).take m)).1.blinkerStatus ≠
        HANDLER_BLINKER_OFF →
      2 ≤ (lightStatusRun k ConfigGetSetting context ((pkt :: pkts).take m)).1.blinkerCount ∧
      (lightStatusRun k ConfigGetSetting context ((pkt :: pkts).take m)).1.blinkerCount ≤
        ConfigGetSetting k.CONFIG_SETTING_COMFORT_BLINKERS) ∧
    (∀ m, 1 ≤ m → m ≤ (pkt :: pkts).length →
      (lightStatusRun k ConfigGetSetting context ((pkt :: pkts).take m)).1.blinkerStatus ≠
        HANDLER_BLINKER_OFF ∧
      (lightStatusRun k ConfigGetSetting context ((pkt :: pkts).take m)).1.blinkerCount =
        min (m + 1) (ConfigGetSetting k.CONFIG_SETTING_COMFORT_BLINKERS)) := by
  have hN1 : ConfigGetSetting k.CONFIG_SETTING_COMFORT_BLINKERS > 0x01 ∧
      ConfigGetSetting k.CONFIG_SETTING_COMFORT_BLINKERS ≤ 254 := ⟨by omega, hN.2⟩
  have hfacts : ∃ side, side ≠ HANDLER_BLINKER_OFF ∧
      (∀ i, i < (pkt :: pkts).length →
        ((((lightStatusRun k ConfigGetSetting context (pkt :: pkts)).2.getD i []).filter
            Call.isTerminateDiag ≠ []) ↔
          ConfigGetSetting k.CONFIG_SETTING_COMFORT_BLINKERS ≤ i + 1)) ∧
      (∀ m, 1 ≤ m → m ≤ (pkt :: pkts).length →
        (lightStatusRun k ConfigGetSetting context ((pkt :: pkts).take m)).1.blinkerStatus =
          side ∧
        (lightStatusRun k ConfigGetSetting context ((pkt :: pkts).take m)).1.blinkerCount =
          min (m + 1) (ConfigGetSetting k.CONFIG_SETTING_COMFORT_BLINKERS)) := by
    rcases hbits with hb | hb
    · exact ⟨HANDLER_BLINKER_DRV, by decide,
        lightStatusRun_first_terminate k ConfigGetSetting _ _ _ _ hN1 context hoff pkt pkts hb
          (Or.inl ⟨rfl, rfl, rfl, rfl⟩)⟩
    · exact ⟨HANDLER_BLINKER_PSG, by decide,
        lightStatusRun_first_terminate k ConfigGetSetting _ _ _ _ hN1 context hoff pkt pkts hb
          (Or.inr ⟨rfl, rfl, rfl, rfl⟩)⟩
  obtain ⟨side, hs, hterm, hstate⟩ := hfacts
  refine ⟨hterm, fun m hm hon => ?_, fun m hm1 hm => ?_⟩
  · cases m with
    | zero => exact absurd hoff hon
    | succ n =>
      obtain ⟨-, hc⟩ := hstate (n + 1) (by omega) hm
      rw [hc]
      omega
  · obtain ⟨h1, h2⟩ := hstate m hm1 hm
    exact ⟨by rw [h1]; exact hs, h2⟩

/-- C33 at a concrete input: N = 3 and five messages with only the driver-side bit
set.  The third message is the first to make the terminate call, and after the
second message the counter is 3. -/
theorem C33_first_terminate_witness :
    (((lightStatusRun hdr (settingsBlinkers 3) (initContext btLinked ⟨1, 9, 255, 0, 0⟩ 2 0)
        (pktDriverSignal :: List.replicate 4 pktDriverSignal)).2.getD 1 []).filter
      Call.isTerminateDiag = []) ∧
    (((lightStatusRun hdr (settingsBlinkers 3) (initContext btLinked ⟨1, 9, 255, 0, 0⟩ 2 0)
        (pktDriverSignal :: List.replicate 4 pktDriverSignal)).2.getD 2 []).filter
      Call.isTerminateDiag ≠ []) ∧
    (lightStatusRun hdr (settingsBlinkers 3) (initContext btLinked ⟨1, 9, 255, 0, 0⟩ 2 0)
      ((pktDriverSignal :: List.replicate 4 pktDriverSignal).take 2)).1.blinkerCount = 3 :=
  ⟨by
    have h := ((C33_first_terminate hdr (settingsBlinkers 3)
      (initContext btLinked ⟨1, 9, 255, 0, 0⟩ 2 0) pktDriverSignal
      (List.replicate 4 pktDriverSignal) (by decide) rfl (Or.inl (by decide))).1 1
        (by decide)).not
    exact not_not.1 (h.2 (by decide)),
   ((C33_first_terminate hdr (settingsBlinkers 3)
      (initContext btLinked ⟨1, 9, 255, 0, 0⟩ 2 0) pktDriverSignal
      (List.replicate 4 pktDriverSignal) (by decide) rfl (Or.inl (by decide))).1 2
        (by decide)).2 (by decide),
   ((C33_first_terminate hdr (settingsBlinkers 3)
      (initContext btLinked ⟨1, 9, 255, 0, 0⟩ 2 0) pktDriverSignal
      (List.replicate 4 pktDriverSignal) (by decide) rfl (Or.inl (by decide))).2.2 2
        (by decide) (by decide)).2⟩

/-! ## Telephone LED on the two ignition-on paths -/

/-- The calls of `HandlerIBusIKEIgnitionStatus` when a non-OFF ignition value is
reported unchanged: the unchanged branch followed by the one-shot telephone
status. -/
theorem ignition_same_calls (k : Consts) (ConfigGetSetting : Nat → Nat) (now : Nat)
    (context : HandlerContext_t) (pkt : List Nat)
    (hsame : pkt.getD 0 0 = context.ibus.ignitionStatus) :
    (HandlerIBusIKEIgnitionStatus k ConfigGetSetting now context pkt).2 =
      (ignitionSameBranch k ConfigGetSetting now context (pkt.getD 0 0)).2 ++
      (if context.ibusModuleStatus.IKE = false then
        HandlerIBusBroadcastTELStatus k ConfigGetSetting context else []) := by
  have hr1 : (ignitionSameBranch k ConfigGetSetting now context (pkt.getD 0 0)).1.ibusModuleStatus =
      context.ibusModuleStatus := by
    unfold ignitionSameBranch
    split_ifs <;> rfl
  have hr2 : HandlerIBusBroadcastTELStatus k ConfigGetSetting
      (ignitionSameBranch k ConfigGetSetting now context (pkt.getD 0 0)).1 =
      HandlerIBusBroadcastTELStatus k ConfigGetSetting context := by
    unfold ignitionSameBranch
    split_ifs <;> rfl
  simp only [HandlerIBusIKEIgnitionStatus]
  rw [if_neg (not_not.2 hsame), hr1, hr2]
  split_ifs <;> simp

/-- C34: with hands-free enabled, on a transition from OFF to a non-OFF ignition
value `HandlerIBusIKEIgnitionStatus` sets the telephone LED red when the A2DP and
the AVRCP link ids are both zero and green otherwise, and when a non-OFF value is
reported unchanged it sets the LED green when both link ids are non-zero and red
otherwise.  For the same link state the two colours are the same exactly when the
two link ids are both zero or both non-zero: with one link up and the other not,
the transition gives green and the unchanged report gives red. -/
theorem C34_led_colour (k : Consts) (ConfigGetSetting : Nat → Nat) (now : Nat)
    (c1 c2 : HandlerContext_t) (pkt1 pkt2 : List Nat)
    (hhfp : ConfigGetSetting k.CONFIG_SETTING_HFP = k.CONFIG_SETTING_ON)
    (hnew : pkt1.getD 0 0 ≠ k.IBUS_IGNITION_OFF)
    (hprev : c1.ibus.ignitionStatus = k.IBUS_IGNITION_OFF)
    (hsame : pkt2.getD 0 0 = c2.ibus.ignitionStatus)
    (hon : pkt2.getD 0 0 > k.IBUS_IGNITION_OFF)
    (hbt : c1.bt = c2.bt)
    (hcolour : k.IBUS_TEL_LED_STATUS_RED ≠ k.IBUS_TEL_LED_STATUS_GREEN) :
    (HandlerIBusIKEIgnitionStatus k ConfigGetSetting now c1 pkt1).2.filter Call.isTELSetLED =
      [Call.IBusCommandTELSetLED
        (if c1.bt.activeDevice.avrcpLinkId = 0 ∧ c1.bt.activeDevice.a2dpLinkId = 0 then
          k.IBUS_TEL_LED_STATUS_RED
         else k.IBUS_TEL_LED_STATUS_GREEN)] ∧
    (HandlerIBusIKEIgnitionStatus k ConfigGetSetting now c2 pkt2).2.filter Call.isTELSetLED =
      [Call.IBusCommandTELSetLED
        (if c1.bt.activeDevice.avrcpLinkId ≠ 0 ∧ c1.bt.activeDevice.a2dpLinkId ≠ 0 then
          k.IBUS_TEL_LED_STATUS_GREEN
         else k.IBUS_TEL_LED_STATUS_RED)] ∧
    ((HandlerIBusIKEIgnitionStatus k ConfigGetSetting now c1 pkt1).2.filter Call.isTELSetLED =
        (HandlerIBusIKEIgnitionStatus k ConfigGetSetting now c2 pkt2).2.filter Call.isTELSetLED ↔
      (c1.bt.activeDevice.avrcpLinkId = 0 ↔ c1.bt.activeDevice.a2dpLinkId = 0)) := by
  have htel : ∀ c : HandlerContext_t, (if c.ibusModuleStatus.IKE = false then
      HandlerIBusBroadcastTELStatus k ConfigGetSetting c else []).filter Call.isTELSetLED
      = [] := by
    intro c
    split_ifs
    · exact (broadcastTEL_filters k ConfigGetSetting c).1
    · rfl
  have h1 : (HandlerIBusIKEIgnitionStatus k ConfigGetSetting now c1 pkt1).2.filter
      Call.isTELSetLED =
      [Call.IBusCommandTELSetLED
        (if c1.bt.activeDevice.avrcpLinkId = 0 ∧ c1.bt.activeDevice.a2dpLinkId = 0 then
          k.IBUS_TEL_LED_STATUS_RED
         else k.IBUS_TEL_LED_STATUS_GREEN)] := by
    rw [ignition_on_calls k ConfigGetSetting now c1 pkt1 hnew hprev, List.filter_append,
      htel, List.append_nil]
    simp only [ignitionOnBranch, HandlerIBusBroadcastCDCStatus, if_pos hhfp]
    split_ifs <;> simp [Call.isTELSetLED]
  have h2 : (HandlerIBusIKEIgnitionStatus k ConfigGetSetting now c2 pkt2).2.filter
      Call.isTELSetLED =
      [Call.IBusCommandTELSetLED
        (if c1.bt.activeDevice.avrcpLinkId ≠ 0 ∧ c1.bt.activeDevice.a2dpLinkId ≠ 0 then
          k.IBUS_TEL_LED_STATUS_GREEN
         else k.IBUS_TEL_LED_STATUS_RED)] := by
    rw [ignition_same_calls k ConfigGetSetting now c2 pkt2 hsame, List.filter_append,
      htel, List.append_nil, hbt]
    simp only [ignitionSameBranch, if_pos hon, HandlerIBusBroadcastCDCStatus, if_pos hhfp,
      List.filter_append, (broadcastTEL_filters k ConfigGetSetting c2).1]
    split_ifs <;> simp [Call.isTELSetLED]
  refine ⟨h1, h2, ?_⟩
  rw [h1, h2]
  by_cases ha : c1.bt.activeDevice.avrcpLinkId = 0 <;>
    by_cases hb : c1.bt.activeDevice.a2dpLinkId = 0 <;>
    simp [ha, hb, hcolour, Ne.symm hcolour]

/-- C34 at a concrete input: hands-free on, the A2DP link up and no AVRCP link.
The transition from OFF to position 1 sets the LED green (0x10 in `hdr`); position
1 reported unchanged sets it red (0x01). -/
theorem C34_led_colour_witness :
    (HandlerIBusIKEIgnitionStatus hdr settingsAllOn 500
        (initContext btA2dpOnly ⟨0, 9, 255, 0, 0⟩ 2 0) [1]).2.filter Call.isTELSetLED =
      [Call.IBusCommandTELSetLED 0x10] ∧
    (HandlerIBusIKEIgnitionStatus hdr settingsAllOn 500
        (initContext btA2dpOnly ⟨1, 9, 255, 0, 0⟩ 2 0) [1]).2.filter Call.isTELSetLED =
      [Call.IBusCommandTELSetLED 0x01] :=
  ⟨(C34_led_colour hdr settingsAllOn 500 (initContext btA2dpOnly ⟨0, 9, 255, 0, 0⟩ 2 0)
      (initContext btA2dpOnly ⟨1, 9, 255, 0, 0⟩ 2 0) [1] [1] rfl (by decide) rfl rfl
      (by decide) rfl (by decide)).1,
   (C34_led_colour hdr settingsAllOn 500 (initContext btA2dpOnly ⟨0, 9, 255, 0, 0⟩ 2 0)
      (initContext btA2dpOnly ⟨1, 9, 255, 0, 0⟩ 2 0) [1] [1] rfl (by decide) rfl rfl
      (by decide) rfl (by decide)).2.1⟩

/-! ## Change of the key position -/

/-- C35: when the reported ignition value differs from the previous one and
neither is OFF, `HandlerIBusIKEIgnitionStatus` takes none of its branches: the
context is left as it was and no call is made, but for the one-shot telephone
status broadcast and the setting of the instrument-cluster flag while that flag is
still clear.  No call is a Bluetooth command, an LED command or a CD-changer
status. -/
theorem C35_key_position_change (k : Consts) (ConfigGetSetting : Nat → Nat) (now : Nat)
    (context : HandlerContext_t) (pkt : List Nat)
    (hchange : pkt.getD 0 0 ≠ context.ibus.ignitionStatus)
    (hnew : pkt.getD 0 0 ≠ k.IBUS_IGNITION_OFF)
    (hprev : context.ibus.ignitionStatus ≠ k.IBUS_IGNITION_OFF) :
    HandlerIBusIKEIgnitionStatus k ConfigGetSetting now context pkt =
      (if context.ibusModuleStatus.IKE = false then
        ({ context with ibusModuleStatus := { context.ibusModuleStatus with IKE := true } },
         HandlerIBusBroadcastTELStatus k ConfigGetSetting context)
       else (context, [])) ∧
    (HandlerIBusIKEIgnitionStatus k ConfigGetSetting now context pkt).2.filter Call.isBC127 = [] ∧
    (HandlerIBusIKEIgnitionStatus k ConfigGetSetting now context pkt).2.filter
      Call.isTELSetLED = [] ∧
    cdcReports (HandlerIBusIKEIgnitionStatus k ConfigGetSetting now context pkt).2 = [] := by
  have hres : HandlerIBusIKEIgnitionStatus k ConfigGetSetting now context pkt =
      (if context.ibusModuleStatus.IKE = false then
        ({ context with ibusModuleStatus := { context.ibusModuleStatus with IKE := true } },
         HandlerIBusBroadcastTELStatus k ConfigGetSetting context)
       else (context, [])) := by
    simp only [HandlerIBusIKEIgnitionStatus]
    have hc : ¬ (context.ibus.ignitionStatus = k.IBUS_IGNITION_OFF ∧
        pkt.getD 0 0 ≠ k.IBUS_IGNITION_OFF) := fun h => hprev h.1
    rw [if_pos hchange, if_neg hnew, if_neg hc]
    simp only [List.nil_append]
  obtain ⟨hled, hbt, -⟩ := broadcastTEL_filters k ConfigGetSetting context
  refine ⟨hres, ?_, ?_, ?_⟩
  · rw [hres]; split_ifs
    · exact hbt
    · rfl
  · rw [hres]; split_ifs
    · exact hled
    · rfl
  · rw [hres]; split_ifs
    · simp only [HandlerIBusBroadcastTELStatus]
      split_ifs <;> rfl
    · rfl

/-- C35 at a concrete input: the key goes from position 1 to position 3 after the
instrument cluster has been seen; nothing is done. -/
theorem C35_key_position_change_witness :
    HandlerIBusIKEIgnitionStatus hdr settingsAllOn 500
        { initContext btLinked ⟨1, 9, 255, 0, 0⟩ 2 0 with
          ibusModuleStatus := ⟨false, false, false, true, false, false, false⟩ } [3] =
      ({ initContext btLinked ⟨1, 9, 255, 0, 0⟩ 2 0 with
          ibusModuleStatus := ⟨false, false, false, true, false, false, false⟩ }, []) :=
  (C35_key_position_change hdr settingsAllOn 500
    { initContext btLinked ⟨1, 9, 255, 0, 0⟩ 2 0 with
      ibusModuleStatus := ⟨false, false, false, true, false, false, false⟩ } [3]
    (by decide) (by decide) (by decide)).1

/-! ## CD-changer status: broadcast and reply -/

/-- C36: `HandlerIBusBroadcastCDCStatus` and the reply of `HandlerIBusCDCStatus` to
a GET_STATUS poll send the same function and the same disc count, and the same
status whenever the CD-changer function is not PAUSE.  For the function PAUSE the
broadcast sends the function code `IBUS_CDC_FUNC_PAUSE` as status, where the reply
sends the status code `IBUS_CDC_STAT_PAUSE`: the two are the same only if these two
codes are the same byte. -/
theorem C36_broadcast_status (k : Consts) (ConfigGetSetting : Nat → Nat)
    (now tPoll tStatus : Nat) (context : HandlerContext_t) (pkt : List Nat)
    (hcmd : pkt.getD 4 0 = k.IBUS_CDC_CMD_GET_STATUS)
    (hfunc : k.IBUS_CDC_FUNC_PAUSE ≠ k.IBUS_CDC_FUNC_PLAYING) :
    cdcReports (HandlerIBusBroadcastCDCStatus k now context).2 =
      [(if context.ibus.cdChangerFunction = k.IBUS_CDC_FUNC_PAUSE then k.IBUS_CDC_FUNC_PAUSE
        else if context.ibus.cdChangerFunction = k.IBUS_CDC_FUNC_PLAYING then
          k.IBUS_CDC_STAT_PLAYING
        else k.IBUS_CDC_STAT_STOP,
        context.ibus.cdChangerFunction,
        if context.uiMode = k.IBus_UI_BMBT then k.IBUS_CDC_DISC_COUNT_1
        else k.IBUS_CDC_DISC_COUNT_6)] ∧
    cdcReports (HandlerIBusCDCStatus k ConfigGetSetting tPoll tStatus context pkt).2 =
      [(if context.ibus.cdChangerFunction = k.IBUS_CDC_FUNC_PLAYING then k.IBUS_CDC_STAT_PLAYING
        else if context.ibus.cdChangerFunction = k.IBUS_CDC_FUNC_PAUSE then k.IBUS_CDC_STAT_PAUSE
        else k.IBUS_CDC_STAT_STOP,
        context.ibus.cdChangerFunction,
        if context.uiMode = k.IBus_UI_BMBT then k.IBUS_CDC_DISC_COUNT_1
        else k.IBUS_CDC_DISC_COUNT_6)] ∧
    (cdcReports (HandlerIBusBroadcastCDCStatus k now context).2 =
        cdcReports (HandlerIBusCDCStatus k ConfigGetSetting tPoll tStatus context pkt).2 ↔
      (context.ibus.cdChangerFunction = k.IBUS_CDC_FUNC_PAUSE →
        k.IBUS_CDC_FUNC_PAUSE = k.IBUS_CDC_STAT_PAUSE)) := by
  have h1 : cdcReports (HandlerIBusBroadcastCDCStatus k now context).2 =
      [(if context.ibus.cdChangerFunction = k.IBUS_CDC_FUNC_PAUSE then k.IBUS_CDC_FUNC_PAUSE
        else if context.ibus.cdChangerFunction = k.IBUS_CDC_FUNC_PLAYING then
          k.IBUS_CDC_STAT_PLAYING
        else k.IBUS_CDC_STAT_STOP,
        context.ibus.cdChangerFunction,
        if context.uiMode = k.IBus_UI_BMBT then k.IBUS_CDC_DISC_COUNT_1
        else k.IBUS_CDC_DISC_COUNT_6)] := rfl
  have h2 : cdcReports (HandlerIBusCDCStatus k ConfigGetSetting tPoll tStatus context pkt).2 =
      [(if context.ibus.cdChangerFunction = k.IBUS_CDC_FUNC_PLAYING then k.IBUS_CDC_STAT_PLAYING
        else if context.ibus.cdChangerFunction = k.IBUS_CDC_FUNC_PAUSE then k.IBUS_CDC_STAT_PAUSE
        else k.IBUS_CDC_STAT_STOP,
        context.ibus.cdChangerFunction,
        if context.uiMode = k.IBus_UI_BMBT then k.IBUS_CDC_DISC_COUNT_1
        else k.IBUS_CDC_DISC_COUNT_6)] := by
    rw [cdcReports_HandlerIBusCDCStatus]
    simp only [cdcDispatch]
    rw [if_pos hcmd]
    rfl
  refine ⟨h1, h2, ?_⟩
  rw [h1, h2]
  by_cases hp : context.ibus.cdChangerFunction = k.IBUS_CDC_FUNC_PAUSE
  · have hnp : context.ibus.cdChangerFunction ≠ k.IBUS_CDC_FUNC_PLAYING := by
      rw [hp]; exact hfunc
    simp [hp, hfunc]
  · simp [hp]

/-- C36 at a concrete input: the function is PAUSE (0x0C in `hdr`).  The broadcast
sends the status 0x0C; the reply to the GET_STATUS poll sends the status 0x01. -/
theorem C36_broadcast_status_witness :
    cdcReports (HandlerIBusBroadcastCDCStatus hdr 500 contextPaused).2 = [(0x0C, 0x0C, 0x01)] ∧
    cdcReports (HandlerIBusCDCStatus hdr settingsAllOn 500 500 contextPaused
      (pktCDCRequest 0x00 0x00)).2 = [(0x01, 0x0C, 0x01)] :=
  ⟨(C36_broadcast_status hdr settingsAllOn 500 500 500 contextPaused (pktCDCRequest 0x00 0x00)
      rfl (by decide)).1,
   (C36_broadcast_status hdr settingsAllOn 500 500 500 contextPaused (pktCDCRequest 0x00 0x00)
      rfl (by decide)).2.1⟩

/-! ## Board-monitor controller: selection of a device line -/

/-- C37: in the device selection menu, with the display owned, a selected line
other than Pairing, Clear Pairings and Back triggers the initiate-connection event
with the device index line - 2 whenever the MAC id read at that index of the
paired-device array differs from that of the active device; the number of paired
devices is not looked at.  So with a device connected, a line that lists no device
(device index at or past `pairedDevicesCount`, where the array holds no MAC id)
triggers the event, and `HandlerUIInitiateConnection` stores that index as the
selected device. -/
theorem C37_initiate_unlisted (k : Consts) (u : UIConsts) (x : Ext) (w : BMBTWorld)
    (pkt : List Nat) (handler : HandlerContext_t)
    (hmenu : w.context.menu = BMBT_MENU_DEVICE_SELECTION)
    (hdisplay : w.context.status.displayMode = BMBT_DISPLAY_ON)
    (hline : 2 ≤ pkt.getD 6 0 ∧ pkt.getD 6 0 < 10 ∧ pkt.getD 6 0 ≠ BMBT_MENU_IDX_BACK)
    (hmac : (pairedDevice w.context.bt (pkt.getD 6 0 - 2)).macId ≠
      w.context.bt.activeDevice.macId) :
    (BMBTIBusMenuSelect k u x w pkt).2 =
      [Call.EventTriggerCallback u.UIEvent_InitiateConnection (pkt.getD 6 0 - 2)] ∧
    initiateConnections u (BMBTIBusMenuSelect k u x w pkt).2 = [pkt.getD 6 0 - 2] ∧
    (HandlerUIInitiateConnection k handler (pkt.getD 6 0 - 2)).1.btSelectedDevice =
      ((pkt.getD 6 0 - 2 : Nat) : Int) := by
  obtain ⟨h2, h10, hback⟩ := hline
  have hcalls : (BMBTIBusMenuSelect k u x w pkt).2 =
      [Call.EventTriggerCallback u.UIEvent_InitiateConnection (pkt.getD 6 0 - 2)] := by
    unfold BMBTIBusMenuSelect
    simp only []
    generalize pkt.getD 6 0 = s at h2 h10 hback hmac
    have hdev : (s + 256 - BMBT_MENU_IDX_FIRST_DEVICE) % 256 = s - 2 := by
      simp only [BMBT_MENU_IDX_FIRST_DEVICE]; omega
    rw [if_pos ⟨h10, hdisplay⟩, if_neg (by rw [hmenu]; decide), if_neg (by rw [hmenu]; decide),
      if_pos hmenu]
    simp only [keepStore, menuSelectDevice]
    rw [if_neg (by simp only [BMBT_MENU_IDX_PAIRING_MODE]; omega),
      if_neg (by simp only [BMBT_MENU_IDX_CLEAR_PAIRING]; omega), if_neg hback]
    simp only [hdev, if_pos hmac]
  refine ⟨hcalls, ?_, ?_⟩
  · rw [hcalls]
    simp [initiateConnections]
  · generalize pkt.getD 6 0 = s at h2 h10
    show int8_t (s - 2) = _
    have hs : (s - 2) % 256 = s - 2 := by omega
    have hlt : s - 2 < 128 := by omega
    simp only [int8_t, hs, if_pos hlt]

/-- C37 at a concrete input: one paired device, which is connected, and line 3 of
the device selection menu, which lists no device.  The event is triggered with the
device index 1, which is not below the count 1 of paired devices, and the handler
stores 1 as the selected device. -/
theorem C37_initiate_unlisted_witness :
    btOnePaired.pairedDevicesCount = 1 ∧
    initiateConnections uhdr (BMBTIBusMenuSelect hdr uhdr extSample
      ⟨{ bmbtActive with bt := btOnePaired, menu := BMBT_MENU_DEVICE_SELECTION },
        configHandsfree⟩ (pktMenuSelect 3)).2 = [1] ∧
    (HandlerUIInitiateConnection hdr (initContext btOnePaired ⟨1, 9, 255, 0, 0⟩ 2 0)
      1).1.btSelectedDevice = 1 :=
  ⟨rfl,
   (C37_initiate_unlisted hdr uhdr extSample
      ⟨{ bmbtActive with bt := btOnePaired, menu := BMBT_MENU_DEVICE_SELECTION },
        configHandsfree⟩ (pktMenuSelect 3) (initContext btOnePaired ⟨1, 9, 255, 0, 0⟩ 2 0)
      rfl rfl (by decide) (by decide)).2.1,
   (C37_initiate_unlisted hdr uhdr extSample
      ⟨{ bmbtActive with bt := btOnePaired, menu := BMBT_MENU_DEVICE_SELECTION },
        configHandsfree⟩ (pktMenuSelect 3) (initContext btOnePaired ⟨1, 9, 255, 0, 0⟩ 2 0)
      rfl rfl (by decide) (by decide)).2.2⟩

/-! ## Board-monitor controller: index of the microphone gain table -/

/-- C38: for every stored microphone gain byte, the index at which
`BMBTMenuSettingsCalling` reads the gain table is the stored gain if that is at
most 21 and 0 otherwise, and the line it writes is the table entry at that index;
the gain that the microphone-gain line of `BMBTSettingsUpdateCalling` stores, sends
to the Bluetooth module and reads the table at is the stored gain plus one if the
stored gain is below 21 and 0 otherwise.  Both indices are at most 21, so inside a
table of 22 entries. -/
theorem C38_mic_gain_index (k : Consts) (u : UIConsts) (w : BMBTWorld)
    (hbyte : ConfigGetSetting w.config k.CONFIG_SETTING_MIC_GAIN < 256)
    (htable : u.BC127CVCGainTable.length = 22) :
    (indexTexts (BMBTMenuSettingsCalling k u w.config w.context).2
        BMBT_MENU_IDX_SETTINGS_CALLING_MIC_GAIN =
      [snprintf 15 ("Mic Gain: " ++ toString (int8_t (u.BC127CVCGainTable.getD
        (menuCallingMicGain (ConfigGetSetting w.config k.CONFIG_SETTING_MIC_GAIN)) 0)) ++
        "dB")]) ∧
    menuCallingMicGain (ConfigGetSetting w.config k.CONFIG_SETTING_MIC_GAIN) <
      u.BC127CVCGainTable.length ∧
    (indexTexts (BMBTSettingsUpdateCalling k u w BMBT_MENU_IDX_SETTINGS_CALLING_MIC_GAIN).2
        BMBT_MENU_IDX_SETTINGS_CALLING_MIC_GAIN =
      [snprintf 15 ("Mic Gain: " ++ toString (int8_t (u.BC127CVCGainTable.getD
        (updateCallingMicGain (ConfigGetSetting w.config k.CONFIG_SETTING_MIC_GAIN)) 0)) ++
        "dB")]) ∧
    updateCallingMicGain (ConfigGetSetting w.config k.CONFIG_SETTING_MIC_GAIN) <
      u.BC127CVCGainTable.length ∧
    ConfigGetSetting
        (BMBTSettingsUpdateCalling k u w BMBT_MENU_IDX_SETTINGS_CALLING_MIC_GAIN).1.config
        k.CONFIG_SETTING_MIC_GAIN =
      updateCallingMicGain (ConfigGetSetting w.config k.CONFIG_SETTING_MIC_GAIN) ∧
    (BMBTSettingsUpdateCalling k u w BMBT_MENU_IDX_SETTINGS_CALLING_MIC_GAIN).2.filter
        Call.isBC127 =
      [Call.BC127CommandSetMicGain
        (updateCallingMicGain (ConfigGetSetting w.config k.CONFIG_SETTING_MIC_GAIN))] ∧
    updateCallingMicGain (ConfigGetSetting w.config k.CONFIG_SETTING_MIC_GAIN) ≤ 21 ∧
    updateCallingMicGain (ConfigGetSetting w.config k.CONFIG_SETTING_MIC_GAIN) =
      (if ConfigGetSetting w.config k.CONFIG_SETTING_MIC_GAIN < 21 then
        ConfigGetSetting w.config k.CONFIG_SETTING_MIC_GAIN + 1
       else 0) := by
  have hupd : updateCallingMicGain (ConfigGetSetting w.config k.CONFIG_SETTING_MIC_GAIN) =
      (if ConfigGetSetting w.config k.CONFIG_SETTING_MIC_GAIN < 21 then
        ConfigGetSetting w.config k.CONFIG_SETTING_MIC_GAIN + 1
       else 0) := by
    generalize ConfigGetSetting w.config k.CONFIG_SETTING_MIC_GAIN = g at hbyte
    unfold updateCallingMicGain
    split_ifs <;> omega
  have hupd21 : updateCallingMicGain (ConfigGetSetting w.config k.CONFIG_SETTING_MIC_GAIN) ≤ 21
      := by
    rw [hupd]; split_ifs <;> omega
  have hdraw21 : menuCallingMicGain (ConfigGetSetting w.config k.CONFIG_SETTING_MIC_GAIN) ≤ 21
      := by
    unfold menuCallingMicGain; split_ifs <;> omega
  refine ⟨?_, by omega, ?_, by omega, ?_, ?_, hupd21, hupd⟩
  · simp [BMBTMenuSettingsCalling, menuCallingMicGain, BMBT_MENU_IDX_SETTINGS_CALLING_HFP,
      BMBT_MENU_IDX_SETTINGS_CALLING_TCU_MODE, BMBT_MENU_IDX_SETTINGS_CALLING_MIC_GAIN,
      BMBT_MENU_IDX_SETTINGS_CALLING_MIC_BIAS, BMBT_MENU_IDX_BACK, indexTexts_append,
      indexTexts_write, indexTexts_ite, indexTexts_skip, indexTexts_blankIndices,
      indexTexts_nil]
  · simp [BMBTSettingsUpdateCalling, updateCallingMicGain, BMBT_MENU_IDX_SETTINGS_CALLING_HFP,
      BMBT_MENU_IDX_SETTINGS_CALLING_TCU_MODE, BMBT_MENU_IDX_SETTINGS_CALLING_MIC_GAIN,
      BMBT_MENU_IDX_BACK, settingsUpdateEnd, BMBTGTWriteIndex, indexTexts_append,
      indexTexts_write, indexTexts_ite, indexTexts_skip, indexTexts_nil]
  · simp [BMBTSettingsUpdateCalling, updateCallingMicGain, BMBT_MENU_IDX_SETTINGS_CALLING_HFP,
      BMBT_MENU_IDX_SETTINGS_CALLING_TCU_MODE, BMBT_MENU_IDX_SETTINGS_CALLING_MIC_GAIN,
      BMBT_MENU_IDX_BACK, settingsUpdateEnd, BMBTGTWriteIndex, ConfigGetSetting,
      ConfigSetSetting]
  · simp [BMBTSettingsUpdateCalling, updateCallingMicGain, BMBT_MENU_IDX_SETTINGS_CALLING_HFP,
      BMBT_MENU_IDX_SETTINGS_CALLING_TCU_MODE, BMBT_MENU_IDX_SETTINGS_CALLING_MIC_GAIN,
      BMBT_MENU_IDX_BACK, settingsUpdateEnd, BMBTGTWriteIndex, Call.isBC127]


/-- C38 at a concrete input: the stored gain is 21, the last index of the table.
The update stores 0 and sends 0 to the Bluetooth module. -/
theorem C38_mic_gain_index_witness :
    ConfigGetSetting
        (BMBTSettingsUpdateCalling hdr uhdr
          ⟨{ bmbtActive with menu := BMBT_MENU_SETTINGS_CALLING }, configMicGain 21⟩
          BMBT_MENU_IDX_SETTINGS_CALLING_MIC_GAIN).1.config
        hdr.CONFIG_SETTING_MIC_GAIN = 0 ∧
    (BMBTSettingsUpdateCalling hdr uhdr
        ⟨{ bmbtActive with menu := BMBT_MENU_SETTINGS_CALLING }, configMicGain 21⟩
        BMBT_MENU_IDX_SETTINGS_CALLING_MIC_GAIN).2.filter Call.isBC127 =
      [Call.BC127CommandSetMicGain 0] :=
  ⟨(C38_mic_gain_index hdr uhdr
      ⟨{ bmbtActive with menu := BMBT_MENU_SETTINGS_CALLING }, configMicGain 21⟩
      (by decide) rfl).2.2.2.2.1,
   (C38_mic_gain_index hdr uhdr
      ⟨{ bmbtActive with menu := BMBT_MENU_SETTINGS_CALLING }, configMicGain 21⟩
      (by decide) rfl).2.2.2.2.2.1⟩

/-! ## Board-monitor controller: repeated screen-off broadcasts -/

/-- The context after a screen-off broadcast that is not at the same time the code
of "tone menu off" or "select menu off": `displayMode` OFF, and `menu`
DASHBOARD_FRESH if it was DASHBOARD and NONE if not. -/
theorem screenModeUpdate_off (u : UIConsts) (context : BMBTContext_t) (pkt : List Nat)
    (hmode : pkt.getD 4 0 = 0x01 ∨ pkt.getD 4 0 = u.IBUS_GT_RADIO_SCREEN_OFF)
    (htone : pkt.getD 4 0 ≠ u.IBUS_GT_TONE_MENU_OFF)
    (hsel : pkt.getD 4 0 ≠ u.IBUS_GT_SEL_MENU_OFF) :
    (BMBTScreenModeUpdate u context pkt).1.status.displayMode = BMBT_DISPLAY_OFF ∧
    (BMBTScreenModeUpdate u context pkt).1.menu =
      (if context.menu = BMBT_MENU_DASHBOARD then BMBT_MENU_DASHBOARD_FRESH
       else BMBT_MENU_NONE) := by
  unfold BMBTScreenModeUpdate
  generalize pkt.getD 4 0 = b at hmode htone hsel
  have hts : ¬ (b = u.IBUS_GT_TONE_MENU_OFF ∨ b = u.IBUS_GT_SEL_MENU_OFF) := by
    rintro (h | h)
    · exact htone h
    · exact hsel h
  simp only [if_pos hmode, if_neg hts]
  have hdisp : ¬ (BMBT_DISPLAY_OFF = BMBT_DISPLAY_ON ∨ BMBT_DISPLAY_OFF = BMBT_DISPLAY_INFO) := by
    decide
  refine ⟨?_, ?_⟩
  · split_ifs <;> simp_all
  · split_ifs <;> simp_all

/-- C39, as stated, fails: with the dashboard shown, the broadcast 0x01 handled once
leaves the menu DASHBOARD_FRESH, and handled twice leaves it NONE. -/
theorem C39_screen_off_counterexample :
    (pktScreenMode 0x01).getD 4 0 = 0x01 ∧
    (BMBTScreenModeUpdate uhdr { bmbtActive with menu := BMBT_MENU_DASHBOARD }
      (pktScreenMode 0x01)).1.menu = BMBT_MENU_DASHBOARD_FRESH ∧
    (BMBTScreenModeUpdate uhdr
      (BMBTScreenModeUpdate uhdr { bmbtActive with menu := BMBT_MENU_DASHBOARD }
        (pktScreenMode 0x01)).1
      (pktScreenMode 0x01)).1.menu = BMBT_MENU_NONE ∧
    BMBT_MENU_DASHBOARD_FRESH ≠ BMBT_MENU_NONE := by
  refine ⟨rfl, ?_, ?_, ?_⟩ <;> decide

/-- C39 as amended: for a screen-off broadcast (`pkt[4]` 0x01 or the
radio-screen-off code, and not the code of "tone menu off" or "select menu off"),
handling it twice leaves `displayMode` OFF as handling it once does, and leaves the
same `menu`, NONE, as handling it once whenever the menu was not DASHBOARD before.
From DASHBOARD, handling it once leaves DASHBOARD_FRESH and handling it twice
leaves NONE.  A third handling changes neither of the two any more. -/
theorem C39_screen_off_amended (u : UIConsts) (context : BMBTContext_t) (pkt : List Nat)
    (hmode : pkt.getD 4 0 = 0x01 ∨ pkt.getD 4 0 = u.IBUS_GT_RADIO_SCREEN_OFF)
    (htone : pkt.getD 4 0 ≠ u.IBUS_GT_TONE_MENU_OFF)
    (hsel : pkt.getD 4 0 ≠ u.IBUS_GT_SEL_MENU_OFF) :
    ((BMBTScreenModeUpdate u context pkt).1.status.displayMode = BMBT_DISPLAY_OFF ∧
      (BMBTScreenModeUpdate u (BMBTScreenModeUpdate u context pkt).1 pkt).1.status.displayMode =
        BMBT_DISPLAY_OFF) ∧
    (context.menu ≠ BMBT_MENU_DASHBOARD →
      (BMBTScreenModeUpdate u context pkt).1.menu = BMBT_MENU_NONE ∧
      (BMBTScreenModeUpdate u (BMBTScreenModeUpdate u context pkt).1 pkt).1.menu =
        BMBT_MENU_NONE) ∧
    (context.menu = BMBT_MENU_DASHBOARD →
      (BMBTScreenModeUpdate u context pkt).1.menu = BMBT_MENU_DASHBOARD_FRESH ∧
      (BMBTScreenModeUpdate u (BMBTScreenModeUpdate u context pkt).1 pkt).1.menu =
        BMBT_MENU_NONE) ∧
    ((BMBTScreenModeUpdate u
        (BMBTScreenModeUpdate u (BMBTScreenModeUpdate u context pkt).1 pkt).1 pkt).1.menu =
        (BMBTScreenModeUpdate u (BMBTScreenModeUpdate u context pkt).1 pkt).1.menu ∧
      (BMBTScreenModeUpdate u
        (BMBTScreenModeUpdate u (BMBTScreenModeUpdate u context pkt).1 pkt).1
          pkt).1.status.displayMode =
        (BMBTScreenModeUpdate u (BMBTScreenModeUpdate u context pkt).1
          pkt).1.status.displayMode) := by
  obtain ⟨hd1, hm1⟩ := screenModeUpdate_off u context pkt hmode htone hsel
  obtain ⟨hd2, hm2⟩ := screenModeUpdate_off u (BMBTScreenModeUpdate u context pkt).1 pkt
    hmode htone hsel
  obtain ⟨hd3, hm3⟩ := screenModeUpdate_off u
    (BMBTScreenModeUpdate u (BMBTScreenModeUpdate u context pkt).1 pkt).1 pkt hmode htone hsel
  have hfresh : BMBT_MENU_DASHBOARD_FRESH ≠ BMBT_MENU_DASHBOARD := by decide
  have hnone : BMBT_MENU_NONE ≠ BMBT_MENU_DASHBOARD := by decide
  have hm2' : (BMBTScreenModeUpdate u (BMBTScreenModeUpdate u context pkt).1 pkt).1.menu =
      BMBT_MENU_NONE := by
    rw [hm2, hm1]
    split_ifs <;> rfl
  refine ⟨⟨hd1, hd2⟩, fun h => ⟨?_, hm2'⟩, fun h => ⟨?_, hm2'⟩, ?_, ?_⟩
  · rw [hm1, if_neg h]
  · rw [hm1, if_pos h]
  · rw [hm3, hm2', if_neg hnone]
  · rw [hd3, hd2]

/-- C39 as amended, at a concrete input: the broadcast 0x01 while the main menu is
shown; once and twice both leave the menu NONE. -/
theorem C39_screen_off_amended_witness :
    (BMBTScreenModeUpdate uhdr { bmbtActive with menu := BMBT_MENU_MAIN }
      (pktScreenMode 0x01)).1.menu = BMBT_MENU_NONE ∧
    (BMBTScreenModeUpdate uhdr
      (BMBTScreenModeUpdate uhdr { bmbtActive with menu := BMBT_MENU_MAIN }
        (pktScreenMode 0x01)).1
      (pktScreenMode 0x01)).1.menu = BMBT_MENU_NONE :=
  (C39_screen_off_amended uhdr { bmbtActive with menu := BMBT_MENU_MAIN } (pktScreenMode 0x01)
    (Or.inl rfl) (by decide) (by decide)).2.1 (by decide)

end BlueBus
